import Mathlib

/-!
# Chess clock controller (electronics/chess_clock2)

A shallow embedding of the firmware in `src/electronics/chess_clock2`:
`timer.c`/`timer.h` (tick interrupt, duty bits, countdowns), `audio.c`
(tone sequencer), `turnled.c` (turn indicators), `input.c` (edge detection,
hold timing), `eeprom.c` (byte store) and `clock.c` (mode controller).

Conventions of the embedding.

* Every `uint8_t` object is a `Nat`; an operation that can leave the range
  of a byte is written with an explicit `% 256`.
* The C globals and function-local statics are the fields of `SysState`,
  grouped by the module that declares them; every C function is a function
  `SysState → SysState` (plus its arguments).
* `Countdown[id]`, `prev_second[id]` and the EEPROM are total functions on
  `Nat`; the program only uses indices 0..3 (resp. addresses 0..7).
* A pointer into program memory (`audio_cmd_ptr`) is the list of bytes stored
  from the pointed address onwards: `pgm_read_byte` is the head of the list,
  `ptr++` its tail.
* The character display (`lcd_*`, `update_play`, `setup_cursor`,
  `showturn`, `showplaytime`) is write-only for the program and is left out,
  as are the configuration registers that are written once at start-up and
  never read back.
-/

namespace ChessClock

/-! ## timer.h -/

def AUDIO_TASK : Nat := 0
def TURNLED_TASK : Nat := 1
def BACKLIGHT_TASK : Nat := 2
def COUNTDOWN_TASK : Nat := 3
def INPUTS_TASK : Nat := 4
def NUM_TASKS : Nat := 5

/-- The record `CountdownType` of timer.h. -/
structure CountdownType where
  minutes : Nat
  seconds : Nat
  _running : Nat
  _expired : Nat
  _subseconds : Nat
deriving DecidableEq, Repr

def COUNTDOWN_1 : Nat := 0
def COUNTDOWN_2 : Nat := 1
def COUNTDOWN_3 : Nat := 2
def COUNTDOWN_4 : Nat := 3
def NUM_COUNTDOWNS : Nat := 4

/-! ## input.h -/

def INPUT_EOT1 : Nat := 0
def INPUT_EOT2 : Nat := 1
def INPUT_EOT3 : Nat := 2
def INPUT_EOT4 : Nat := 3
def INPUT_UP : Nat := 4
def INPUT_DOWN : Nat := 5
def INPUT_COPY : Nat := 6
def INPUT_PAUSE : Nat := 7
def INPUT_RESTART : Nat := 8

/-! ## turnled.h -/

def TURNLED_1 : Nat := 0
def TURNLED_2 : Nat := 1
def TURNLED_3 : Nat := 2
def TURNLED_4 : Nat := 3
def NUM_TURNLEDS : Nat := 4

/-! ## clock.c: modes -/

def PLAY_MODE : Nat := 0
def WON_MODE : Nat := 1
def SETUP_MODE : Nat := 2
def NUM_MODES : Nat := 3

/-- The variables of timer.c; `count` is the static of the interrupt
handler. -/
structure TimerState where
  __timer_timestamp : Nat
  Countdown : Nat → CountdownType
  tasks : Nat
  count : Nat

/-- The variables of audio.c. -/
structure AudioState where
  audio_cmd_ptr : List Nat
  cycle_count : Nat

/-- The variables of turnled.c. -/
structure TurnledState where
  ledstate : Nat
  count : Nat

/-- The variables of input.c. -/
structure InputState where
  LastB : Nat
  LastD : Nat
  UpCounter : Nat
  DownCounter : Nat
  CopyCounter : Nat
  PauseCounter : Nat
  SecondControlNotFittedCount : Nat

/-- The variables of clock.c. -/
structure ClockState where
  was_running : Nat
  mode : Nat
  update_display : Nat
  prev_second : Nat → Nat
  selected_countdown : Nat
  selected_digit : Nat

/-- The hardware registers the modelled code writes after start-up. -/
structure Registers where
  TCCR1A : Nat
  OCR1A : Nat
  PRR : Nat
  PORTB : Nat
  PORTD : Nat

/-- All mutable state of the firmware: the variables of the five modules,
the hardware registers and the content of the EEPROM. -/
structure SysState where
  timer : TimerState
  audio : AudioState
  turnled : TurnledState
  input : InputState
  clock : ClockState
  regs : Registers
  eeprom : Nat → Nat

/-- The C expression `x & ~m` on bytes. -/
def clear_bits (x m : Nat) : Nat := x &&& (0xFF ^^^ (m % 256))

/-- The C expression `x | m` stored into a byte. -/
def set_bits (x m : Nat) : Nat := (x ||| m) % 256

/-- Write one element of `Countdown[]`. -/
def setCountdown (id : Nat) (c : CountdownType) (s : SysState) : SysState :=
  { s with timer.Countdown := Function.update s.timer.Countdown id c }

/-- Macro `start_countdown(id)`. -/
def start_countdown (id : Nat) (s : SysState) : SysState :=
  setCountdown id { s.timer.Countdown id with _running := 1 } s

/-- Macro `stop_countdown(id)`. -/
def stop_countdown (id : Nat) (s : SysState) : SysState :=
  setCountdown id { s.timer.Countdown id with _running := 0 } s

/-- Macro `countdown_has_expired(id)`: `!!Countdown[id]._expired`. -/
def countdown_has_expired (id : Nat) (s : SysState) : Nat :=
  if (s.timer.Countdown id)._expired ≠ 0 then 1 else 0

/-- Macro `countdown_is_running(id)`: `!!Countdown[id]._running`. -/
def countdown_is_running (id : Nat) (s : SysState) : Nat :=
  if (s.timer.Countdown id)._running ≠ 0 then 1 else 0

/-- Macro `set_countdown(id, min, sec)`. -/
def set_countdown (id min sec : Nat) (s : SysState) : SysState :=
  setCountdown id
    { minutes := min % 256, seconds := sec % 256, _running := 0, _expired := 0,
      _subseconds := 0 } s

/-! ## timer.c -/

def MULTIPLIER : Nat := 16
def DIVISOR : Nat := 125

/-- Function `enable_task`: `tasks |= 1<<id`. -/
def enable_task (id : Nat) (s : SysState) : SysState :=
  { s with timer.tasks := set_bits s.timer.tasks (1 <<< id) }

/-- Function `disable_task`: `tasks &= ~(1<<id)`. -/
def disable_task (id : Nat) (s : SysState) : SysState :=
  { s with timer.tasks := clear_bits s.timer.tasks (1 <<< id) }

/-- Function `is_any_task_active`. -/
def is_any_task_active (s : SysState) : Nat :=
  if s.timer.tasks ≠ 0 then 1 else 0

/-- Function `seconds_since` (the returned difference; the optional
out-parameter receives `timestamp()`). -/
def seconds_since (since_timestamp : Nat) (s : SysState) : Nat :=
  (s.timer.__timer_timestamp + 256 - since_timestamp % 256) % 256

/-- The body of the loop of `process_countdown` for one element. -/
def countdown_tick (c : CountdownType) : CountdownType :=
  if c._running ≠ 0 then
    if c._subseconds ≥ MULTIPLIER then
      { c with _subseconds := c._subseconds - MULTIPLIER }
    else
      let c1 := { c with _subseconds := (c._subseconds + (DIVISOR - MULTIPLIER)) % 256 }
      if c1.seconds > 0 then
        { c1 with seconds := c1.seconds - 1 }
      else if c1.minutes > 0 then
        { c1 with minutes := c1.minutes - 1, seconds := 59 }
      else
        { c1 with _running := 0, _expired := 1 }
  else c

/-- Function `process_countdown`: the loop `for (id = 0; id < NUM_COUNTDOWNS; id++)`. -/
def process_countdown (s : SysState) : SysState :=
  (List.range NUM_COUNTDOWNS).foldl
    (fun st id => setCountdown id (countdown_tick (st.timer.Countdown id)) st) s

/-! ## audio.c -/

/-- Modelled from the spec: the clock rate `F_CPU` is not defined in the
sources (it is given to the compiler by the build); the comment in
`init_timer` documents a 1MHz clock, the rate the spec's
`half_period = clock_rate / 2 / frequency - 1` refers to. -/
def F_CPU : Nat := 1000000

def PRESCALER : Nat := 1

def TONE_A4 : Nat := 0
def TONE_D5 : Nat := 1
def TONE_E5 : Nat := 2
def TONE_D7 : Nat := 3
def TONE_FF : Nat := 4
def TONE_NONE : Nat := 5

/-- Frequencies `FREQ_*` in hundredths of a hertz (440.00, 587.33, 659.26,
2349.3). -/
def FREQ_A4 : Nat := 44000
def FREQ_D5 : Nat := 58733
def FREQ_E5 : Nat := 65926
def FREQ_D7 : Nat := 234930

/-- Macro `TOP_FOR_HZ(f)` = `F_CPU/PRESCALER/2/(f) - 1`, truncated on the
store to the 16-bit register; `f` is in hundredths of a hertz. -/
def TOP_FOR_HZ (f : Nat) : Nat := (F_CPU / PRESCALER / 2 * 100) / f - 1

def LAST : Nat := 1
def CONTINUE : Nat := 0
def TONE_MASK : Nat := 0x7
def PERIOD_MASK : Nat := 0xF
def PERIOD_SHIFT : Nat := 3
def LAST_SHIFT : Nat := 7

/-- Macro `AUDIO_CMD(tone_id, period, last)`. -/
def AUDIO_CMD (tone_id period last : Nat) : Nat :=
  (tone_id &&& TONE_MASK) ||| ((period &&& PERIOD_MASK) <<< PERIOD_SHIFT)
    ||| ((if last = LAST then 1 else 0) <<< LAST_SHIFT)

/-- The sequence `tick[]`. -/
def tick : List Nat := [AUDIO_CMD TONE_D7 1 LAST]

/-- The sequence `tada[]`. -/
def tada : List Nat :=
  [ AUDIO_CMD TONE_FF 1 CONTINUE,
    AUDIO_CMD TONE_A4 1 CONTINUE, AUDIO_CMD TONE_D5 1 CONTINUE, AUDIO_CMD TONE_E5 1 CONTINUE,
    AUDIO_CMD TONE_A4 1 CONTINUE, AUDIO_CMD TONE_D5 1 CONTINUE, AUDIO_CMD TONE_E5 1 CONTINUE,
    AUDIO_CMD TONE_A4 1 CONTINUE, AUDIO_CMD TONE_D5 1 CONTINUE, AUDIO_CMD TONE_E5 1 CONTINUE,
    AUDIO_CMD TONE_A4 1 CONTINUE, AUDIO_CMD TONE_D5 1 CONTINUE, AUDIO_CMD TONE_E5 1 CONTINUE,
    AUDIO_CMD TONE_A4 1 CONTINUE, AUDIO_CMD TONE_D5 1 CONTINUE, AUDIO_CMD TONE_E5 1 CONTINUE,
    AUDIO_CMD TONE_A4 1 CONTINUE, AUDIO_CMD TONE_D5 1 CONTINUE, AUDIO_CMD TONE_E5 1 CONTINUE,
    AUDIO_CMD TONE_FF 1 LAST ]

/-- Value of `TCCR1A` with OC1A toggling on compare match:
`(1<<COM1A0) | (1<<WGM11) | (1<<WGM10)`. -/
def TCCR1A_TOGGLE : Nat := (1 <<< 6) ||| (1 <<< 1) ||| (1 <<< 0)

/-- Value of `TCCR1A` with OC1A disconnected: `(1<<WGM11) | (1<<WGM10)`. -/
def TCCR1A_OFF : Nat := (1 <<< 1) ||| (1 <<< 0)

/-- Bit `PRTIM1` of the power reduction register. -/
def PRTIM1 : Nat := 3

/-- Macro `pgm_read_byte(audio_cmd_ptr)`. -/
def pgm_read_byte (ptr : List Nat) : Nat := ptr.headD 0

/-- Function `process_one_command`. -/
def process_one_command (s : SysState) : SysState :=
  let cmd := pgm_read_byte s.audio.audio_cmd_ptr
  let s1 := { s with audio.cycle_count := (cmd >>> PERIOD_SHIFT) &&& PERIOD_MASK }
  let cmd := cmd &&& TONE_MASK
  if cmd < TONE_NONE then
    let s2 := { s1 with regs.TCCR1A := TCCR1A_TOGGLE }
    if cmd = TONE_A4 then { s2 with regs.OCR1A := TOP_FOR_HZ FREQ_A4 }
    else if cmd = TONE_D5 then { s2 with regs.OCR1A := TOP_FOR_HZ FREQ_D5 }
    else if cmd = TONE_E5 then { s2 with regs.OCR1A := TOP_FOR_HZ FREQ_E5 }
    else if cmd = TONE_D7 then { s2 with regs.OCR1A := TOP_FOR_HZ FREQ_D7 }
    else if cmd = TONE_FF then { s2 with regs.OCR1A := 1 }
    else s2
  else
    { s1 with regs.TCCR1A := TCCR1A_OFF }

/-- Pin of the waveform output OC1A, which is PB1 on the ATmega. -/
def OC1A_BIT : Nat := 1

/-- Function `init_audio`; `OC1A_PORT &= ~(1<<OC1A_BIT)` drives the pin low. -/
def init_audio (s : SysState) : SysState :=
  { s with regs.TCCR1A := TCCR1A_OFF, regs.PRR := set_bits s.regs.PRR (1 <<< PRTIM1),
           regs.PORTB := clear_bits s.regs.PORTB (1 <<< OC1A_BIT) }

/-- Function `play`. -/
def play (cmds : List Nat) (s : SysState) : SysState :=
  let s1 := { s with audio.audio_cmd_ptr := cmds }
  let s2 := { s1 with regs.PRR := clear_bits s1.regs.PRR (1 <<< PRTIM1) }
  enable_task AUDIO_TASK (process_one_command s2)

/-- Function `process_audio`. -/
def process_audio (s : SysState) : SysState :=
  let s1 :=
    if s.audio.cycle_count > 0 then { s with audio.cycle_count := s.audio.cycle_count - 1 }
    else s
  if s1.audio.cycle_count = 0 then
    let cmd := pgm_read_byte s1.audio.audio_cmd_ptr
    if cmd &&& (1 <<< LAST_SHIFT) = CONTINUE then
      process_one_command { s1 with audio.audio_cmd_ptr := s1.audio.audio_cmd_ptr.tail }
    else
      let s2 := { s1 with regs.TCCR1A := TCCR1A_OFF }
      let s3 := disable_task AUDIO_TASK s2
      { s3 with regs.PRR := set_bits s3.regs.PRR (1 <<< PRTIM1) }
  else s1

/-! ## turnled.c -/

def MAX_COUNT : Nat := NUM_TURNLEDS + 8

/-- The table `TurnLeds[]`: the port (`true` for PORTB, `false` for PORTD)
and the pin mask of each indicator: PB6, PB7, PD5, PD6. -/
def TurnLeds : List (Bool × Nat) :=
  [(true, 1 <<< 6), (true, 1 <<< 7), (false, 1 <<< 5), (false, 1 <<< 6)]

/-- The statement `*TurnLeds[id].port_ptr &= ~TurnLeds[id].mask`. -/
def turnled_pin_low (id : Nat) (s : SysState) : SysState :=
  match TurnLeds.get? id with
  | some (true, mask) => { s with regs.PORTB := clear_bits s.regs.PORTB mask }
  | some (false, mask) => { s with regs.PORTD := clear_bits s.regs.PORTD mask }
  | none => s

/-- The statement `*TurnLeds[id].port_ptr |= TurnLeds[id].mask`. -/
def turnled_pin_high (id : Nat) (s : SysState) : SysState :=
  match TurnLeds.get? id with
  | some (true, mask) => { s with regs.PORTB := set_bits s.regs.PORTB mask }
  | some (false, mask) => { s with regs.PORTD := set_bits s.regs.PORTD mask }
  | none => s

/-- Function `init_turnled` (data direction registers are not modelled). -/
def init_turnled (s : SysState) : SysState :=
  (List.range NUM_TURNLEDS).foldl (fun st id => turnled_pin_low id st) s

/-- Function `process_turnled`. -/
def process_turnled (s : SysState) : SysState :=
  let s1 := if s.turnled.count < NUM_TURNLEDS then turnled_pin_low s.turnled.count s else s
  let s2 := { s1 with turnled.count := (s1.turnled.count + 1) % 256 }
  let s3 := if s2.turnled.count > MAX_COUNT then { s2 with turnled.count := 0 } else s2
  if s3.turnled.count < NUM_TURNLEDS ∧ s3.turnled.ledstate &&& (1 <<< s3.turnled.count) ≠ 0 then
    turnled_pin_high s3.turnled.count s3
  else s3

/-- Function `turnled_on`. -/
def turnled_on (id : Nat) (s : SysState) : SysState :=
  { s with turnled.ledstate := set_bits s.turnled.ledstate (1 <<< id) }

/-- Function `turnled_off`. -/
def turnled_off (id : Nat) (s : SysState) : SysState :=
  { s with turnled.ledstate := clear_bits s.turnled.ledstate (1 <<< id) }

/-! ## eeprom.c -/

/-- Function `read_eeprom`: the byte stored at `addr`. -/
def read_eeprom (addr : Nat) (s : SysState) : Nat := s.eeprom addr

/-- Function `write_eeprom`: store the byte `value` at `addr`. -/
def write_eeprom (addr value : Nat) (s : SysState) : SysState :=
  { s with eeprom := Function.update s.eeprom addr (value % 256) }

/-! ## input.c: masks and the second-control heuristic -/

def D_MASK_EOT1 : Nat := 1 <<< 1
def D_MASK_EOT2 : Nat := 1 <<< 2
def D_MASK_UP : Nat := 1 <<< 4
def D_MASK_EOT3 : Nat := 1 <<< 7

def B_MASK_EOT4 : Nat := 1 <<< 0
def B_MASK_DOWN : Nat := 1 <<< 2
def B_MASK_RESTART : Nat := 1 <<< 3
def B_MASK_PAUSE : Nat := 1 <<< 4
def B_MASK_COPY : Nat := 1 <<< 5

def B_INVERTED : Nat := B_MASK_RESTART ||| B_MASK_PAUSE ||| B_MASK_COPY
def D_INVERTED : Nat := 0

def B_MASK : Nat :=
  B_MASK_EOT4 ||| B_MASK_DOWN ||| B_MASK_RESTART ||| B_MASK_PAUSE ||| B_MASK_COPY
def D_MASK : Nat := D_MASK_EOT1 ||| D_MASK_EOT2 ||| D_MASK_UP ||| D_MASK_EOT3

def SECOND_CONTROL_TIMEOUT_CYCLES : Nat := 80

def LONG_PUSH_CYCLES : Nat := 10
def REPEAT_HOLDOFF_CYCLES : Nat := 6
def REPEAT_INTERVAL_CYCLES : Nat := 3
def MAX_COUNTER : Nat := 255

/-- Function `is_second_control_fitted`. -/
def is_second_control_fitted (s : SysState) : Nat :=
  if s.input.SecondControlNotFittedCount < SECOND_CONTROL_TIMEOUT_CYCLES then 1 else 0

/-- Function `init_inputs`: the pull-ups of the input pins are enabled. -/
def init_inputs (s : SysState) : SysState :=
  { s with regs.PORTB := set_bits s.regs.PORTB B_MASK,
           regs.PORTD := set_bits s.regs.PORTD D_MASK }

/-! ## clock.c -/

def FIRST_SECONDS_DIGIT : Nat := 2
def MAX_DIGITS : Nat := 4

/-- One iteration of the loop of `restart`; the loop variable `addr` is
carried along with the state. -/
def restart_body (st : SysState × Nat) (id : Nat) : SysState × Nat :=
  let s := st.1
  let addr := st.2
  let minutes := read_eeprom addr s
  let addr := (addr + 1) % 256
  let seconds := read_eeprom addr s
  let addr := (addr + 1) % 256
  let minutes := if minutes > 99 then 10 else minutes
  let seconds := if seconds > 59 then 0 else seconds
  (turnled_off id (set_countdown id minutes seconds s), addr)

/-- Function `restart`. -/
def restart (s : SysState) : SysState :=
  let s1 := ((List.range NUM_COUNTDOWNS).foldl restart_body (s, 0)).1
  { s1 with clock.was_running := 0, clock.update_display := 1 }

/-- Function `init_clock` (the glyph upload to the display is left out). -/
def init_clock (s : SysState) : SysState := restart s

/-- The loop body `stop_countdown(id); turnled_off(id);` of `poll_clock` and
of `input_long_push`. -/
def stop_and_turn_off (s : SysState) (id : Nat) : SysState :=
  turnled_off id (stop_countdown id s)

/-- The block run by `poll_clock` when it finds an expired countdown. -/
def declare_won (s : SysState) : SysState :=
  let s1 := { s with clock.mode := WON_MODE }
  let s2 := (List.range NUM_COUNTDOWNS).foldl stop_and_turn_off s1
  play tada { s2 with clock.update_display := 1 }

/-- The loop `id = 0; while (id < num_ids) { ...; id++; }` of `poll_clock`.
The block for an expired countdown leaves `id` at `NUM_COUNTDOWNS`, so the
loop variable is `NUM_COUNTDOWNS + 1` after it.  The first argument bounds
the number of iterations; `id` grows in each one, so `num_ids` iterations
are enough. -/
def poll_clock_loop (num_ids : Nat) : Nat → Nat → SysState → SysState
  | 0, _, s => s
  | fuel + 1, id, s =>
    if id < num_ids then
      if countdown_has_expired id s ≠ 0 then
        poll_clock_loop num_ids fuel (NUM_COUNTDOWNS + 1) (declare_won s)
      else
        poll_clock_loop num_ids fuel (id + 1) s
    else s

/-- The body of the last loop of `poll_clock`, without `update_play(id)`. -/
def refresh_body (force_update : Nat) (s : SysState) (id : Nat) : SysState :=
  if force_update ≠ 0 ∨ s.clock.prev_second id ≠ (s.timer.Countdown id).seconds then
    { s with clock.prev_second :=
        Function.update s.clock.prev_second id (s.timer.Countdown id).seconds }
  else s

/-- Function `poll_clock` (without the writes to the display). -/
def poll_clock (s : SysState) : SysState :=
  if s.clock.mode = PLAY_MODE then
    let num_ids := if is_second_control_fitted s ≠ 0 then 4 else 2
    let s1 :=
      if is_second_control_fitted s ≠ 0 then s
      else if countdown_is_running COUNTDOWN_3 s ≠ 0 ∨
          countdown_is_running COUNTDOWN_4 s ≠ 0 then
        let t := stop_countdown COUNTDOWN_4 (stop_countdown COUNTDOWN_3 s)
        { t with clock.update_display := 1 }
      else s
    let s2 := poll_clock_loop num_ids num_ids 0 s1
    let force_update := s2.clock.update_display
    let s3 := { s2 with clock.update_display := 0 }
    (List.range NUM_COUNTDOWNS).foldl (refresh_body force_update) s3
  else s

/-- The loop body `was_running |= countdown_is_running(id)<<id; stop_countdown(id);`
of the pause case. -/
def pause_body (s : SysState) (id : Nat) : SysState :=
  stop_countdown id
    { s with clock.was_running :=
        set_bits s.clock.was_running (countdown_is_running id s <<< id) }

/-- The loop body `if ((was_running & (1<<id)) != 0) start_countdown(id);` of
the pause case. -/
def resume_body (s : SysState) (id : Nat) : SysState :=
  if s.clock.was_running &&& (1 <<< id) ≠ 0 then start_countdown id s else s

/-- The two branches of `case INPUT_PAUSE` in `play_mode_input_asserted`. -/
def play_mode_pause (s : SysState) : SysState :=
  if s.clock.was_running = 0 then
    (List.range NUM_COUNTDOWNS).foldl pause_body { s with clock.was_running := 0 }
  else
    (List.range NUM_COUNTDOWNS).foldl resume_body s

/-- Function `play_mode_input_asserted`. -/
def play_mode_input_asserted (id : Nat) (s : SysState) : SysState :=
  let s := { s with clock.update_display := 1 }
  if id = INPUT_EOT1 then
    if countdown_has_expired COUNTDOWN_1 s = 0 then
      start_countdown COUNTDOWN_2 (stop_countdown COUNTDOWN_1
        (turnled_on TURNLED_2 (turnled_off TURNLED_1 (play tick s))))
    else s
  else if id = INPUT_EOT2 then
    if countdown_has_expired COUNTDOWN_2 s = 0 then
      start_countdown COUNTDOWN_1 (stop_countdown COUNTDOWN_2
        (turnled_on TURNLED_1 (turnled_off TURNLED_2 (play tick s))))
    else s
  else if id = INPUT_EOT3 then
    if countdown_has_expired COUNTDOWN_3 s = 0 then
      start_countdown COUNTDOWN_4 (stop_countdown COUNTDOWN_3
        (turnled_on TURNLED_4 (turnled_off TURNLED_3 (play tick s))))
    else s
  else if id = INPUT_EOT4 then
    if countdown_has_expired COUNTDOWN_4 s = 0 then
      start_countdown COUNTDOWN_3 (stop_countdown COUNTDOWN_4
        (turnled_on TURNLED_3 (turnled_off TURNLED_4 (play tick s))))
    else s
  else if id = INPUT_PAUSE then play_mode_pause s
  else if id = INPUT_RESTART then restart s
  else s

/-- Function `add_to_digit`, on the value pointed to: `*digit_ptr += (uint8_t)delta`,
then the reset to 0 above 59. -/
def add_to_digit (digit : Nat) (delta : Int) : Nat :=
  let d := (digit + (delta % 256).toNat) % 256
  if d > 59 then 0 else d

/-- The four end-of-turn cases of `setup_mode_input_asserted`: select the
countdown `cd`, or step to its next digit when it is selected already. -/
def setup_select (cd : Nat) (s : SysState) : SysState :=
  if s.clock.selected_countdown = cd then
    let s1 := { s with clock.selected_digit := (s.clock.selected_digit + 1) % 256 }
    if s1.clock.selected_digit ≥ MAX_DIGITS then { s1 with clock.selected_digit := 0 } else s1
  else
    { s with clock.selected_countdown := cd, clock.selected_digit := 0 }

/-- The statements after the choice of `delta` in the cases `INPUT_UP` and
`INPUT_DOWN` of `setup_mode_input_asserted`. -/
def setup_adjust (delta : Int) (s : SysState) : SysState :=
  let c := s.timer.Countdown s.clock.selected_countdown
  if s.clock.selected_digit < FIRST_SECONDS_DIGIT then
    setCountdown s.clock.selected_countdown { c with minutes := add_to_digit c.minutes delta } s
  else
    setCountdown s.clock.selected_countdown { c with seconds := add_to_digit c.seconds delta } s

/-- The assignments `Countdown[other].minutes = Countdown[sel].minutes;
Countdown[other].seconds = Countdown[sel].seconds;` of the copy cases. -/
def copy_time (sel other : Nat) (s : SysState) : SysState :=
  let s1 := setCountdown other
    { s.timer.Countdown other with minutes := (s.timer.Countdown sel).minutes } s
  setCountdown other
    { s1.timer.Countdown other with seconds := (s1.timer.Countdown sel).seconds } s1

/-- Function `setup_mode_input_asserted`. -/
def setup_mode_input_asserted (id : Nat) (s : SysState) : SysState :=
  if id = INPUT_EOT1 then setup_select COUNTDOWN_1 s
  else if id = INPUT_EOT2 then setup_select COUNTDOWN_2 s
  else if id = INPUT_EOT3 then setup_select COUNTDOWN_3 s
  else if id = INPUT_EOT4 then setup_select COUNTDOWN_4 s
  else if id = INPUT_UP then
    let delta : Int :=
      if s.clock.selected_digit % 2 = 0 then
        (if s.clock.selected_countdown % 2 = 0 then 10 else -10)
      else
        (if s.clock.selected_countdown % 2 = 0 then 1 else -1)
    setup_adjust delta s
  else if id = INPUT_DOWN then
    let delta : Int :=
      if s.clock.selected_digit % 2 = 0 then
        (if s.clock.selected_countdown % 2 = 0 then -10 else 10)
      else
        (if s.clock.selected_countdown % 2 = 0 then -1 else 1)
    setup_adjust delta s
  else if id = INPUT_COPY then
    let other_countdown := s.clock.selected_countdown ^^^ 1
    copy_time s.clock.selected_countdown other_countdown s
  else if id = INPUT_RESTART then
    restart { s with clock.mode := PLAY_MODE }
  else s

/-- Function `input_asserted`. -/
def input_asserted (id : Nat) (s : SysState) : SysState :=
  if s.clock.mode = PLAY_MODE then play_mode_input_asserted id s
  else if s.clock.mode = WON_MODE then
    if id = INPUT_RESTART then restart { s with clock.mode := PLAY_MODE } else s
  else if s.clock.mode = SETUP_MODE then setup_mode_input_asserted id s
  else
    let s1 := restart s
    { s1 with clock.mode := PLAY_MODE }

/-- The body of the loop of `input_long_push` that stores the four times;
the loop variable `addr` is carried along with the state. -/
def commit_body (st : SysState × Nat) (countdown : Nat) : SysState × Nat :=
  let s := write_eeprom st.2 (st.1.timer.Countdown countdown).minutes st.1
  let addr := (st.2 + 1) % 256
  let s := write_eeprom addr (s.timer.Countdown countdown).seconds s
  (s, (addr + 1) % 256)

/-- The body of the loop of the long copy push in `input_long_push`. -/
def broadcast_body (s : SysState) (other_countdown : Nat) : SysState :=
  if other_countdown ≠ s.clock.selected_countdown then
    copy_time s.clock.selected_countdown other_countdown s
  else s

/-- Function `input_long_push`. -/
def input_long_push (id : Nat) (s : SysState) : SysState :=
  if s.clock.mode = PLAY_MODE ∨ s.clock.mode = WON_MODE then
    if id = INPUT_PAUSE then
      let s1 := { s with clock.was_running := 0, clock.mode := SETUP_MODE,
                         clock.selected_countdown := 0, clock.selected_digit := 0 }
      (List.range NUM_COUNTDOWNS).foldl stop_and_turn_off s1
    else s
  else if s.clock.mode = SETUP_MODE then
    if id = INPUT_PAUSE then
      let s1 := { s with clock.mode := PLAY_MODE }
      restart ((List.range NUM_COUNTDOWNS).foldl commit_body (s1, 0)).1
    else if id = INPUT_COPY then
      (List.range NUM_COUNTDOWNS).foldl broadcast_body s
    else s
  else s

/-- Function `input_repeat`. -/
def input_repeat (id : Nat) (s : SysState) : SysState :=
  if s.clock.mode = SETUP_MODE ∧ (id = INPUT_UP ∨ id = INPUT_DOWN) then input_asserted id s
  else s

/-! ## input.c: hold timing and edge detection -/

/-- Function `held_input`; the counter behind `counter_ptr` is given by its
reader `get` and writer `put`. -/
def held_input (get : SysState → Nat) (put : Nat → SysState → SysState) (input : Nat)
    (s : SysState) : SysState :=
  if get s < 255 then
    let s1 := put (get s + 1) s
    let s2 := if get s1 = LONG_PUSH_CYCLES then input_long_push input s1 else s1
    if get s2 > REPEAT_HOLDOFF_CYCLES ∧
        (get s2 - REPEAT_HOLDOFF_CYCLES) % REPEAT_INTERVAL_CYCLES = 0 then
      input_repeat input s2
    else s2
  else s

/-- The first statement of `process_inputs`: the second-control heuristic. -/
def second_control_step (s : SysState) : SysState :=
  if s.input.LastB &&& B_MASK_EOT4 = 0 ∨ s.input.LastD &&& D_MASK_EOT3 = 0 then
    { s with input.SecondControlNotFittedCount := 0 }
  else if s.input.SecondControlNotFittedCount < SECOND_CONTROL_TIMEOUT_CYCLES then
    { s with input.SecondControlNotFittedCount := s.input.SecondControlNotFittedCount + 1 }
  else s

/-- The statement `if (LastD & D_MASK_UP) { held_input(&UpCounter, INPUT_UP); }`. -/
def held_up (s : SysState) : SysState :=
  if s.input.LastD &&& D_MASK_UP ≠ 0 then
    held_input (fun t => t.input.UpCounter) (fun v t => { t with input.UpCounter := v })
      INPUT_UP s
  else s

/-- The statement `if (LastB & B_MASK_DOWN) { held_input(&DownCounter, INPUT_DOWN); }`. -/
def held_down (s : SysState) : SysState :=
  if s.input.LastB &&& B_MASK_DOWN ≠ 0 then
    held_input (fun t => t.input.DownCounter) (fun v t => { t with input.DownCounter := v })
      INPUT_DOWN s
  else s

/-- The statement `if (LastB & B_MASK_COPY) { held_input(&CopyCounter, INPUT_COPY); }`. -/
def held_copy (s : SysState) : SysState :=
  if s.input.LastB &&& B_MASK_COPY ≠ 0 then
    held_input (fun t => t.input.CopyCounter) (fun v t => { t with input.CopyCounter := v })
      INPUT_COPY s
  else s

/-- The statement `if (LastB & B_MASK_PAUSE) { held_input(&PauseCounter, INPUT_PAUSE); }`. -/
def held_pause (s : SysState) : SysState :=
  if s.input.LastB &&& B_MASK_PAUSE ≠ 0 then
    held_input (fun t => t.input.PauseCounter) (fun v t => { t with input.PauseCounter := v })
      INPUT_PAUSE s
  else s

/-- Function `process_inputs`: its five statements in order. -/
def process_inputs (s : SysState) : SysState :=
  held_pause (held_copy (held_down (held_up (second_control_step s))))

/-- One read of the two input ports in `poll_inputs`:
`(PINB ^ B_INVERTED) & B_MASK` and `(PIND ^ D_INVERTED) & D_MASK`, for the
raw pin values `(PINB, PIND)`. -/
def read_ports (raw : Nat × Nat) : Nat × Nat :=
  ((raw.1 ^^^ B_INVERTED) &&& B_MASK, (raw.2 ^^^ D_INVERTED) &&& D_MASK)

/-- The debounce loop `while ((i>0) && ((pb != 0) || (pd != 0)))` of
`poll_inputs`, by recursion on the loop variable `i`; `samples k` is what the
pins show at the `k`-th read of the call (read 0 is the initial one) and `k`
counts the reads made so far. -/
def debounce (samples : Nat → Nat × Nat) : Nat → Nat → Nat × Nat → Nat × Nat
  | 0, _, p => p
  | i + 1, k, p =>
    if p.1 ≠ 0 ∨ p.2 ≠ 0 then
      debounce samples i (k + 1)
        (p.1 &&& (read_ports (samples k)).1, p.2 &&& (read_ports (samples k)).2)
    else p

/-- A statement `if (new & MASK) { input_asserted(INPUT); }` of `poll_inputs`. -/
def report_one (new mask input : Nat) (s : SysState) : SysState :=
  if new &&& mask ≠ 0 then input_asserted input s else s

/-- The block `if ((pb != 0) || (pd != 0))` of `poll_inputs`: the callbacks
for the newly asserted inputs. -/
def report_asserted (pb pd : Nat) (s : SysState) : SysState :=
  if pb ≠ 0 ∨ pd ≠ 0 then
    let newb := clear_bits pb s.input.LastB
    let newd := clear_bits pd s.input.LastD
    let newb := if s.input.SecondControlNotFittedCount ≥ SECOND_CONTROL_TIMEOUT_CYCLES
      then clear_bits newb B_MASK_EOT4 else newb
    let newd := if s.input.SecondControlNotFittedCount ≥ SECOND_CONTROL_TIMEOUT_CYCLES
      then clear_bits newd D_MASK_EOT3 else newd
    let s := report_one newd D_MASK_EOT1 INPUT_EOT1 s
    let s := report_one newd D_MASK_EOT2 INPUT_EOT2 s
    let s := report_one newd D_MASK_UP INPUT_UP s
    let s := report_one newd D_MASK_EOT3 INPUT_EOT3 s
    let s := report_one newb B_MASK_EOT4 INPUT_EOT4 s
    let s := report_one newb B_MASK_DOWN INPUT_DOWN s
    let s := report_one newb B_MASK_RESTART INPUT_RESTART s
    let s := report_one newb B_MASK_PAUSE INPUT_PAUSE s
    report_one newb B_MASK_COPY INPUT_COPY s
  else s

/-- The block `if ((LastB != 0) || (LastD != 0))` of `poll_inputs`: the hold
counters of the released inputs are cleared. -/
def clear_released (pb pd : Nat) (s : SysState) : SysState :=
  if s.input.LastB ≠ 0 ∨ s.input.LastD ≠ 0 then
    let oldb := clear_bits s.input.LastB pb
    let oldd := clear_bits s.input.LastD pd
    let s := if oldd &&& D_MASK_UP ≠ 0 then { s with input.UpCounter := 0 } else s
    let s := if oldb &&& B_MASK_DOWN ≠ 0 then { s with input.DownCounter := 0 } else s
    if oldb &&& B_MASK_PAUSE ≠ 0 then { s with input.PauseCounter := 0 } else s
  else s

/-- Function `poll_inputs`, for the pin values `samples` seen by its reads. -/
def poll_inputs (samples : Nat → Nat × Nat) (s : SysState) : SysState :=
  let p := debounce samples 20 1 (read_ports (samples 0))
  let s1 := clear_released p.1 p.2 (report_asserted p.1 p.2 s)
  { s1 with input.LastB := p.1, input.LastD := p.2 }

/-! ## timer.c: the tick interrupt -/

/-- The first statements of the interrupt handler: the accumulator `count`
and the timestamp. -/
def advance_timestamp (s : SysState) : SysState :=
  let s := { s with timer.count := (s.timer.count + MULTIPLIER) % 256 }
  if s.timer.count ≥ DIVISOR then
    { s with timer.count := s.timer.count - DIVISOR,
             timer.__timer_timestamp := (s.timer.__timer_timestamp + 1) % 256 }
  else s

/-- A statement `if (tasks & (1<<ID)) { process(); }` of the interrupt
handler. -/
def run_task (id : Nat) (process : SysState → SysState) (s : SysState) : SysState :=
  if s.timer.tasks &&& (1 <<< id) ≠ 0 then process s else s

/-- The interrupt handler `ISR(TIMER2_OVF_vect)`: the timestamp, then the
audio, turn indicator, countdown and input duties, in this order. -/
def ISR_TIMER2_OVF (s : SysState) : SysState :=
  run_task INPUTS_TASK process_inputs
    (run_task COUNTDOWN_TASK process_countdown
      (run_task TURNLED_TASK process_turnled
        (run_task AUDIO_TASK process_audio (advance_timestamp s))))

/-! ## main.c: start-up -/

/-- The state at reset: zero-initialised statics, the initialisers of
input.c, cleared registers.  `eeprom` is the content of the byte store and
`flash` the content of program memory from address 0, which is where the
null `audio_cmd_ptr` points. -/
def boot (eeprom : Nat → Nat) (flash : List Nat) : SysState :=
  { timer :=
      { __timer_timestamp := 0
        Countdown := fun _ =>
          { minutes := 0, seconds := 0, _running := 0, _expired := 0, _subseconds := 0 }
        tasks := 0
        count := 0 }
    audio := { audio_cmd_ptr := flash, cycle_count := 0 }
    turnled := { ledstate := 0, count := 0 }
    input :=
      { LastB := B_MASK_EOT4
        LastD := D_MASK_EOT3
        UpCounter := 0
        DownCounter := 0
        CopyCounter := 0
        PauseCounter := 0
        SecondControlNotFittedCount := SECOND_CONTROL_TIMEOUT_CYCLES }
    clock :=
      { was_running := 0
        mode := 0
        update_display := 0
        prev_second := fun _ => 0
        selected_countdown := 0
        selected_digit := 0 }
    regs := { TCCR1A := 0, OCR1A := 0, PRR := 0, PORTB := 0, PORTD := 0 }
    eeprom := eeprom }

/-- Function `init_other_hw`: `PRR` keeps timers 1 and 2 on
(`PRTWI | PRTIM0 | PRSPI | PRUSART0 | PRADC`), all pull-ups are enabled. -/
def init_other_hw (s : SysState) : SysState :=
  { s with regs.PRR := (1 <<< 7) ||| (1 <<< 5) ||| (1 <<< 2) ||| (1 <<< 1) ||| (1 <<< 0),
           regs.PORTB := 0xFF, regs.PORTD := 0xFF }

/-- The initialisation part of `main`, up to `sei()`; `init_timer` and
`lcd_init` only write configuration registers that are not modelled. -/
def main_init (eeprom : Nat → Nat) (flash : List Nat) : SysState :=
  let s := init_other_hw (boot eeprom flash)
  let s := init_audio s
  let s := init_turnled s
  let s := init_inputs s
  let s := enable_task TURNLED_TASK s
  let s := enable_task AUDIO_TASK s
  let s := enable_task INPUTS_TASK s
  let s := enable_task COUNTDOWN_TASK s
  init_clock s

/-! ## main.c: the idle routine -/

/-- Bit `SE` (sleep enable) of the sleep mode control register `SMCR`. -/
def SE : Nat := 0

/-- Value `(0<<SM2) | (1<<SM1) | (1<<SM0) | (1<<SE)` that
`sleep_until_interrupt` writes to `SMCR`: power-save mode, sleep enabled. -/
def SMCR_POWER_SAVE : Nat := (0 <<< 3) ||| (1 <<< 2) ||| (1 <<< 1) ||| (1 <<< SE)

/-- Function `sleep_until_interrupt`, for the value `smcr` of the register
`SMCR` on entry: the value of the register on return, and whether the `sleep`
instruction was executed.  The block that writes the register and sleeps is
guarded by `is_any_task_active() == 0`; the variables of the firmware are not
written. -/
def sleep_until_interrupt (smcr : Nat) (s : SysState) : Nat × Bool :=
  if is_any_task_active s = 0 then
    (SMCR_POWER_SAVE &&& (1 <<< SE), true)
  else (smcr, false)

/-! ## The events that drive the firmware -/

/-- What can happen after start-up: a tick interrupt, one of the two polls of
the main loop, or one of the three controller callbacks of input.h. -/
inductive Event where
  | tick
  | poll_inputs (samples : Nat → Nat × Nat)
  | poll_clock
  | asserted (id : Nat)
  | long_push (id : Nat)
  | repeated (id : Nat)

/-- The effect of one event. -/
def Event.apply : Event → SysState → SysState
  | .tick, s => ISR_TIMER2_OVF s
  | .poll_inputs samples, s => ChessClock.poll_inputs samples s
  | .poll_clock, s => ChessClock.poll_clock s
  | .asserted id, s => input_asserted id s
  | .long_push id, s => input_long_push id s
  | .repeated id, s => input_repeat id s

/-- The effect of a sequence of events, the first of the list first. -/
def run (es : List Event) (s : SysState) : SysState :=
  es.foldl (fun st e => e.apply st) s

/-- The states reachable from start-up, for any EEPROM and flash content, by
any interleaving of events. -/
inductive Reachable : SysState → Prop where
  | startup (eeprom : Nat → Nat) (flash : List Nat) : Reachable (main_init eeprom flash)
  | step (e : Event) {s : SysState} : Reachable s → Reachable (e.apply s)

/-! ## Vocabulary of the properties -/

/-- The time a countdown shows, in seconds: `60 * minutes + seconds`. -/
def displayed_time (id : Nat) (s : SysState) : Nat :=
  60 * (s.timer.Countdown id).minutes + (s.timer.Countdown id).seconds

/-- The number of whole seconds that `N` ticks have begun:
the ceiling of `16 * N / 125`. -/
def seconds_begun (N : Nat) : Nat := (MULTIPLIER * N + (DIVISOR - 1)) / DIVISOR

/-- A countdown as `set_countdown` followed by `start_countdown` leaves it. -/
def started (m sec : Nat) : CountdownType :=
  { minutes := m, seconds := sec, _running := 1, _expired := 0, _subseconds := 0 }

/-- The part of the state that clock.c, audio.c, turnled.c and the countdown
update never write: the variables of input.c, the timestamp and its
accumulator. -/
def clock_frame (s : SysState) : InputState × Nat × Nat :=
  (s.input, s.timer.__timer_timestamp, s.timer.count)

/-- The timestamp and its accumulator. -/
def stamp (s : SysState) : Nat × Nat := (s.timer.__timer_timestamp, s.timer.count)

/-- The countdown that `restart` loads from the bytes at `2 * id` and
`2 * id + 1`. -/
def loaded (e : Nat → Nat) (id : Nat) : CountdownType :=
  { minutes := if e (2 * id) > 99 then 10 else e (2 * id),
    seconds := if e (2 * id + 1) > 59 then 0 else e (2 * id + 1),
    _running := 0, _expired := 0, _subseconds := 0 }

/-- Turn indicator `id` is switched on: the test `(ledstate & (1<<id)) != 0`
of `process_turnled`. -/
def turnled_is_on (id : Nat) (s : SysState) : Prop :=
  s.turnled.ledstate &&& (1 <<< id) ≠ 0

instance (id : Nat) (s : SysState) : Decidable (turnled_is_on id s) := by
  unfold turnled_is_on; infer_instance

/-- The duty bit `id` is set in `tasks`: the test `tasks & (1<<id)` of the
tick interrupt. -/
def task_enabled (id : Nat) (s : SysState) : Prop :=
  s.timer.tasks &&& (1 <<< id) ≠ 0

instance (id : Nat) (s : SysState) : Decidable (task_enabled id s) := by
  unfold task_enabled; infer_instance

/-- The mask that the pause case builds from the running flags. -/
def running_mask (s : SysState) : Nat :=
  set_bits (set_bits (set_bits (set_bits 0 (countdown_is_running 0 s <<< 0))
    (countdown_is_running 1 s <<< 1)) (countdown_is_running 2 s <<< 2))
    (countdown_is_running 3 s <<< 3)

/-- State `t` is state `s` paused: Play mode, the was-running mask records
the countdowns that run in `s`, and the four countdowns are those of `s`,
stopped. -/
def Paused (s t : SysState) : Prop :=
  t.clock.mode = PLAY_MODE ∧ t.clock.was_running = running_mask s ∧
    ∀ id, id < NUM_COUNTDOWNS →
      t.timer.Countdown id = { s.timer.Countdown id with _running := 0 }

/-- Countdown `id` is the same in `s` and `t` but for the value of a set
running flag: equally running or not, same minutes, seconds and sub-second
accumulator. -/
def same_time (id : Nat) (s t : SysState) : Prop :=
  countdown_is_running id t = countdown_is_running id s ∧
  (t.timer.Countdown id).minutes = (s.timer.Countdown id).minutes ∧
  (t.timer.Countdown id).seconds = (s.timer.Countdown id).seconds ∧
  (t.timer.Countdown id)._subseconds = (s.timer.Countdown id)._subseconds

/-- The part of the state that decides whether a state is `Paused` with the
pause button not held: the variables of clock.c, the countdowns and the
last debounced vector of port B. -/
def pause_view (s : SysState) : ClockState × (Nat → CountdownType) × Nat :=
  (s.clock, s.timer.Countdown, s.input.LastB)

/-- The invariant of the controller on the countdowns `C` and the mode `m`:
every countdown has at most 99 minutes and at most 59 seconds, the mode is
one of the three modes, and outside Play mode no countdown is running. -/
def InvCM (C : Nat → CountdownType) (m : Nat) : Prop :=
  (∀ id, (C id).minutes ≤ 99 ∧ (C id).seconds ≤ 59) ∧
  (m = PLAY_MODE ∨
    ((m = WON_MODE ∨ m = SETUP_MODE) ∧ ∀ id, id < NUM_COUNTDOWNS → (C id)._running = 0))

/-- The invariant of the controller, on a state. -/
def Inv (s : SysState) : Prop := InvCM s.timer.Countdown s.clock.mode

/-- Countdown `id` is both running and expired. -/
def running_and_expired (id : Nat) (s : SysState) : Prop :=
  countdown_is_running id s ≠ 0 ∧ countdown_has_expired id s ≠ 0

instance (id : Nat) (s : SysState) : Decidable (running_and_expired id s) := by
  unfold running_and_expired; infer_instance

/-- Raw pin values `(PINB, PIND)` with no button pressed and the second
control fitted: restart, pause and copy are active low. -/
def pins_idle : Nat → Nat × Nat := fun _ => (0x38, 0x00)

/-- Raw pin values with the end-of-turn button 1 (PD1) held down. -/
def pins_eot1 : Nat → Nat × Nat := fun _ => (0x38, 0x02)

/-- Raw pin values with the pause button (PB4, active low) held down. -/
def pins_pause : Nat → Nat × Nat := fun _ => (0x28, 0x00)

/-- One pass of the main loop of `main`: `poll_inputs(); poll_clock();` for
the pin values `pins`. -/
def main_loop_pass (pins : Nat → Nat × Nat) : List Event :=
  [Event.poll_inputs pins, Event.poll_clock]

/-- What the amended C14 says an adjustment by `d` makes of a field `v`:
`v + d` when that lies in 0..59, and 0 otherwise. -/
def adjusted (v : Nat) (d : Int) : Nat :=
  if 0 ≤ (v : Int) + d ∧ (v : Int) + d ≤ 59 then ((v : Int) + d).toNat else 0

/-- The sign of an adjustment in Setup mode: up counts up on the countdowns
with an even index and down on those with an odd index. -/
def setup_sign (id : Nat) (s : SysState) : Int :=
  if (id = INPUT_UP ↔ s.clock.selected_countdown % 2 = 0) then 1 else -1

/-- The countdown selected in Setup mode, after the input `id`. -/
def selected_after (id : Nat) (s : SysState) : CountdownType :=
  (input_asserted id s).timer.Countdown s.clock.selected_countdown

/-- The part of the state that the audio player works on: cursor and
remaining ticks, the duty bits, and the registers `TCCR1A`, `OCR1A` and `PRR`
of the waveform generator. -/
def audio_view (s : SysState) : AudioState × Nat × Nat × Nat × Nat :=
  (s.audio, s.timer.tasks, s.regs.TCCR1A, s.regs.OCR1A, s.regs.PRR)

/-- The callbacks that `held_input` makes for the channel `input` when the
hold counter reads `counter` on entry, in the order of the calls: the
long-push callback when the incremented counter equals `LONG_PUSH_CYCLES`,
then the repeat callback when it is past `REPEAT_HOLDOFF_CYCLES` by a multiple
of `REPEAT_INTERVAL_CYCLES`; none when the counter is at 255. -/
def held_input_calls (counter input : Nat) : List Event :=
  if counter < 255 then
    (if counter + 1 = LONG_PUSH_CYCLES then [Event.long_push input] else []) ++
    (if counter + 1 > REPEAT_HOLDOFF_CYCLES ∧
        (counter + 1 - REPEAT_HOLDOFF_CYCLES) % REPEAT_INTERVAL_CYCLES = 0
      then [Event.repeated input] else [])
  else []

/-- The hold counter that `process_inputs` passes to `held_input` together
with the channel `input`. -/
def hold_counter (input : Nat) (s : SysState) : Nat :=
  if input = INPUT_UP then s.input.UpCounter
  else if input = INPUT_DOWN then s.input.DownCounter
  else if input = INPUT_COPY then s.input.CopyCounter
  else if input = INPUT_PAUSE then s.input.PauseCounter
  else 0

/-- The assignment to the hold counter of the channel `input`. -/
def set_hold_counter (input v : Nat) (s : SysState) : SysState :=
  if input = INPUT_UP then { s with input.UpCounter := v }
  else if input = INPUT_DOWN then { s with input.DownCounter := v }
  else if input = INPUT_COPY then { s with input.CopyCounter := v }
  else if input = INPUT_PAUSE then { s with input.PauseCounter := v }
  else s

/-- The test of `process_inputs` for the channel `input`: its bit is asserted
in the last observed vector. -/
def hold_asserted (input : Nat) (s : SysState) : Prop :=
  if input = INPUT_UP then s.input.LastD &&& D_MASK_UP ≠ 0
  else if input = INPUT_DOWN then s.input.LastB &&& B_MASK_DOWN ≠ 0
  else if input = INPUT_COPY then s.input.LastB &&& B_MASK_COPY ≠ 0
  else if input = INPUT_PAUSE then s.input.LastB &&& B_MASK_PAUSE ≠ 0
  else False

instance (input : Nat) (s : SysState) : Decidable (hold_asserted input s) := by
  unfold hold_asserted; infer_instance

/-- The statement of `process_inputs` for the channel `input`. -/
def hold_statement (input : Nat) (s : SysState) : SysState :=
  if input = INPUT_UP then held_up s
  else if input = INPUT_DOWN then held_down s
  else if input = INPUT_COPY then held_copy s
  else if input = INPUT_PAUSE then held_pause s
  else s

/-- The statements of `process_inputs` that come before the one for the
channel `input`. -/
def hold_prelude (input : Nat) (s : SysState) : SysState :=
  if input = INPUT_UP then second_control_step s
  else if input = INPUT_DOWN then held_up (second_control_step s)
  else if input = INPUT_COPY then held_down (held_up (second_control_step s))
  else if input = INPUT_PAUSE then held_copy (held_down (held_up (second_control_step s)))
  else s

/-- The number of countdowns that `poll_clock` examines (`num_ids`): all
four while the second control is classified as fitted, the first two
otherwise. -/
def polled_ids (s : SysState) : Nat :=
  if is_second_control_fitted s ≠ 0 then 4 else 2

/-- The state after the first statement of the Play-mode branch of
`poll_clock`: when the second control is not fitted and one of its countdowns
is running, both are stopped. -/
def stop_unfitted (s : SysState) : SysState :=
  if is_second_control_fitted s ≠ 0 then s
  else if countdown_is_running COUNTDOWN_3 s ≠ 0 ∨ countdown_is_running COUNTDOWN_4 s ≠ 0 then
    { stop_countdown COUNTDOWN_4 (stop_countdown COUNTDOWN_3 s) with clock.update_display := 1 }
  else s

/-- The variables of input.c after `process_inputs`, as a function of their
values before: the second-control heuristic, and every hold counter
incremented when its channel is asserted and the counter is below 255. -/
def hold_timing (i : InputState) : InputState :=
  { LastB := i.LastB
    LastD := i.LastD
    UpCounter :=
      if i.LastD &&& D_MASK_UP ≠ 0 ∧ i.UpCounter < 255 then i.UpCounter + 1 else i.UpCounter
    DownCounter :=
      if i.LastB &&& B_MASK_DOWN ≠ 0 ∧ i.DownCounter < 255 then i.DownCounter + 1
      else i.DownCounter
    CopyCounter :=
      if i.LastB &&& B_MASK_COPY ≠ 0 ∧ i.CopyCounter < 255 then i.CopyCounter + 1
      else i.CopyCounter
    PauseCounter :=
      if i.LastB &&& B_MASK_PAUSE ≠ 0 ∧ i.PauseCounter < 255 then i.PauseCounter + 1
      else i.PauseCounter
    SecondControlNotFittedCount :=
      if i.LastB &&& B_MASK_EOT4 = 0 ∨ i.LastD &&& D_MASK_EOT3 = 0 then 0
      else if i.SecondControlNotFittedCount < SECOND_CONTROL_TIMEOUT_CYCLES then
        i.SecondControlNotFittedCount + 1
      else i.SecondControlNotFittedCount }

/-- Raw pin values with the end-of-turn button 4 (PB0) read as pressed. -/
def pins_eot4 : Nat → Nat × Nat := fun _ => (0x39, 0x00)

/-- Raw pin values with the end-of-turn buttons 3 (PD7) and 4 (PB0) both
read as pressed, as they are when the second control is unplugged. -/
def pins_eot3_eot4 : Nat → Nat × Nat := fun _ => (0x39, 0x80)

/-- The events `es`, `n` times over. -/
def times : Nat → List Event → List Event
  | 0, _ => []
  | n + 1, es => es ++ times n es

/-- An EEPROM content that gives every countdown 0:11. -/
def eeprom_0_11 : Nat → Nat := fun a => if a % 2 = 1 then 11 else 0

/-- The first part of `unplugged_trace`: a pass of the main loop with no
button pressed and a tick (the second control is found fitted), end-of-turn
button 4 pressed (countdown 3 starts) and held for 6 ticks, then released,
then the second control unplugged (both its buttons read pressed; the two
callbacks leave countdown 3 running); a pass of the main loop follows every
tick. -/
def unplugged_start : List Event :=
  main_loop_pass pins_idle ++ [Event.tick] ++ main_loop_pass pins_eot4 ++
  times 6 ([Event.tick] ++ main_loop_pass pins_eot4) ++ main_loop_pass pins_idle ++
  main_loop_pass pins_eot3_eot4

/-- A tick and a pass of the main loop with the second control unplugged. -/
def unplugged_step : List Event := [Event.tick] ++ main_loop_pass pins_eot3_eot4

/-- A trace of polls and ticks only in which countdown 3 expires on the very
tick on which the second control is found not fitted: `unplugged_start`, then
80 ticks with the control unplugged, a pass of the main loop after each. -/
def unplugged_trace : List Event := unplugged_start ++ times 80 unplugged_step

/-- The states of `unplugged_trace` after `k` of its last 80 ticks: Play
mode, both buttons of the second control in the last observed vectors, the
not-fitted count at `k`, the countdown and input duties enabled, countdown 3
started at 0:11 and `6 + k` ticks old, the other countdowns neither running
nor expired. -/
def unplugged_inv (k : Nat) (s : SysState) : Prop :=
  s.clock.mode = PLAY_MODE ∧ s.input.LastB = B_MASK_EOT4 ∧ s.input.LastD = D_MASK_EOT3 ∧
  s.input.SecondControlNotFittedCount = k ∧
  s.timer.tasks.testBit COUNTDOWN_TASK = true ∧ s.timer.tasks.testBit INPUTS_TASK = true ∧
  s.timer.Countdown 2 = (countdown_tick^[6 + k]) (started 0 11) ∧
  (∀ i, i = 0 ∨ i = 1 ∨ i = 3 →
    (s.timer.Countdown i)._running = 0 ∧ (s.timer.Countdown i)._expired = 0)

/-- Raw pin values with the copy button (PB5, active low) pressed. -/
def pins_copy : Nat → Nat × Nat := fun _ => (0x18, 0x00)

/-- The debounced vectors that `poll_inputs` works with, for the pin values
`samples` seen by its reads. -/
def debounced (samples : Nat → Nat × Nat) : Nat × Nat :=
  debounce samples 20 1 (read_ports (samples 0))

/-- The number of re-reads that the debounce loop of `poll_inputs` makes, by
the recursion of `debounce`. -/
def debounce_reads (samples : Nat → Nat × Nat) : Nat → Nat → Nat × Nat → Nat
  | 0, _, _ => 0
  | i + 1, k, p =>
    if p.1 ≠ 0 ∨ p.2 ≠ 0 then
      1 + debounce_reads samples i (k + 1)
        (p.1 &&& (read_ports (samples k)).1, p.2 &&& (read_ports (samples k)).2)
    else 0

/-- The number of re-reads of one call of `poll_inputs`. -/
def rereads (samples : Nat → Nat × Nat) : Nat :=
  debounce_reads samples 20 1 (read_ports (samples 0))

/-- The bitwise AND of the reads 0 to `n` of the two ports (read 0 is the
initial one). -/
def and_of_reads (samples : Nat → Nat × Nat) : Nat → Nat × Nat
  | 0 => read_ports (samples 0)
  | n + 1 =>
    ((and_of_reads samples n).1 &&& (read_ports (samples (n + 1))).1,
      (and_of_reads samples n).2 &&& (read_ports (samples (n + 1))).2)

/-- One hold-timing tick (a run of `process_inputs`) at which the last
observed vectors `(LastB, LastD)` are `o`. -/
def hold_tick (s : SysState) (o : Nat × Nat) : SysState :=
  process_inputs { s with input.LastB := o.1, input.LastD := o.2 }

/-- A sequence of hold-timing ticks, with the vectors observed at each. -/
def hold_ticks (obs : List (Nat × Nat)) (s : SysState) : SysState :=
  obs.foldl hold_tick s

/-- The buttons EOT-3 and EOT-4 are not both asserted in the vectors `o`: the
test of `process_inputs`. -/
def not_both (o : Nat × Nat) : Prop :=
  o.1 &&& B_MASK_EOT4 = 0 ∨ o.2 &&& D_MASK_EOT3 = 0

instance (o : Nat × Nat) : Decidable (not_both o) := by
  unfold not_both; infer_instance

/-- The duration field of an audio command byte, as `process_one_command`
extracts it. -/
def entry_duration (c : Nat) : Nat := (c >>> PERIOD_SHIFT) &&& PERIOD_MASK

/-- The number of ticks for which an entry is the current one: its duration,
and one tick for a duration of 0. -/
def entry_ticks (c : Nat) : Nat := max (entry_duration c) 1

/-- The number of ticks of a sequence: the sum of `entry_ticks` over its
entries. -/
def sequence_ticks (cmds : List Nat) : Nat := (cmds.map entry_ticks).sum

/-- The entry `c` is marked last: the test of `process_audio`. -/
def marked_last (c : Nat) : Prop := c &&& (1 <<< LAST_SHIFT) ≠ CONTINUE

instance (c : Nat) : Decidable (marked_last c) := by
  unfold marked_last; infer_instance

/-- Exactly the final entry of the sequence is marked last. -/
def last_marked_only (cmds : List Nat) : Prop :=
  ∃ (front : List Nat) (final : Nat), cmds = front ++ [final] ∧
    (∀ c, c ∈ front → ¬ marked_last c) ∧ marked_last final

/-- The timing of the sequence `cmds` after `play(cmds)` in the state `s`,
under the update `g` of a tick: while entry `i` is the current one, that is
after `sequence_ticks (cmds.take i) + j` ticks with `j < entry_ticks` of the
entry, the audio duty bit is set, the cursor is on entry `i` and `j` less of
its duration remain; the audio duty bit is set after every number of ticks
below `sequence_ticks cmds`, and clear after `sequence_ticks cmds` ticks, with
the cursor on the final entry. -/
def sequence_timing (g : SysState → SysState) (cmds : List Nat) (s : SysState) : Prop :=
  (∀ i j, i < cmds.length → j < entry_ticks (pgm_read_byte (cmds.drop i)) →
    task_enabled AUDIO_TASK (g^[sequence_ticks (cmds.take i) + j] (play cmds s)) ∧
    (g^[sequence_ticks (cmds.take i) + j] (play cmds s)).audio =
      { audio_cmd_ptr := cmds.drop i,
        cycle_count := entry_duration (pgm_read_byte (cmds.drop i)) - j }) ∧
  (∀ k, k < sequence_ticks cmds → task_enabled AUDIO_TASK (g^[k] (play cmds s))) ∧
  ¬ task_enabled AUDIO_TASK (g^[sequence_ticks cmds] (play cmds s)) ∧
  (g^[sequence_ticks cmds] (play cmds s)).audio.audio_cmd_ptr = cmds.drop (cmds.length - 1)

/-- The order in which `poll_inputs` tests the channels. -/
def poll_order : List Nat :=
  [INPUT_EOT1, INPUT_EOT2, INPUT_UP, INPUT_EOT3, INPUT_EOT4, INPUT_DOWN, INPUT_RESTART,
    INPUT_PAUSE, INPUT_COPY]

/-- The channel `id` is asserted in the vectors `v`, of port B and of port D:
its bit, at the position of its mask, is set. -/
def channel_asserted (id : Nat) (v : Nat × Nat) : Bool :=
  if id = INPUT_EOT1 then v.2.testBit 1
  else if id = INPUT_EOT2 then v.2.testBit 2
  else if id = INPUT_UP then v.2.testBit 4
  else if id = INPUT_EOT3 then v.2.testBit 7
  else if id = INPUT_EOT4 then v.1.testBit 0
  else if id = INPUT_DOWN then v.1.testBit 2
  else if id = INPUT_RESTART then v.1.testBit 3
  else if id = INPUT_PAUSE then v.1.testBit 4
  else if id = INPUT_COPY then v.1.testBit 5
  else false

/-- The channel `id` is asserted in the vectors `now`, was not asserted in the
last observed vectors and, if it is EOT-3 or EOT-4, the second control is
classified as fitted. -/
def newly_asserted (id : Nat) (now : Nat × Nat) (i : InputState) : Prop :=
  channel_asserted id now = true ∧ channel_asserted id (i.LastB, i.LastD) = false ∧
  ((id = INPUT_EOT3 ∨ id = INPUT_EOT4) →
    i.SecondControlNotFittedCount < SECOND_CONTROL_TIMEOUT_CYCLES)

instance (id : Nat) (now : Nat × Nat) (i : InputState) : Decidable (newly_asserted id now i) := by
  unfold newly_asserted; infer_instance

/-- The asserted-input callbacks that `poll_inputs` makes, in the order of
the calls, for the debounced vectors `pb`, `pd` and the variables `i` of
input.c before the call. -/
def asserted_calls (pb pd : Nat) (i : InputState) : List Event :=
  if pb ≠ 0 ∨ pd ≠ 0 then
    let newb := clear_bits pb i.LastB
    let newd := clear_bits pd i.LastD
    let newb := if i.SecondControlNotFittedCount ≥ SECOND_CONTROL_TIMEOUT_CYCLES
      then clear_bits newb B_MASK_EOT4 else newb
    let newd := if i.SecondControlNotFittedCount ≥ SECOND_CONTROL_TIMEOUT_CYCLES
      then clear_bits newd D_MASK_EOT3 else newd
    (if newd &&& D_MASK_EOT1 ≠ 0 then [Event.asserted INPUT_EOT1] else []) ++
    (if newd &&& D_MASK_EOT2 ≠ 0 then [Event.asserted INPUT_EOT2] else []) ++
    (if newd &&& D_MASK_UP ≠ 0 then [Event.asserted INPUT_UP] else []) ++
    (if newd &&& D_MASK_EOT3 ≠ 0 then [Event.asserted INPUT_EOT3] else []) ++
    (if newb &&& B_MASK_EOT4 ≠ 0 then [Event.asserted INPUT_EOT4] else []) ++
    (if newb &&& B_MASK_DOWN ≠ 0 then [Event.asserted INPUT_DOWN] else []) ++
    (if newb &&& B_MASK_RESTART ≠ 0 then [Event.asserted INPUT_RESTART] else []) ++
    (if newb &&& B_MASK_PAUSE ≠ 0 then [Event.asserted INPUT_PAUSE] else []) ++
    (if newb &&& B_MASK_COPY ≠ 0 then [Event.asserted INPUT_COPY] else [])
  else []

/-- The event `e`, in the state `s`, makes asserted-input callbacks only for
channels that `allowed` admits in the state in which the callback is made: an
asserted-input event is for an admitted channel, and so is every callback in
the sequence of callbacks that a poll of the inputs makes. -/
def permitted (allowed : Nat → SysState → Prop) (e : Event) (s : SysState) : Prop :=
  match e with
  | .asserted id => allowed id s
  | .poll_inputs samples =>
    ∀ front id back,
      asserted_calls (debounced samples).1 (debounced samples).2 s.input =
        front ++ Event.asserted id :: back → allowed id (run front s)
  | _ => True

/-- The states reachable from start-up by events that make asserted-input
callbacks only for channels that `allowed` admits. -/
inductive ReachableBy (allowed : Nat → SysState → Prop) : SysState → Prop where
  | startup (eeprom : Nat → Nat) (flash : List Nat) :
      ReachableBy allowed (main_init eeprom flash)
  | step (e : Event) {s : SysState} : ReachableBy allowed s →
      permitted allowed e s → ReachableBy allowed (e.apply s)

/-- A countdown that has its expired flag set shows 0:00. -/
def zero_if_expired (c : CountdownType) : Prop :=
  c._expired ≠ 0 → c.minutes = 0 ∧ c.seconds = 0

instance (c : CountdownType) : Decidable (zero_if_expired c) := by
  unfold zero_if_expired; infer_instance

/-- Outside Setup mode every one of the four countdowns that has its expired
flag set shows 0:00. -/
def expired_at_zero (s : SysState) : Prop :=
  s.clock.mode = SETUP_MODE ∨ ∀ id, id < NUM_COUNTDOWNS → zero_if_expired (s.timer.Countdown id)

/-- Every event of the list `es`, run from the state `s`, is permitted in the
state in which it happens. -/
def permitted_run (allowed : Nat → SysState → Prop) : List Event → SysState → Prop
  | [], _ => True
  | e :: es, s => permitted allowed e s ∧ permitted_run allowed es (e.apply s)

/-- Channel `id` is one of the four end-of-turn channels. -/
def is_end_of_turn (id : Nat) : Prop :=
  id = INPUT_EOT1 ∨ id = INPUT_EOT2 ∨ id = INPUT_EOT3 ∨ id = INPUT_EOT4

instance (id : Nat) : Decidable (is_end_of_turn id) := by
  unfold is_end_of_turn; infer_instance

/-- The asserted-input callback for channel `id` is not an end-of-turn press
made while the was-running mask of the pause case is non-zero. -/
def turn_outside_pause (id : Nat) (s : SysState) : Prop :=
  is_end_of_turn id → s.clock.was_running = 0

instance (id : Nat) (s : SysState) : Decidable (turn_outside_pause id s) := by
  unfold turn_outside_pause; infer_instance

/-- Countdown `i` is running or is recorded in the was-running mask. -/
def lane_active (i : Nat) (s : SysState) : Prop :=
  (s.timer.Countdown i)._running ≠ 0 ∨ s.clock.was_running &&& (1 <<< i) ≠ 0

/-- At most one countdown of each pair (countdowns 1 and 2, countdowns 3 and
4) is running. -/
def pairs_exclusive (s : SysState) : Prop :=
  ¬ (countdown_is_running COUNTDOWN_1 s ≠ 0 ∧ countdown_is_running COUNTDOWN_2 s ≠ 0) ∧
  ¬ (countdown_is_running COUNTDOWN_3 s ≠ 0 ∧ countdown_is_running COUNTDOWN_4 s ≠ 0)

instance (s : SysState) : Decidable (pairs_exclusive s) := by
  unfold pairs_exclusive; infer_instance

/-- At most one countdown of each pair is running or recorded in the
was-running mask. -/
def pairs_reserved (s : SysState) : Prop :=
  ¬ (lane_active COUNTDOWN_1 s ∧ lane_active COUNTDOWN_2 s) ∧
  ¬ (lane_active COUNTDOWN_3 s ∧ lane_active COUNTDOWN_4 s)

/-- Raw pin values with the end-of-turn button 2 (PD2) held down. -/
def pins_eot2 : Nat → Nat × Nat := fun _ => (0x38, 0x04)

/-- The presses of the C27 counterexample, each button pressed and released
over passes of the main loop: end-of-turn 1, pause, end-of-turn 2 (while
paused), pause. -/
def turn_while_paused : List Event :=
  main_loop_pass pins_eot1 ++ main_loop_pass pins_idle ++
  main_loop_pass pins_pause ++ main_loop_pass pins_idle ++
  main_loop_pass pins_eot2 ++ main_loop_pass pins_idle ++
  main_loop_pass pins_pause ++ main_loop_pass pins_idle

/-- Raw pin values with the up button (PD4) held down. -/
def pins_up : Nat → Nat × Nat := fun _ => (0x38, 0x10)

/-- State `t` has the duty bits of state `s`, but possibly for the audio
bit. -/
def same_duties (s t : SysState) : Prop :=
  ∀ j, j ≠ AUDIO_TASK → j < 8 → t.timer.tasks.testBit j = s.timer.tasks.testBit j
/-! ## Lemmas on the countdown -/

theorem range_four : List.range 4 = [0, 1, 2, 3] := by decide

theorem process_countdown_eq (s : SysState) :
    process_countdown s =
      { s with timer.Countdown := fun id =>
          if id < NUM_COUNTDOWNS then countdown_tick (s.timer.Countdown id)
          else s.timer.Countdown id } := by
  have h : (process_countdown s).timer.Countdown = fun id =>
      if id < NUM_COUNTDOWNS then countdown_tick (s.timer.Countdown id)
      else s.timer.Countdown id := by
    funext id
    simp only [process_countdown, NUM_COUNTDOWNS, range_four, List.foldl_cons, List.foldl_nil,
      setCountdown, Function.update_apply]
    by_cases h0 : id = 0
    · subst h0; simp
    by_cases h1 : id = 1
    · subst h1; simp
    by_cases h2 : id = 2
    · subst h2; simp
    by_cases h3 : id = 3
    · subst h3; simp
    have : ¬ id < 4 := by omega
    simp [h0, h1, h2, h3, this]
  rw [← h]
  simp [process_countdown, NUM_COUNTDOWNS, range_four, setCountdown]

theorem process_countdown_iterate (N : Nat) (s : SysState) :
    (process_countdown^[N]) s =
      { s with timer.Countdown := fun id =>
          if id < NUM_COUNTDOWNS then (countdown_tick^[N]) (s.timer.Countdown id)
          else s.timer.Countdown id } := by
  induction N generalizing s with
  | zero => simp
  | succ n ih =>
    rw [Function.iterate_succ_apply, ih, process_countdown_eq]
    have h : (fun id => if id < NUM_COUNTDOWNS then
          (countdown_tick^[n]) (if id < NUM_COUNTDOWNS then countdown_tick (s.timer.Countdown id)
            else s.timer.Countdown id)
        else if id < NUM_COUNTDOWNS then countdown_tick (s.timer.Countdown id)
          else s.timer.Countdown id) =
        fun id => if id < NUM_COUNTDOWNS then
          (countdown_tick^[n + 1]) (s.timer.Countdown id) else s.timer.Countdown id := by
      funext id
      by_cases h : id < NUM_COUNTDOWNS <;> simp [h]
    simp only [h]

/-- The state of a started countdown after `N` countdown updates: while the
seconds begun do not exceed the time set it is running and shows the time
set less the seconds begun, afterwards it is stopped, expired and at 0:00. -/
theorem countdown_tick_iterate (m sec N : Nat) :
    (seconds_begun N ≤ 60 * m + sec →
      ((countdown_tick^[N]) (started m sec))._running = 1 ∧
      ((countdown_tick^[N]) (started m sec))._expired = 0 ∧
      ((countdown_tick^[N]) (started m sec))._subseconds + 16 * N = 125 * seconds_begun N ∧
      60 * ((countdown_tick^[N]) (started m sec)).minutes
        + ((countdown_tick^[N]) (started m sec)).seconds + seconds_begun N = 60 * m + sec) ∧
    (60 * m + sec < seconds_begun N →
      ((countdown_tick^[N]) (started m sec))._running = 0 ∧
      ((countdown_tick^[N]) (started m sec))._expired = 1 ∧
      ((countdown_tick^[N]) (started m sec)).minutes = 0 ∧
      ((countdown_tick^[N]) (started m sec)).seconds = 0) := by
  induction N with
  | zero => simp [seconds_begun, started, MULTIPLIER, DIVISOR]
  | succ n ih =>
    rw [Function.iterate_succ_apply']
    generalize (countdown_tick^[n]) (started m sec) = c at ih ⊢
    obtain ⟨ih1, ih2⟩ := ih
    have hb : seconds_begun n = (16 * n + 124) / 125 := by
      simp [seconds_begun, MULTIPLIER, DIVISOR]
    have hb1 : seconds_begun (n + 1) = (16 * (n + 1) + 124) / 125 := by
      simp [seconds_begun, MULTIPLIER, DIVISOR]
    by_cases hle : seconds_begun n ≤ 60 * m + sec
    · obtain ⟨hr, he, hs, hd⟩ := ih1 hle
      by_cases h16 : c._subseconds ≥ 16
      · have hsame : seconds_begun (n + 1) = seconds_begun n := by omega
        have hc : countdown_tick c = { c with _subseconds := c._subseconds - 16 } := by
          simp [countdown_tick, hr, MULTIPLIER, h16]
        rw [hc]
        refine ⟨fun _ => ⟨hr, he, ?_, ?_⟩, fun h => ?_⟩ <;> dsimp only <;> omega
      · have hnext : seconds_begun (n + 1) = seconds_begun n + 1 := by omega
        have hsub : (c._subseconds + (125 - 16)) % 256 = c._subseconds + 109 := by omega
        by_cases hs0 : c.seconds > 0
        · have hc : countdown_tick c =
              { c with _subseconds := c._subseconds + 109, seconds := c.seconds - 1 } := by
            simp [countdown_tick, hr, MULTIPLIER, DIVISOR, h16, hsub, hs0]
          rw [hc]
          refine ⟨fun _ => ⟨hr, he, ?_, ?_⟩, fun h => ?_⟩ <;> dsimp only <;> omega
        · by_cases hm0 : c.minutes > 0
          · have hc : countdown_tick c =
                { c with _subseconds := c._subseconds + 109, minutes := c.minutes - 1,
                         seconds := 59 } := by
              simp [countdown_tick, hr, MULTIPLIER, DIVISOR, h16, hsub, hs0, hm0]
            rw [hc]
            refine ⟨fun _ => ⟨hr, he, ?_, ?_⟩, fun h => ?_⟩ <;> dsimp only <;> omega
          · have hc : countdown_tick c =
                { c with _subseconds := c._subseconds + 109, _running := 0, _expired := 1 } := by
              simp [countdown_tick, hr, MULTIPLIER, DIVISOR, h16, hsub, hs0, hm0]
            rw [hc]
            refine ⟨fun h => ?_, fun _ => ⟨rfl, rfl, ?_, ?_⟩⟩ <;> dsimp only <;> omega
    · obtain ⟨hr, he, hm, hs⟩ := ih2 (by omega)
      have hmono : seconds_begun n ≤ seconds_begun (n + 1) := by omega
      have hc : countdown_tick c = c := by simp [countdown_tick, hr]
      rw [hc]
      exact ⟨fun h => by omega, fun _ => ⟨hr, he, hm, hs⟩⟩

/-! ## Frame lemmas: what the controller, the sequencer and the countdown never write -/

theorem foldl_preserves {σ ι : Type} (P : σ → Prop) (f : σ → ι → σ)
    (h : ∀ s i, P s → P (f s i)) (l : List ι) (s : σ) (hs : P s) : P (l.foldl f s) := by
  induction l generalizing s with
  | nil => exact hs
  | cons a l ih => exact ih _ (h s a hs)

@[simp] theorem clock_frame_setCountdown (id : Nat) (c : CountdownType) (s : SysState) :
    clock_frame (setCountdown id c s) = clock_frame s := rfl
@[simp] theorem clock_frame_start_countdown (id : Nat) (s : SysState) :
    clock_frame (start_countdown id s) = clock_frame s := rfl
@[simp] theorem clock_frame_stop_countdown (id : Nat) (s : SysState) :
    clock_frame (stop_countdown id s) = clock_frame s := rfl
@[simp] theorem clock_frame_set_countdown (id m sec : Nat) (s : SysState) :
    clock_frame (set_countdown id m sec s) = clock_frame s := rfl
@[simp] theorem clock_frame_turnled_on (id : Nat) (s : SysState) :
    clock_frame (turnled_on id s) = clock_frame s := rfl
@[simp] theorem clock_frame_turnled_off (id : Nat) (s : SysState) :
    clock_frame (turnled_off id s) = clock_frame s := rfl
@[simp] theorem clock_frame_enable_task (id : Nat) (s : SysState) :
    clock_frame (enable_task id s) = clock_frame s := rfl
@[simp] theorem clock_frame_disable_task (id : Nat) (s : SysState) :
    clock_frame (disable_task id s) = clock_frame s := rfl
@[simp] theorem clock_frame_write_eeprom (a v : Nat) (s : SysState) :
    clock_frame (write_eeprom a v s) = clock_frame s := rfl
@[simp] theorem clock_frame_copy_time (a b : Nat) (s : SysState) :
    clock_frame (copy_time a b s) = clock_frame s := rfl
@[simp] theorem clock_frame_process_one_command (s : SysState) :
    clock_frame (process_one_command s) = clock_frame s := by
  simp only [process_one_command]; split_ifs <;> rfl
@[simp] theorem clock_frame_play (cmds : List Nat) (s : SysState) :
    clock_frame (play cmds s) = clock_frame s := by
  simp [play]; rfl
@[simp] theorem clock_frame_process_audio (s : SysState) :
    clock_frame (process_audio s) = clock_frame s := by
  simp only [process_audio]; split_ifs <;> first | rfl | (simp; try rfl)
@[simp] theorem clock_frame_turnled_pin_low (id : Nat) (s : SysState) :
    clock_frame (turnled_pin_low id s) = clock_frame s := by
  unfold turnled_pin_low; split <;> rfl
@[simp] theorem clock_frame_turnled_pin_high (id : Nat) (s : SysState) :
    clock_frame (turnled_pin_high id s) = clock_frame s := by
  unfold turnled_pin_high; split <;> rfl
@[simp] theorem clock_frame_process_turnled (s : SysState) :
    clock_frame (process_turnled s) = clock_frame s := by
  have h : ∀ (t : SysState) (c : TurnledState),
      clock_frame { t with turnled := c } = clock_frame t := fun _ _ => rfl
  simp only [process_turnled]; split_ifs <;> simp [h]
@[simp] theorem clock_frame_process_countdown (s : SysState) :
    clock_frame (process_countdown s) = clock_frame s := by
  rw [process_countdown_eq]; rfl
theorem clock_frame_restart_body (st : SysState × Nat) (id : Nat) :
    clock_frame (restart_body st id).1 = clock_frame st.1 := rfl
@[simp] theorem clock_frame_restart (s : SysState) :
    clock_frame (restart s) = clock_frame s := by
  have h := foldl_preserves (fun st : SysState × Nat => clock_frame st.1 = clock_frame s)
    restart_body (fun st i hst => (clock_frame_restart_body st i).trans hst)
    (List.range NUM_COUNTDOWNS) (s, 0) rfl
  exact h
@[simp] theorem clock_frame_stop_and_turn_off (s : SysState) (id : Nat) :
    clock_frame (stop_and_turn_off s id) = clock_frame s := rfl
theorem clock_frame_foldl (f : SysState → Nat → SysState)
    (h : ∀ s i, clock_frame (f s i) = clock_frame s) (l : List Nat) (s : SysState) :
    clock_frame (l.foldl f s) = clock_frame s :=
  foldl_preserves (fun t => clock_frame t = clock_frame s) f
    (fun t i ht => (h t i).trans ht) l s rfl
@[simp] theorem clock_frame_pause_body (s : SysState) (id : Nat) :
    clock_frame (pause_body s id) = clock_frame s := rfl
@[simp] theorem clock_frame_resume_body (s : SysState) (id : Nat) :
    clock_frame (resume_body s id) = clock_frame s := by
  simp only [resume_body]; split_ifs <;> rfl
@[simp] theorem clock_frame_play_mode_pause (s : SysState) :
    clock_frame (play_mode_pause s) = clock_frame s := by
  simp only [play_mode_pause]
  split_ifs
  · rw [clock_frame_foldl _ clock_frame_pause_body]; rfl
  · rw [clock_frame_foldl _ clock_frame_resume_body]
@[simp] theorem clock_frame_play_mode_input_asserted (id : Nat) (s : SysState) :
    clock_frame (play_mode_input_asserted id s) = clock_frame s := by
  simp only [play_mode_input_asserted]
  split_ifs <;> first | rfl | (simp; try rfl)
@[simp] theorem clock_frame_setup_select (cd : Nat) (s : SysState) :
    clock_frame (setup_select cd s) = clock_frame s := by
  simp only [setup_select]; split_ifs <;> rfl
@[simp] theorem clock_frame_setup_adjust (delta : Int) (s : SysState) :
    clock_frame (setup_adjust delta s) = clock_frame s := by
  simp only [setup_adjust]; split_ifs <;> rfl
@[simp] theorem clock_frame_setup_mode_input_asserted (id : Nat) (s : SysState) :
    clock_frame (setup_mode_input_asserted id s) = clock_frame s := by
  simp only [setup_mode_input_asserted]
  split_ifs <;> first | rfl | (simp; try rfl)
@[simp] theorem clock_frame_input_asserted (id : Nat) (s : SysState) :
    clock_frame (input_asserted id s) = clock_frame s := by
  simp only [input_asserted]
  split_ifs <;> first | rfl | (simp; try rfl)
theorem clock_frame_commit_body (st : SysState × Nat) (id : Nat) :
    clock_frame (commit_body st id).1 = clock_frame st.1 := rfl
@[simp] theorem clock_frame_broadcast_body (s : SysState) (id : Nat) :
    clock_frame (broadcast_body s id) = clock_frame s := by
  simp only [broadcast_body]; split_ifs <;> rfl
@[simp] theorem clock_frame_input_long_push (id : Nat) (s : SysState) :
    clock_frame (input_long_push id s) = clock_frame s := by
  simp only [input_long_push]
  split_ifs
  · rw [clock_frame_foldl _ clock_frame_stop_and_turn_off]; rfl
  · rfl
  · rw [clock_frame_restart]
    exact foldl_preserves (fun st : SysState × Nat => clock_frame st.1 = clock_frame s)
      commit_body (fun st i hst => (clock_frame_commit_body st i).trans hst)
      (List.range NUM_COUNTDOWNS) (_, 0) rfl
  · rw [clock_frame_foldl _ clock_frame_broadcast_body]
  · rfl
  · rfl
@[simp] theorem clock_frame_input_repeat (id : Nat) (s : SysState) :
    clock_frame (input_repeat id s) = clock_frame s := by
  simp only [input_repeat]
  split_ifs <;> first | rfl | (simp; try rfl)

theorem stamp_of_clock_frame {s t : SysState} (h : clock_frame t = clock_frame s) :
    stamp t = stamp s := by
  simp only [clock_frame, Prod.mk.injEq] at h
  simp [stamp, h.2.1, h.2.2]

theorem stamp_ite (c : Prop) [Decidable c] (f : SysState → SysState) (s : SysState)
    (h : ∀ t, stamp (f t) = stamp t) : stamp (if c then f s else s) = stamp s := by
  split_ifs
  · exact h s
  · rfl

theorem stamp_held_input (get : SysState → Nat) (put : Nat → SysState → SysState)
    (input : Nat) (hput : ∀ v t, stamp (put v t) = stamp t) (s : SysState) :
    stamp (held_input get put input s) = stamp s := by
  have hl : ∀ t, stamp (input_long_push input t) = stamp t :=
    fun t => stamp_of_clock_frame (clock_frame_input_long_push input t)
  have hr : ∀ t, stamp (input_repeat input t) = stamp t :=
    fun t => stamp_of_clock_frame (clock_frame_input_repeat input t)
  simp only [held_input]
  split_ifs <;> simp [hl, hr, hput]

theorem stamp_process_inputs (s : SysState) : stamp (process_inputs s) = stamp s := by
  have h0 : stamp (second_control_step s) = stamp s := by
    unfold second_control_step; split_ifs <;> rfl
  have h1 : ∀ t, stamp (held_up t) = stamp t := fun t =>
    stamp_ite _ _ _ (stamp_held_input (fun t => t.input.UpCounter)
      (fun v t => { t with input.UpCounter := v }) INPUT_UP (fun _ _ => rfl))
  have h2 : ∀ t, stamp (held_down t) = stamp t := fun t =>
    stamp_ite _ _ _ (stamp_held_input (fun t => t.input.DownCounter)
      (fun v t => { t with input.DownCounter := v }) INPUT_DOWN (fun _ _ => rfl))
  have h3 : ∀ t, stamp (held_copy t) = stamp t := fun t =>
    stamp_ite _ _ _ (stamp_held_input (fun t => t.input.CopyCounter)
      (fun v t => { t with input.CopyCounter := v }) INPUT_COPY (fun _ _ => rfl))
  have h4 : ∀ t, stamp (held_pause t) = stamp t := fun t =>
    stamp_ite _ _ _ (stamp_held_input (fun t => t.input.PauseCounter)
      (fun v t => { t with input.PauseCounter := v }) INPUT_PAUSE (fun _ _ => rfl))
  unfold process_inputs
  rw [h4, h3, h2, h1, h0]

/-- The effect of the tick interrupt on the timestamp and its accumulator. -/
theorem stamp_ISR (s : SysState) :
    stamp (ISR_TIMER2_OVF s) =
      if (s.timer.count + MULTIPLIER) % 256 ≥ DIVISOR then
        ((s.timer.__timer_timestamp + 1) % 256, (s.timer.count + MULTIPLIER) % 256 - DIVISOR)
      else (s.timer.__timer_timestamp, (s.timer.count + MULTIPLIER) % 256) := by
  have ha : ∀ t, stamp (process_audio t) = stamp t :=
    fun t => stamp_of_clock_frame (clock_frame_process_audio t)
  have hl : ∀ t, stamp (process_turnled t) = stamp t :=
    fun t => stamp_of_clock_frame (clock_frame_process_turnled t)
  have hc : ∀ t, stamp (process_countdown t) = stamp t :=
    fun t => stamp_of_clock_frame (clock_frame_process_countdown t)
  unfold ISR_TIMER2_OVF run_task
  rw [stamp_ite _ _ _ stamp_process_inputs, stamp_ite _ _ _ hc, stamp_ite _ _ _ hl,
    stamp_ite _ _ _ ha]
  unfold advance_timestamp
  simp only []
  split_ifs <;> rfl

theorem started_lane (s : SysState) (id m sec : Nat) (hm : m < 256) (hs : sec < 256) :
    (start_countdown id (set_countdown id m sec s)).timer.Countdown id = started m sec := by
  simp [start_countdown, set_countdown, setCountdown, started, Nat.mod_eq_of_lt hm,
    Nat.mod_eq_of_lt hs]

/-! ### Bit operations -/

theorem and_one_shiftLeft_ne_zero (x i : Nat) : x &&& (1 <<< i) ≠ 0 ↔ x.testBit i = true := by
  rw [Nat.one_shiftLeft]
  constructor
  · intro h
    by_contra hx
    apply h
    apply Nat.eq_of_testBit_eq
    intro j
    simp only [Nat.testBit_and, Nat.testBit_two_pow, Nat.zero_testBit]
    by_cases hij : i = j
    · subst hij; simp [hx]
    · simp [hij]
  · intro h h0
    have := congrArg (fun y => Nat.testBit y i) h0
    simp [Nat.testBit_and, Nat.testBit_two_pow_self, h] at this

theorem and_one_shiftLeft_eq_zero (x i : Nat) : x &&& (1 <<< i) = 0 ↔ x.testBit i = false := by
  have := and_one_shiftLeft_ne_zero x i
  constructor
  · intro h; by_contra hx; exact (this.2 (by simpa using hx)) h
  · intro h; by_contra hx; rw [this.1 hx] at h; exact Bool.noConfusion h

theorem testBit_clear_bits (x k j : Nat) :
    (clear_bits x (1 <<< k)).testBit j = (x.testBit j && decide (j < 8) && !decide (k = j)) := by
  have h255 : (255 : Nat) = 2 ^ 8 - 1 := by decide
  have h256 : (256 : Nat) = 2 ^ 8 := by decide
  simp only [clear_bits, Nat.one_shiftLeft, Nat.testBit_and, Nat.testBit_xor]
  rw [h255, h256, Nat.testBit_two_pow_sub_one, Nat.testBit_mod_two_pow, Nat.testBit_two_pow]
  by_cases h1 : j < 8 <;> by_cases h2 : k = j <;> simp [h1, h2]

theorem testBit_set_bits (x k j : Nat) :
    (set_bits x (1 <<< k)).testBit j = (decide (j < 8) && (x.testBit j || decide (k = j))) := by
  have h256 : (256 : Nat) = 2 ^ 8 := by decide
  simp only [set_bits, Nat.one_shiftLeft]
  rw [h256, Nat.testBit_mod_two_pow, Nat.testBit_or, Nat.testBit_two_pow]

theorem restart_fold_eq (s : SysState) :
    (List.range NUM_COUNTDOWNS).foldl restart_body (s, 0) =
      (restart_body (restart_body (restart_body (restart_body (s, 0) 0) 1) 2) 3) := by
  simp [NUM_COUNTDOWNS, range_four]

theorem restart_body_eeprom (st : SysState × Nat) (id : Nat) :
    (restart_body st id).1.eeprom = st.1.eeprom := rfl
theorem restart_body_addr (st : SysState × Nat) (id : Nat) :
    (restart_body st id).2 = (((st.2 + 1) % 256) + 1) % 256 := rfl
theorem restart_body_Countdown (st : SysState × Nat) (id : Nat) :
    (restart_body st id).1.timer.Countdown = Function.update st.1.timer.Countdown id
      { minutes := if st.1.eeprom st.2 > 99 then 10 else st.1.eeprom st.2,
        seconds := if st.1.eeprom ((st.2 + 1) % 256) > 59 then 0
          else st.1.eeprom ((st.2 + 1) % 256),
        _running := 0, _expired := 0, _subseconds := 0 } := by
  have h1 : (if st.1.eeprom st.2 > 99 then 10 else st.1.eeprom st.2) % 256
      = if st.1.eeprom st.2 > 99 then 10 else st.1.eeprom st.2 := by
    split_ifs <;> omega
  have h2 : (if st.1.eeprom ((st.2 + 1) % 256) > 59 then 0
      else st.1.eeprom ((st.2 + 1) % 256)) % 256
      = if st.1.eeprom ((st.2 + 1) % 256) > 59 then 0
          else st.1.eeprom ((st.2 + 1) % 256) := by
    split_ifs <;> omega
  simp only [restart_body, turnled_off, set_countdown, setCountdown, read_eeprom, h1, h2]

theorem restart_Countdown (s : SysState) (id : Nat) :
    (restart s).timer.Countdown id =
      if id < NUM_COUNTDOWNS then loaded s.eeprom id else s.timer.Countdown id := by
  have h : (restart s).timer.Countdown =
      ((List.range NUM_COUNTDOWNS).foldl restart_body (s, 0)).1.timer.Countdown := rfl
  rw [h, restart_fold_eq]
  simp only [restart_body_Countdown, restart_body_eeprom, restart_body_addr, loaded,
    Function.update_apply, NUM_COUNTDOWNS]
  by_cases h0 : id = 0
  · subst h0; simp
  by_cases h1 : id = 1
  · subst h1; simp
  by_cases h2 : id = 2
  · subst h2; simp
  by_cases h3 : id = 3
  · subst h3; simp
  have : ¬ id < 4 := by omega
  simp [h0, h1, h2, h3, this]

/-! ### What `restart` and `play` write -/

@[simp] theorem restart_audio (s : SysState) : (restart s).audio = s.audio := rfl
@[simp] theorem restart_regs (s : SysState) : (restart s).regs = s.regs := rfl
@[simp] theorem restart_input (s : SysState) : (restart s).input = s.input := rfl
@[simp] theorem restart_eeprom (s : SysState) : (restart s).eeprom = s.eeprom := rfl
@[simp] theorem restart_tasks (s : SysState) : (restart s).timer.tasks = s.timer.tasks := rfl
@[simp] theorem restart_clock (s : SysState) :
    (restart s).clock = { s.clock with was_running := 0, update_display := 1 } := rfl
@[simp] theorem restart_ledstate (s : SysState) :
    (restart s).turnled.ledstate =
      clear_bits (clear_bits (clear_bits (clear_bits s.turnled.ledstate (1 <<< 0)) (1 <<< 1))
        (1 <<< 2)) (1 <<< 3) := rfl
@[simp] theorem restart_turnled_count (s : SysState) :
    (restart s).turnled.count = s.turnled.count := rfl
@[simp] theorem process_one_command_timer (s : SysState) :
    (process_one_command s).timer = s.timer := by
  simp only [process_one_command]; split_ifs <;> rfl
@[simp] theorem process_one_command_clock (s : SysState) :
    (process_one_command s).clock = s.clock := by
  simp only [process_one_command]; split_ifs <;> rfl
@[simp] theorem process_one_command_turnled (s : SysState) :
    (process_one_command s).turnled = s.turnled := by
  simp only [process_one_command]; split_ifs <;> rfl
@[simp] theorem process_one_command_eeprom (s : SysState) :
    (process_one_command s).eeprom = s.eeprom := by
  simp only [process_one_command]; split_ifs <;> rfl
@[simp] theorem process_one_command_input (s : SysState) :
    (process_one_command s).input = s.input := by
  simp only [process_one_command]; split_ifs <;> rfl
@[simp] theorem play_Countdown (cmds : List Nat) (s : SysState) :
    (play cmds s).timer.Countdown = s.timer.Countdown := by
  simp [play, enable_task]
@[simp] theorem play_clock (cmds : List Nat) (s : SysState) :
    (play cmds s).clock = s.clock := by
  simp [play, enable_task]
@[simp] theorem play_turnled (cmds : List Nat) (s : SysState) :
    (play cmds s).turnled = s.turnled := by
  simp [play, enable_task]
@[simp] theorem play_eeprom (cmds : List Nat) (s : SysState) :
    (play cmds s).eeprom = s.eeprom := by
  simp [play, enable_task]
@[simp] theorem play_input (cmds : List Nat) (s : SysState) :
    (play cmds s).input = s.input := by
  simp [play, enable_task]
@[simp] theorem play_tasks (cmds : List Nat) (s : SysState) :
    (play cmds s).timer.tasks = set_bits s.timer.tasks (1 <<< AUDIO_TASK) := by
  simp [play, enable_task]
theorem process_one_command_tick (s : SysState) (h : s.audio.audio_cmd_ptr = tick) :
    process_one_command s =
      { s with audio.cycle_count := 1, regs.TCCR1A := TCCR1A_TOGGLE,
               regs.OCR1A := TOP_FOR_HZ FREQ_D7 } := by
  have e1 : (pgm_read_byte tick >>> PERIOD_SHIFT) &&& PERIOD_MASK = 1 := by decide
  have e2 : pgm_read_byte tick &&& TONE_MASK = 3 := by decide
  simp only [process_one_command, h, e1, e2]
  simp [TONE_NONE, TONE_A4, TONE_D5, TONE_E5, TONE_D7]
theorem play_tick_audio (s : SysState) :
    (play tick s).audio = { audio_cmd_ptr := tick, cycle_count := 1 } := by
  simp only [play]
  rw [process_one_command_tick _ rfl]
  rfl
theorem play_tick_regs (s : SysState) :
    (play tick s).regs =
      { TCCR1A := TCCR1A_TOGGLE, OCR1A := TOP_FOR_HZ FREQ_D7,
        PRR := clear_bits s.regs.PRR (1 <<< PRTIM1), PORTB := s.regs.PORTB,
        PORTD := s.regs.PORTD } := by
  simp only [play]
  rw [process_one_command_tick _ rfl]
  rfl

/-- In Play mode the end-of-turn button of countdown `k` runs one of the four
end-of-turn cases of `play_mode_input_asserted`. -/
theorem play_eot_eq (s : SysState) (k : Nat) (hk : k < NUM_COUNTDOWNS)
    (hmode : s.clock.mode = PLAY_MODE) :
    input_asserted (INPUT_EOT1 + k) s =
      if countdown_has_expired k s = 0 then
        start_countdown (k ^^^ 1) (stop_countdown k (turnled_on (k ^^^ 1) (turnled_off k
          (play tick { s with clock.update_display := 1 }))))
      else { s with clock.update_display := 1 } := by
  unfold input_asserted
  rw [if_pos hmode]
  simp only [NUM_COUNTDOWNS] at hk
  interval_cases k <;> rfl

/-! ### The pause case -/

theorem countdown_tick_stopped (c : CountdownType) (h : c._running = 0) :
    countdown_tick c = c := by
  simp [countdown_tick, h]

theorem countdown_tick_iterate_stopped (c : CountdownType) (h : c._running = 0) (N : Nat) :
    (countdown_tick^[N]) c = c := by
  induction N with
  | zero => rfl
  | succ n ih => rw [Function.iterate_succ_apply', ih, countdown_tick_stopped c h]

theorem running_mask_bit (s : SysState) (i : Nat) (hi : i < NUM_COUNTDOWNS) :
    running_mask s &&& (1 <<< i) ≠ 0 ↔ (s.timer.Countdown i)._running ≠ 0 := by
  simp only [NUM_COUNTDOWNS] at hi
  simp only [running_mask, countdown_is_running]
  interval_cases i <;>
  by_cases h0 : (s.timer.Countdown 0)._running = 0 <;>
  by_cases h1 : (s.timer.Countdown 1)._running = 0 <;>
  by_cases h2 : (s.timer.Countdown 2)._running = 0 <;>
  by_cases h3 : (s.timer.Countdown 3)._running = 0 <;>
  simp only [h0, h1, h2, h3, ne_eq, not_true_eq_false, not_false_eq_true, if_true, if_false] <;>
  decide

theorem running_mask_eq_zero (s : SysState) :
    running_mask s = 0 ↔ ∀ i, i < NUM_COUNTDOWNS → (s.timer.Countdown i)._running = 0 := by
  constructor
  · intro h i hi
    by_contra hne
    have := (running_mask_bit s i hi).2 hne
    rw [h] at this
    simp at this
  · intro h
    simp [running_mask, countdown_is_running, h 0 (by decide), h 1 (by decide), h 2 (by decide),
      h 3 (by decide)]
    decide

theorem pause_fold_Countdown (s : SysState) (id : Nat) :
    ((List.range NUM_COUNTDOWNS).foldl pause_body s).timer.Countdown id =
      if id < NUM_COUNTDOWNS then { s.timer.Countdown id with _running := 0 }
      else s.timer.Countdown id := by
  simp only [NUM_COUNTDOWNS, range_four, List.foldl_cons, List.foldl_nil, pause_body,
    stop_countdown, setCountdown, Function.update_apply]
  by_cases h0 : id = 0
  · subst h0; simp
  by_cases h1 : id = 1
  · subst h1; simp
  by_cases h2 : id = 2
  · subst h2; simp
  by_cases h3 : id = 3
  · subst h3; simp
  have : ¬ id < 4 := by omega
  simp [h0, h1, h2, h3, this]

theorem pause_fold_clock (s : SysState) (h : s.clock.was_running = 0) :
    ((List.range NUM_COUNTDOWNS).foldl pause_body s).clock =
      { s.clock with was_running := running_mask s } := by
  simp [NUM_COUNTDOWNS, range_four, pause_body, stop_countdown, setCountdown, running_mask,
    countdown_is_running, h]
theorem resume_body_clock (s : SysState) (id : Nat) :
    (resume_body s id).clock = s.clock := by
  simp only [resume_body]; split_ifs <;> rfl

theorem resume_body_Countdown (s : SysState) (id j : Nat) :
    (resume_body s id).timer.Countdown j =
      if j = id ∧ s.clock.was_running &&& (1 <<< id) ≠ 0
      then { s.timer.Countdown j with _running := 1 } else s.timer.Countdown j := by
  simp only [resume_body]
  by_cases hb : s.clock.was_running &&& (1 <<< id) ≠ 0
  · by_cases hj : j = id
    · subst hj; simp [hb, start_countdown, setCountdown]
    · simp [hb, hj, start_countdown, setCountdown, Function.update_noteq hj]
  · simp [hb]

theorem resume_fold_Countdown (s : SysState) (j : Nat) :
    ((List.range NUM_COUNTDOWNS).foldl resume_body s).timer.Countdown j =
      if j < NUM_COUNTDOWNS ∧ s.clock.was_running &&& (1 <<< j) ≠ 0
      then { s.timer.Countdown j with _running := 1 } else s.timer.Countdown j := by
  simp only [NUM_COUNTDOWNS, range_four, List.foldl_cons, List.foldl_nil,
    resume_body_Countdown, resume_body_clock]
  by_cases h0 : j = 0
  · subst h0; simp
  by_cases h1 : j = 1
  · subst h1; simp
  by_cases h2 : j = 2
  · subst h2; simp
  by_cases h3 : j = 3
  · subst h3; simp
  have : ¬ j < 4 := by omega
  simp [h0, h1, h2, h3, this]

/-- The first pause press: from Play mode with an empty mask to `Paused`. -/
theorem pause_press_pauses (s : SysState) (hmode : s.clock.mode = PLAY_MODE)
    (hw : s.clock.was_running = 0) : Paused s (input_asserted INPUT_PAUSE s) := by
  have he : input_asserted INPUT_PAUSE s =
      (List.range NUM_COUNTDOWNS).foldl pause_body
        { s with clock.update_display := 1, clock.was_running := 0 } := by
    unfold input_asserted
    rw [if_pos hmode]
    simp [play_mode_input_asserted, play_mode_pause, hw, INPUT_PAUSE, INPUT_EOT1, INPUT_EOT2,
      INPUT_EOT3, INPUT_EOT4]
  rw [he]
  refine ⟨?_, ?_, ?_⟩
  · rw [pause_fold_clock _ rfl]; exact hmode
  · rw [pause_fold_clock _ rfl]; rfl
  · intro id hid
    rw [pause_fold_Countdown, if_pos hid]

/-- The second pause press: from `Paused` back to the countdowns of `s`. -/
theorem pause_press_resumes (s t : SysState) (h : Paused s t) (id : Nat)
    (hid : id < NUM_COUNTDOWNS) : same_time id s (input_asserted INPUT_PAUSE t) := by
  obtain ⟨hmode, hw, hc⟩ := h
  have he : input_asserted INPUT_PAUSE t =
      play_mode_pause { t with clock.update_display := 1 } := by
    unfold input_asserted
    rw [if_pos hmode]
    simp [play_mode_input_asserted, INPUT_PAUSE, INPUT_EOT1, INPUT_EOT2, INPUT_EOT3, INPUT_EOT4]
  rw [he]
  unfold play_mode_pause
  by_cases h0 : running_mask s = 0
  · have hz : ({ t with clock.update_display := 1 } : SysState).clock.was_running = 0 := by
      show t.clock.was_running = 0
      rw [hw, h0]
    rw [if_pos hz]
    have hrun := (running_mask_eq_zero s).1 h0 id hid
    simp only [same_time, countdown_is_running, pause_fold_Countdown, if_pos hid]
    show _ ∧ (t.timer.Countdown id).minutes = _ ∧ (t.timer.Countdown id).seconds = _ ∧
      (t.timer.Countdown id)._subseconds = _
    rw [hc id hid]
    simp [hrun]
  · have hz : ¬ ({ t with clock.update_display := 1 } : SysState).clock.was_running = 0 := by
      show ¬ t.clock.was_running = 0
      rw [hw]; exact h0
    rw [if_neg hz]
    simp only [same_time, countdown_is_running, resume_fold_Countdown]
    show (if ((if id < NUM_COUNTDOWNS ∧ t.clock.was_running &&& (1 <<< id) ≠ 0
        then { t.timer.Countdown id with _running := 1 }
        else t.timer.Countdown id) : CountdownType)._running ≠ 0 then 1 else 0) = _ ∧ _
    rw [hw, hc id hid]
    by_cases hb : running_mask s &&& (1 <<< id) ≠ 0
    · have hr := (running_mask_bit s id hid).1 hb
      simp [hid, hb, hr]
    · have hr : (s.timer.Countdown id)._running = 0 := by
        by_contra hne
        exact hb ((running_mask_bit s id hid).2 hne)
      simp [hid, hb, hr]

theorem paused_process_countdown (s t : SysState) (h : Paused s t) :
    Paused s (process_countdown t) := by
  obtain ⟨hmode, hw, hc⟩ := h
  rw [process_countdown_eq]
  refine ⟨hmode, hw, ?_⟩
  intro id hid
  simp only [if_pos hid]
  rw [hc id hid, countdown_tick_stopped _ rfl]

theorem paused_process_countdown_iterate (s t : SysState) (h : Paused s t) (N : Nat) :
    Paused s ((process_countdown^[N]) t) := by
  induction N with
  | zero => exact h
  | succ n ih =>
    rw [Function.iterate_succ_apply']
    exact paused_process_countdown s _ ih
theorem input_long_push_play (id : Nat) (s : SysState) (hmode : s.clock.mode = PLAY_MODE)
    (hid : id ≠ INPUT_PAUSE) : input_long_push id s = s := by
  simp [input_long_push, hmode, hid]

theorem input_repeat_play (id : Nat) (s : SysState) (hmode : s.clock.mode = PLAY_MODE) :
    input_repeat id s = s := by
  simp [input_repeat, hmode, PLAY_MODE, SETUP_MODE]

/-- In Play mode a held input other than pause only advances its counter. -/
theorem held_input_play (get : SysState → Nat) (put : Nat → SysState → SysState)
    (input : Nat) (s : SysState) (hput : ∀ v t, (put v t).clock = t.clock)
    (hmode : s.clock.mode = PLAY_MODE) (hid : input ≠ INPUT_PAUSE) :
    held_input get put input s = if get s < 255 then put (get s + 1) s else s := by
  have hm : ∀ v, (put v s).clock.mode = PLAY_MODE := fun v => by rw [hput]; exact hmode
  simp only [held_input]
  split_ifs <;>
    simp only [input_long_push_play _ _ (hm _) hid, input_repeat_play _ _ (hm _)]

theorem process_inputs_play (s : SysState) (hmode : s.clock.mode = PLAY_MODE)
    (hp : s.input.LastB &&& B_MASK_PAUSE = 0) :
    (process_inputs s).timer = s.timer ∧ (process_inputs s).clock = s.clock ∧
      (process_inputs s).input.LastB = s.input.LastB := by
  have e1 : (second_control_step s).timer = s.timer ∧ (second_control_step s).clock = s.clock ∧
      (second_control_step s).input.LastB = s.input.LastB := by
    unfold second_control_step; split_ifs <;> exact ⟨rfl, rfl, rfl⟩
  have g1 : ∀ u : SysState, u.clock.mode = PLAY_MODE →
      (held_up u).timer = u.timer ∧ (held_up u).clock = u.clock ∧
        (held_up u).input.LastB = u.input.LastB := by
    intro u hu
    unfold held_up
    rw [held_input_play (fun t => t.input.UpCounter)
      (fun v t => { t with input.UpCounter := v }) INPUT_UP u (fun _ _ => rfl) hu (by decide)]
    split_ifs <;> exact ⟨rfl, rfl, rfl⟩
  have g2 : ∀ u : SysState, u.clock.mode = PLAY_MODE →
      (held_down u).timer = u.timer ∧ (held_down u).clock = u.clock ∧
        (held_down u).input.LastB = u.input.LastB := by
    intro u hu
    unfold held_down
    rw [held_input_play (fun t => t.input.DownCounter)
      (fun v t => { t with input.DownCounter := v }) INPUT_DOWN u (fun _ _ => rfl) hu
      (by decide)]
    split_ifs <;> exact ⟨rfl, rfl, rfl⟩
  have g3 : ∀ u : SysState, u.clock.mode = PLAY_MODE →
      (held_copy u).timer = u.timer ∧ (held_copy u).clock = u.clock ∧
        (held_copy u).input.LastB = u.input.LastB := by
    intro u hu
    unfold held_copy
    rw [held_input_play (fun t => t.input.CopyCounter)
      (fun v t => { t with input.CopyCounter := v }) INPUT_COPY u (fun _ _ => rfl) hu
      (by decide)]
    split_ifs <;> exact ⟨rfl, rfl, rfl⟩
  have m1 : (second_control_step s).clock.mode = PLAY_MODE := by rw [e1.2.1]; exact hmode
  have e2 := g1 _ m1
  have m2 : (held_up (second_control_step s)).clock.mode = PLAY_MODE := by
    rw [e2.2.1]; exact m1
  have e3 := g2 _ m2
  have m3 : (held_down (held_up (second_control_step s))).clock.mode = PLAY_MODE := by
    rw [e3.2.1]; exact m2
  have e4 := g3 _ m3
  have hp4 : (held_copy (held_down (held_up (second_control_step s)))).input.LastB
      &&& B_MASK_PAUSE = 0 := by
    rw [e4.2.2, e3.2.2, e2.2.2, e1.2.2]; exact hp
  unfold process_inputs
  rw [show held_pause (held_copy (held_down (held_up (second_control_step s)))) =
    held_copy (held_down (held_up (second_control_step s))) from by
      unfold held_pause; rw [if_neg (by simpa using hp4)]]
  exact ⟨by rw [e4.1, e3.1, e2.1, e1.1], by rw [e4.2.1, e3.2.1, e2.2.1, e1.2.1],
    by rw [e4.2.2, e3.2.2, e2.2.2, e1.2.2]⟩

theorem pause_view_process_audio (s : SysState) :
    pause_view (process_audio s) = pause_view s := by
  simp only [process_audio, pause_view]
  split_ifs <;> simp [disable_task]

theorem pause_view_process_turnled (s : SysState) :
    pause_view (process_turnled s) = pause_view s := by
  have h1 : ∀ id t, pause_view (turnled_pin_low id t) = pause_view t := by
    intro id t; unfold turnled_pin_low; split <;> rfl
  have h2 : ∀ id t, pause_view (turnled_pin_high id t) = pause_view t := by
    intro id t; unfold turnled_pin_high; split <;> rfl
  have h3 : ∀ (t : SysState) (c : TurnledState),
      pause_view { t with turnled := c } = pause_view t := fun _ _ => rfl
  simp only [process_turnled]
  split_ifs <;> simp [h1, h2, h3]

theorem paused_of_pause_view {s t u : SysState} (h : pause_view u = pause_view t)
    (hp : Paused s t ∧ t.input.LastB &&& B_MASK_PAUSE = 0) :
    Paused s u ∧ u.input.LastB &&& B_MASK_PAUSE = 0 := by
  simp only [pause_view, Prod.mk.injEq] at h
  obtain ⟨h1, h2, h3⟩ := h
  simp only [Paused] at hp ⊢
  rw [h1, h2, h3]
  exact hp

/-- A tick interrupt leaves a paused state paused, as long as the pause
button is not held. -/
theorem paused_ISR (s t : SysState)
    (hp : Paused s t ∧ t.input.LastB &&& B_MASK_PAUSE = 0) :
    Paused s (ISR_TIMER2_OVF t) ∧ (ISR_TIMER2_OVF t).input.LastB &&& B_MASK_PAUSE = 0 := by
  have key : ∀ (c : Prop) [Decidable c] (f : SysState → SysState) (u : SysState),
      (∀ v, (Paused s v ∧ v.input.LastB &&& B_MASK_PAUSE = 0) →
        (Paused s (f v) ∧ (f v).input.LastB &&& B_MASK_PAUSE = 0)) →
      (Paused s u ∧ u.input.LastB &&& B_MASK_PAUSE = 0) →
      (Paused s (if c then f u else u) ∧
        (if c then f u else u).input.LastB &&& B_MASK_PAUSE = 0) := by
    intro c _ f u hf hu
    split_ifs
    · exact hf u hu
    · exact hu
  have ha : ∀ v, (Paused s v ∧ v.input.LastB &&& B_MASK_PAUSE = 0) →
      (Paused s (process_audio v) ∧ (process_audio v).input.LastB &&& B_MASK_PAUSE = 0) :=
    fun v hv => paused_of_pause_view (pause_view_process_audio v) hv
  have hl : ∀ v, (Paused s v ∧ v.input.LastB &&& B_MASK_PAUSE = 0) →
      (Paused s (process_turnled v) ∧ (process_turnled v).input.LastB &&& B_MASK_PAUSE = 0) :=
    fun v hv => paused_of_pause_view (pause_view_process_turnled v) hv
  have hc : ∀ v, (Paused s v ∧ v.input.LastB &&& B_MASK_PAUSE = 0) →
      (Paused s (process_countdown v) ∧
        (process_countdown v).input.LastB &&& B_MASK_PAUSE = 0) := by
    intro v hv
    refine ⟨paused_process_countdown s v hv.1, ?_⟩
    rw [process_countdown_eq]
    exact hv.2
  have hi : ∀ v, (Paused s v ∧ v.input.LastB &&& B_MASK_PAUSE = 0) →
      (Paused s (process_inputs v) ∧ (process_inputs v).input.LastB &&& B_MASK_PAUSE = 0) := by
    intro v hv
    obtain ⟨e1, e2, e3⟩ := process_inputs_play v hv.1.1 hv.2
    apply paused_of_pause_view _ hv
    simp only [pause_view, e1, e2, e3]
  have h0 : pause_view (advance_timestamp t) = pause_view t := by
    unfold advance_timestamp
    simp only []
    split_ifs <;> rfl
  unfold ISR_TIMER2_OVF run_task
  exact key _ _ _ hi (key _ _ _ hc (key _ _ _ hl (key _ _ _ ha
    (paused_of_pause_view h0 hp))))

theorem paused_ISR_iterate (s t : SysState)
    (hp : Paused s t ∧ t.input.LastB &&& B_MASK_PAUSE = 0) (N : Nat) :
    Paused s ((ISR_TIMER2_OVF^[N]) t) ∧
      ((ISR_TIMER2_OVF^[N]) t).input.LastB &&& B_MASK_PAUSE = 0 := by
  induction N with
  | zero => exact hp
  | succ n ih =>
    rw [Function.iterate_succ_apply']
    exact paused_ISR s _ ih

/-! ### The invariant of the controller -/

theorem InvCM_update {C : Nat → CountdownType} {m : Nat} (h : InvCM C m) (id : Nat)
    (c : CountdownType) (h1 : c.minutes ≤ 99) (h2 : c.seconds ≤ 59)
    (h3 : m ≠ PLAY_MODE → id < NUM_COUNTDOWNS → c._running = 0) :
    InvCM (Function.update C id c) m := by
  obtain ⟨hr, hm⟩ := h
  refine ⟨?_, ?_⟩
  · intro j
    by_cases hj : j = id
    · subst hj; simp [h1, h2]
    · rw [Function.update_noteq hj]; exact hr j
  · rcases hm with hm | ⟨hm, hs⟩
    · exact Or.inl hm
    · refine Or.inr ⟨hm, ?_⟩
      intro j hj4
      by_cases hj : j = id
      · subst hj
        simp only [Function.update_same]
        apply h3 _ hj4
        rcases hm with hm | hm <;> rw [hm] <;> decide
      · rw [Function.update_noteq hj]; exact hs j hj4

theorem InvCM_play {C : Nat → CountdownType} (h : ∀ id, (C id).minutes ≤ 99 ∧ (C id).seconds ≤ 59) :
    InvCM C PLAY_MODE := ⟨h, Or.inl rfl⟩

theorem Inv_start_countdown (id : Nat) (s : SysState) (h : Inv s)
    (hm : s.clock.mode = PLAY_MODE) : Inv (start_countdown id s) := by
  have := h.1 id
  exact InvCM_update h id _ this.1 this.2 (fun hne _ => absurd hm hne)

theorem Inv_stop_countdown (id : Nat) (s : SysState) (h : Inv s) :
    Inv (stop_countdown id s) := by
  have := h.1 id
  exact InvCM_update h id _ this.1 this.2 (fun _ _ => rfl)

theorem Inv_copy_time (a b : Nat) (s : SysState) (h : Inv s) : Inv (copy_time a b s) := by
  have ha := h.1 a
  have hb := h.1 b
  simp only [Inv, copy_time, setCountdown, Function.update_idem, Function.update_same]
  by_cases hab : a = b
  · subst hab
    simp only [Function.update_same]
    have e : Function.update s.timer.Countdown a
        { minutes := (s.timer.Countdown a).minutes, seconds := (s.timer.Countdown a).seconds,
          _running := (s.timer.Countdown a)._running, _expired := (s.timer.Countdown a)._expired,
          _subseconds := (s.timer.Countdown a)._subseconds } = s.timer.Countdown := by
      funext j
      by_cases hj : j = a
      · subst hj; simp
      · simp [Function.update_noteq hj]
    rw [e]; exact h
  · rw [Function.update_noteq hab]
    obtain ⟨hr, hm⟩ := h
    refine ⟨?_, ?_⟩
    · intro j
      by_cases hj : j = b
      · subst hj; simp [ha.1, ha.2]
      · rw [Function.update_noteq hj]; exact hr j
    · rcases hm with hm | ⟨hm, hs⟩
      · exact Or.inl hm
      · refine Or.inr ⟨hm, ?_⟩
        intro j hj4
        by_cases hj : j = b
        · subst hj; simp [hs j hj4]
        · rw [Function.update_noteq hj]; exact hs j hj4

theorem Inv_restart (s : SysState) (h : ∀ id, (s.timer.Countdown id).minutes ≤ 99 ∧
    (s.timer.Countdown id).seconds ≤ 59)
    (hm : s.clock.mode = PLAY_MODE ∨ s.clock.mode = WON_MODE ∨ s.clock.mode = SETUP_MODE) :
    Inv (restart s) := by
  refine ⟨?_, ?_⟩
  · intro id
    rw [restart_Countdown]
    split_ifs
    · simp only [loaded]
      constructor <;> split_ifs <;> omega
    · exact h id
  · simp only [restart_clock]
    rcases hm with hm | hm
    · exact Or.inl hm
    · refine Or.inr ⟨hm, ?_⟩
      intro id hid
      rw [restart_Countdown, if_pos hid]
      rfl

theorem stop_fold_Countdown (s : SysState) (id : Nat) :
    ((List.range NUM_COUNTDOWNS).foldl stop_and_turn_off s).timer.Countdown id =
      if id < NUM_COUNTDOWNS then { s.timer.Countdown id with _running := 0 }
      else s.timer.Countdown id := by
  simp only [NUM_COUNTDOWNS, range_four, List.foldl_cons, List.foldl_nil, stop_and_turn_off,
    turnled_off, stop_countdown, setCountdown, Function.update_apply]
  by_cases h0 : id = 0
  · subst h0; simp
  by_cases h1 : id = 1
  · subst h1; simp
  by_cases h2 : id = 2
  · subst h2; simp
  by_cases h3 : id = 3
  · subst h3; simp
  have : ¬ id < 4 := by omega
  simp [h0, h1, h2, h3, this]

theorem stop_fold_clock (s : SysState) :
    ((List.range NUM_COUNTDOWNS).foldl stop_and_turn_off s).clock = s.clock := rfl

/-- After the loop that stops the four countdowns the invariant holds in
every mode. -/
theorem Inv_stop_fold (s : SysState) (h : ∀ id, (s.timer.Countdown id).minutes ≤ 99 ∧
    (s.timer.Countdown id).seconds ≤ 59)
    (hm : s.clock.mode = PLAY_MODE ∨ s.clock.mode = WON_MODE ∨ s.clock.mode = SETUP_MODE) :
    Inv ((List.range NUM_COUNTDOWNS).foldl stop_and_turn_off s) := by
  refine ⟨?_, ?_⟩
  · intro id
    rw [stop_fold_Countdown]
    split_ifs
    · exact h id
    · exact h id
  · rw [stop_fold_clock]
    rcases hm with hm | hm
    · exact Or.inl hm
    · refine Or.inr ⟨hm, ?_⟩
      intro id hid
      rw [stop_fold_Countdown, if_pos hid]

theorem Inv_mode (s : SysState) (h : Inv s) :
    s.clock.mode = PLAY_MODE ∨ s.clock.mode = WON_MODE ∨ s.clock.mode = SETUP_MODE := by
  rcases h.2 with hm | ⟨hm, -⟩
  · exact Or.inl hm
  · exact Or.inr hm
theorem Inv_of_view {s t : SysState} (h1 : t.timer.Countdown = s.timer.Countdown)
    (h2 : t.clock.mode = s.clock.mode) (h : Inv s) : Inv t := by
  unfold Inv at h ⊢
  rw [h1, h2]; exact h

theorem add_to_digit_le (v : Nat) (d : Int) : add_to_digit v d ≤ 59 := by
  simp only [add_to_digit]
  split_ifs <;> omega

theorem Inv_play_mode_pause (s : SysState) (h : Inv s) (hm : s.clock.mode = PLAY_MODE) :
    Inv (play_mode_pause s) ∧ (play_mode_pause s).clock.mode = PLAY_MODE := by
  unfold play_mode_pause
  split_ifs
  · apply foldl_preserves (fun t => Inv t ∧ t.clock.mode = PLAY_MODE) pause_body
    · intro t i ht
      exact ⟨Inv_stop_countdown i _ (Inv_of_view rfl rfl ht.1), ht.2⟩
    · exact ⟨Inv_of_view rfl rfl h, hm⟩
  · apply foldl_preserves (fun t => Inv t ∧ t.clock.mode = PLAY_MODE) resume_body
    · intro t i ht
      unfold resume_body
      split_ifs
      · exact ⟨Inv_start_countdown i t ht.1 ht.2, ht.2⟩
      · exact ht
    · exact ⟨h, hm⟩

theorem Inv_eot (a b c d : Nat) (s : SysState) (h : Inv s) (hm : s.clock.mode = PLAY_MODE) :
    Inv (start_countdown a (stop_countdown b (turnled_on c (turnled_off d (play tick s))))) ∧
    (start_countdown a (stop_countdown b (turnled_on c (turnled_off d (play tick s))))).clock.mode
      = PLAY_MODE := by
  have h1 : Inv (turnled_on c (turnled_off d (play tick s))) :=
    Inv_of_view (play_Countdown tick s) (congrArg ClockState.mode (play_clock tick s)) h
  have hm1 : (turnled_on c (turnled_off d (play tick s))).clock.mode = PLAY_MODE :=
    (congrArg ClockState.mode (play_clock tick s)).trans hm
  exact ⟨Inv_start_countdown a _ (Inv_stop_countdown b _ h1) hm1, hm1⟩

theorem Inv_play_mode_input_asserted (id : Nat) (s : SysState) (h : Inv s)
    (hm : s.clock.mode = PLAY_MODE) :
    Inv (play_mode_input_asserted id s) ∧
      (play_mode_input_asserted id s).clock.mode = PLAY_MODE := by
  have h' : Inv ({ s with clock.update_display := 1 } : SysState) := Inv_of_view rfl rfl h
  have hm' : ({ s with clock.update_display := 1 } : SysState).clock.mode = PLAY_MODE := hm
  unfold play_mode_input_asserted
  simp only []
  split_ifs
  · exact Inv_eot _ _ _ _ _ h' hm'
  · exact ⟨h', hm'⟩
  · exact Inv_eot _ _ _ _ _ h' hm'
  · exact ⟨h', hm'⟩
  · exact Inv_eot _ _ _ _ _ h' hm'
  · exact ⟨h', hm'⟩
  · exact Inv_eot _ _ _ _ _ h' hm'
  · exact ⟨h', hm'⟩
  · exact Inv_play_mode_pause _ h' hm'
  · exact ⟨Inv_restart _ h'.1 (Or.inl hm'), hm'⟩
  · exact ⟨h', hm'⟩

theorem Inv_setup_adjust (delta : Int) (s : SysState) (h : Inv s) :
    Inv (setup_adjust delta s) := by
  have hsel := h.1 s.clock.selected_countdown
  have hrun : s.clock.mode ≠ PLAY_MODE → s.clock.selected_countdown < NUM_COUNTDOWNS →
      (s.timer.Countdown s.clock.selected_countdown)._running = 0 := by
    intro hne hlt
    rcases h.2 with hp | ⟨-, hs⟩
    · exact absurd hp hne
    · exact hs _ hlt
  unfold setup_adjust
  simp only []
  split_ifs
  · exact InvCM_update h _ _ (le_trans (add_to_digit_le _ _) (by decide)) hsel.2 hrun
  · exact InvCM_update h _ _ hsel.1 (add_to_digit_le _ _) hrun

theorem Inv_setup_select (cd : Nat) (s : SysState) (h : Inv s) : Inv (setup_select cd s) := by
  unfold setup_select
  simp only []
  split_ifs <;> exact Inv_of_view rfl rfl h

theorem Inv_setup_mode_input_asserted (id : Nat) (s : SysState) (h : Inv s) :
    Inv (setup_mode_input_asserted id s) := by
  unfold setup_mode_input_asserted
  simp only []
  by_cases h1 : id = INPUT_EOT1
  · rw [if_pos h1]; exact Inv_setup_select _ _ h
  rw [if_neg h1]
  by_cases h2 : id = INPUT_EOT2
  · rw [if_pos h2]; exact Inv_setup_select _ _ h
  rw [if_neg h2]
  by_cases h3 : id = INPUT_EOT3
  · rw [if_pos h3]; exact Inv_setup_select _ _ h
  rw [if_neg h3]
  by_cases h4 : id = INPUT_EOT4
  · rw [if_pos h4]; exact Inv_setup_select _ _ h
  rw [if_neg h4]
  by_cases h5 : id = INPUT_UP
  · rw [if_pos h5]; exact Inv_setup_adjust _ _ h
  rw [if_neg h5]
  by_cases h6 : id = INPUT_DOWN
  · rw [if_pos h6]; exact Inv_setup_adjust _ _ h
  rw [if_neg h6]
  by_cases h7 : id = INPUT_COPY
  · rw [if_pos h7]; exact Inv_copy_time _ _ _ h
  rw [if_neg h7]
  by_cases h8 : id = INPUT_RESTART
  · rw [if_pos h8]; exact Inv_restart _ h.1 (Or.inl rfl)
  rw [if_neg h8]
  exact h

theorem Inv_input_asserted (id : Nat) (s : SysState) (h : Inv s) :
    Inv (input_asserted id s) := by
  unfold input_asserted
  split_ifs with h1 h2 h3 h4
  · exact (Inv_play_mode_input_asserted id s h h1).1
  · exact Inv_restart _ h.1 (Or.inl rfl)
  · exact h
  · exact Inv_setup_mode_input_asserted id s h
  · rcases Inv_mode s h with hm | hm | hm
    · exact absurd hm h1
    · exact absurd hm h2
    · exact absurd hm h4

theorem Inv_input_long_push (id : Nat) (s : SysState) (h : Inv s) :
    Inv (input_long_push id s) := by
  unfold input_long_push
  simp only []
  split_ifs
  · exact Inv_stop_fold _ h.1 (Or.inr (Or.inr rfl))
  · exact h
  · apply Inv_restart
    · have := foldl_preserves
        (fun st : SysState × Nat => st.1.timer.Countdown = s.timer.Countdown) commit_body
        (fun st i hst => hst) (List.range NUM_COUNTDOWNS)
        (({ s with clock.mode := PLAY_MODE } : SysState), 0) rfl
      simp only [] at this
      rw [this]; exact h.1
    · left
      exact foldl_preserves
        (fun st : SysState × Nat => st.1.clock.mode = PLAY_MODE) commit_body
        (fun st i hst => hst) (List.range NUM_COUNTDOWNS)
        (({ s with clock.mode := PLAY_MODE } : SysState), 0) rfl
  · apply foldl_preserves Inv broadcast_body _ _ _ h
    intro t i ht
    unfold broadcast_body
    split_ifs
    · exact Inv_copy_time _ _ _ ht
    · exact ht
  · exact h
  · exact h

theorem Inv_input_repeat (id : Nat) (s : SysState) (h : Inv s) :
    Inv (input_repeat id s) := by
  unfold input_repeat
  split_ifs
  · exact Inv_input_asserted id s h
  · exact h
theorem Inv_ite (c : Prop) [Decidable c] (f : SysState → SysState) (s : SysState)
    (hf : ∀ t, Inv t → Inv (f t)) (h : Inv s) : Inv (if c then f s else s) := by
  split_ifs
  · exact hf s h
  · exact h

theorem Inv_held_input (get : SysState → Nat) (put : Nat → SysState → SysState)
    (input : Nat) (hput : ∀ v t, Inv t → Inv (put v t)) (s : SysState) (h : Inv s) :
    Inv (held_input get put input s) := by
  unfold held_input
  simp only []
  split_ifs
  · exact Inv_input_repeat _ _ (Inv_input_long_push _ _ (hput _ _ h))
  · exact Inv_input_long_push _ _ (hput _ _ h)
  · exact Inv_input_repeat _ _ (hput _ _ h)
  · exact hput _ _ h
  · exact h

theorem Inv_process_inputs (s : SysState) (h : Inv s) : Inv (process_inputs s) := by
  have h0 : Inv (second_control_step s) := by
    unfold second_control_step; split_ifs <;> exact Inv_of_view rfl rfl h
  have h1 : ∀ t, Inv t → Inv (held_up t) := fun t ht =>
    Inv_ite _ _ _ (Inv_held_input (fun t => t.input.UpCounter)
      (fun v t => { t with input.UpCounter := v }) INPUT_UP
      (fun _ _ hu => Inv_of_view rfl rfl hu)) ht
  have h2 : ∀ t, Inv t → Inv (held_down t) := fun t ht =>
    Inv_ite _ _ _ (Inv_held_input (fun t => t.input.DownCounter)
      (fun v t => { t with input.DownCounter := v }) INPUT_DOWN
      (fun _ _ hu => Inv_of_view rfl rfl hu)) ht
  have h3 : ∀ t, Inv t → Inv (held_copy t) := fun t ht =>
    Inv_ite _ _ _ (Inv_held_input (fun t => t.input.CopyCounter)
      (fun v t => { t with input.CopyCounter := v }) INPUT_COPY
      (fun _ _ hu => Inv_of_view rfl rfl hu)) ht
  have h4 : ∀ t, Inv t → Inv (held_pause t) := fun t ht =>
    Inv_ite _ _ _ (Inv_held_input (fun t => t.input.PauseCounter)
      (fun v t => { t with input.PauseCounter := v }) INPUT_PAUSE
      (fun _ _ hu => Inv_of_view rfl rfl hu)) ht
  unfold process_inputs
  exact h4 _ (h3 _ (h2 _ (h1 _ h0)))

theorem countdown_tick_bounds (c : CountdownType) (h1 : c.minutes ≤ 99)
    (h2 : c.seconds ≤ 59) :
    (countdown_tick c).minutes ≤ 99 ∧ (countdown_tick c).seconds ≤ 59 := by
  simp only [countdown_tick]
  split_ifs <;> constructor <;> dsimp only <;> omega

theorem countdown_tick_running (c : CountdownType) :
    (countdown_tick c)._running ≠ 0 → c._running ≠ 0 := by
  intro h h0
  rw [countdown_tick_stopped c h0] at h
  exact h h0

theorem Inv_process_countdown (s : SysState) (h : Inv s) : Inv (process_countdown s) := by
  rw [process_countdown_eq]
  refine ⟨?_, ?_⟩
  · intro id
    simp only []
    split_ifs
    · exact countdown_tick_bounds _ (h.1 id).1 (h.1 id).2
    · exact h.1 id
  · rcases h.2 with hm | ⟨hm, hs⟩
    · exact Or.inl hm
    · refine Or.inr ⟨hm, ?_⟩
      intro id hid
      simp only [if_pos hid]
      rw [countdown_tick_stopped _ (hs id hid)]
      exact hs id hid

theorem Inv_of_pause_view {s t : SysState} (h : pause_view t = pause_view s) (hs : Inv s) :
    Inv t := by
  simp only [pause_view, Prod.mk.injEq] at h
  exact Inv_of_view h.2.1 (congrArg ClockState.mode h.1) hs

theorem Inv_ISR (s : SysState) (h : Inv s) : Inv (ISR_TIMER2_OVF s) := by
  have h0 : Inv (advance_timestamp s) := by
    unfold advance_timestamp
    simp only []
    split_ifs <;> exact Inv_of_view rfl rfl h
  unfold ISR_TIMER2_OVF run_task
  exact Inv_ite _ _ _ Inv_process_inputs
    (Inv_ite _ _ _ Inv_process_countdown
      (Inv_ite _ _ _ (fun t ht => Inv_of_pause_view (pause_view_process_turnled t) ht)
        (Inv_ite _ _ _ (fun t ht => Inv_of_pause_view (pause_view_process_audio t) ht) h0)))

theorem Inv_report_one (new mask input : Nat) (s : SysState) (h : Inv s) :
    Inv (report_one new mask input s) := by
  unfold report_one
  exact Inv_ite _ _ _ (Inv_input_asserted _) h

theorem Inv_report_asserted (pb pd : Nat) (s : SysState) (h : Inv s) :
    Inv (report_asserted pb pd s) := by
  unfold report_asserted
  by_cases hc : pb ≠ 0 ∨ pd ≠ 0
  · rw [if_pos hc]
    exact Inv_report_one _ _ _ _ (Inv_report_one _ _ _ _ (Inv_report_one _ _ _ _
      (Inv_report_one _ _ _ _ (Inv_report_one _ _ _ _ (Inv_report_one _ _ _ _
        (Inv_report_one _ _ _ _ (Inv_report_one _ _ _ _ (Inv_report_one _ _ _ _ h))))))))
  · rw [if_neg hc]; exact h

theorem Inv_clear_released (pb pd : Nat) (s : SysState) (h : Inv s) :
    Inv (clear_released pb pd s) := by
  unfold clear_released
  simp only []
  split_ifs <;> exact Inv_of_view rfl rfl h

theorem Inv_poll_inputs (samples : Nat → Nat × Nat) (s : SysState) (h : Inv s) :
    Inv (poll_inputs samples s) := by
  unfold poll_inputs
  exact Inv_of_view rfl rfl (Inv_clear_released _ _ _ (Inv_report_asserted _ _ _ h))
theorem refresh_fold_frame (f : Nat) (s : SysState) :
    ((List.range NUM_COUNTDOWNS).foldl (refresh_body f) s).timer = s.timer ∧
    ((List.range NUM_COUNTDOWNS).foldl (refresh_body f) s).clock.mode = s.clock.mode := by
  apply foldl_preserves (fun t => t.timer = s.timer ∧ t.clock.mode = s.clock.mode)
    (refresh_body f) _ _ _ ⟨rfl, rfl⟩
  intro t i ht
  unfold refresh_body
  split_ifs
  · exact ht
  · exact ht

theorem declare_won_Countdown (s : SysState) (id : Nat) :
    (declare_won s).timer.Countdown id =
      if id < NUM_COUNTDOWNS then { s.timer.Countdown id with _running := 0 }
      else s.timer.Countdown id := by
  unfold declare_won
  simp only [play_Countdown]
  exact stop_fold_Countdown _ id

theorem declare_won_mode (s : SysState) : (declare_won s).clock.mode = WON_MODE := by
  unfold declare_won
  simp only [play_clock]
  rfl

/-- The loop of `poll_clock` either finds no expired countdown among those it
looks at and changes nothing, or runs the game-over block once. -/
theorem poll_clock_loop_cases (n : Nat) (hn : n ≤ NUM_COUNTDOWNS + 1) (fuel id : Nat)
    (s : SysState) :
    (poll_clock_loop n fuel id s = s ∧
      ∀ j, id ≤ j → j < n → j < id + fuel → countdown_has_expired j s = 0) ∨
    (poll_clock_loop n fuel id s = declare_won s ∧
      ∃ j, j < n ∧ countdown_has_expired j s ≠ 0) := by
  induction fuel generalizing id with
  | zero =>
    left
    exact ⟨rfl, fun j h1 _ h3 => by omega⟩
  | succ k ih =>
    unfold poll_clock_loop
    by_cases hid : id < n
    · rw [if_pos hid]
      by_cases he : countdown_has_expired id s ≠ 0
      · rw [if_pos he]
        right
        refine ⟨?_, id, hid, he⟩
        cases k with
        | zero => rfl
        | succ k' =>
          unfold poll_clock_loop
          rw [if_neg (by omega)]
      · rw [if_neg he]
        rcases ih (id + 1) with ⟨h1, h2⟩ | ⟨h1, h2⟩
        · left
          refine ⟨h1, ?_⟩
          intro j hj1 hj2 hj3
          by_cases hj : j = id
          · subst hj; simpa using he
          · exact h2 j (by omega) hj2 (by omega)
        · right
          exact ⟨h1, h2⟩
    · rw [if_neg hid]
      left
      exact ⟨rfl, fun j h1 h2 _ => by omega⟩

/-- The countdowns and the mode after `poll_clock` in Play mode: those of the
state `s1` in which an unfitted second control has been stopped, either as
they are, no countdown polled being expired, or after the game-over block. -/
theorem poll_clock_play (s : SysState) (hm : s.clock.mode = PLAY_MODE) :
    ∃ s1 : SysState, ∃ n : Nat,
      (n = 4 ∨ n = 2) ∧
      s1.clock.mode = PLAY_MODE ∧
      (∀ id, (s1.timer.Countdown id = s.timer.Countdown id) ∨
        (s1.timer.Countdown id = { s.timer.Countdown id with _running := 0 })) ∧
      (∀ id, n ≤ id → id < NUM_COUNTDOWNS → (s1.timer.Countdown id)._running = 0) ∧
      (((poll_clock s).timer = s1.timer ∧ (poll_clock s).clock.mode = PLAY_MODE ∧
          ∀ j, j < n → countdown_has_expired j s1 = 0) ∨
        ((poll_clock s).timer = (declare_won s1).timer ∧
          (poll_clock s).clock.mode = WON_MODE)) := by
  unfold poll_clock
  rw [if_pos hm]
  simp only []
  by_cases hf : is_second_control_fitted s ≠ 0
  · simp only [if_pos hf]
    refine ⟨s, 4, Or.inl rfl, hm, fun id => Or.inl rfl, fun id h1 h2 => ?_, ?_⟩
    · simp only [NUM_COUNTDOWNS] at h2; omega
    · rcases poll_clock_loop_cases 4 (by decide) 4 0 s with ⟨h1, h2⟩ | ⟨h1, -⟩
      · left
        rw [h1]
        refine ⟨(refresh_fold_frame _ _).1, (refresh_fold_frame _ _).2.trans hm, ?_⟩
        intro j hj
        exact h2 j (by omega) hj (by omega)
      · right
        rw [h1]
        exact ⟨(refresh_fold_frame _ _).1,
          (refresh_fold_frame _ _).2.trans (declare_won_mode s)⟩
  · simp only [if_neg hf]
    by_cases hr : countdown_is_running COUNTDOWN_3 s ≠ 0 ∨ countdown_is_running COUNTDOWN_4 s ≠ 0
    · simp only [if_pos hr]
      generalize hs1 : ({ stop_countdown COUNTDOWN_4 (stop_countdown COUNTDOWN_3 s) with
        clock.update_display := 1 } : SysState) = s1
      have hC : ∀ id, s1.timer.Countdown id =
          if id = 2 ∨ id = 3 then { s.timer.Countdown id with _running := 0 }
          else s.timer.Countdown id := by
        intro id
        rw [← hs1]
        simp only [stop_countdown, setCountdown, COUNTDOWN_3, COUNTDOWN_4,
          Function.update_apply]
        by_cases h3 : id = 3
        · subst h3; simp
        · by_cases h2 : id = 2
          · subst h2; simp
          · simp [h2, h3]
      have hm1 : s1.clock.mode = PLAY_MODE := by rw [← hs1]; exact hm
      refine ⟨s1, 2, Or.inr rfl, hm1, fun id => ?_, fun id h1 h2 => ?_, ?_⟩
      · rw [hC]; split_ifs
        · exact Or.inr rfl
        · exact Or.inl rfl
      · rw [hC, if_pos (by simp only [NUM_COUNTDOWNS] at h2; omega)]
      · rcases poll_clock_loop_cases 2 (by decide) 2 0 s1 with ⟨h1, h2⟩ | ⟨h1, -⟩
        · left
          rw [h1]
          refine ⟨(refresh_fold_frame _ _).1, (refresh_fold_frame _ _).2.trans hm1, ?_⟩
          intro j hj
          exact h2 j (by omega) hj (by omega)
        · right
          rw [h1]
          exact ⟨(refresh_fold_frame _ _).1,
            (refresh_fold_frame _ _).2.trans (declare_won_mode s1)⟩
    · simp only [if_neg hr]
      have hr2 : (s.timer.Countdown 2)._running = 0 ∧ (s.timer.Countdown 3)._running = 0 := by
        simp only [countdown_is_running, COUNTDOWN_3, COUNTDOWN_4] at hr
        constructor <;> by_contra hne <;> apply hr <;> simp [hne]
      refine ⟨s, 2, Or.inr rfl, hm, fun id => Or.inl rfl, fun id h1 h2 => ?_, ?_⟩
      · simp only [NUM_COUNTDOWNS] at h2
        have : id = 2 ∨ id = 3 := by omega
        rcases this with h | h <;> subst h
        · exact hr2.1
        · exact hr2.2
      · rcases poll_clock_loop_cases 2 (by decide) 2 0 s with ⟨h1, h2⟩ | ⟨h1, -⟩
        · left
          rw [h1]
          refine ⟨(refresh_fold_frame _ _).1, (refresh_fold_frame _ _).2.trans hm, ?_⟩
          intro j hj
          exact h2 j (by omega) hj (by omega)
        · right
          rw [h1]
          exact ⟨(refresh_fold_frame _ _).1,
            (refresh_fold_frame _ _).2.trans (declare_won_mode s)⟩
theorem Inv_poll_clock (s : SysState) (h : Inv s) : Inv (poll_clock s) := by
  by_cases hm : s.clock.mode = PLAY_MODE
  · obtain ⟨s1, n, -, -, hC, -, hres⟩ := poll_clock_play s hm
    have hb : ∀ id, (s1.timer.Countdown id).minutes ≤ 99 ∧
        (s1.timer.Countdown id).seconds ≤ 59 := by
      intro id
      rcases hC id with e | e <;> rw [e] <;> exact h.1 id
    rcases hres with ⟨ht, hmode, -⟩ | ⟨ht, hmode⟩
    · unfold Inv
      rw [ht, hmode]
      exact InvCM_play hb
    · unfold Inv
      rw [ht, hmode]
      refine ⟨?_, Or.inr ⟨Or.inl rfl, ?_⟩⟩
      · intro id
        rw [declare_won_Countdown]
        split_ifs <;> exact hb id
      · intro id hid
        rw [declare_won_Countdown, if_pos hid]
  · unfold poll_clock
    rw [if_neg hm]
    exact h

theorem Inv_main_init (eeprom : Nat → Nat) (flash : List Nat) :
    Inv (main_init eeprom flash) := by
  unfold main_init init_clock
  apply Inv_restart
  · intro id
    exact ⟨Nat.zero_le _, Nat.zero_le _⟩
  · exact Or.inl rfl

theorem Inv_apply (e : Event) (s : SysState) (h : Inv s) : Inv (e.apply s) := by
  cases e with
  | tick => exact Inv_ISR s h
  | poll_inputs samples => exact Inv_poll_inputs samples s h
  | poll_clock => exact Inv_poll_clock s h
  | asserted id => exact Inv_input_asserted id s h
  | long_push id => exact Inv_input_long_push id s h
  | repeated id => exact Inv_input_repeat id s h

/-- The invariant holds in every reachable state. -/
theorem Inv_of_reachable {s : SysState} (h : Reachable s) : Inv s := by
  induction h with
  | startup eeprom flash => exact Inv_main_init eeprom flash
  | step e _ ih => exact Inv_apply e _ ih

theorem reachable_run (es : List Event) {s : SysState} (h : Reachable s) :
    Reachable (run es s) := by
  induction es generalizing s with
  | nil => exact h
  | cons e es ih => exact ih (Reachable.step e h)

theorem not_running_and_expired_poll_clock (s : SysState) (h : Inv s) (id : Nat)
    (hid : id < NUM_COUNTDOWNS) : ¬ running_and_expired id (poll_clock s) := by
  unfold running_and_expired countdown_is_running countdown_has_expired
  by_cases hm : s.clock.mode = PLAY_MODE
  · obtain ⟨s1, n, hn, -, -, hstop, hres⟩ := poll_clock_play s hm
    rcases hres with ⟨ht, -, hexp⟩ | ⟨ht, -⟩
    · rw [ht]
      by_cases hlt : id < n
      · have := hexp id hlt
        simp only [countdown_has_expired] at this
        intro hc
        exact hc.2 this
      · have := hstop id (by omega) hid
        simp [this]
    · rw [ht, declare_won_Countdown, if_pos hid]
      simp
  · unfold poll_clock
    rw [if_neg hm]
    rcases h.2 with hp | ⟨-, hs⟩
    · exact absurd hp hm
    · simp [hs id hid]

theorem not_running_and_expired_tick (c : CountdownType)
    (h : ¬ (c._running ≠ 0 ∧ c._expired ≠ 0)) :
    ¬ ((countdown_tick c)._running ≠ 0 ∧ (countdown_tick c)._expired ≠ 0) := by
  simp only [countdown_tick]
  split_ifs <;> simp_all

/-! ### The loop that stores the times -/

theorem commit_fold_eq (s : SysState) :
    (List.range NUM_COUNTDOWNS).foldl commit_body (s, 0) =
      commit_body (commit_body (commit_body (commit_body (s, 0) 0) 1) 2) 3 := by
  simp [NUM_COUNTDOWNS, range_four]

theorem commit_body_timer (st : SysState × Nat) (id : Nat) :
    (commit_body st id).1.timer = st.1.timer := rfl
theorem commit_body_clock (st : SysState × Nat) (id : Nat) :
    (commit_body st id).1.clock = st.1.clock := rfl
theorem commit_body_addr (st : SysState × Nat) (id : Nat) :
    (commit_body st id).2 = (((st.2 + 1) % 256) + 1) % 256 := rfl
theorem commit_body_eeprom (st : SysState × Nat) (id : Nat) :
    (commit_body st id).1.eeprom =
      Function.update (Function.update st.1.eeprom st.2
        ((st.1.timer.Countdown id).minutes % 256)) ((st.2 + 1) % 256)
        ((st.1.timer.Countdown id).seconds % 256) := rfl

theorem commit_fold_timer (s : SysState) :
    ((List.range NUM_COUNTDOWNS).foldl commit_body (s, 0)).1.timer = s.timer :=
  foldl_preserves (fun st : SysState × Nat => st.1.timer = s.timer) commit_body
    (fun _ _ hst => hst) (List.range NUM_COUNTDOWNS) (s, 0) rfl

theorem commit_fold_clock (s : SysState) :
    ((List.range NUM_COUNTDOWNS).foldl commit_body (s, 0)).1.clock = s.clock :=
  foldl_preserves (fun st : SysState × Nat => st.1.clock = s.clock) commit_body
    (fun _ _ hst => hst) (List.range NUM_COUNTDOWNS) (s, 0) rfl

theorem commit_fold_eeprom (s : SysState) (i : Nat) (hi : i < NUM_COUNTDOWNS) :
    ((List.range NUM_COUNTDOWNS).foldl commit_body (s, 0)).1.eeprom (2 * i) =
      (s.timer.Countdown i).minutes % 256 ∧
    ((List.range NUM_COUNTDOWNS).foldl commit_body (s, 0)).1.eeprom (2 * i + 1) =
      (s.timer.Countdown i).seconds % 256 := by
  rw [commit_fold_eq]
  simp only [commit_body_eeprom, commit_body_timer, commit_body_addr, Function.update_apply]
  simp only [NUM_COUNTDOWNS] at hi
  interval_cases i <;> simp

theorem stop_fold_ledstate (s : SysState) :
    ((List.range NUM_COUNTDOWNS).foldl stop_and_turn_off s).turnled.ledstate =
      clear_bits (clear_bits (clear_bits (clear_bits s.turnled.ledstate (1 <<< 0)) (1 <<< 1))
        (1 <<< 2)) (1 <<< 3) := rfl

theorem cleared_four (l i : Nat) (hi : i < NUM_COUNTDOWNS) :
    clear_bits (clear_bits (clear_bits (clear_bits l (1 <<< 0)) (1 <<< 1))
        (1 <<< 2)) (1 <<< 3) &&& (1 <<< i) = 0 := by
  rw [and_one_shiftLeft_eq_zero]
  simp only [testBit_clear_bits]
  simp only [NUM_COUNTDOWNS] at hi
  interval_cases i <;> simp

theorem add_to_digit_eq_adjusted (v : Nat) (d : Int) (hv : v ≤ 59)
    (hd : d = 1 ∨ d = -1 ∨ d = 10 ∨ d = -10) : add_to_digit v d = adjusted v d := by
  unfold add_to_digit adjusted
  rcases hd with h | h | h | h <;> subst h <;> simp only [] <;> norm_num <;>
    split_ifs <;> omega

theorem setup_up_down_eq (id : Nat) (s : SysState) (hm : s.clock.mode = SETUP_MODE)
    (hid : id = INPUT_UP ∨ id = INPUT_DOWN) :
    input_asserted id s =
      setup_adjust (setup_sign id s * (if s.clock.selected_digit % 2 = 0 then 10 else 1)) s := by
  unfold input_asserted
  rw [if_neg (by rw [hm]; decide), if_neg (by rw [hm]; decide), if_pos hm]
  unfold setup_mode_input_asserted setup_sign
  by_cases hc : s.clock.selected_countdown % 2 = 0 <;>
  by_cases hd : s.clock.selected_digit % 2 = 0 <;>
  rcases hid with h | h <;> subst h <;>
    simp [hc, hd, INPUT_UP, INPUT_DOWN, INPUT_EOT1, INPUT_EOT2, INPUT_EOT3, INPUT_EOT4]

/-! ## Lemmas on the audio player -/

theorem audio_view_foldl {ι : Type} (f : SysState → ι → SysState)
    (h : ∀ t i, audio_view (f t i) = audio_view t) (l : List ι) (s : SysState) :
    audio_view (l.foldl f s) = audio_view s :=
  foldl_preserves (fun t => audio_view t = audio_view s) f
    (fun t i ht => (h t i).trans ht) l s rfl

theorem audio_view_restart (s : SysState) : audio_view (restart s) = audio_view s := by
  rfl

theorem audio_view_setup_select (cd : Nat) (s : SysState) :
    audio_view (setup_select cd s) = audio_view s := by
  simp only [setup_select]; split_ifs <;> rfl

theorem audio_view_setup_adjust (delta : Int) (s : SysState) :
    audio_view (setup_adjust delta s) = audio_view s := by
  simp only [setup_adjust]; split_ifs <;> rfl

theorem audio_view_setup_mode_input_asserted (id : Nat) (s : SysState) :
    audio_view (setup_mode_input_asserted id s) = audio_view s := by
  unfold setup_mode_input_asserted
  simp only []
  by_cases h1 : id = INPUT_EOT1
  · rw [if_pos h1]; exact audio_view_setup_select _ _
  rw [if_neg h1]
  by_cases h2 : id = INPUT_EOT2
  · rw [if_pos h2]; exact audio_view_setup_select _ _
  rw [if_neg h2]
  by_cases h3 : id = INPUT_EOT3
  · rw [if_pos h3]; exact audio_view_setup_select _ _
  rw [if_neg h3]
  by_cases h4 : id = INPUT_EOT4
  · rw [if_pos h4]; exact audio_view_setup_select _ _
  rw [if_neg h4]
  by_cases h5 : id = INPUT_UP
  · rw [if_pos h5]; exact audio_view_setup_adjust _ _
  rw [if_neg h5]
  by_cases h6 : id = INPUT_DOWN
  · rw [if_pos h6]; exact audio_view_setup_adjust _ _
  rw [if_neg h6]
  by_cases h7 : id = INPUT_COPY
  · rw [if_pos h7]; rfl
  rw [if_neg h7]
  by_cases h8 : id = INPUT_RESTART
  · rw [if_pos h8]; exact audio_view_restart _
  rw [if_neg h8]

theorem audio_view_input_repeat (id : Nat) (s : SysState) :
    audio_view (input_repeat id s) = audio_view s := by
  unfold input_repeat
  split_ifs with h
  · unfold input_asserted
    rw [if_neg (by rw [h.1]; decide), if_neg (by rw [h.1]; decide), if_pos h.1]
    exact audio_view_setup_mode_input_asserted id s
  · rfl

theorem audio_view_input_long_push (id : Nat) (s : SysState) :
    audio_view (input_long_push id s) = audio_view s := by
  unfold input_long_push
  split_ifs
  · exact audio_view_foldl stop_and_turn_off (fun _ _ => rfl) _ _
  · rfl
  · rw [audio_view_restart]
    exact foldl_preserves
      (fun (st : SysState × Nat) => audio_view st.1 = audio_view s) commit_body
      (fun st i ht => ht) _ _ rfl
  · refine audio_view_foldl broadcast_body (fun t i => ?_) _ _
    unfold broadcast_body; split_ifs <;> rfl
  · rfl
  · rfl

theorem audio_view_held_input (get : SysState → Nat) (put : Nat → SysState → SysState)
    (input : Nat) (s : SysState) (hput : ∀ v t, audio_view (put v t) = audio_view t) :
    audio_view (held_input get put input s) = audio_view s := by
  simp only [held_input]
  split_ifs <;>
    simp only [audio_view_input_repeat, audio_view_input_long_push, hput]

theorem audio_view_process_inputs (s : SysState) :
    audio_view (process_inputs s) = audio_view s := by
  have e1 : ∀ u, audio_view (second_control_step u) = audio_view u := by
    intro u; unfold second_control_step; split_ifs <;> rfl
  have g1 : ∀ u, audio_view (held_up u) = audio_view u := by
    intro u; unfold held_up; split_ifs
    · exact audio_view_held_input (fun t => t.input.UpCounter)
        (fun v t => { t with input.UpCounter := v }) INPUT_UP u (fun _ _ => rfl)
    · rfl
  have g2 : ∀ u, audio_view (held_down u) = audio_view u := by
    intro u; unfold held_down; split_ifs
    · exact audio_view_held_input (fun t => t.input.DownCounter)
        (fun v t => { t with input.DownCounter := v }) INPUT_DOWN u (fun _ _ => rfl)
    · rfl
  have g3 : ∀ u, audio_view (held_copy u) = audio_view u := by
    intro u; unfold held_copy; split_ifs
    · exact audio_view_held_input (fun t => t.input.CopyCounter)
        (fun v t => { t with input.CopyCounter := v }) INPUT_COPY u (fun _ _ => rfl)
    · rfl
  have g4 : ∀ u, audio_view (held_pause u) = audio_view u := by
    intro u; unfold held_pause; split_ifs
    · exact audio_view_held_input (fun t => t.input.PauseCounter)
        (fun v t => { t with input.PauseCounter := v }) INPUT_PAUSE u (fun _ _ => rfl)
    · rfl
  unfold process_inputs
  rw [g4, g3, g2, g1, e1]

theorem audio_view_process_turnled (s : SysState) :
    audio_view (process_turnled s) = audio_view s := by
  have h1 : ∀ id t, audio_view (turnled_pin_low id t) = audio_view t := by
    intro id t; unfold turnled_pin_low; split <;> rfl
  have h2 : ∀ id t, audio_view (turnled_pin_high id t) = audio_view t := by
    intro id t; unfold turnled_pin_high; split <;> rfl
  have h3 : ∀ (t : SysState) (c : TurnledState),
      audio_view { t with turnled := c } = audio_view t := fun _ _ => rfl
  simp only [process_turnled]
  split_ifs <;> simp only [h1, h2, h3]

theorem audio_view_process_countdown (s : SysState) :
    audio_view (process_countdown s) = audio_view s := by
  rw [process_countdown_eq]; rfl

theorem audio_view_run_task (id : Nat) (f : SysState → SysState) (s : SysState)
    (h : ∀ t, audio_view (f t) = audio_view t) : audio_view (run_task id f s) = audio_view s := by
  unfold run_task; split_ifs
  · exact h s
  · rfl

theorem audio_view_advance_timestamp (s : SysState) :
    audio_view (advance_timestamp s) = audio_view s := by
  simp only [advance_timestamp]; split_ifs <;> rfl

/-- Of a tick interrupt, only the audio update acts on the audio player. -/
theorem audio_view_ISR (s : SysState) :
    audio_view (ISR_TIMER2_OVF s) =
      audio_view (run_task AUDIO_TASK process_audio (advance_timestamp s)) := by
  unfold ISR_TIMER2_OVF
  rw [audio_view_run_task _ _ _ audio_view_process_inputs,
    audio_view_run_task _ _ _ audio_view_process_countdown,
    audio_view_run_task _ _ _ audio_view_process_turnled]

/-- The audio update on an entry that is not the last one and whose duration
has elapsed: the cursor moves to the next entry, which is installed. -/
theorem process_audio_continue (s : SysState) (c : Nat) (rest : List Nat)
    (hp : s.audio.audio_cmd_ptr = c :: rest) (hc : s.audio.cycle_count ≤ 1)
    (hcont : c &&& (1 <<< LAST_SHIFT) = CONTINUE) :
    process_audio s =
      process_one_command { s with audio := { audio_cmd_ptr := rest, cycle_count := 0 } } := by
  have h0 : s.audio.cycle_count = 0 ∨ s.audio.cycle_count = 1 := by omega
  rcases h0 with h0 | h0 <;>
    simp [process_audio, h0, hp, pgm_read_byte, hcont]

/-- The audio update on the last entry when its duration has elapsed: the
output is disconnected, the duty disabled and the generator powered down; the
cursor stays. -/
theorem process_audio_last (s : SysState) (c : Nat) (rest : List Nat)
    (hp : s.audio.audio_cmd_ptr = c :: rest) (hc : s.audio.cycle_count ≤ 1)
    (hlast : c &&& (1 <<< LAST_SHIFT) ≠ CONTINUE) :
    process_audio s =
      { s with audio.cycle_count := 0,
               regs.TCCR1A := TCCR1A_OFF,
               regs.PRR := set_bits s.regs.PRR (1 <<< PRTIM1),
               timer.tasks := clear_bits s.timer.tasks (1 <<< AUDIO_TASK) } := by
  have h0 : s.audio.cycle_count = 0 ∨ s.audio.cycle_count = 1 := by omega
  rcases h0 with h0 | h0 <;>
    simp [process_audio, h0, hp, pgm_read_byte, hlast, disable_task]
  conv_rhs => rw [← hp, ← h0]

/-- The audio update while the duration of the current entry has not
elapsed: only the remaining ticks change. -/
theorem process_audio_wait (s : SysState) (hc : 1 < s.audio.cycle_count) :
    process_audio s = { s with audio.cycle_count := s.audio.cycle_count - 1 } := by
  have h1 : s.audio.cycle_count > 0 := by omega
  have h2 : ¬ (s.audio.cycle_count - 1 = 0) := by omega
  simp [process_audio, h1, h2]

theorem process_one_command_audio (s : SysState) :
    (process_one_command s).audio =
      { audio_cmd_ptr := s.audio.audio_cmd_ptr,
        cycle_count := (pgm_read_byte s.audio.audio_cmd_ptr >>> PERIOD_SHIFT) &&& PERIOD_MASK } := by
  simp only [process_one_command]; split_ifs <;> rfl

theorem process_one_command_TCCR1A (s : SysState) :
    (process_one_command s).regs.TCCR1A =
      if pgm_read_byte s.audio.audio_cmd_ptr &&& TONE_MASK < TONE_NONE then TCCR1A_TOGGLE
      else TCCR1A_OFF := by
  simp only [process_one_command]; split_ifs <;> rfl

theorem process_one_command_PRR (s : SysState) :
    (process_one_command s).regs.PRR = s.regs.PRR := by
  simp only [process_one_command]; split_ifs <;> rfl

/-- The half-period register after `process_one_command`: the table value of
the tone of the current entry, and the old value when the entry is silent. -/
theorem process_one_command_OCR1A (s : SysState) :
    (process_one_command s).regs.OCR1A =
      if pgm_read_byte s.audio.audio_cmd_ptr &&& TONE_MASK = TONE_A4 then TOP_FOR_HZ FREQ_A4
      else if pgm_read_byte s.audio.audio_cmd_ptr &&& TONE_MASK = TONE_D5 then TOP_FOR_HZ FREQ_D5
      else if pgm_read_byte s.audio.audio_cmd_ptr &&& TONE_MASK = TONE_E5 then TOP_FOR_HZ FREQ_E5
      else if pgm_read_byte s.audio.audio_cmd_ptr &&& TONE_MASK = TONE_D7 then TOP_FOR_HZ FREQ_D7
      else if pgm_read_byte s.audio.audio_cmd_ptr &&& TONE_MASK = TONE_FF then 1
      else s.regs.OCR1A := by
  simp only [process_one_command]
  split_ifs <;> first | rfl | (exfalso; simp_all [TONE_NONE, TONE_A4, TONE_D5, TONE_E5, TONE_D7, TONE_FF])

theorem play_audio (cmds : List Nat) (s : SysState) :
    (play cmds s).audio =
      { audio_cmd_ptr := cmds,
        cycle_count := (pgm_read_byte cmds >>> PERIOD_SHIFT) &&& PERIOD_MASK } := by
  simp only [play, enable_task]
  exact process_one_command_audio _

theorem play_TCCR1A (cmds : List Nat) (s : SysState) :
    (play cmds s).regs.TCCR1A =
      if pgm_read_byte cmds &&& TONE_MASK < TONE_NONE then TCCR1A_TOGGLE else TCCR1A_OFF := by
  simp only [play, enable_task]
  exact process_one_command_TCCR1A _

theorem play_OCR1A (cmds : List Nat) (s : SysState) :
    (play cmds s).regs.OCR1A =
      if pgm_read_byte cmds &&& TONE_MASK = TONE_A4 then TOP_FOR_HZ FREQ_A4
      else if pgm_read_byte cmds &&& TONE_MASK = TONE_D5 then TOP_FOR_HZ FREQ_D5
      else if pgm_read_byte cmds &&& TONE_MASK = TONE_E5 then TOP_FOR_HZ FREQ_E5
      else if pgm_read_byte cmds &&& TONE_MASK = TONE_D7 then TOP_FOR_HZ FREQ_D7
      else if pgm_read_byte cmds &&& TONE_MASK = TONE_FF then 1
      else s.regs.OCR1A := by
  simp only [play, enable_task]
  exact process_one_command_OCR1A _

theorem play_PRR (cmds : List Nat) (s : SysState) :
    (play cmds s).regs.PRR = clear_bits s.regs.PRR (1 <<< PRTIM1) := by
  simp only [play, enable_task]
  exact process_one_command_PRR _

theorem play_powered_on (cmds : List Nat) (s : SysState) :
    (play cmds s).regs.PRR &&& (1 <<< PRTIM1) = 0 := by
  rw [play_PRR, and_one_shiftLeft_eq_zero, testBit_clear_bits]; simp

theorem play_task_enabled (cmds : List Nat) (s : SysState) :
    task_enabled AUDIO_TASK (play cmds s) := by
  unfold task_enabled
  rw [play_tasks, and_one_shiftLeft_ne_zero, testBit_set_bits]; simp [AUDIO_TASK]

/-- After the audio update on a last entry whose duration has elapsed the
output is disconnected, the generator powered down and the audio duty bit
clear; the cursor has not moved. -/
theorem process_audio_last_idle (u : SysState) (c : Nat) (rest : List Nat)
    (hp : u.audio.audio_cmd_ptr = c :: rest) (hc : u.audio.cycle_count ≤ 1)
    (hlast : c &&& (1 <<< LAST_SHIFT) ≠ CONTINUE) :
    (audio_view (process_audio u)).1.audio_cmd_ptr = c :: rest ∧
    (audio_view (process_audio u)).2.1 &&& (1 <<< AUDIO_TASK) = 0 ∧
    (audio_view (process_audio u)).2.2.1 = TCCR1A_OFF ∧
    (audio_view (process_audio u)).2.2.2.2 &&& (1 <<< PRTIM1) ≠ 0 := by
  rw [process_audio_last u c rest hp hc hlast]
  refine ⟨hp, ?_, rfl, ?_⟩
  · show clear_bits u.timer.tasks (1 <<< AUDIO_TASK) &&& (1 <<< AUDIO_TASK) = 0
    rw [and_one_shiftLeft_eq_zero, testBit_clear_bits]; simp
  · show set_bits u.regs.PRR (1 <<< PRTIM1) &&& (1 <<< PRTIM1) ≠ 0
    rw [and_one_shiftLeft_ne_zero, testBit_set_bits]; simp [PRTIM1]

/-- A tick interrupt in a state with the audio duty enabled acts on the audio
player as the audio update does. -/
theorem audio_view_ISR_enabled (s : SysState) (h : task_enabled AUDIO_TASK s) :
    audio_view (ISR_TIMER2_OVF s) = audio_view (process_audio (advance_timestamp s)) := by
  rw [audio_view_ISR]
  have ht : (advance_timestamp s).timer.tasks = s.timer.tasks :=
    congrArg (fun v => v.2.1) (audio_view_advance_timestamp s)
  unfold run_task
  rw [if_pos (by rw [ht]; exact h)]

/-- The entries of `tada` before the final one are marked `CONTINUE`, and
every entry after the first has duration 1. -/
theorem tada_entries : ∀ k, k < 19 →
    tada.drop k = (tada.drop k).headD 0 :: tada.drop (k + 1) ∧
    (tada.drop k).headD 0 &&& (1 <<< LAST_SHIFT) = CONTINUE ∧
    (pgm_read_byte (tada.drop (k + 1)) >>> PERIOD_SHIFT) &&& PERIOD_MASK = 1 := by
  decide

/-- One audio update during the victory sequence, before its final entry:
the cursor moves on by one entry, whose duration is one tick, and the duty
bits are unchanged. -/
theorem tada_step (u : SysState) (k : Nat) (hk : k < 19)
    (hp : u.audio.audio_cmd_ptr = tada.drop k) (hc : u.audio.cycle_count = 1) :
    (audio_view (process_audio u)).1 = { audio_cmd_ptr := tada.drop (k + 1), cycle_count := 1 } ∧
    (audio_view (process_audio u)).2.1 = u.timer.tasks := by
  obtain ⟨e1, e2, e3⟩ := tada_entries k hk
  rw [process_audio_continue u _ _ (hp.trans e1) (by omega) e2]
  refine ⟨?_, ?_⟩
  · show (process_one_command _).audio = _
    rw [process_one_command_audio]
    show ({ audio_cmd_ptr := tada.drop (k + 1),
            cycle_count := (pgm_read_byte (tada.drop (k + 1)) >>> PERIOD_SHIFT) &&& PERIOD_MASK }
            : AudioState) = _
    rw [e3]
  · show (process_one_command _).timer.tasks = _
    rw [process_one_command_timer]

/-- The victory sequence under any update `f` that acts on the audio player
as the audio update does: after `k ≤ 19` updates the cursor is at entry `k`
with one tick remaining, and the duty bits are those left by `play`. -/
theorem tada_iterate (f : SysState → SysState)
    (hf : ∀ u, task_enabled AUDIO_TASK u →
      ∃ v, audio_view v = audio_view u ∧ audio_view (f u) = audio_view (process_audio v))
    (s : SysState) (k : Nat) (hk : k ≤ 19) :
    (audio_view (f^[k] (play tada s))).1 = { audio_cmd_ptr := tada.drop k, cycle_count := 1 } ∧
    (audio_view (f^[k] (play tada s))).2.1 = (play tada s).timer.tasks := by
  induction k with
  | zero =>
    refine ⟨?_, rfl⟩
    show (play tada s).audio = _
    rw [play_audio]
    rfl
  | succ k ih =>
    have ih := ih (by omega)
    have hen : task_enabled AUDIO_TASK (f^[k] (play tada s)) := by
      unfold task_enabled
      have h2 : (f^[k] (play tada s)).timer.tasks = (play tada s).timer.tasks := ih.2
      rw [h2]
      exact play_task_enabled tada s
    obtain ⟨v, hv, hfv⟩ := hf _ hen
    rw [Function.iterate_succ_apply', hfv]
    have hva : v.audio = { audio_cmd_ptr := tada.drop k, cycle_count := 1 } :=
      (congrArg (fun w => w.1) hv).trans ih.1
    have hvt : v.timer.tasks = (play tada s).timer.tasks :=
      (congrArg (fun w => w.2.1) hv).trans ih.2
    have hs := tada_step v k (by omega) (by rw [hva]) (by rw [hva])
    exact ⟨hs.1, hs.2.trans hvt⟩

/-- The twentieth update of the victory sequence: the cursor stays on the
final entry, the audio duty bit is cleared, the output disconnected and the
generator powered down. -/
theorem tada_end (f : SysState → SysState)
    (hf : ∀ u, task_enabled AUDIO_TASK u →
      ∃ v, audio_view v = audio_view u ∧ audio_view (f u) = audio_view (process_audio v))
    (s : SysState) :
    (audio_view (f^[20] (play tada s))).1.audio_cmd_ptr = tada.drop 19 ∧
    (audio_view (f^[20] (play tada s))).2.1 &&& (1 <<< AUDIO_TASK) = 0 ∧
    (audio_view (f^[20] (play tada s))).2.2.1 = TCCR1A_OFF ∧
    (audio_view (f^[20] (play tada s))).2.2.2.2 &&& (1 <<< PRTIM1) ≠ 0 := by
  have ih := tada_iterate f hf s 19 (le_refl _)
  have hen : task_enabled AUDIO_TASK (f^[19] (play tada s)) := by
    unfold task_enabled
    have h2 : (f^[19] (play tada s)).timer.tasks = (play tada s).timer.tasks := ih.2
    rw [h2]
    exact play_task_enabled tada s
  obtain ⟨v, hv, hfv⟩ := hf _ hen
  rw [Function.iterate_succ_apply', hfv]
  have hva : v.audio = { audio_cmd_ptr := tada.drop 19, cycle_count := 1 } :=
    (congrArg (fun w => w.1) hv).trans ih.1
  exact process_audio_last_idle v (AUDIO_CMD TONE_FF 1 LAST) [] (by rw [hva]; rfl)
    (by rw [hva]) (by decide)

theorem acts_as_process_audio (u : SysState) (_ : task_enabled AUDIO_TASK u) :
    ∃ v, audio_view v = audio_view u ∧
      audio_view (process_audio u) = audio_view (process_audio v) :=
  ⟨u, rfl, rfl⟩

theorem ISR_acts_as_process_audio (u : SysState) (h : task_enabled AUDIO_TASK u) :
    ∃ v, audio_view v = audio_view u ∧
      audio_view (ISR_TIMER2_OVF u) = audio_view (process_audio v) :=
  ⟨advance_timestamp u, audio_view_advance_timestamp u, audio_view_ISR_enabled u h⟩

/-! ## Lemmas on the hold timing -/

/-- The callbacks of `held_input` do not write the variables of input.c. -/
theorem held_input_calls_input (c input : Nat) (t : SysState) :
    (run (held_input_calls c input) t).input = t.input := by
  have hl : ∀ u, (input_long_push input u).input = u.input :=
    fun u => congrArg (fun w => w.1) (clock_frame_input_long_push input u)
  have hr : ∀ u, (input_repeat input u).input = u.input :=
    fun u => congrArg (fun w => w.1) (clock_frame_input_repeat input u)
  unfold held_input_calls
  split_ifs <;> simp [run, Event.apply, hl, hr]

/-- Function `held_input` as the increment of the counter followed by the
callbacks listed by `held_input_calls`. -/
theorem held_input_eq_calls (get : SysState → Nat) (put : Nat → SysState → SysState)
    (input : Nat) (s : SysState) (hget : ∀ v t, get (put v t) = v)
    (hin : ∀ t u, t.input = u.input → get t = get u) :
    held_input get put input s =
      run (held_input_calls (get s) input) (if get s < 255 then put (get s + 1) s else s) := by
  have hl : ∀ u, get (input_long_push input u) = get u :=
    fun u => hin _ _ (congrArg (fun w => w.1) (clock_frame_input_long_push input u))
  unfold held_input held_input_calls
  by_cases h : get s < 255
  · rw [if_pos h, if_pos h, if_pos h]
    simp only [hget]
    by_cases h10 : get s + 1 = LONG_PUSH_CYCLES
    · rw [if_pos h10, if_pos h10]
      simp only [hl, hget]
      split_ifs <;> simp [run, Event.apply]
    · rw [if_neg h10, if_neg h10]
      simp only [hget]
      split_ifs <;> simp [run, Event.apply]
  · rw [if_neg h, if_neg h, if_neg h]
    rfl

theorem second_control_step_input (v : SysState) :
    (second_control_step v).input =
      { v.input with
        SecondControlNotFittedCount := (second_control_step v).input.SecondControlNotFittedCount }
    := by
  unfold second_control_step; split_ifs <;> rfl

theorem held_up_input (v : SysState) :
    (held_up v).input =
      { v.input with UpCounter :=
          if v.input.LastD &&& D_MASK_UP ≠ 0 ∧ v.input.UpCounter < 255
          then v.input.UpCounter + 1 else v.input.UpCounter } := by
  unfold held_up
  by_cases hb : v.input.LastD &&& D_MASK_UP ≠ 0
  · rw [if_pos hb, held_input_eq_calls (fun t => t.input.UpCounter)
      (fun v t => { t with input.UpCounter := v }) INPUT_UP v (fun _ _ => rfl)
      (fun _ _ h => by simp only [h]), held_input_calls_input]
    by_cases hc : v.input.UpCounter < 255
    · rw [if_pos hc, if_pos ⟨hb, hc⟩]
    · rw [if_neg hc, if_neg (fun h => hc h.2)]
  · rw [if_neg hb, if_neg (fun h => hb h.1)]

theorem held_down_input (v : SysState) :
    (held_down v).input =
      { v.input with DownCounter :=
          if v.input.LastB &&& B_MASK_DOWN ≠ 0 ∧ v.input.DownCounter < 255
          then v.input.DownCounter + 1 else v.input.DownCounter } := by
  unfold held_down
  by_cases hb : v.input.LastB &&& B_MASK_DOWN ≠ 0
  · rw [if_pos hb, held_input_eq_calls (fun t => t.input.DownCounter)
      (fun v t => { t with input.DownCounter := v }) INPUT_DOWN v (fun _ _ => rfl)
      (fun _ _ h => by simp only [h]), held_input_calls_input]
    by_cases hc : v.input.DownCounter < 255
    · rw [if_pos hc, if_pos ⟨hb, hc⟩]
    · rw [if_neg hc, if_neg (fun h => hc h.2)]
  · rw [if_neg hb, if_neg (fun h => hb h.1)]

theorem held_copy_input (v : SysState) :
    (held_copy v).input =
      { v.input with CopyCounter :=
          if v.input.LastB &&& B_MASK_COPY ≠ 0 ∧ v.input.CopyCounter < 255
          then v.input.CopyCounter + 1 else v.input.CopyCounter } := by
  unfold held_copy
  by_cases hb : v.input.LastB &&& B_MASK_COPY ≠ 0
  · rw [if_pos hb, held_input_eq_calls (fun t => t.input.CopyCounter)
      (fun v t => { t with input.CopyCounter := v }) INPUT_COPY v (fun _ _ => rfl)
      (fun _ _ h => by simp only [h]), held_input_calls_input]
    by_cases hc : v.input.CopyCounter < 255
    · rw [if_pos hc, if_pos ⟨hb, hc⟩]
    · rw [if_neg hc, if_neg (fun h => hc h.2)]
  · rw [if_neg hb, if_neg (fun h => hb h.1)]

theorem held_pause_input (v : SysState) :
    (held_pause v).input =
      { v.input with PauseCounter :=
          if v.input.LastB &&& B_MASK_PAUSE ≠ 0 ∧ v.input.PauseCounter < 255
          then v.input.PauseCounter + 1 else v.input.PauseCounter } := by
  unfold held_pause
  by_cases hb : v.input.LastB &&& B_MASK_PAUSE ≠ 0
  · rw [if_pos hb, held_input_eq_calls (fun t => t.input.PauseCounter)
      (fun v t => { t with input.PauseCounter := v }) INPUT_PAUSE v (fun _ _ => rfl)
      (fun _ _ h => by simp only [h]), held_input_calls_input]
    by_cases hc : v.input.PauseCounter < 255
    · rw [if_pos hc, if_pos ⟨hb, hc⟩]
    · rw [if_neg hc, if_neg (fun h => hc h.2)]
  · rw [if_neg hb, if_neg (fun h => hb h.1)]

/-- The variables of input.c after `process_inputs`: the observed vectors are
unchanged and each hold counter is incremented when its channel is asserted
and the counter is below 255. -/
theorem process_inputs_input (s : SysState) :
    (process_inputs s).input =
      { LastB := s.input.LastB
        LastD := s.input.LastD
        UpCounter :=
          if s.input.LastD &&& D_MASK_UP ≠ 0 ∧ s.input.UpCounter < 255
          then s.input.UpCounter + 1 else s.input.UpCounter
        DownCounter :=
          if s.input.LastB &&& B_MASK_DOWN ≠ 0 ∧ s.input.DownCounter < 255
          then s.input.DownCounter + 1 else s.input.DownCounter
        CopyCounter :=
          if s.input.LastB &&& B_MASK_COPY ≠ 0 ∧ s.input.CopyCounter < 255
          then s.input.CopyCounter + 1 else s.input.CopyCounter
        PauseCounter :=
          if s.input.LastB &&& B_MASK_PAUSE ≠ 0 ∧ s.input.PauseCounter < 255
          then s.input.PauseCounter + 1 else s.input.PauseCounter
        SecondControlNotFittedCount :=
          (second_control_step s).input.SecondControlNotFittedCount } := by
  unfold process_inputs
  rw [held_pause_input, held_copy_input, held_down_input, held_up_input,
    second_control_step_input]

theorem hold_process_inputs (input : Nat) (u : SysState) :
    hold_counter input (process_inputs u) =
      (if hold_asserted input u ∧ hold_counter input u < 255 then hold_counter input u + 1
       else hold_counter input u) ∧
    (hold_asserted input (process_inputs u) ↔ hold_asserted input u) := by
  unfold hold_counter hold_asserted
  rw [process_inputs_input]
  split_ifs <;> simp_all

theorem hold_prelude_frame (input : Nat) (u : SysState) :
    hold_counter input (hold_prelude input u) = hold_counter input u ∧
    (hold_asserted input (hold_prelude input u) ↔ hold_asserted input u) := by
  unfold hold_counter hold_asserted hold_prelude
  split_ifs
  · rw [second_control_step_input]; exact ⟨rfl, Iff.rfl⟩
  · rw [held_up_input, second_control_step_input]; exact ⟨rfl, Iff.rfl⟩
  · rw [held_down_input, held_up_input, second_control_step_input]; exact ⟨rfl, Iff.rfl⟩
  · rw [held_copy_input, held_down_input, held_up_input, second_control_step_input]
    exact ⟨rfl, Iff.rfl⟩
  · exact ⟨rfl, Iff.rfl⟩

/-- The statement of `process_inputs` for an asserted channel: the counter
is incremented if it is below 255, and then the callbacks listed by
`held_input_calls` are made. -/
theorem hold_statement_eq (input : Nat) (v : SysState)
    (hch : input = INPUT_UP ∨ input = INPUT_DOWN ∨ input = INPUT_COPY ∨ input = INPUT_PAUSE)
    (h : hold_asserted input v) :
    hold_statement input v =
      run (held_input_calls (hold_counter input v) input)
        (if hold_counter input v < 255 then
          set_hold_counter input (hold_counter input v + 1) v else v) := by
  rcases hch with hch | hch | hch | hch <;> subst hch
  · have hb : v.input.LastD &&& D_MASK_UP ≠ 0 := h
    show held_up v = _
    unfold held_up
    rw [if_pos hb]
    exact held_input_eq_calls (fun t => t.input.UpCounter)
      (fun v t => { t with input.UpCounter := v }) INPUT_UP v (fun _ _ => rfl)
      (fun _ _ h => by simp only [h])
  · have hb : v.input.LastB &&& B_MASK_DOWN ≠ 0 := h
    show held_down v = _
    unfold held_down
    rw [if_pos hb]
    exact held_input_eq_calls (fun t => t.input.DownCounter)
      (fun v t => { t with input.DownCounter := v }) INPUT_DOWN v (fun _ _ => rfl)
      (fun _ _ h => by simp only [h])
  · have hb : v.input.LastB &&& B_MASK_COPY ≠ 0 := h
    show held_copy v = _
    unfold held_copy
    rw [if_pos hb]
    exact held_input_eq_calls (fun t => t.input.CopyCounter)
      (fun v t => { t with input.CopyCounter := v }) INPUT_COPY v (fun _ _ => rfl)
      (fun _ _ h => by simp only [h])
  · have hb : v.input.LastB &&& B_MASK_PAUSE ≠ 0 := h
    show held_pause v = _
    unfold held_pause
    rw [if_pos hb]
    exact held_input_eq_calls (fun t => t.input.PauseCounter)
      (fun v t => { t with input.PauseCounter := v }) INPUT_PAUSE v (fun _ _ => rfl)
      (fun _ _ h => by simp only [h])

/-- The hold counter of a channel that stays asserted, `n` hold-timing ticks
after it was 0, is `min n 255`. -/
theorem hold_counter_iterate (input : Nat) (s : SysState) (n : Nat)
    (h0 : hold_counter input s = 0) (hheld : hold_asserted input s) :
    hold_asserted input (process_inputs^[n] s) ∧
    hold_counter input (process_inputs^[n] s) = min n 255 := by
  induction n with
  | zero => exact ⟨hheld, by rw [Function.iterate_zero_apply, h0]; rfl⟩
  | succ n ih =>
    rw [Function.iterate_succ_apply']
    have h := hold_process_inputs input (process_inputs^[n] s)
    refine ⟨h.2.2 ih.1, ?_⟩
    rw [h.1, ih.2]
    by_cases hn : n < 255
    · rw [if_pos ⟨ih.1, by omega⟩]; omega
    · rw [if_neg (fun hc => hn (by omega))]; omega

/-- The long-push callback is among the callbacks of a hold-timing tick only
when the counter reads 9 on entry, and it is then the only callback. -/
theorem long_push_calls (c input : Nat) :
    (Event.long_push input ∈ held_input_calls c input ↔ c = 9) ∧
    held_input_calls 9 input = [Event.long_push input] := by
  refine ⟨?_, by simp [held_input_calls, LONG_PUSH_CYCLES, REPEAT_HOLDOFF_CYCLES,
    REPEAT_INTERVAL_CYCLES]⟩
  unfold held_input_calls
  simp only [LONG_PUSH_CYCLES]
  split_ifs <;> simp <;> omega

/-! ## Lemmas on the end of the game -/

/-- Function `poll_clock` in Play mode: the stop of an unfitted second
control, the loop over the polled countdowns, the refresh of the display. -/
theorem poll_clock_eq (s : SysState) (hm : s.clock.mode = PLAY_MODE) :
    poll_clock s =
      (List.range NUM_COUNTDOWNS).foldl
        (refresh_body
          (poll_clock_loop (polled_ids s) (polled_ids s) 0 (stop_unfitted s)).clock.update_display)
        { poll_clock_loop (polled_ids s) (polled_ids s) 0 (stop_unfitted s) with
          clock.update_display := 0 } := by
  unfold poll_clock polled_ids stop_unfitted
  rw [if_pos hm]

theorem stop_unfitted_expired (j : Nat) (s : SysState) :
    countdown_has_expired j (stop_unfitted s) = countdown_has_expired j s := by
  unfold stop_unfitted
  split_ifs
  · rfl
  · simp only [countdown_has_expired, stop_countdown, setCountdown, COUNTDOWN_3, COUNTDOWN_4,
      Function.update_apply]
    by_cases h3 : j = 3
    · subst h3; simp
    · by_cases h2 : j = 2
      · subst h2; simp
      · simp [h2, h3]
  · rfl

/-- The loop of `poll_clock` at an expired countdown: the game-over block is
run, and the loop ends. -/
theorem poll_clock_loop_won (n fuel id : Nat) (u : SysState) (hn : n ≤ NUM_COUNTDOWNS + 1)
    (hid : id < n) (he : countdown_has_expired id u ≠ 0) :
    poll_clock_loop n (fuel + 1) id u = declare_won u := by
  unfold poll_clock_loop
  rw [if_pos hid, if_pos he]
  cases fuel with
  | zero => rfl
  | succ k =>
    unfold poll_clock_loop
    rw [if_neg (by omega)]

/-- The refresh of the display at the end of `poll_clock` writes nothing but
`prev_second`. -/
theorem refresh_fold_rest (f : Nat) (s : SysState) :
    ((List.range NUM_COUNTDOWNS).foldl (refresh_body f) s).audio = s.audio ∧
    ((List.range NUM_COUNTDOWNS).foldl (refresh_body f) s).regs = s.regs ∧
    ((List.range NUM_COUNTDOWNS).foldl (refresh_body f) s).turnled = s.turnled := by
  apply foldl_preserves (fun t => t.audio = s.audio ∧ t.regs = s.regs ∧ t.turnled = s.turnled)
    (refresh_body f) _ _ _ ⟨rfl, rfl, rfl⟩
  intro t i ht
  unfold refresh_body
  split_ifs
  · exact ht
  · exact ht

theorem declare_won_ledstate (s : SysState) :
    (declare_won s).turnled.ledstate =
      clear_bits (clear_bits (clear_bits (clear_bits s.turnled.ledstate (1 <<< 0)) (1 <<< 1))
        (1 <<< 2)) (1 <<< 3) := by
  unfold declare_won
  simp only [play_turnled]
  rfl

/-- What `poll_clock` leaves when it finds a polled countdown expired in Play
mode. -/
theorem poll_clock_won (s : SysState) (hm : s.clock.mode = PLAY_MODE) (j : Nat)
    (hj : j < polled_ids s) (he : countdown_has_expired j s ≠ 0) :
    poll_clock_loop (polled_ids s) (polled_ids s) 0 (stop_unfitted s) =
      declare_won (stop_unfitted s) ∧
    (poll_clock s).clock.mode = WON_MODE ∧
    (poll_clock s).timer = (declare_won (stop_unfitted s)).timer ∧
    (poll_clock s).turnled = (declare_won (stop_unfitted s)).turnled ∧
    (poll_clock s).audio = (declare_won (stop_unfitted s)).audio ∧
    (poll_clock s).regs = (declare_won (stop_unfitted s)).regs := by
  have hn : polled_ids s ≤ NUM_COUNTDOWNS + 1 := by
    unfold polled_ids NUM_COUNTDOWNS; split_ifs <;> omega
  have hloop : poll_clock_loop (polled_ids s) (polled_ids s) 0 (stop_unfitted s) =
      declare_won (stop_unfitted s) := by
    rcases poll_clock_loop_cases (polled_ids s) hn (polled_ids s) 0 (stop_unfitted s) with
      ⟨-, h2⟩ | ⟨h1, -⟩
    · exact absurd (h2 j (Nat.zero_le _) hj (by omega))
        (by rw [stop_unfitted_expired]; exact he)
    · exact h1
  refine ⟨hloop, ?_⟩
  rw [poll_clock_eq s hm, hloop]
  exact ⟨(refresh_fold_frame _ _).2.trans (declare_won_mode _), (refresh_fold_frame _ _).1,
    (refresh_fold_rest _ _).2.2, (refresh_fold_rest _ _).1, (refresh_fold_rest _ _).2.1⟩

/-- In Play mode, when no polled countdown is expired, `poll_clock` leaves the
mode as it is. -/
theorem poll_clock_not_won (s : SysState) (hm : s.clock.mode = PLAY_MODE)
    (he : ∀ j, j < polled_ids s → countdown_has_expired j s = 0) :
    (poll_clock s).clock.mode = PLAY_MODE := by
  have hn : polled_ids s ≤ NUM_COUNTDOWNS + 1 := by
    unfold polled_ids NUM_COUNTDOWNS; split_ifs <;> omega
  have hm1 : (stop_unfitted s).clock.mode = PLAY_MODE := by
    unfold stop_unfitted; split_ifs <;> exact hm
  rw [poll_clock_eq s hm]
  rcases poll_clock_loop_cases (polled_ids s) hn (polled_ids s) 0 (stop_unfitted s) with
    ⟨h1, -⟩ | ⟨-, j, hj, h2⟩
  · rw [h1]
    exact (refresh_fold_frame _ _).2.trans hm1
  · exact absurd (by rw [stop_unfitted_expired]; exact he j hj) h2

/-! ## Lemmas on a trace with the second control unplugged -/

theorem run_append (a b : List Event) (s : SysState) : run (a ++ b) s = run b (run a s) := by
  unfold run; rw [List.foldl_append]

theorem process_inputs_hold_timing (s : SysState) :
    (process_inputs s).input = hold_timing s.input := by
  rw [process_inputs_input]
  unfold hold_timing second_control_step
  split_ifs <;> rfl

/-- The audio update leaves the duty bits other than its own. -/
theorem process_audio_tasks (s : SysState) (j : Nat) (hj : j ≠ AUDIO_TASK) (h8 : j < 8) :
    (process_audio s).timer.tasks.testBit j = s.timer.tasks.testBit j := by
  have hc : (clear_bits s.timer.tasks (1 <<< AUDIO_TASK)).testBit j = s.timer.tasks.testBit j := by
    rw [testBit_clear_bits]
    have : ¬ AUDIO_TASK = j := fun h => hj h.symm
    simp [this, h8]
  simp only [process_audio]
  split_ifs
  · rw [process_one_command_timer]
  · exact hc
  · rfl
  · rw [process_one_command_timer]
  · exact hc
  · rfl

/-- The tick interrupt in Play mode with the pause button not held and the
countdown and input duties enabled: the variables of clock.c are unchanged,
the countdowns have had their update, the variables of input.c their hold
timing, and the duty bits other than the audio bit are unchanged. -/
theorem ISR_play (s : SysState) (hm : s.clock.mode = PLAY_MODE)
    (hp : s.input.LastB &&& B_MASK_PAUSE = 0)
    (hc : s.timer.tasks.testBit COUNTDOWN_TASK = true)
    (hi : s.timer.tasks.testBit INPUTS_TASK = true) :
    (ISR_TIMER2_OVF s).clock = s.clock ∧
    (ISR_TIMER2_OVF s).input = hold_timing s.input ∧
    (∀ id, (ISR_TIMER2_OVF s).timer.Countdown id =
      if id < NUM_COUNTDOWNS then countdown_tick (s.timer.Countdown id)
      else s.timer.Countdown id) ∧
    (∀ j, j ≠ AUDIO_TASK → j < 8 →
      (ISR_TIMER2_OVF s).timer.tasks.testBit j = s.timer.tasks.testBit j) := by
  obtain ⟨c, hISR, hcl, hin, hcd, htk⟩ : ∃ c : SysState,
      ISR_TIMER2_OVF s =
        run_task INPUTS_TASK process_inputs (run_task COUNTDOWN_TASK process_countdown c) ∧
      c.clock = s.clock ∧ c.input = s.input ∧ c.timer.Countdown = s.timer.Countdown ∧
      (∀ j, j ≠ AUDIO_TASK → j < 8 → c.timer.tasks.testBit j = s.timer.tasks.testBit j) := by
    refine ⟨run_task TURNLED_TASK process_turnled
      (run_task AUDIO_TASK process_audio (advance_timestamp s)), rfl, ?_⟩
    have ha : (advance_timestamp s).clock = s.clock ∧ (advance_timestamp s).input = s.input ∧
        (advance_timestamp s).timer.Countdown = s.timer.Countdown ∧
        (advance_timestamp s).timer.tasks = s.timer.tasks := by
      simp only [advance_timestamp]; split_ifs <;> exact ⟨rfl, rfl, rfl, rfl⟩
    generalize advance_timestamp s = a at ha
    have hb : (run_task AUDIO_TASK process_audio a).clock = s.clock ∧
        (run_task AUDIO_TASK process_audio a).input = s.input ∧
        (run_task AUDIO_TASK process_audio a).timer.Countdown = s.timer.Countdown ∧
        (∀ j, j ≠ AUDIO_TASK → j < 8 →
          (run_task AUDIO_TASK process_audio a).timer.tasks.testBit j
            = s.timer.tasks.testBit j) := by
      unfold run_task
      split_ifs
      · have h1 := pause_view_process_audio a
        have h2 := clock_frame_process_audio a
        refine ⟨(congrArg (fun w => w.1) h1).trans ha.1, (congrArg (fun w => w.1) h2).trans ha.2.1,
          (congrArg (fun w => w.2.1) h1).trans ha.2.2.1, fun j hj h8 => ?_⟩
        rw [process_audio_tasks a j hj h8, ha.2.2.2]
      · exact ⟨ha.1, ha.2.1, ha.2.2.1, fun j _ _ => by rw [ha.2.2.2]⟩
    generalize run_task AUDIO_TASK process_audio a = b at hb
    unfold run_task
    split_ifs
    · have h1 := pause_view_process_turnled b
      have h2 := clock_frame_process_turnled b
      have h3 := audio_view_process_turnled b
      refine ⟨(congrArg (fun w => w.1) h1).trans hb.1, (congrArg (fun w => w.1) h2).trans hb.2.1,
        (congrArg (fun w => w.2.1) h1).trans hb.2.2.1, fun j hj h8 => ?_⟩
      have h4 : (process_turnled b).timer.tasks = b.timer.tasks := congrArg (fun w => w.2.1) h3
      rw [h4]
      exact hb.2.2.2 j hj h8
    · exact hb
  have hc8 : COUNTDOWN_TASK ≠ AUDIO_TASK ∧ COUNTDOWN_TASK < 8 := by decide
  have hi8 : INPUTS_TASK ≠ AUDIO_TASK ∧ INPUTS_TASK < 8 := by decide
  have hd : run_task COUNTDOWN_TASK process_countdown c = process_countdown c := by
    unfold run_task
    rw [if_pos]
    rw [and_one_shiftLeft_ne_zero, htk _ hc8.1 hc8.2]
    exact hc
  have hdt : (process_countdown c).timer.tasks = c.timer.tasks := by
    rw [process_countdown_eq]
  have he : run_task INPUTS_TASK process_inputs (process_countdown c) =
      process_inputs (process_countdown c) := by
    unfold run_task
    rw [if_pos]
    rw [and_one_shiftLeft_ne_zero, hdt, htk _ hi8.1 hi8.2]
    exact hi
  have hdm : (process_countdown c).clock = s.clock := by
    rw [process_countdown_eq]; exact hcl
  have hdi : (process_countdown c).input = s.input := by
    rw [process_countdown_eq]; exact hin
  have hpl := process_inputs_play (process_countdown c) (by rw [hdm]; exact hm)
    (by rw [hdi]; exact hp)
  rw [hISR, hd, he]
  refine ⟨hpl.2.1.trans hdm, ?_, fun id => ?_, fun j hj h8 => ?_⟩
  · rw [process_inputs_hold_timing, hdi]
  · rw [hpl.1, process_countdown_eq, hcd]
  · rw [hpl.1, hdt]
    exact htk j hj h8

/-- A poll of the inputs that finds both buttons of the second control
pressed, as in the last observed vectors, changes nothing. -/
theorem poll_inputs_unplugged (s : SysState) (hB : s.input.LastB = B_MASK_EOT4)
    (hD : s.input.LastD = D_MASK_EOT3) : poll_inputs pins_eot3_eot4 s = s := by
  have hp : debounce pins_eot3_eot4 20 1 (read_ports (pins_eot3_eot4 0))
      = (B_MASK_EOT4, D_MASK_EOT3) := by decide
  have hr : report_asserted B_MASK_EOT4 D_MASK_EOT3 s = s := by
    have e1 : clear_bits B_MASK_EOT4 B_MASK_EOT4 = 0 := by decide
    have e2 : clear_bits D_MASK_EOT3 D_MASK_EOT3 = 0 := by decide
    have e3 : clear_bits 0 B_MASK_EOT4 = 0 := by decide
    have e4 : clear_bits 0 D_MASK_EOT3 = 0 := by decide
    have e5 : ∀ mask input (t : SysState), report_one 0 mask input t = t := by
      intro mask input t
      simp [report_one]
    unfold report_asserted
    rw [if_pos (Or.inl (by decide))]
    simp only [hB, hD, e1, e2, e3, e4, ite_self, e5]
  have hc : clear_released B_MASK_EOT4 D_MASK_EOT3 s = s := by
    have e1 : clear_bits B_MASK_EOT4 B_MASK_EOT4 = 0 := by decide
    have e2 : clear_bits D_MASK_EOT3 D_MASK_EOT3 = 0 := by decide
    unfold clear_released
    simp [hB, hD, e1, e2]
  unfold poll_inputs
  simp only [hp, hr, hc]
  conv_rhs => rw [← show ({ s with input.LastB := s.input.LastB, input.LastD := s.input.LastD }
    : SysState) = s from rfl]
  rw [hB, hD]

/-- The refresh of the display at the end of `poll_clock` does not write the
variables of input.c. -/
theorem refresh_fold_input (f : Nat) (s : SysState) :
    ((List.range NUM_COUNTDOWNS).foldl (refresh_body f) s).input = s.input := by
  apply foldl_preserves (fun t => t.input = s.input) (refresh_body f) _ _ _ rfl
  intro t i ht
  unfold refresh_body
  split_ifs
  · exact ht
  · exact ht

/-- A poll of the controller in Play mode that has no countdown to stop and
finds no polled countdown expired leaves the timer, the variables of input.c
and the mode as they are. -/
theorem poll_clock_quiet (s : SysState) (hm : s.clock.mode = PLAY_MODE)
    (he : ∀ j, j < polled_ids s → countdown_has_expired j s = 0)
    (hs : stop_unfitted s = s) :
    (poll_clock s).timer = s.timer ∧ (poll_clock s).input = s.input ∧
    (poll_clock s).clock.mode = PLAY_MODE := by
  have hn : polled_ids s ≤ NUM_COUNTDOWNS + 1 := by
    unfold polled_ids NUM_COUNTDOWNS; split_ifs <;> omega
  rw [poll_clock_eq s hm]
  rcases poll_clock_loop_cases (polled_ids s) hn (polled_ids s) 0 (stop_unfitted s) with
    ⟨h1, -⟩ | ⟨-, j, hj, h2⟩
  · rw [h1, hs]
    exact ⟨(refresh_fold_frame _ _).1, refresh_fold_input _ _,
      (refresh_fold_frame _ _).2.trans hm⟩
  · exact absurd (by rw [stop_unfitted_expired]; exact he j hj) h2

/-- Countdown 3 of the trace, started at 0:11: not expired up to its 85th
tick, expired and stopped after the 86th. -/
theorem unplugged_lane (n : Nat) :
    (n ≤ 85 → ((countdown_tick^[n]) (started 0 11))._expired = 0) ∧
    (n = 86 → ((countdown_tick^[n]) (started 0 11))._expired = 1 ∧
      ((countdown_tick^[n]) (started 0 11))._running = 0) := by
  have h := countdown_tick_iterate 0 11 n
  have hs : seconds_begun n = (16 * n + 124) / 125 := rfl
  constructor
  · intro hn
    exact (h.1 (by rw [hs]; omega)).2.1
  · intro hn
    have h2 := h.2 (by rw [hs]; omega)
    exact ⟨h2.2.1, h2.1⟩

theorem run_unplugged_step (s : SysState) :
    run unplugged_step s = poll_clock (poll_inputs pins_eot3_eot4 (ISR_TIMER2_OVF s)) := rfl

/-- One tick and one pass of the main loop with the second control
unplugged, before the not-fitted count has reached its limit. -/
theorem unplugged_inv_step (k : Nat) (s : SysState) (hk : k < 80) (h : unplugged_inv k s) :
    unplugged_inv (k + 1) (run unplugged_step s) := by
  obtain ⟨hm, hB, hD, hcount, htc, hti, h2, hrest⟩ := h
  obtain ⟨icl, iin, icd, itk⟩ := ISR_play s hm (by rw [hB]; decide) htc hti
  have hin : (ISR_TIMER2_OVF s).input.LastB = B_MASK_EOT4 ∧
      (ISR_TIMER2_OVF s).input.LastD = D_MASK_EOT3 ∧
      (ISR_TIMER2_OVF s).input.SecondControlNotFittedCount = k + 1 := by
    rw [iin]
    refine ⟨hB, hD, ?_⟩
    show (if s.input.LastB &&& B_MASK_EOT4 = 0 ∨ s.input.LastD &&& D_MASK_EOT3 = 0 then 0
      else if s.input.SecondControlNotFittedCount < SECOND_CONTROL_TIMEOUT_CYCLES then
        s.input.SecondControlNotFittedCount + 1
      else s.input.SecondControlNotFittedCount) = k + 1
    rw [hB, hD, hcount, if_neg (by decide), if_pos (show k < SECOND_CONTROL_TIMEOUT_CYCLES from hk)]
  have hc2 : (ISR_TIMER2_OVF s).timer.Countdown 2 = (countdown_tick^[6 + (k + 1)]) (started 0 11) := by
    rw [icd 2, if_pos (by decide), h2, ← Function.iterate_succ_apply' countdown_tick]
    rfl
  have hcr : ∀ i, i = 0 ∨ i = 1 ∨ i = 3 →
      ((ISR_TIMER2_OVF s).timer.Countdown i)._running = 0 ∧
      ((ISR_TIMER2_OVF s).timer.Countdown i)._expired = 0 := by
    intro i hi
    have hlt : i < NUM_COUNTDOWNS := by rcases hi with rfl | rfl | rfl <;> decide
    rw [icd i, if_pos hlt, countdown_tick_stopped _ (hrest i hi).1]
    exact hrest i hi
  rw [run_unplugged_step, poll_inputs_unplugged _ hin.1 hin.2.1]
  generalize ISR_TIMER2_OVF s = u at icl iin icd itk hin hc2 hcr
  have hmu : u.clock.mode = PLAY_MODE := by rw [icl]; exact hm
  have hq : (poll_clock u).timer = u.timer ∧ (poll_clock u).input = u.input ∧
      (poll_clock u).clock.mode = PLAY_MODE := by
    apply poll_clock_quiet u hmu
    · intro j hj
      unfold countdown_has_expired
      by_cases hf : k + 1 < 80
      · have h4 : j < 4 := by
          unfold polled_ids at hj; split_ifs at hj <;> omega
        have hj' : j = 2 ∨ (j = 0 ∨ j = 1 ∨ j = 3) := by omega
        rcases hj' with rfl | hj'
        · rw [hc2, (unplugged_lane _).1 (by omega)]; rfl
        · rw [(hcr j hj').2]; rfl
      · have h2' : j < 2 := by
          have hnf : is_second_control_fitted u = 0 := by
            unfold is_second_control_fitted
            rw [hin.2.2, if_neg (by unfold SECOND_CONTROL_TIMEOUT_CYCLES; omega)]
          unfold polled_ids at hj
          rw [hnf] at hj
          exact hj
        rw [(hcr j (by omega)).2]; rfl
    · unfold stop_unfitted
      by_cases hf : k + 1 < 80
      · rw [if_pos]
        unfold is_second_control_fitted
        rw [hin.2.2, if_pos (by unfold SECOND_CONTROL_TIMEOUT_CYCLES; exact hf)]
        decide
      · have hnf : is_second_control_fitted u = 0 := by
          unfold is_second_control_fitted
          rw [hin.2.2, if_neg (by unfold SECOND_CONTROL_TIMEOUT_CYCLES; omega)]
        have h86 : 6 + (k + 1) = 86 := by omega
        have hr2 : countdown_is_running COUNTDOWN_3 u = 0 := by
          unfold countdown_is_running
          show (if (u.timer.Countdown 2)._running ≠ 0 then 1 else 0) = 0
          rw [hc2, ((unplugged_lane _).2 h86).2]; rfl
        have hr3 : countdown_is_running COUNTDOWN_4 u = 0 := by
          unfold countdown_is_running
          show (if (u.timer.Countdown 3)._running ≠ 0 then 1 else 0) = 0
          rw [(hcr 3 (by omega)).1]; rfl
        rw [if_neg (by rw [hnf]; decide), if_neg (by rw [hr2, hr3]; decide)]
  refine ⟨hq.2.2, by rw [hq.2.1]; exact hin.1, by rw [hq.2.1]; exact hin.2.1,
    by rw [hq.2.1]; exact hin.2.2, ?_, ?_, by rw [hq.1]; exact hc2,
    fun i hi => by rw [hq.1]; exact hcr i hi⟩
  · rw [hq.1, itk _ (by decide) (by decide)]; exact htc
  · rw [hq.1, itk _ (by decide) (by decide)]; exact hti

theorem unplugged_inv_times (n : Nat) : ∀ (k : Nat) (s : SysState), k + n ≤ 80 →
    unplugged_inv k s → unplugged_inv (k + n) (run (times n unplugged_step) s) := by
  induction n with
  | zero => intro k s _ h; exact h
  | succ n ih =>
    intro k s hk h
    show unplugged_inv (k + (n + 1)) (run (unplugged_step ++ times n unplugged_step) s)
    rw [run_append]
    have h1 := ih (k + 1) _ (by omega) (unplugged_inv_step k s (by omega) h)
    have e : k + 1 + n = k + (n + 1) := by omega
    rw [e] at h1
    exact h1

set_option maxRecDepth 4000 in
theorem unplugged_start_inv :
    unplugged_inv 0 (run unplugged_start (main_init eeprom_0_11 [])) := by
  refine ⟨by decide, by decide, by decide, by decide, by decide, by decide, by decide, ?_⟩
  intro i hi
  rcases hi with rfl | rfl | rfl <;> decide

/-- The state at the end of `unplugged_trace`. -/
theorem unplugged_trace_inv :
    unplugged_inv 80 (run unplugged_trace (main_init eeprom_0_11 [])) := by
  unfold unplugged_trace
  rw [run_append]
  exact unplugged_inv_times 80 0 _ (by decide) unplugged_start_inv

/-- A state in which countdown 3 has expired on the tick on which the
not-fitted count has reached its limit: `poll_clock` leaves the mode at
Play. -/
theorem unplugged_inv_stays_play (F : SysState) (h : unplugged_inv 80 F) :
    F.clock.mode = PLAY_MODE ∧ countdown_has_expired COUNTDOWN_3 F = 1 ∧
    is_second_control_fitted F = 0 ∧ (poll_clock F).clock.mode = PLAY_MODE := by
  obtain ⟨hm, -, -, hcount, -, -, h2, hrest⟩ := h
  have hnf : is_second_control_fitted F = 0 := by
    unfold is_second_control_fitted
    rw [hcount]
    rfl
  refine ⟨hm, ?_, hnf, ?_⟩
  · unfold countdown_has_expired
    show (if (F.timer.Countdown 2)._expired ≠ 0 then 1 else 0) = 1
    rw [h2, ((unplugged_lane _).2 rfl).1]
    rfl
  · apply poll_clock_not_won _ hm
    intro j hj
    have h2' : j < 2 := by
      unfold polled_ids at hj
      rw [hnf] at hj
      exact hj
    unfold countdown_has_expired
    rw [(hrest j (by omega)).2]
    rfl

/-! ## Lemmas on the edge detection -/

theorem testBit_clear_bits_mask (x m j : Nat) :
    (clear_bits x m).testBit j = (x.testBit j && decide (j < 8) && !(m.testBit j)) := by
  have h255 : (255 : Nat) = 2 ^ 8 - 1 := by decide
  have h256 : (256 : Nat) = 2 ^ 8 := by decide
  simp only [clear_bits, Nat.testBit_and, Nat.testBit_xor]
  rw [h255, h256, Nat.testBit_two_pow_sub_one, Nat.testBit_mod_two_pow]
  by_cases h1 : j < 8 <;> simp [h1]

/-- Bit `k` of a byte is asserted in `a` and not in `b`, as the test
`(a & ~b) & (1<<k)` of `poll_inputs` finds it. -/
theorem clear_bits_and_ne_zero (a b k : Nat) (hk : k < 8) :
    clear_bits a b &&& (1 <<< k) ≠ 0 ↔ (a &&& (1 <<< k) ≠ 0 ∧ b &&& (1 <<< k) = 0) := by
  rw [and_one_shiftLeft_ne_zero, and_one_shiftLeft_ne_zero, and_one_shiftLeft_eq_zero,
    testBit_clear_bits_mask]
  simp [hk]

theorem clock_frame_report_one (new mask input : Nat) (s : SysState) :
    clock_frame (report_one new mask input s) = clock_frame s := by
  unfold report_one
  split_ifs
  · exact clock_frame_input_asserted _ _
  · rfl

theorem clock_frame_report_asserted (pb pd : Nat) (s : SysState) :
    clock_frame (report_asserted pb pd s) = clock_frame s := by
  unfold report_asserted
  by_cases hc : pb ≠ 0 ∨ pd ≠ 0
  · rw [if_pos hc]
    simp only [clock_frame_report_one]
  · rw [if_neg hc]

/-- The variables of input.c after `poll_inputs`: the observed vectors are
the debounced ones, the hold counters of up, down and pause are cleared when
their channel was asserted in the last vector and is not in the new one, the
hold counter of copy and the not-fitted count are unchanged. -/
theorem poll_inputs_input (samples : Nat → Nat × Nat) (s : SysState) :
    (poll_inputs samples s).input =
      { LastB := (debounced samples).1
        LastD := (debounced samples).2
        UpCounter :=
          if clear_bits s.input.LastD (debounced samples).2 &&& D_MASK_UP ≠ 0 then 0
          else s.input.UpCounter
        DownCounter :=
          if clear_bits s.input.LastB (debounced samples).1 &&& B_MASK_DOWN ≠ 0 then 0
          else s.input.DownCounter
        CopyCounter := s.input.CopyCounter
        PauseCounter :=
          if clear_bits s.input.LastB (debounced samples).1 &&& B_MASK_PAUSE ≠ 0 then 0
          else s.input.PauseCounter
        SecondControlNotFittedCount := s.input.SecondControlNotFittedCount } := by
  have hr : (report_asserted (debounced samples).1 (debounced samples).2 s).input = s.input :=
    congrArg (fun w => w.1) (clock_frame_report_asserted _ _ s)
  unfold poll_inputs
  show ({ clear_released (debounced samples).1 (debounced samples).2
      (report_asserted (debounced samples).1 (debounced samples).2 s) with
      input.LastB := (debounced samples).1, input.LastD := (debounced samples).2 }
      : SysState).input = _
  generalize report_asserted (debounced samples).1 (debounced samples).2 s = t at hr
  generalize (debounced samples).1 = pb
  generalize (debounced samples).2 = pd
  have h0b : clear_bits 0 pb &&& B_MASK_DOWN = 0 ∧ clear_bits 0 pb &&& B_MASK_PAUSE = 0 := by
    simp [clear_bits]
  have h0d : clear_bits 0 pd &&& D_MASK_UP = 0 := by simp [clear_bits]
  unfold clear_released
  by_cases hg : t.input.LastB ≠ 0 ∨ t.input.LastD ≠ 0
  · rw [if_pos hg, ← hr]
    simp only []
    split_ifs <;> rfl
  · rw [if_neg hg, ← hr]
    have hb : t.input.LastB = 0 := by
      by_contra h; exact hg (Or.inl h)
    have hd : t.input.LastD = 0 := by
      by_contra h; exact hg (Or.inr h)
    rw [hb, hd, if_neg (by rw [h0d]; exact fun h => h rfl),
      if_neg (by rw [h0b.1]; exact fun h => h rfl),
      if_neg (by rw [h0b.2]; exact fun h => h rfl)]

set_option maxRecDepth 4000 in
/-- The copy button held for 9 ticks, released and pressed again. -/
theorem copy_hold_trace :
    (run ([Event.poll_inputs pins_copy] ++ times 9 [Event.tick])
        (main_init (fun _ => 0) [])).input.LastB &&& B_MASK_COPY ≠ 0 ∧
      (debounced pins_idle).1 &&& B_MASK_COPY = 0 ∧
      (run ([Event.poll_inputs pins_copy] ++ times 9 [Event.tick] ++ [Event.poll_inputs pins_idle])
        (main_init (fun _ => 0) [])).input.CopyCounter = 9 ∧
      (run ([Event.poll_inputs pins_copy] ++ times 9 [Event.tick] ++ [Event.poll_inputs pins_idle]
          ++ [Event.poll_inputs pins_copy, Event.tick])
        (main_init (fun _ => 0) [])).input.CopyCounter = LONG_PUSH_CYCLES := by
  decide

/-! ## Lemmas on the order of the duties -/

theorem task_enabled_iff (id : Nat) (s : SysState) :
    task_enabled id s ↔ s.timer.tasks.testBit id = true := by
  unfold task_enabled
  exact and_one_shiftLeft_ne_zero _ _

/-- A duty that leaves the duty bit `j` does not change whether the duty `j`
runs after it. -/
theorem run_task_testBit (id j : Nat) (f : SysState → SysState) (s : SysState)
    (hf : ∀ t, (f t).timer.tasks.testBit j = t.timer.tasks.testBit j) :
    (run_task id f s).timer.tasks.testBit j = s.timer.tasks.testBit j := by
  unfold run_task
  split_ifs
  · exact hf s
  · rfl

theorem process_turnled_tasks (s : SysState) :
    (process_turnled s).timer.tasks = s.timer.tasks :=
  congrArg (fun w => w.2.1) (audio_view_process_turnled s)

theorem process_countdown_tasks (s : SysState) :
    (process_countdown s).timer.tasks = s.timer.tasks := by
  rw [process_countdown_eq]

theorem advance_timestamp_tasks (s : SysState) :
    (advance_timestamp s).timer.tasks = s.timer.tasks :=
  congrArg (fun w => w.2.1) (audio_view_advance_timestamp s)

/-- A statement `if (tasks & (1<<ID)) process();` of the interrupt handler
whose duty bit is as at the start of the tick. -/
theorem run_task_eq (id : Nat) (f : SysState → SysState) (s t : SysState)
    (h : t.timer.tasks.testBit id = s.timer.tasks.testBit id) :
    run_task id f t = (if task_enabled id s then f else fun u => u) t := by
  unfold run_task
  by_cases hs : task_enabled id s
  · rw [if_pos hs, if_pos]
    rw [and_one_shiftLeft_ne_zero, h]
    exact (task_enabled_iff id s).1 hs
  · rw [if_neg hs, if_neg]
    rw [and_one_shiftLeft_ne_zero, h]
    exact fun hc => hs ((task_enabled_iff id s).2 hc)

/-! ## Lemmas on the debounce loop -/

theorem debounce_spec (samples : Nat → Nat × Nat) (i : Nat) : ∀ k,
    debounce_reads samples i (k + 1) (and_of_reads samples k) ≤ i ∧
    debounce samples i (k + 1) (and_of_reads samples k) =
      and_of_reads samples (k + debounce_reads samples i (k + 1) (and_of_reads samples k)) ∧
    (debounce_reads samples i (k + 1) (and_of_reads samples k) < i →
      and_of_reads samples (k + debounce_reads samples i (k + 1) (and_of_reads samples k))
        = (0, 0)) ∧
    (∀ j, j < debounce_reads samples i (k + 1) (and_of_reads samples k) →
      and_of_reads samples (k + j) ≠ (0, 0)) := by
  induction i with
  | zero =>
    intro k
    refine ⟨le_refl _, rfl, fun h => absurd h (Nat.lt_irrefl _), fun j hj => ?_⟩
    exact absurd hj (Nat.not_lt_zero _)
  | succ i ih =>
    intro k
    unfold debounce debounce_reads
    by_cases hp : (and_of_reads samples k).1 ≠ 0 ∨ (and_of_reads samples k).2 ≠ 0
    · rw [if_pos hp, if_pos hp]
      have hnext : ((and_of_reads samples k).1 &&& (read_ports (samples (k + 1))).1,
          (and_of_reads samples k).2 &&& (read_ports (samples (k + 1))).2)
          = and_of_reads samples (k + 1) := rfl
      rw [hnext]
      obtain ⟨h1, h2, h3, h4⟩ := ih (k + 1)
      have e : k + (1 + debounce_reads samples i (k + 1 + 1) (and_of_reads samples (k + 1)))
          = k + 1 + debounce_reads samples i (k + 1 + 1) (and_of_reads samples (k + 1)) := by
        omega
      rw [e]
      refine ⟨by omega, h2, fun h => h3 (by omega), fun j hj => ?_⟩
      cases j with
      | zero =>
        intro h0
        rcases hp with hp | hp
        · exact hp (by rw [Nat.add_zero] at h0; rw [h0])
        · exact hp (by rw [Nat.add_zero] at h0; rw [h0])
      | succ j =>
        have := h4 j (by omega)
        have e2 : k + (j + 1) = k + 1 + j := by omega
        rw [e2]
        exact this
    · rw [if_neg hp, if_neg hp]
      have hz : and_of_reads samples k = (0, 0) := by
        have h1 : (and_of_reads samples k).1 = 0 := by
          by_contra h; exact hp (Or.inl h)
        have h2 : (and_of_reads samples k).2 = 0 := by
          by_contra h; exact hp (Or.inr h)
        exact Prod.ext h1 h2
      refine ⟨Nat.zero_le _, rfl, fun _ => hz, fun j hj => absurd hj (Nat.not_lt_zero _)⟩

theorem and_of_reads_testBit (samples : Nat → Nat × Nat) (b n : Nat) :
    ((and_of_reads samples n).1.testBit b = true ↔
      ∀ j, j ≤ n → (read_ports (samples j)).1.testBit b = true) ∧
    ((and_of_reads samples n).2.testBit b = true ↔
      ∀ j, j ≤ n → (read_ports (samples j)).2.testBit b = true) := by
  induction n with
  | zero =>
    constructor
    · constructor
      · intro h j hj
        have : j = 0 := by omega
        subst this; exact h
      · intro h; exact h 0 (le_refl _)
    · constructor
      · intro h j hj
        have : j = 0 := by omega
        subst this; exact h
      · intro h; exact h 0 (le_refl _)
  | succ n ih =>
    constructor
    · show ((and_of_reads samples n).1 &&& (read_ports (samples (n + 1))).1).testBit b = true ↔ _
      rw [Nat.testBit_and, Bool.and_eq_true, ih.1]
      constructor
      · rintro ⟨h1, h2⟩ j hj
        rcases Nat.lt_or_ge j (n + 1) with h | h
        · exact h1 j (by omega)
        · have : j = n + 1 := by omega
          subst this; exact h2
      · intro h
        exact ⟨fun j hj => h j (by omega), h (n + 1) (le_refl _)⟩
    · show ((and_of_reads samples n).2 &&& (read_ports (samples (n + 1))).2).testBit b = true ↔ _
      rw [Nat.testBit_and, Bool.and_eq_true, ih.2]
      constructor
      · rintro ⟨h1, h2⟩ j hj
        rcases Nat.lt_or_ge j (n + 1) with h | h
        · exact h1 j (by omega)
        · have : j = n + 1 := by omega
          subst this; exact h2
      · intro h
        exact ⟨fun j hj => h j (by omega), h (n + 1) (le_refl _)⟩

/-! ## Lemmas on the second-control heuristic -/

theorem hold_ticks_snoc (obs : List (Nat × Nat)) (o : Nat × Nat) (s : SysState) :
    hold_ticks (obs ++ [o]) s = hold_tick (hold_ticks obs s) o := by
  unfold hold_ticks
  rw [List.foldl_append]
  rfl

/-- The not-fitted count after a hold-timing tick. -/
theorem hold_tick_count (s : SysState) (o : Nat × Nat) :
    (hold_tick s o).input.SecondControlNotFittedCount =
      if not_both o then 0
      else if s.input.SecondControlNotFittedCount < 80 then
        s.input.SecondControlNotFittedCount + 1
      else s.input.SecondControlNotFittedCount := by
  unfold hold_tick
  rw [process_inputs_hold_timing]
  rfl

theorem main_init_count (e : Nat → Nat) (f : List Nat) :
    (main_init e f).input.SecondControlNotFittedCount = 80 := rfl

/-- The not-fitted count after a sequence of hold-timing ticks from start-up
is below `n ≤ 80` exactly when one of the last `n` ticks found the two buttons
not both asserted. -/
theorem hold_ticks_count (e : Nat → Nat) (f : List Nat) (obs : List (Nat × Nat)) :
    ∀ n, n ≤ 80 →
      ((hold_ticks obs (main_init e f)).input.SecondControlNotFittedCount < n ↔
        ∃ o, o ∈ obs.reverse.take n ∧ not_both o) := by
  induction obs using List.reverseRecOn with
  | nil =>
    intro n hn
    rw [show hold_ticks [] (main_init e f) = main_init e f from rfl, main_init_count]
    simp
    omega
  | append_singleton l a ih =>
    intro n hn
    rw [hold_ticks_snoc, hold_tick_count, List.reverse_append, List.reverse_singleton,
      List.singleton_append]
    cases n with
    | zero => simp
    | succ m =>
      rw [List.take_succ_cons]
      by_cases ha : not_both a
      · rw [if_pos ha]
        constructor
        · intro _; exact ⟨a, List.mem_cons_self _ _, ha⟩
        · intro _; omega
      · rw [if_neg ha]
        have ihm := ih m (by omega)
        constructor
        · intro h
          have hc : (hold_ticks l (main_init e f)).input.SecondControlNotFittedCount < m := by
            split_ifs at h <;> omega
          obtain ⟨o, ho, hno⟩ := ihm.1 hc
          exact ⟨o, List.mem_cons_of_mem _ ho, hno⟩
        · rintro ⟨o, ho, hno⟩
          rcases List.mem_cons.1 ho with rfl | ho
          · exact absurd hno ha
          · have hc := ihm.2 ⟨o, ho, hno⟩
            split_ifs <;> omega

/-! ## Lemmas on the sub-second accumulator -/

theorem countdown_tick_subseconds (c : CountdownType) (h : c._running ≠ 0) :
    (countdown_tick c)._subseconds =
      if c._subseconds ≥ 16 then c._subseconds - 16 else (c._subseconds + 109) % 256 := by
  simp only [countdown_tick, MULTIPLIER, DIVISOR]
  rw [if_pos h]
  split_ifs <;> rfl

/-- The accumulator of a started countdown after `N` updates, the last of
which found it running: `125 * ceil(16 * N / 125) - 16 * N`. -/
theorem countdown_tick_iterate_subseconds (m sec N : Nat)
    (h : N = 0 ∨ seconds_begun (N - 1) ≤ 60 * m + sec) :
    ((countdown_tick^[N]) (started m sec))._subseconds + 16 * N = 125 * seconds_begun N := by
  cases N with
  | zero => rfl
  | succ n =>
    have hn : seconds_begun n ≤ 60 * m + sec := by
      rcases h with h | h
      · exact absurd h (Nat.succ_ne_zero n)
      · exact h
    obtain ⟨hrun, -, hsub, -⟩ := (countdown_tick_iterate m sec n).1 hn
    rw [Function.iterate_succ_apply', countdown_tick_subseconds _ (by rw [hrun]; decide)]
    simp only [seconds_begun, MULTIPLIER, DIVISOR] at hsub ⊢
    have hq : 125 * ((16 * n + (125 - 1)) / 125) ≤ 16 * n + 124 ∧
        16 * n + 124 < 125 * ((16 * n + (125 - 1)) / 125) + 125 := by omega
    have hq' : 125 * ((16 * (n + 1) + (125 - 1)) / 125) ≤ 16 * (n + 1) + 124 ∧
        16 * (n + 1) + 124 < 125 * ((16 * (n + 1) + (125 - 1)) / 125) + 125 := by omega
    generalize (16 * n + (125 - 1)) / 125 = q at hsub hq ⊢
    generalize (16 * (n + 1) + (125 - 1)) / 125 = q' at hq' ⊢
    generalize ((countdown_tick^[n]) (started m sec))._subseconds = x at hsub ⊢
    split_ifs with hx
    · omega
    · have hmod : (x + 109) % 256 = x + 109 := Nat.mod_eq_of_lt (by omega)
      rw [hmod]
      omega

/-- The accumulator of a started countdown stays below 125. -/
theorem countdown_tick_iterate_subseconds_le (m sec N : Nat) :
    ((countdown_tick^[N]) (started m sec))._subseconds ≤ 124 := by
  by_cases h : N = 0 ∨ seconds_begun (N - 1) ≤ 60 * m + sec
  · have := countdown_tick_iterate_subseconds m sec N h
    simp only [seconds_begun, MULTIPLIER, DIVISOR] at this
    omega
  · -- the countdown has expired at an earlier update `K`, and has not changed since
    have hex : ∃ K, K < N ∧ seconds_begun (K - 1) ≤ 60 * m + sec ∧
        60 * m + sec < seconds_begun K := by
      have h0 : seconds_begun 0 ≤ 60 * m + sec := by
        simp [seconds_begun, MULTIPLIER, DIVISOR]
      have hN : 60 * m + sec < seconds_begun (N - 1) := by
        by_contra hc; exact h (Or.inr (by omega))
      have : ∀ J, 60 * m + sec < seconds_begun J →
          ∃ K, K ≤ J ∧ seconds_begun (K - 1) ≤ 60 * m + sec ∧ 60 * m + sec < seconds_begun K := by
        intro J
        induction J with
        | zero => intro hJ; omega
        | succ j ih =>
          intro hJ
          by_cases hj : 60 * m + sec < seconds_begun j
          · obtain ⟨K, hK, h1, h2⟩ := ih hj
            exact ⟨K, by omega, h1, h2⟩
          · exact ⟨j + 1, le_refl _, by simpa using Nat.le_of_not_lt hj, hJ⟩
      obtain ⟨K, hK, h1, h2⟩ := this (N - 1) hN
      have hN0 : N ≠ 0 := fun h0' => h (Or.inl h0')
      exact ⟨K, by omega, h1, h2⟩
    obtain ⟨K, hKN, h1, h2⟩ := hex
    have hstop := ((countdown_tick_iterate m sec K).2 h2).1
    have hsubK := countdown_tick_iterate_subseconds m sec K (Or.inr h1)
    have hfreeze : (countdown_tick^[N]) (started m sec) = (countdown_tick^[K]) (started m sec) := by
      have e : N = (N - K) + K := by omega
      rw [e, Function.iterate_add_apply, countdown_tick_iterate_stopped _ hstop]
    rw [hfreeze]
    simp only [seconds_begun, MULTIPLIER, DIVISOR] at hsubK
    omega

/-! ## Lemmas on the timing of a sequence -/

/-- While an entry is the current one under updates that act on the audio
player as the audio update does: after `j` updates, fewer than the ticks of
the entry, the cursor is on the entry still, `j` less of its duration remain
and the duty bits are unchanged. -/
theorem entry_current (f : SysState → SysState)
    (hf : ∀ u, task_enabled AUDIO_TASK u →
      ∃ v, audio_view v = audio_view u ∧ audio_view (f u) = audio_view (process_audio v))
    (u : SysState) (c : Nat) (rest : List Nat)
    (hu : u.audio = { audio_cmd_ptr := c :: rest, cycle_count := entry_duration c })
    (hen : task_enabled AUDIO_TASK u) (j : Nat) (hj : j < entry_ticks c) :
    (audio_view (f^[j] u)).1
      = { audio_cmd_ptr := c :: rest, cycle_count := entry_duration c - j } ∧
    (audio_view (f^[j] u)).2.1 = u.timer.tasks := by
  induction j with
  | zero => exact ⟨hu, rfl⟩
  | succ j ih =>
    have ih := ih (by omega)
    have hen' : task_enabled AUDIO_TASK (f^[j] u) := by
      unfold task_enabled
      have h2 : (f^[j] u).timer.tasks = u.timer.tasks := ih.2
      rw [h2]; exact hen
    obtain ⟨v, hv, hfv⟩ := hf _ hen'
    rw [Function.iterate_succ_apply', hfv]
    have hva : v.audio = { audio_cmd_ptr := c :: rest, cycle_count := entry_duration c - j } :=
      (congrArg (fun w => w.1) hv).trans ih.1
    have hvt : v.timer.tasks = u.timer.tasks := (congrArg (fun w => w.2.1) hv).trans ih.2
    have hd : 1 < v.audio.cycle_count := by
      rw [hva]
      show 1 < entry_duration c - j
      unfold entry_ticks at hj
      omega
    rw [process_audio_wait v hd]
    refine ⟨?_, hvt⟩
    show ({ audio_cmd_ptr := v.audio.audio_cmd_ptr, cycle_count := v.audio.cycle_count - 1 }
      : AudioState) = _
    rw [hva]
    show ({ audio_cmd_ptr := c :: rest, cycle_count := entry_duration c - j - 1 } : AudioState) = _
    rw [Nat.sub_sub]

/-- The update that ends an entry, as seen on a state with the audio view of
the state before it. -/
theorem entry_end_state (f : SysState → SysState)
    (hf : ∀ u, task_enabled AUDIO_TASK u →
      ∃ v, audio_view v = audio_view u ∧ audio_view (f u) = audio_view (process_audio v))
    (u : SysState) (c : Nat) (rest : List Nat)
    (hu : u.audio = { audio_cmd_ptr := c :: rest, cycle_count := entry_duration c })
    (hen : task_enabled AUDIO_TASK u) :
    ∃ v : SysState, v.audio.audio_cmd_ptr = c :: rest ∧ v.audio.cycle_count ≤ 1 ∧
      v.timer.tasks = u.timer.tasks ∧
      audio_view (f^[entry_ticks c] u) = audio_view (process_audio v) := by
  have hpos : entry_ticks c - 1 < entry_ticks c := by unfold entry_ticks; omega
  have h := entry_current f hf u c rest hu hen (entry_ticks c - 1) hpos
  have hen' : task_enabled AUDIO_TASK (f^[entry_ticks c - 1] u) := by
    unfold task_enabled
    have h2 : (f^[entry_ticks c - 1] u).timer.tasks = u.timer.tasks := h.2
    rw [h2]; exact hen
  obtain ⟨v, hv, hfv⟩ := hf _ hen'
  have hva : v.audio =
      { audio_cmd_ptr := c :: rest, cycle_count := entry_duration c - (entry_ticks c - 1) } :=
    (congrArg (fun w => w.1) hv).trans h.1
  refine ⟨v, by rw [hva], ?_, (congrArg (fun w => w.2.1) hv).trans h.2, ?_⟩
  · rw [hva]
    show entry_duration c - (entry_ticks c - 1) ≤ 1
    unfold entry_ticks
    omega
  · have e : entry_ticks c = (entry_ticks c - 1) + 1 := by unfold entry_ticks; omega
    rw [e, Function.iterate_succ_apply', hfv]

/-- After the ticks of an entry that is not marked last the cursor is on the
next entry, with its duration to go, and the duty bits are unchanged. -/
theorem entry_next (f : SysState → SysState)
    (hf : ∀ u, task_enabled AUDIO_TASK u →
      ∃ v, audio_view v = audio_view u ∧ audio_view (f u) = audio_view (process_audio v))
    (u : SysState) (c : Nat) (rest : List Nat)
    (hu : u.audio = { audio_cmd_ptr := c :: rest, cycle_count := entry_duration c })
    (hen : task_enabled AUDIO_TASK u) (hc : ¬ marked_last c) :
    (audio_view (f^[entry_ticks c] u)).1
      = { audio_cmd_ptr := rest, cycle_count := entry_duration (pgm_read_byte rest) } ∧
    (audio_view (f^[entry_ticks c] u)).2.1 = u.timer.tasks := by
  obtain ⟨v, hp, hcy, ht, hv⟩ := entry_end_state f hf u c rest hu hen
  have hcont : c &&& (1 <<< LAST_SHIFT) = CONTINUE := by
    unfold marked_last at hc
    exact not_not.1 hc
  rw [hv, process_audio_continue v c rest hp hcy hcont]
  refine ⟨?_, ?_⟩
  · show (process_one_command _).audio = _
    rw [process_one_command_audio]
    rfl
  · show (process_one_command _).timer.tasks = _
    rw [process_one_command_timer]
    exact ht

/-- After the ticks of an entry that is marked last the audio duty bit is
clear, the output disconnected and the generator powered down; the cursor is
on that entry still. -/
theorem entry_last (f : SysState → SysState)
    (hf : ∀ u, task_enabled AUDIO_TASK u →
      ∃ v, audio_view v = audio_view u ∧ audio_view (f u) = audio_view (process_audio v))
    (u : SysState) (c : Nat) (rest : List Nat)
    (hu : u.audio = { audio_cmd_ptr := c :: rest, cycle_count := entry_duration c })
    (hen : task_enabled AUDIO_TASK u) (hc : marked_last c) :
    (audio_view (f^[entry_ticks c] u)).1.audio_cmd_ptr = c :: rest ∧
    (audio_view (f^[entry_ticks c] u)).2.1 &&& (1 <<< AUDIO_TASK) = 0 ∧
    (audio_view (f^[entry_ticks c] u)).2.2.1 = TCCR1A_OFF ∧
    (audio_view (f^[entry_ticks c] u)).2.2.2.2 &&& (1 <<< PRTIM1) ≠ 0 := by
  obtain ⟨v, hp, hcy, -, hv⟩ := entry_end_state f hf u c rest hu hen
  rw [hv]
  exact process_audio_last_idle v c rest hp hcy hc

theorem sequence_ticks_cons (c : Nat) (l : List Nat) :
    sequence_ticks (c :: l) = entry_ticks c + sequence_ticks l := by
  unfold sequence_ticks
  rw [List.map_cons, List.sum_cons]

/-- Every number of ticks below the ticks of a sequence falls within the
ticks of one of its entries. -/
theorem sequence_ticks_split (cmds : List Nat) : ∀ k, k < sequence_ticks cmds →
    ∃ i j, i < cmds.length ∧ j < entry_ticks (pgm_read_byte (cmds.drop i)) ∧
      k = sequence_ticks (cmds.take i) + j := by
  induction cmds with
  | nil => intro k hk; exact absurd hk (Nat.not_lt_zero _)
  | cons c l ih =>
    intro k hk
    rw [sequence_ticks_cons] at hk
    by_cases h : k < entry_ticks c
    · exact ⟨0, k, Nat.succ_pos _, h, (Nat.zero_add k).symm⟩
    · obtain ⟨i, j, hi, hj, hkj⟩ := ih (k - entry_ticks c) (by omega)
      refine ⟨i + 1, j, Nat.succ_lt_succ hi, hj, ?_⟩
      rw [List.take_succ_cons, sequence_ticks_cons]
      omega

/-- The timing of a sequence whose final entry alone is marked last, from a
state in which its first entry has just been installed. -/
theorem sequence_run (f : SysState → SysState)
    (hf : ∀ u, task_enabled AUDIO_TASK u →
      ∃ v, audio_view v = audio_view u ∧ audio_view (f u) = audio_view (process_audio v))
    (final : Nat) (hfinal : marked_last final) (front : List Nat) :
    ∀ (u : SysState), (∀ c, c ∈ front → ¬ marked_last c) →
      u.audio = { audio_cmd_ptr := front ++ [final],
                  cycle_count := entry_duration (pgm_read_byte (front ++ [final])) } →
      task_enabled AUDIO_TASK u →
      (∀ i j, i < (front ++ [final]).length →
        j < entry_ticks (pgm_read_byte ((front ++ [final]).drop i)) →
        (audio_view (f^[sequence_ticks ((front ++ [final]).take i) + j] u)).1 =
          { audio_cmd_ptr := (front ++ [final]).drop i,
            cycle_count := entry_duration (pgm_read_byte ((front ++ [final]).drop i)) - j } ∧
        (audio_view (f^[sequence_ticks ((front ++ [final]).take i) + j] u)).2.1
          = u.timer.tasks) ∧
      (audio_view (f^[sequence_ticks (front ++ [final])] u)).1.audio_cmd_ptr = [final] ∧
      (audio_view (f^[sequence_ticks (front ++ [final])] u)).2.1 &&& (1 <<< AUDIO_TASK) = 0 := by
  induction front with
  | nil =>
    intro u _ hu hen
    have hu' : u.audio = { audio_cmd_ptr := final :: [], cycle_count := entry_duration final } :=
      hu
    refine ⟨fun i j hi hj => ?_, ?_⟩
    · have hi0 : i = 0 := by
        simp only [List.nil_append, List.length_singleton] at hi
        omega
      subst hi0
      have hj' : j < entry_ticks final := hj
      have h := entry_current f hf u final [] hu' hen j hj'
      have e : sequence_ticks (([] ++ [final] : List Nat).take 0) + j = j := by
        show sequence_ticks [] + j = j
        exact Nat.zero_add j
      rw [e]
      exact h
    · have h := entry_last f hf u final [] hu' hen hfinal
      have e : sequence_ticks ([] ++ [final]) = entry_ticks final := by
        show sequence_ticks [final] = entry_ticks final
        rw [sequence_ticks_cons]
        rfl
      rw [e]
      exact ⟨h.1, h.2.1⟩
  | cons c fr ih =>
    intro u hfront hu hen
    have hu' : u.audio =
        { audio_cmd_ptr := c :: (fr ++ [final]), cycle_count := entry_duration c } := hu
    have hc : ¬ marked_last c := hfront c (List.mem_cons_self _ _)
    have hnext := entry_next f hf u c (fr ++ [final]) hu' hen hc
    have hen' : task_enabled AUDIO_TASK (f^[entry_ticks c] u) := by
      unfold task_enabled
      have h2 : (f^[entry_ticks c] u).timer.tasks = u.timer.tasks := hnext.2
      rw [h2]; exact hen
    obtain ⟨ih1, ih2⟩ := ih (f^[entry_ticks c] u)
      (fun c' hc' => hfront c' (List.mem_cons_of_mem _ hc')) hnext.1 hen'
    have hshift : ∀ n, f^[entry_ticks c + n] u = f^[n] (f^[entry_ticks c] u) := by
      intro n
      rw [Nat.add_comm, Function.iterate_add_apply]
    refine ⟨fun i j hi hj => ?_, ?_⟩
    · cases i with
      | zero =>
        have hj' : j < entry_ticks c := hj
        have h := entry_current f hf u c (fr ++ [final]) hu' hen j hj'
        have e : sequence_ticks ((c :: fr ++ [final]).take 0) + j = j := by
          show sequence_ticks [] + j = j
          exact Nat.zero_add j
        rw [e]
        exact h
      | succ i =>
        have hi' : i < (fr ++ [final]).length := by
          simp only [List.cons_append, List.length_cons] at hi
          omega
        have h := ih1 i j hi' hj
        have e : sequence_ticks ((c :: fr ++ [final]).take (i + 1)) + j
            = entry_ticks c + (sequence_ticks ((fr ++ [final]).take i) + j) := by
          show sequence_ticks (c :: (fr ++ [final]).take i) + j = _
          rw [sequence_ticks_cons]
          omega
        rw [e, hshift]
        exact ⟨h.1, h.2.trans hnext.2⟩
    · have e : sequence_ticks (c :: fr ++ [final])
          = entry_ticks c + sequence_ticks (fr ++ [final]) := sequence_ticks_cons _ _
      rw [e, hshift]
      exact ih2

/-- The timing of a sequence after `play`, under any update that acts on the
audio player as the audio update does. -/
theorem sequence_timing_of_acts (f : SysState → SysState)
    (hf : ∀ u, task_enabled AUDIO_TASK u →
      ∃ v, audio_view v = audio_view u ∧ audio_view (f u) = audio_view (process_audio v))
    (cmds : List Nat) (s : SysState) (h : last_marked_only cmds) :
    sequence_timing f cmds s := by
  obtain ⟨front, final, hcmds, hfront, hfinal⟩ := h
  subst hcmds
  have hen := play_task_enabled (front ++ [final]) s
  obtain ⟨h1, h2, h3⟩ := sequence_run f hf final hfinal front (play (front ++ [final]) s) hfront
    (play_audio _ s) hen
  have htasks : ∀ i j, i < (front ++ [final]).length →
      j < entry_ticks (pgm_read_byte ((front ++ [final]).drop i)) →
      task_enabled AUDIO_TASK
        (f^[sequence_ticks ((front ++ [final]).take i) + j] (play (front ++ [final]) s)) := by
    intro i j hi hj
    unfold task_enabled
    have e : (f^[sequence_ticks ((front ++ [final]).take i) + j]
        (play (front ++ [final]) s)).timer.tasks = (play (front ++ [final]) s).timer.tasks :=
      (h1 i j hi hj).2
    rw [e]
    exact hen
  refine ⟨fun i j hi hj => ⟨htasks i j hi hj, (h1 i j hi hj).1⟩, fun k hk => ?_,
    fun hc => hc h3, ?_⟩
  · obtain ⟨i, j, hi, hj, hkj⟩ := sequence_ticks_split _ k hk
    rw [hkj]
    exact htasks i j hi hj
  · have e : (front ++ [final]).drop ((front ++ [final]).length - 1) = [final] := by
      rw [List.length_append, List.length_singleton, Nat.add_sub_cancel,
        List.drop_left]
    rw [e]
    exact h2

/-! ## Lemmas on the asserted-input callbacks -/

theorem report_one_eq_run (new mask input : Nat) (t : SysState) :
    report_one new mask input t =
      run (if new &&& mask ≠ 0 then [Event.asserted input] else []) t := by
  unfold report_one
  split_ifs <;> rfl

/-- The first block of `poll_inputs` makes the callbacks listed by
`asserted_calls`, and does nothing else. -/
theorem report_asserted_eq_run (pb pd : Nat) (s : SysState) :
    report_asserted pb pd s = run (asserted_calls pb pd s.input) s := by
  unfold report_asserted asserted_calls
  by_cases hg : pb ≠ 0 ∨ pd ≠ 0
  · rw [if_pos hg, if_pos hg]
    simp only [run_append, report_one_eq_run]
  · rw [if_neg hg, if_neg hg]
    rfl

/-- Bit `k` of the vector of newly asserted inputs of a port: the bit is set
in the new vector `x`, clear in the last one, and not masked off. -/
theorem new_bit_iff (x last m k : Nat) (c : Prop) [Decidable c] (hk : k < 8) :
    ((if c then clear_bits (clear_bits x last) (1 <<< m) else clear_bits x last)
        &&& (1 <<< k) ≠ 0) ↔
      (x.testBit k = true ∧ last.testBit k = false ∧ (m = k → ¬ c)) := by
  rw [and_one_shiftLeft_ne_zero]
  by_cases hc : c
  · rw [if_pos hc, testBit_clear_bits, testBit_clear_bits_mask]
    by_cases hm : m = k <;> simp [hk, hm, hc]
  · rw [if_neg hc, testBit_clear_bits_mask]
    simp [hk, hc]

theorem filter_map_cons {α β : Type} (p : α → Bool) (f : α → β) (a : α) (l : List α) :
    ((a :: l).filter p).map f = (if p a = true then [f a] else []) ++ (l.filter p).map f := by
  by_cases h : p a = true
  · rw [List.filter_cons_of_pos h, if_pos h]; rfl
  · rw [List.filter_cons_of_neg h, if_neg h]; rfl

/-- The callbacks of `poll_inputs` are those for the channels that are newly
asserted, each once, in the order of `poll_order`. -/
theorem asserted_calls_eq (pb pd : Nat) (i : InputState) :
    asserted_calls pb pd i =
      (poll_order.filter (fun id => decide (newly_asserted id (pb, pd) i))).map
        Event.asserted := by
  have hD : ∀ k id, k < 8 →
      (newly_asserted id (pb, pd) i ↔ (pd.testBit k = true ∧ i.LastD.testBit k = false ∧
        (7 = k → ¬ i.SecondControlNotFittedCount ≥ SECOND_CONTROL_TIMEOUT_CYCLES))) →
      (((if i.SecondControlNotFittedCount ≥ SECOND_CONTROL_TIMEOUT_CYCLES
          then clear_bits (clear_bits pd i.LastD) D_MASK_EOT3 else clear_bits pd i.LastD)
          &&& (1 <<< k) ≠ 0) ↔ newly_asserted id (pb, pd) i) := by
    intro k id hk h
    rw [h]
    exact new_bit_iff pd i.LastD 7 k _ hk
  have hB : ∀ k id, k < 8 →
      (newly_asserted id (pb, pd) i ↔ (pb.testBit k = true ∧ i.LastB.testBit k = false ∧
        (0 = k → ¬ i.SecondControlNotFittedCount ≥ SECOND_CONTROL_TIMEOUT_CYCLES))) →
      (((if i.SecondControlNotFittedCount ≥ SECOND_CONTROL_TIMEOUT_CYCLES
          then clear_bits (clear_bits pb i.LastB) B_MASK_EOT4 else clear_bits pb i.LastB)
          &&& (1 <<< k) ≠ 0) ↔ newly_asserted id (pb, pd) i) := by
    intro k id hk h
    rw [h]
    exact new_bit_iff pb i.LastB 0 k _ hk
  have h1 := hD 1 INPUT_EOT1 (by decide) (by
    simp [newly_asserted, channel_asserted, INPUT_EOT1, INPUT_EOT3, INPUT_EOT4])
  have h2 := hD 2 INPUT_EOT2 (by decide) (by
    simp [newly_asserted, channel_asserted, INPUT_EOT1, INPUT_EOT2, INPUT_EOT3, INPUT_EOT4])
  have h3 := hD 4 INPUT_UP (by decide) (by
    simp [newly_asserted, channel_asserted, INPUT_EOT1, INPUT_EOT2, INPUT_EOT3, INPUT_EOT4,
      INPUT_UP])
  have h4 := hD 7 INPUT_EOT3 (by decide) (by
    simp [newly_asserted, channel_asserted, INPUT_EOT1, INPUT_EOT2, INPUT_EOT3, INPUT_EOT4,
      INPUT_UP])
  have h5 := hB 0 INPUT_EOT4 (by decide) (by
    simp [newly_asserted, channel_asserted, INPUT_EOT1, INPUT_EOT2, INPUT_EOT3, INPUT_EOT4,
      INPUT_UP])
  have h6 := hB 2 INPUT_DOWN (by decide) (by
    simp [newly_asserted, channel_asserted, INPUT_EOT1, INPUT_EOT2, INPUT_EOT3, INPUT_EOT4,
      INPUT_UP, INPUT_DOWN])
  have h7 := hB 3 INPUT_RESTART (by decide) (by
    simp [newly_asserted, channel_asserted, INPUT_EOT1, INPUT_EOT2, INPUT_EOT3, INPUT_EOT4,
      INPUT_UP, INPUT_DOWN, INPUT_RESTART])
  have h8 := hB 4 INPUT_PAUSE (by decide) (by
    simp [newly_asserted, channel_asserted, INPUT_EOT1, INPUT_EOT2, INPUT_EOT3, INPUT_EOT4,
      INPUT_UP, INPUT_DOWN, INPUT_RESTART, INPUT_PAUSE])
  have h9 := hB 5 INPUT_COPY (by decide) (by
    simp [newly_asserted, channel_asserted, INPUT_EOT1, INPUT_EOT2, INPUT_EOT3, INPUT_EOT4,
      INPUT_UP, INPUT_DOWN, INPUT_RESTART, INPUT_PAUSE, INPUT_COPY])
  unfold poll_order
  simp only [filter_map_cons, List.filter_nil, List.map_nil, List.append_nil,
    decide_eq_true_eq]
  unfold asserted_calls
  by_cases hg : pb ≠ 0 ∨ pd ≠ 0
  · rw [if_pos hg]
    simp only [List.append_assoc]
    have e1 : ((if i.SecondControlNotFittedCount ≥ SECOND_CONTROL_TIMEOUT_CYCLES
        then clear_bits (clear_bits pd i.LastD) D_MASK_EOT3 else clear_bits pd i.LastD)
        &&& D_MASK_EOT1 ≠ 0) ↔ newly_asserted INPUT_EOT1 (pb, pd) i := h1
    have e2 : ((if i.SecondControlNotFittedCount ≥ SECOND_CONTROL_TIMEOUT_CYCLES
        then clear_bits (clear_bits pd i.LastD) D_MASK_EOT3 else clear_bits pd i.LastD)
        &&& D_MASK_EOT2 ≠ 0) ↔ newly_asserted INPUT_EOT2 (pb, pd) i := h2
    have e3 : ((if i.SecondControlNotFittedCount ≥ SECOND_CONTROL_TIMEOUT_CYCLES
        then clear_bits (clear_bits pd i.LastD) D_MASK_EOT3 else clear_bits pd i.LastD)
        &&& D_MASK_UP ≠ 0) ↔ newly_asserted INPUT_UP (pb, pd) i := h3
    have e4 : ((if i.SecondControlNotFittedCount ≥ SECOND_CONTROL_TIMEOUT_CYCLES
        then clear_bits (clear_bits pd i.LastD) D_MASK_EOT3 else clear_bits pd i.LastD)
        &&& D_MASK_EOT3 ≠ 0) ↔ newly_asserted INPUT_EOT3 (pb, pd) i := h4
    have e5 : ((if i.SecondControlNotFittedCount ≥ SECOND_CONTROL_TIMEOUT_CYCLES
        then clear_bits (clear_bits pb i.LastB) B_MASK_EOT4 else clear_bits pb i.LastB)
        &&& B_MASK_EOT4 ≠ 0) ↔ newly_asserted INPUT_EOT4 (pb, pd) i := h5
    have e6 : ((if i.SecondControlNotFittedCount ≥ SECOND_CONTROL_TIMEOUT_CYCLES
        then clear_bits (clear_bits pb i.LastB) B_MASK_EOT4 else clear_bits pb i.LastB)
        &&& B_MASK_DOWN ≠ 0) ↔ newly_asserted INPUT_DOWN (pb, pd) i := h6
    have e7 : ((if i.SecondControlNotFittedCount ≥ SECOND_CONTROL_TIMEOUT_CYCLES
        then clear_bits (clear_bits pb i.LastB) B_MASK_EOT4 else clear_bits pb i.LastB)
        &&& B_MASK_RESTART ≠ 0) ↔ newly_asserted INPUT_RESTART (pb, pd) i := h7
    have e8 : ((if i.SecondControlNotFittedCount ≥ SECOND_CONTROL_TIMEOUT_CYCLES
        then clear_bits (clear_bits pb i.LastB) B_MASK_EOT4 else clear_bits pb i.LastB)
        &&& B_MASK_PAUSE ≠ 0) ↔ newly_asserted INPUT_PAUSE (pb, pd) i := h8
    have e9 : ((if i.SecondControlNotFittedCount ≥ SECOND_CONTROL_TIMEOUT_CYCLES
        then clear_bits (clear_bits pb i.LastB) B_MASK_EOT4 else clear_bits pb i.LastB)
        &&& B_MASK_COPY ≠ 0) ↔ newly_asserted INPUT_COPY (pb, pd) i := h9
    simp only [e1, e2, e3, e4, e5, e6, e7, e8, e9]
  · rw [if_neg hg]
    have hb : pb = 0 := by
      by_contra h; exact hg (Or.inl h)
    have hd : pd = 0 := by
      by_contra h; exact hg (Or.inr h)
    subst hb; subst hd
    simp [newly_asserted, channel_asserted]

/-! ## Invariants of the events -/

/-- A property of the countdowns, the mode and the was-running mask that the callbacks of the
controller, the countdown update and the poll of the controller preserve is
preserved by every event that makes asserted-input callbacks for allowed
channels only. -/
theorem preserved_by_event (Q : SysState → Prop) (allowed : Nat → SysState → Prop)
    (hview : ∀ s t : SysState, t.timer.Countdown = s.timer.Countdown →
      t.clock.mode = s.clock.mode → t.clock.was_running = s.clock.was_running → Q s → Q t)
    (hassert : ∀ id s, allowed id s → Q s → Q (input_asserted id s))
    (hlong : ∀ id s, Q s → Q (input_long_push id s))
    (hrep : ∀ id s, Q s → Q (input_repeat id s))
    (hcd : ∀ s, Q s → Q (process_countdown s))
    (hpoll : ∀ s, Q s → Q (poll_clock s))
    (e : Event) (s : SysState) (hp : permitted allowed e s) (h : Q s) : Q (e.apply s) := by
  have hite : ∀ (c : Prop) [Decidable c] (f : SysState → SysState) (u : SysState),
      (∀ v, Q v → Q (f v)) → Q u → Q (if c then f u else u) := by
    intro c _ f u hf hu
    split_ifs
    · exact hf u hu
    · exact hu
  have hheld : ∀ (get : SysState → Nat) (put : Nat → SysState → SysState) (input : Nat),
      (∀ v t, (put v t).timer.Countdown = t.timer.Countdown ∧
        (put v t).clock = t.clock) →
      ∀ u, Q u → Q (held_input get put input u) := by
    intro get put input hput u hu
    have hq : ∀ v t, Q t → Q (put v t) := fun v t ht =>
      hview t _ (hput v t).1 (congrArg ClockState.mode (hput v t).2)
        (congrArg ClockState.was_running (hput v t).2) ht
    simp only [held_input]
    split_ifs
    · exact hrep _ _ (hlong _ _ (hq _ _ hu))
    · exact hlong _ _ (hq _ _ hu)
    · exact hrep _ _ (hq _ _ hu)
    · exact hq _ _ hu
    · exact hu
  cases e with
  | tick =>
    show Q (ISR_TIMER2_OVF s)
    have h0 : Q (advance_timestamp s) := by
      unfold advance_timestamp
      simp only []
      split_ifs <;> exact hview s _ rfl rfl rfl h
    have ha : ∀ v, Q v → Q (process_audio v) := fun v hv =>
      hview v _ (congrArg (fun w => w.2.1) (pause_view_process_audio v))
        (congrArg (fun w => w.1.mode) (pause_view_process_audio v))
        (congrArg (fun w => w.1.was_running) (pause_view_process_audio v)) hv
    have hl : ∀ v, Q v → Q (process_turnled v) := fun v hv =>
      hview v _ (congrArg (fun w => w.2.1) (pause_view_process_turnled v))
        (congrArg (fun w => w.1.mode) (pause_view_process_turnled v))
        (congrArg (fun w => w.1.was_running) (pause_view_process_turnled v)) hv
    have hi : ∀ v, Q v → Q (process_inputs v) := by
      intro v hv
      unfold process_inputs
      have e1 : Q (second_control_step v) := by
        unfold second_control_step
        split_ifs <;> exact hview v _ rfl rfl rfl hv
      have g1 : Q (held_up (second_control_step v)) := by
        unfold held_up
        exact hite _ _ _ (hheld (fun t => t.input.UpCounter)
          (fun v t => { t with input.UpCounter := v }) INPUT_UP (fun _ _ => ⟨rfl, rfl⟩)) e1
      have g2 : Q (held_down (held_up (second_control_step v))) := by
        unfold held_down
        exact hite _ _ _ (hheld (fun t => t.input.DownCounter)
          (fun v t => { t with input.DownCounter := v }) INPUT_DOWN (fun _ _ => ⟨rfl, rfl⟩)) g1
      have g3 : Q (held_copy (held_down (held_up (second_control_step v)))) := by
        unfold held_copy
        exact hite _ _ _ (hheld (fun t => t.input.CopyCounter)
          (fun v t => { t with input.CopyCounter := v }) INPUT_COPY (fun _ _ => ⟨rfl, rfl⟩)) g2
      unfold held_pause
      exact hite _ _ _ (hheld (fun t => t.input.PauseCounter)
        (fun v t => { t with input.PauseCounter := v }) INPUT_PAUSE (fun _ _ => ⟨rfl, rfl⟩)) g3
    unfold ISR_TIMER2_OVF run_task
    exact hite _ _ _ hi (hite _ _ _ hcd (hite _ _ _ hl (hite _ _ _ ha h0)))
  | poll_inputs samples =>
    show Q (poll_inputs samples s)
    have hp' : ∀ front id back,
        asserted_calls (debounced samples).1 (debounced samples).2 s.input =
          front ++ Event.asserted id :: back → allowed id (run front s) := hp
    have hcalls : ∀ (l : List Event) (u : SysState),
        (∀ ev, ev ∈ l → ∃ id, ev = Event.asserted id) →
        (∀ front id back, l = front ++ Event.asserted id :: back → allowed id (run front u)) →
        Q u → Q (run l u) := by
      intro l
      induction l with
      | nil => intro u _ _ hu; exact hu
      | cons ev l ih =>
        intro u hl hal hu
        obtain ⟨id, hev⟩ := hl ev (List.mem_cons_self _ _)
        have hrun : run (ev :: l) u = run l (ev.apply u) := rfl
        rw [hrun]
        apply ih _ (fun ev' hev' => hl ev' (List.mem_cons_of_mem _ hev'))
        · intro front id' back hfb
          have := hal (ev :: front) id' back (by rw [hfb]; rfl)
          exact this
        · rw [hev]
          exact hassert id u (hal [] id l (by rw [hev]; rfl)) hu
    have hr : Q (report_asserted (debounced samples).1 (debounced samples).2 s) := by
      rw [report_asserted_eq_run]
      apply hcalls _ _ _ hp' h
      intro ev hev
      rw [asserted_calls_eq, List.mem_map] at hev
      obtain ⟨id, -, hide⟩ := hev
      exact ⟨id, hide.symm⟩
    have hc : ∀ (pb pd : Nat) (r : SysState), Q r → Q (clear_released pb pd r) := by
      intro pb pd r hq
      unfold clear_released
      simp only []
      split_ifs <;> exact hview r _ rfl rfl rfl hq
    exact hview (clear_released (debounced samples).1 (debounced samples).2
      (report_asserted (debounced samples).1 (debounced samples).2 s)) _ rfl rfl rfl (hc _ _ _ hr)
  | poll_clock => exact hpoll s h
  | asserted id => exact hassert id s hp h
  | long_push id => exact hlong id s h
  | repeated id => exact hrep id s h

/-- Events that may make any asserted-input callback are all the events. -/
theorem permitted_any (e : Event) (s : SysState) : permitted (fun _ _ => True) e s := by
  cases e <;> simp [permitted]

theorem reachable_by_any {s : SysState} (h : Reachable s) :
    ReachableBy (fun _ _ => True) s := by
  induction h with
  | startup eeprom flash => exact ReachableBy.startup eeprom flash
  | step e _ ih => exact ReachableBy.step e ih (permitted_any e _)

theorem reachable_of_reachable_by {allowed : Nat → SysState → Prop} {s : SysState}
    (h : ReachableBy allowed s) : Reachable s := by
  induction h with
  | startup eeprom flash => exact Reachable.startup eeprom flash
  | step e _ _ ih => exact Reachable.step e ih

/-- A property of the countdowns, the mode and the was-running mask that
holds at start-up and that the callbacks, the countdown update and the poll
of the controller preserve holds in every state reached by permitted
events. -/
theorem invariant_of_reachable_by (Q : SysState → Prop) (allowed : Nat → SysState → Prop)
    (hview : ∀ s t : SysState, t.timer.Countdown = s.timer.Countdown →
      t.clock.mode = s.clock.mode → t.clock.was_running = s.clock.was_running → Q s → Q t)
    (hinit : ∀ eeprom flash, Q (main_init eeprom flash))
    (hassert : ∀ id s, allowed id s → Q s → Q (input_asserted id s))
    (hlong : ∀ id s, Q s → Q (input_long_push id s))
    (hrep : ∀ id s, Q s → Q (input_repeat id s))
    (hcd : ∀ s, Q s → Q (process_countdown s))
    (hpoll : ∀ s, Q s → Q (poll_clock s))
    {s : SysState} (h : ReachableBy allowed s) : Q s := by
  induction h with
  | startup eeprom flash => exact hinit eeprom flash
  | step e _ hp ih =>
    exact preserved_by_event Q allowed hview hassert hlong hrep hcd hpoll e _ hp ih

theorem reachable_by_run {allowed : Nat → SysState → Prop} (es : List Event) :
    ∀ {s : SysState}, ReachableBy allowed s → permitted_run allowed es s →
      ReachableBy allowed (run es s) := by
  induction es with
  | nil => intro s h _; exact h
  | cons e es ih =>
    intro s h hp
    exact ih (ReachableBy.step e h hp.1) hp.2

/-! ## Lemmas on the expired flag -/

theorem zero_if_expired_restart (s : SysState) (id : Nat) (hid : id < NUM_COUNTDOWNS) :
    zero_if_expired ((restart s).timer.Countdown id) := by
  rw [restart_Countdown, if_pos hid]
  intro h
  exact absurd rfl h

theorem expired_at_zero_restart (s : SysState) : expired_at_zero (restart s) :=
  Or.inr (zero_if_expired_restart s)

theorem zero_if_expired_tick (c : CountdownType) (h : zero_if_expired c) :
    zero_if_expired (countdown_tick c) := by
  unfold zero_if_expired at h ⊢
  simp only [countdown_tick]
  split_ifs with h1 h2 h3 h4
  · exact h
  · intro he
    have := h he
    simp only [] at h3
    omega
  · intro he
    have := h he
    simp only [] at h4
    omega
  · intro _
    simp only [] at h3 h4
    constructor
    · show c.minutes = 0; omega
    · show c.seconds = 0; omega
  · exact h

theorem zero_if_expired_update (C : Nat → CountdownType) (i : Nat) (c : CountdownType)
    (hc : zero_if_expired (C i) → zero_if_expired c) (id : Nat)
    (h : zero_if_expired (C id)) : zero_if_expired (Function.update C i c id) := by
  rw [Function.update_apply]
  split_ifs with hi
  · subst hi; exact hc h
  · exact h

theorem zero_flags_eot (a b c d : Nat) (s : SysState)
    (h : ∀ id, id < NUM_COUNTDOWNS → zero_if_expired (s.timer.Countdown id)) :
    ∀ id, id < NUM_COUNTDOWNS → zero_if_expired
      ((start_countdown a (stop_countdown b (turnled_on c (turnled_off d
        (play tick s))))).timer.Countdown id) := by
  intro id hid
  have h0 : (turnled_on c (turnled_off d (play tick s))).timer.Countdown = s.timer.Countdown :=
    play_Countdown tick s
  generalize turnled_on c (turnled_off d (play tick s)) = u at h0
  have h1 : ∀ j, j < NUM_COUNTDOWNS → zero_if_expired ((stop_countdown b u).timer.Countdown j) := by
    intro j hj
    show zero_if_expired (Function.update u.timer.Countdown b
      { u.timer.Countdown b with _running := 0 } j)
    apply zero_if_expired_update u.timer.Countdown b
      { u.timer.Countdown b with _running := 0 } (fun x => x)
    rw [h0]; exact h j hj
  generalize stop_countdown b u = v at h1
  show zero_if_expired (Function.update v.timer.Countdown a
    { v.timer.Countdown a with _running := 1 } id)
  exact zero_if_expired_update v.timer.Countdown a
    { v.timer.Countdown a with _running := 1 } (fun x => x) id (h1 id hid)

theorem zero_flags_play_mode_pause (s : SysState)
    (h : ∀ id, id < NUM_COUNTDOWNS → zero_if_expired (s.timer.Countdown id)) :
    ∀ id, id < NUM_COUNTDOWNS → zero_if_expired ((play_mode_pause s).timer.Countdown id) := by
  intro id hid
  unfold play_mode_pause
  split_ifs
  · rw [pause_fold_Countdown, if_pos hid]
    exact h id hid
  · rw [resume_fold_Countdown]
    split_ifs
    · exact h id hid
    · exact h id hid

theorem play_mode_input_asserted_mode (id : Nat) (s : SysState) :
    (play_mode_input_asserted id s).clock.mode = s.clock.mode := by
  have hp : (play_mode_pause { s with clock.update_display := 1 }).clock.mode = s.clock.mode := by
    unfold play_mode_pause
    split_ifs
    · exact foldl_preserves (fun t : SysState => t.clock.mode = s.clock.mode) pause_body
        (fun t i ht => ht) _ _ rfl
    · exact foldl_preserves (fun t : SysState => t.clock.mode = s.clock.mode) resume_body
        (fun t i ht => by
          show (resume_body t i).clock.mode = s.clock.mode
          rw [resume_body_clock]; exact ht) _ _ rfl
  unfold play_mode_input_asserted
  simp only []
  split_ifs
  any_goals rfl
  any_goals exact hp
  all_goals
    show (play tick ({ s with clock.update_display := 1 } : SysState)).clock.mode = s.clock.mode
    rw [play_clock]

theorem expired_at_zero_play (id : Nat) (s : SysState) (hm : s.clock.mode = PLAY_MODE)
    (h : expired_at_zero s) : expired_at_zero (play_mode_input_asserted id s) := by
  have hz : ∀ j, j < NUM_COUNTDOWNS → zero_if_expired
      (({ s with clock.update_display := 1 } : SysState).timer.Countdown j) := by
    rcases h with h | h
    · rw [hm] at h; exact absurd h (by decide)
    · exact h
  right
  unfold play_mode_input_asserted
  simp only []
  split_ifs
  · exact zero_flags_eot _ _ _ _ _ hz
  · exact hz
  · exact zero_flags_eot _ _ _ _ _ hz
  · exact hz
  · exact zero_flags_eot _ _ _ _ _ hz
  · exact hz
  · exact zero_flags_eot _ _ _ _ _ hz
  · exact hz
  · exact zero_flags_play_mode_pause _ hz
  · exact zero_if_expired_restart _
  · exact hz

theorem setup_mode_input_asserted_mode (id : Nat) (s : SysState) (hr : id ≠ INPUT_RESTART) :
    (setup_mode_input_asserted id s).clock.mode = s.clock.mode := by
  have hsel : ∀ cd, (setup_select cd s).clock.mode = s.clock.mode := by
    intro cd
    unfold setup_select
    simp only []
    split_ifs <;> rfl
  have hadj : ∀ d, (setup_adjust d s).clock.mode = s.clock.mode := by
    intro d
    unfold setup_adjust
    simp only []
    split_ifs <;> rfl
  unfold setup_mode_input_asserted
  simp only []
  by_cases h1 : id = INPUT_EOT1
  · rw [if_pos h1]; exact hsel _
  rw [if_neg h1]
  by_cases h2 : id = INPUT_EOT2
  · rw [if_pos h2]; exact hsel _
  rw [if_neg h2]
  by_cases h3 : id = INPUT_EOT3
  · rw [if_pos h3]; exact hsel _
  rw [if_neg h3]
  by_cases h4 : id = INPUT_EOT4
  · rw [if_pos h4]; exact hsel _
  rw [if_neg h4]
  by_cases h5 : id = INPUT_UP
  · rw [if_pos h5]; exact hadj _
  rw [if_neg h5]
  by_cases h6 : id = INPUT_DOWN
  · rw [if_pos h6]; exact hadj _
  rw [if_neg h6]
  by_cases h7 : id = INPUT_COPY
  · rw [if_pos h7]; rfl
  rw [if_neg h7, if_neg hr]

theorem expired_at_zero_input_asserted (id : Nat) (s : SysState) (h : expired_at_zero s) :
    expired_at_zero (input_asserted id s) := by
  unfold input_asserted
  split_ifs with h1 h2 h3 h4
  · exact expired_at_zero_play id s h1 h
  · exact expired_at_zero_restart _
  · exact h
  · by_cases hr : id = INPUT_RESTART
    · subst hr
      exact expired_at_zero_restart _
    · left
      rw [setup_mode_input_asserted_mode id s hr]
      exact h4
  · right
    exact zero_if_expired_restart s

theorem expired_at_zero_input_long_push (id : Nat) (s : SysState) (h : expired_at_zero s) :
    expired_at_zero (input_long_push id s) := by
  unfold input_long_push
  simp only []
  split_ifs with h1 h2 h3 h4 h5
  · left
    rw [stop_fold_clock]
  · exact h
  · exact expired_at_zero_restart _
  · left
    exact foldl_preserves (fun t : SysState => t.clock.mode = SETUP_MODE) broadcast_body
      (fun t i ht => by
        unfold broadcast_body
        split_ifs
        · exact ht
        · exact ht) _ _ h3
  · exact h
  · exact h

theorem expired_at_zero_input_repeat (id : Nat) (s : SysState) (h : expired_at_zero s) :
    expired_at_zero (input_repeat id s) := by
  unfold input_repeat
  split_ifs
  · exact expired_at_zero_input_asserted id s h
  · exact h

theorem expired_at_zero_process_countdown (s : SysState) (h : expired_at_zero s) :
    expired_at_zero (process_countdown s) := by
  rw [process_countdown_eq]
  rcases h with h | h
  · exact Or.inl h
  · right
    intro id hid
    simp only [if_pos hid]
    exact zero_if_expired_tick _ (h id hid)

theorem expired_at_zero_poll_clock (s : SysState) (h : expired_at_zero s) :
    expired_at_zero (poll_clock s) := by
  by_cases hm : s.clock.mode = PLAY_MODE
  · obtain ⟨s1, n, -, -, hC, -, hres⟩ := poll_clock_play s hm
    have hz : ∀ id, id < NUM_COUNTDOWNS → zero_if_expired (s.timer.Countdown id) := by
      rcases h with h | h
      · rw [hm] at h; exact absurd h (by decide)
      · exact h
    have hb : ∀ id, id < NUM_COUNTDOWNS → zero_if_expired (s1.timer.Countdown id) := by
      intro id hid
      rcases hC id with e | e <;> rw [e] <;> exact hz id hid
    right
    rcases hres with ⟨ht, -, -⟩ | ⟨ht, -⟩
    · rw [ht]; exact hb
    · rw [ht]
      intro id hid
      rw [declare_won_Countdown, if_pos hid]
      exact hb id hid
  · unfold poll_clock
    rw [if_neg hm]
    exact h

theorem expired_at_zero_main_init (eeprom : Nat → Nat) (flash : List Nat) :
    expired_at_zero (main_init eeprom flash) := by
  unfold main_init init_clock
  exact expired_at_zero_restart _

/-- Outside Setup mode an expired countdown shows 0:00, in every reachable
state. -/
theorem expired_at_zero_of_reachable {s : SysState} (h : Reachable s) : expired_at_zero s := by
  apply invariant_of_reachable_by expired_at_zero (fun _ _ => True) _
    expired_at_zero_main_init (fun id s _ => expired_at_zero_input_asserted id s)
    expired_at_zero_input_long_push expired_at_zero_input_repeat
    expired_at_zero_process_countdown expired_at_zero_poll_clock (reachable_by_any h)
  intro s t hC hm _ hs
  unfold expired_at_zero at hs ⊢
  rw [hC, hm]
  exact hs

/-! ## Lemmas on the pairs of countdowns -/

theorem pairs_exclusive_of_reserved (s : SysState) (h : pairs_reserved s) :
    pairs_exclusive s := by
  have hr : ∀ i, countdown_is_running i s ≠ 0 → lane_active i s := by
    intro i hi
    left
    intro h0
    simp [countdown_is_running, h0] at hi
  exact ⟨fun hc => h.1 ⟨hr _ hc.1, hr _ hc.2⟩, fun hc => h.2 ⟨hr _ hc.1, hr _ hc.2⟩⟩

theorem pairs_reserved_mono {s t : SysState}
    (h : ∀ i, i < NUM_COUNTDOWNS → lane_active i t → lane_active i s)
    (hs : pairs_reserved s) : pairs_reserved t :=
  ⟨fun hc => hs.1 ⟨h _ (by decide) hc.1, h _ (by decide) hc.2⟩,
    fun hc => hs.2 ⟨h _ (by decide) hc.1, h _ (by decide) hc.2⟩⟩

/-- No countdown starts and the mask is the same. -/
theorem pairs_reserved_quiet (s t : SysState)
    (h : ∀ i, i < NUM_COUNTDOWNS → (t.timer.Countdown i)._running ≠ 0 →
      (s.timer.Countdown i)._running ≠ 0)
    (hw : t.clock.was_running = s.clock.was_running)
    (hs : pairs_reserved s) : pairs_reserved t := by
  apply pairs_reserved_mono _ hs
  intro i hi ha
  unfold lane_active at ha ⊢
  rw [hw] at ha
  rcases ha with ha | ha
  · exact Or.inl (h i hi ha)
  · exact Or.inr ha

theorem pairs_reserved_idle {t : SysState}
    (h : ∀ i, i < NUM_COUNTDOWNS → (t.timer.Countdown i)._running = 0)
    (hw : t.clock.was_running = 0) : pairs_reserved t := by
  have hn : ∀ i, i < NUM_COUNTDOWNS → ¬ lane_active i t := by
    intro i hi ha
    unfold lane_active at ha
    rw [hw, Nat.zero_and] at ha
    rcases ha with ha | ha
    · exact ha (h i hi)
    · exact ha rfl
  exact ⟨fun hc => hn _ (by decide) hc.1, fun hc => hn _ (by decide) hc.1⟩

theorem pairs_reserved_restart (s : SysState) : pairs_reserved (restart s) := by
  apply pairs_reserved_idle
  · intro i hi
    rw [restart_Countdown, if_pos hi]
    rfl
  · rfl

/-- An end-of-turn press outside a pause: the countdown `b` of a pair is
stopped and its partner `a` started. -/
theorem pairs_reserved_eot (a b c d : Nat) (s : SysState)
    (hab : (a = 1 ∧ b = 0) ∨ (a = 0 ∧ b = 1) ∨ (a = 3 ∧ b = 2) ∨ (a = 2 ∧ b = 3))
    (hw : s.clock.was_running = 0) (h : pairs_reserved s) :
    pairs_reserved (start_countdown a (stop_countdown b (turnled_on c (turnled_off d
      (play tick s))))) := by
  have h0 : (turnled_on c (turnled_off d (play tick s))).timer.Countdown = s.timer.Countdown :=
    play_Countdown tick s
  have h1 : (turnled_on c (turnled_off d (play tick s))).clock.was_running = 0 := by
    show (play tick s).clock.was_running = 0
    rw [play_clock]; exact hw
  generalize turnled_on c (turnled_off d (play tick s)) = u at h0 h1
  unfold pairs_reserved lane_active at h ⊢
  rw [hw] at h
  have hC : (start_countdown a (stop_countdown b u)).timer.Countdown =
      Function.update (Function.update s.timer.Countdown b
        { s.timer.Countdown b with _running := 0 }) a
        { (Function.update s.timer.Countdown b
          { s.timer.Countdown b with _running := 0 }) a with _running := 1 } := by
    rw [← h0]; rfl
  have hW : (start_countdown a (stop_countdown b u)).clock.was_running = 0 := h1
  rw [hC, hW]
  simp only [Nat.zero_and, ne_eq, not_true_eq_false, or_false, COUNTDOWN_1, COUNTDOWN_2,
    COUNTDOWN_3, COUNTDOWN_4] at h ⊢
  rcases hab with ⟨ha, hb⟩ | ⟨ha, hb⟩ | ⟨ha, hb⟩ | ⟨ha, hb⟩ <;> subst ha <;> subst hb <;>
    simp [Function.update_apply] <;> tauto

theorem pairs_reserved_play_mode_pause (s : SysState) (h : pairs_reserved s) :
    pairs_reserved (play_mode_pause s) := by
  unfold play_mode_pause
  split_ifs with hw
  · apply pairs_reserved_mono _ h
    intro i hi ha
    unfold lane_active at ha ⊢
    rw [pause_fold_Countdown, if_pos hi, pause_fold_clock _ rfl] at ha
    rcases ha with ha | ha
    · exact absurd rfl ha
    · left
      exact (running_mask_bit _ i hi).1 ha
  · have hc : ((List.range NUM_COUNTDOWNS).foldl resume_body s).clock = s.clock :=
      foldl_preserves (fun t : SysState => t.clock = s.clock) resume_body
        (fun t i ht => by
          show (resume_body t i).clock = s.clock
          rw [resume_body_clock]; exact ht) _ _ rfl
    apply pairs_reserved_mono _ h
    intro i hi ha
    unfold lane_active at ha ⊢
    rw [resume_fold_Countdown, hc] at ha
    rcases ha with ha | ha
    · split_ifs at ha with hb
      · exact Or.inr hb.2
      · exact Or.inl ha
    · exact Or.inr ha

theorem pairs_reserved_play (id : Nat) (s : SysState) (ha : turn_outside_pause id s)
    (h : pairs_reserved s) : pairs_reserved (play_mode_input_asserted id s) := by
  have h' : pairs_reserved ({ s with clock.update_display := 1 } : SysState) :=
    pairs_reserved_quiet s _ (fun _ _ x => x) rfl h
  have hw : is_end_of_turn id →
      ({ s with clock.update_display := 1 } : SysState).clock.was_running = 0 := ha
  unfold play_mode_input_asserted
  simp only []
  split_ifs with h1 _ h2 _ h3 _ h4 _ h5 h6
  · exact pairs_reserved_eot _ _ _ _ _ (Or.inl ⟨rfl, rfl⟩) (hw (Or.inl h1)) h'
  · exact h'
  · exact pairs_reserved_eot _ _ _ _ _ (Or.inr (Or.inl ⟨rfl, rfl⟩)) (hw (Or.inr (Or.inl h2))) h'
  · exact h'
  · exact pairs_reserved_eot _ _ _ _ _ (Or.inr (Or.inr (Or.inl ⟨rfl, rfl⟩)))
      (hw (Or.inr (Or.inr (Or.inl h3)))) h'
  · exact h'
  · exact pairs_reserved_eot _ _ _ _ _ (Or.inr (Or.inr (Or.inr ⟨rfl, rfl⟩)))
      (hw (Or.inr (Or.inr (Or.inr h4)))) h'
  · exact h'
  · exact pairs_reserved_play_mode_pause _ h'
  · exact pairs_reserved_restart _
  · exact h'

theorem copy_time_running (a b : Nat) (s : SysState) (i : Nat) :
    ((copy_time a b s).timer.Countdown i)._running = (s.timer.Countdown i)._running := by
  unfold copy_time
  simp only [setCountdown]
  by_cases hi : i = b
  · subst hi; simp [Function.update_same]
  · simp [Function.update_noteq hi]

theorem setup_adjust_running (d : Int) (s : SysState) (i : Nat) :
    ((setup_adjust d s).timer.Countdown i)._running = (s.timer.Countdown i)._running := by
  unfold setup_adjust
  simp only [setCountdown]
  by_cases hi : i = s.clock.selected_countdown
  · rw [hi]; split_ifs <;> simp [Function.update_same]
  · split_ifs <;> simp [Function.update_noteq hi]

theorem pairs_reserved_setup (id : Nat) (s : SysState) (h : pairs_reserved s) :
    pairs_reserved (setup_mode_input_asserted id s) := by
  have hsel : ∀ cd, pairs_reserved (setup_select cd s) := by
    intro cd
    unfold setup_select
    simp only []
    split_ifs <;> exact pairs_reserved_quiet s _ (fun _ _ x => x) rfl h
  have hadj : ∀ d, pairs_reserved (setup_adjust d s) := by
    intro d
    refine pairs_reserved_quiet s _ (fun i _ x => ?_) ?_ h
    · rw [setup_adjust_running] at x; exact x
    · unfold setup_adjust
      simp only []
      split_ifs <;> rfl
  unfold setup_mode_input_asserted
  simp only []
  by_cases h1 : id = INPUT_EOT1
  · rw [if_pos h1]; exact hsel _
  rw [if_neg h1]
  by_cases h2 : id = INPUT_EOT2
  · rw [if_pos h2]; exact hsel _
  rw [if_neg h2]
  by_cases h3 : id = INPUT_EOT3
  · rw [if_pos h3]; exact hsel _
  rw [if_neg h3]
  by_cases h4 : id = INPUT_EOT4
  · rw [if_pos h4]; exact hsel _
  rw [if_neg h4]
  by_cases h5 : id = INPUT_UP
  · rw [if_pos h5]; exact hadj _
  rw [if_neg h5]
  by_cases h6 : id = INPUT_DOWN
  · rw [if_pos h6]; exact hadj _
  rw [if_neg h6]
  by_cases h7 : id = INPUT_COPY
  · rw [if_pos h7]
    refine pairs_reserved_quiet s _ (fun i _ x => ?_) rfl h
    rw [copy_time_running] at x; exact x
  rw [if_neg h7]
  by_cases h8 : id = INPUT_RESTART
  · rw [if_pos h8]; exact pairs_reserved_restart _
  rw [if_neg h8]
  exact h

theorem pairs_reserved_input_asserted (id : Nat) (s : SysState) (ha : turn_outside_pause id s)
    (h : pairs_reserved s) : pairs_reserved (input_asserted id s) := by
  unfold input_asserted
  split_ifs with h1 h2 h3 h4
  · exact pairs_reserved_play id s ha h
  · exact pairs_reserved_restart _
  · exact h
  · exact pairs_reserved_setup id s h
  · exact pairs_reserved_quiet (restart s) _ (fun _ _ x => x) rfl (pairs_reserved_restart s)

theorem pairs_reserved_input_long_push (id : Nat) (s : SysState) (h : pairs_reserved s) :
    pairs_reserved (input_long_push id s) := by
  unfold input_long_push
  simp only []
  split_ifs
  · apply pairs_reserved_idle
    · intro i hi
      rw [stop_fold_Countdown, if_pos hi]
    · rw [stop_fold_clock]
  · exact h
  · exact pairs_reserved_restart _
  · apply foldl_preserves pairs_reserved broadcast_body _ _ _ h
    intro t i ht
    unfold broadcast_body
    split_ifs
    · refine pairs_reserved_quiet t _ (fun i _ x => ?_) rfl ht
      rw [copy_time_running] at x; exact x
    · exact ht
  · exact h
  · exact h

theorem pairs_reserved_input_repeat (id : Nat) (s : SysState) (h : pairs_reserved s) :
    pairs_reserved (input_repeat id s) := by
  unfold input_repeat
  split_ifs with hc
  · apply pairs_reserved_input_asserted id s _ h
    intro he
    rcases hc.2 with hu | hu <;> subst hu <;> exact absurd he (by decide)
  · exact h

theorem pairs_reserved_process_countdown (s : SysState) (h : pairs_reserved s) :
    pairs_reserved (process_countdown s) := by
  rw [process_countdown_eq]
  refine pairs_reserved_quiet s _ (fun i hi x => ?_) rfl h
  simp only [if_pos hi] at x
  exact countdown_tick_running _ x

theorem poll_clock_loop_was_running (n : Nat) (fuel id : Nat) (s : SysState) :
    (poll_clock_loop n fuel id s).clock.was_running = s.clock.was_running := by
  induction fuel generalizing id s with
  | zero => rfl
  | succ k ih =>
    unfold poll_clock_loop
    split_ifs
    · rw [ih]
      unfold declare_won
      simp only [play_clock]
      rfl
    · exact ih _ _
    · rfl

theorem poll_clock_was_running (s : SysState) :
    (poll_clock s).clock.was_running = s.clock.was_running := by
  by_cases hm : s.clock.mode = PLAY_MODE
  · rw [poll_clock_eq s hm]
    have hf : ∀ (f : Nat) (u : SysState),
        ((List.range NUM_COUNTDOWNS).foldl (refresh_body f) u).clock.was_running =
          u.clock.was_running := by
      intro f u
      apply foldl_preserves (fun t : SysState => t.clock.was_running = u.clock.was_running)
        (refresh_body f) _ _ _ rfl
      intro t i ht
      unfold refresh_body
      split_ifs
      · exact ht
      · exact ht
    rw [hf]
    show (poll_clock_loop (polled_ids s) (polled_ids s) 0 (stop_unfitted s)).clock.was_running = _
    rw [poll_clock_loop_was_running]
    unfold stop_unfitted
    split_ifs <;> rfl
  · unfold poll_clock
    rw [if_neg hm]

theorem pairs_reserved_poll_clock (s : SysState) (h : pairs_reserved s) :
    pairs_reserved (poll_clock s) := by
  by_cases hm : s.clock.mode = PLAY_MODE
  · obtain ⟨s1, n, -, -, hC, -, hres⟩ := poll_clock_play s hm
    refine pairs_reserved_quiet s _ (fun i hi x => ?_) (poll_clock_was_running s) h
    have h1 : (s1.timer.Countdown i)._running ≠ 0 → (s.timer.Countdown i)._running ≠ 0 := by
      intro y
      rcases hC i with e | e
      · rw [e] at y; exact y
      · rw [e] at y; exact absurd rfl y
    rcases hres with ⟨ht, -, -⟩ | ⟨ht, -⟩
    · rw [ht] at x; exact h1 x
    · rw [ht, declare_won_Countdown, if_pos hi] at x
      exact absurd rfl x
  · unfold poll_clock
    rw [if_neg hm]
    exact h

theorem pairs_reserved_main_init (eeprom : Nat → Nat) (flash : List Nat) :
    pairs_reserved (main_init eeprom flash) := by
  unfold main_init init_clock
  exact pairs_reserved_restart _

/-- In every state reached without an end-of-turn press while the
was-running mask is non-zero, at most one countdown of each pair is running
or recorded in the mask. -/
theorem pairs_reserved_of_reachable_by {s : SysState}
    (h : ReachableBy turn_outside_pause s) : pairs_reserved s := by
  apply invariant_of_reachable_by pairs_reserved turn_outside_pause _
    pairs_reserved_main_init pairs_reserved_input_asserted
    pairs_reserved_input_long_push pairs_reserved_input_repeat
    pairs_reserved_process_countdown pairs_reserved_poll_clock h
  intro s t hC _ hw hs
  unfold pairs_reserved lane_active at hs ⊢
  rw [hC, hw]
  exact hs

set_option maxRecDepth 8000 in
/-- The state after an end-of-turn press during a pause and the second pause
press. -/
theorem turn_while_paused_trace :
    (run turn_while_paused (main_init (fun _ => 255) [])).clock.mode = PLAY_MODE ∧
    countdown_is_running COUNTDOWN_1 (run turn_while_paused (main_init (fun _ => 255) [])) = 1 ∧
    countdown_is_running COUNTDOWN_2 (run turn_while_paused (main_init (fun _ => 255) [])) = 1 ∧
    ¬ pairs_exclusive (run turn_while_paused (main_init (fun _ => 255) [])) :=
  ⟨by decide, by decide, by decide, by decide⟩

/-- The repeat callback is among the callbacks of a hold-timing tick exactly
when the counter, below 255 on entry, is past the hold-off by a multiple of
the interval after the increment; it is the only callback when the counter
reads 8 on entry, and there is no callback when it reads less than 8 or
255. -/
theorem repeat_calls (c input : Nat) :
    (Event.repeated input ∈ held_input_calls c input ↔
      c < 255 ∧ REPEAT_HOLDOFF_CYCLES < c + 1 ∧
        (c + 1 - REPEAT_HOLDOFF_CYCLES) % REPEAT_INTERVAL_CYCLES = 0) ∧
    held_input_calls 8 input = [Event.repeated input] ∧
    (c < 8 → held_input_calls c input = []) ∧
    (255 ≤ c → held_input_calls c input = []) := by
  refine ⟨?_, ?_, ?_, ?_⟩
  · unfold held_input_calls
    simp only [LONG_PUSH_CYCLES, REPEAT_HOLDOFF_CYCLES, REPEAT_INTERVAL_CYCLES]
    split_ifs <;> simp <;> omega
  · simp [held_input_calls, LONG_PUSH_CYCLES, REPEAT_HOLDOFF_CYCLES, REPEAT_INTERVAL_CYCLES]
  · intro h
    unfold held_input_calls
    simp only [LONG_PUSH_CYCLES, REPEAT_HOLDOFF_CYCLES, REPEAT_INTERVAL_CYCLES]
    rw [if_pos (by omega), if_neg (by omega), if_neg (by omega)]
    rfl
  · intro h
    unfold held_input_calls
    rw [if_neg (by omega)]

/-! ## Lemmas on the duty bits -/

theorem same_duties_refl (s : SysState) : same_duties s s := fun _ _ _ => rfl

theorem same_duties_trans {s t u : SysState} (h1 : same_duties s t) (h2 : same_duties t u) :
    same_duties s u := fun j hj h8 => (h2 j hj h8).trans (h1 j hj h8)

theorem same_duties_of_eq {s t : SysState} (h : t.timer.tasks = s.timer.tasks) :
    same_duties s t := fun j _ _ => by rw [h]

theorem same_duties_of_set {s t : SysState}
    (h : t.timer.tasks = set_bits s.timer.tasks (1 <<< AUDIO_TASK)) : same_duties s t := by
  intro j hj h8
  rw [h, testBit_set_bits]
  have : ¬ AUDIO_TASK = j := fun h => hj h.symm
  simp [this, h8]

theorem same_duties_of_audio_view {s t : SysState} (h : audio_view t = audio_view s) :
    same_duties s t :=
  same_duties_of_eq (congrArg (fun w => w.2.1) h)

theorem same_duties_play (cmds : List Nat) (s : SysState) : same_duties s (play cmds s) :=
  same_duties_of_set (play_tasks cmds s)

theorem same_duties_process_audio (s : SysState) : same_duties s (process_audio s) :=
  fun j hj h8 => process_audio_tasks s j hj h8

/-- A tick interrupt changes no duty bit but possibly the audio bit. -/
theorem same_duties_ISR (s : SysState) : same_duties s (ISR_TIMER2_OVF s) := by
  have h1 : (ISR_TIMER2_OVF s).timer.tasks =
      (run_task AUDIO_TASK process_audio (advance_timestamp s)).timer.tasks :=
    congrArg (fun w => w.2.1) (audio_view_ISR s)
  have h2 : same_duties s (advance_timestamp s) :=
    same_duties_of_eq (advance_timestamp_tasks s)
  have h3 : same_duties (advance_timestamp s)
      (run_task AUDIO_TASK process_audio (advance_timestamp s)) := by
    unfold run_task
    split_ifs
    · exact same_duties_process_audio _
    · exact same_duties_refl _
  exact same_duties_trans (same_duties_trans h2 h3) (same_duties_of_eq h1)

theorem play_mode_pause_tasks (s : SysState) :
    (play_mode_pause s).timer.tasks = s.timer.tasks := by
  unfold play_mode_pause
  split_ifs
  · exact foldl_preserves (fun t : SysState => t.timer.tasks = s.timer.tasks) pause_body
      (fun t i ht => ht) _ _ rfl
  · exact foldl_preserves (fun t : SysState => t.timer.tasks = s.timer.tasks) resume_body
      (fun t i ht => by
        show (resume_body t i).timer.tasks = s.timer.tasks
        unfold resume_body
        split_ifs
        · exact ht
        · exact ht) _ _ rfl

theorem same_duties_play_mode_input_asserted (id : Nat) (s : SysState) :
    same_duties s (play_mode_input_asserted id s) := by
  have hp : ∀ a b c d, same_duties s
      (start_countdown a (stop_countdown b (turnled_on c (turnled_off d
        (play tick ({ s with clock.update_display := 1 } : SysState)))))) := by
    intro a b c d
    apply same_duties_of_set
    show (play tick ({ s with clock.update_display := 1 } : SysState)).timer.tasks = _
    rw [play_tasks]
  unfold play_mode_input_asserted
  simp only []
  split_ifs
  · exact hp _ _ _ _
  · exact same_duties_refl s
  · exact hp _ _ _ _
  · exact same_duties_refl s
  · exact hp _ _ _ _
  · exact same_duties_refl s
  · exact hp _ _ _ _
  · exact same_duties_refl s
  · exact same_duties_of_eq (play_mode_pause_tasks _)
  · exact same_duties_of_eq (restart_tasks _)
  · exact same_duties_refl s

theorem same_duties_input_asserted (id : Nat) (s : SysState) :
    same_duties s (input_asserted id s) := by
  unfold input_asserted
  split_ifs
  · exact same_duties_play_mode_input_asserted id s
  · exact same_duties_of_eq (restart_tasks _)
  · exact same_duties_refl s
  · exact same_duties_of_audio_view (audio_view_setup_mode_input_asserted id s)
  · exact same_duties_of_eq (restart_tasks _)

theorem same_duties_run_asserted (l : List Event)
    (hl : ∀ ev, ev ∈ l → ∃ id, ev = Event.asserted id) :
    ∀ s, same_duties s (run l s) := by
  induction l with
  | nil => intro s; exact same_duties_refl s
  | cons ev l ih =>
    intro s
    obtain ⟨id, hev⟩ := hl ev (List.mem_cons_self _ _)
    have hrun : run (ev :: l) s = run l (ev.apply s) := rfl
    rw [hrun]
    refine same_duties_trans ?_ (ih (fun ev' hev' => hl ev' (List.mem_cons_of_mem _ hev')) _)
    rw [hev]
    exact same_duties_input_asserted id s

theorem clear_released_tasks (pb pd : Nat) (s : SysState) :
    (clear_released pb pd s).timer.tasks = s.timer.tasks := by
  unfold clear_released
  simp only []
  split_ifs <;> rfl

theorem same_duties_poll_inputs (samples : Nat → Nat × Nat) (s : SysState) :
    same_duties s (poll_inputs samples s) := by
  have hr : same_duties s (report_asserted (debounced samples).1 (debounced samples).2 s) := by
    rw [report_asserted_eq_run]
    apply same_duties_run_asserted
    intro ev hev
    rw [asserted_calls_eq, List.mem_map] at hev
    obtain ⟨id, -, hide⟩ := hev
    exact ⟨id, hide.symm⟩
  refine same_duties_trans hr (same_duties_of_eq ?_)
  show (clear_released (debounced samples).1 (debounced samples).2
    (report_asserted (debounced samples).1 (debounced samples).2 s)).timer.tasks = _
  exact clear_released_tasks _ _ _

theorem same_duties_declare_won (s : SysState) : same_duties s (declare_won s) := by
  apply same_duties_of_set
  unfold declare_won
  simp only [play_tasks]
  rfl

theorem same_duties_poll_clock (s : SysState) : same_duties s (poll_clock s) := by
  by_cases hm : s.clock.mode = PLAY_MODE
  · rw [poll_clock_eq s hm]
    have hn : polled_ids s ≤ NUM_COUNTDOWNS + 1 := by
      unfold polled_ids NUM_COUNTDOWNS; split_ifs <;> omega
    have h1 : same_duties s (stop_unfitted s) := by
      apply same_duties_of_eq
      unfold stop_unfitted
      split_ifs <;> rfl
    have h2 : same_duties (stop_unfitted s)
        (poll_clock_loop (polled_ids s) (polled_ids s) 0 (stop_unfitted s)) := by
      rcases poll_clock_loop_cases (polled_ids s) hn (polled_ids s) 0 (stop_unfitted s) with
        ⟨h, -⟩ | ⟨h, -⟩
      · rw [h]; exact same_duties_refl _
      · rw [h]; exact same_duties_declare_won _
    refine same_duties_trans (same_duties_trans h1 h2) (same_duties_of_eq ?_)
    rw [(refresh_fold_frame _ _).1]
  · unfold poll_clock
    rw [if_neg hm]
    exact same_duties_refl s

/-- No event changes a duty bit other than the audio bit. -/
theorem same_duties_apply (e : Event) (s : SysState) : same_duties s (e.apply s) := by
  cases e with
  | tick => exact same_duties_ISR s
  | poll_inputs samples => exact same_duties_poll_inputs samples s
  | poll_clock => exact same_duties_poll_clock s
  | asserted id => exact same_duties_input_asserted id s
  | long_push id => exact same_duties_of_audio_view (audio_view_input_long_push id s)
  | repeated id => exact same_duties_of_audio_view (audio_view_input_repeat id s)

theorem main_init_tasks (eeprom : Nat → Nat) (flash : List Nat) :
    (main_init eeprom flash).timer.tasks = 27 := by
  unfold main_init init_clock
  simp only [restart_tasks]
  show set_bits (set_bits (set_bits (set_bits 0 (1 <<< TURNLED_TASK)) (1 <<< AUDIO_TASK))
    (1 <<< INPUTS_TASK)) (1 <<< COUNTDOWN_TASK) = 27
  decide

/-- In every reachable state the duty bits other than the audio bit are those
set by `main`: turn indicator, countdown and inputs set, the others clear. -/
theorem duties_of_reachable {s : SysState} (h : Reachable s) :
    ∀ j, j ≠ AUDIO_TASK → j < 8 → s.timer.tasks.testBit j = (27 : Nat).testBit j := by
  induction h with
  | startup eeprom flash =>
    intro j _ _
    rw [main_init_tasks]
  | step e _ ih =>
    intro j hj h8
    rw [same_duties_apply e _ j hj h8]
    exact ih j hj h8
/-! ## The claims -/

/-- C1, as stated, fails: a countdown set to 0:05 and started shows 0:04
after one countdown update, although `16 * 1 / 125 = 0` whole seconds have
elapsed. -/
theorem C1_floor_counterexample :
    16 * 1 / 125 ≤ 60 * 0 + 5 ∧
    displayed_time 0 ((process_countdown^[1])
      (start_countdown 0 (set_countdown 0 0 5 (main_init (fun _ => 0) [])))) ≠
      (60 * 0 + 5) - 16 * 1 / 125 := by
  decide

/-- C1, amended: for a countdown set to `m:sec` (`sec < 60`) and started, and
for every `N` such that `16 * N / 125` rounded up does not exceed
`60 * m + sec`, the time shown after `N` countdown updates is `60 * m + sec`
less `16 * N / 125` rounded up; after 10000 updates exactly 1280 seconds
have been counted off. -/
theorem C1_displayed_time_ceiling (s : SysState) (id m sec N : Nat)
    (hid : id < NUM_COUNTDOWNS) (hm : m < 256) (hsec : sec < 60)
    (hN : (16 * N + 124) / 125 ≤ 60 * m + sec) :
    displayed_time id ((process_countdown^[N])
      (start_countdown id (set_countdown id m sec s))) = 60 * m + sec - (16 * N + 124) / 125 ∧
    (N = 10000 →
      displayed_time id ((process_countdown^[N])
        (start_countdown id (set_countdown id m sec s))) + 1280 = 60 * m + sec) := by
  have h := (countdown_tick_iterate m sec N).1
    (by simpa [seconds_begun, MULTIPLIER, DIVISOR] using hN)
  have hb : seconds_begun N = (16 * N + 124) / 125 := by
    simp [seconds_begun, MULTIPLIER, DIVISOR]
  rw [process_countdown_iterate]
  simp only [displayed_time, hid, if_true, started_lane s id m sec hm (by omega)]
  constructor
  · omega
  · intro h10; subst h10; omega

theorem C1_displayed_time_ceiling_witness :
    (1 < NUM_COUNTDOWNS ∧ 30 < 256 ∧ 0 < 60 ∧ (16 * 10000 + 124) / 125 ≤ 60 * 30 + 0) ∧
    displayed_time 1 ((process_countdown^[10000])
      (start_countdown 1 (set_countdown 1 30 0 (main_init (fun _ => 255) [])))) =
        60 * 30 + 0 - (16 * 10000 + 124) / 125 ∧
    (10000 = 10000 →
      displayed_time 1 ((process_countdown^[10000])
        (start_countdown 1 (set_countdown 1 30 0 (main_init (fun _ => 255) [])))) + 1280 =
        60 * 30 + 0) :=
  ⟨by decide, C1_displayed_time_ceiling (main_init (fun _ => 255) []) 1 30 0 10000 (by decide)
    (by decide) (by decide) (by decide)⟩

/-- C2: from a zero accumulator, `N` tick interrupts advance the timestamp by
`16 * N / 125` (rounded down) modulo 256 and leave `16 * N % 125` in the
accumulator, which stays below 125, so that adding 16 to it never leaves the
range of a byte. -/
theorem C2_timestamp_accumulator (s : SysState) (N : Nat) (h0 : s.timer.count = 0) :
    ((ISR_TIMER2_OVF^[N]) s).timer.__timer_timestamp % 256
        = (s.timer.__timer_timestamp + 16 * N / 125) % 256 ∧
    ((ISR_TIMER2_OVF^[N]) s).timer.count = 16 * N % 125 ∧
    ((ISR_TIMER2_OVF^[N]) s).timer.count < DIVISOR ∧
    ((ISR_TIMER2_OVF^[N]) s).timer.count + MULTIPLIER < 256 := by
  induction N with
  | zero => simp [h0, DIVISOR, MULTIPLIER]
  | succ n ih =>
    rw [Function.iterate_succ_apply']
    generalize (ISR_TIMER2_OVF^[n]) s = t at ih ⊢
    have hs := stamp_ISR t
    simp only [stamp, MULTIPLIER, DIVISOR] at hs ih ⊢
    obtain ⟨ih1, ih2, ih3, ih4⟩ := ih
    have hc : (t.timer.count + 16) % 256 = t.timer.count + 16 := by omega
    rw [hc] at hs
    split_ifs at hs with hge
    · simp only [Prod.mk.injEq] at hs
      obtain ⟨hs1, hs2⟩ := hs
      have hd : 16 * (n + 1) / 125 = 16 * n / 125 + 1 := by omega
      rw [hs1, hs2, hd]
      refine ⟨?_, ?_, ?_, ?_⟩ <;> omega
    · simp only [Prod.mk.injEq] at hs
      obtain ⟨hs1, hs2⟩ := hs
      have hd : 16 * (n + 1) / 125 = 16 * n / 125 := by omega
      rw [hs1, hs2, hd]
      refine ⟨?_, ?_, ?_, ?_⟩ <;> omega

theorem C2_timestamp_accumulator_witness :
    (main_init (fun _ => 0) []).timer.count = 0 ∧
    ((ISR_TIMER2_OVF^[8]) (main_init (fun _ => 0) [])).timer.__timer_timestamp % 256
        = ((main_init (fun _ => 0) []).timer.__timer_timestamp + 16 * 8 / 125) % 256 ∧
    ((ISR_TIMER2_OVF^[8]) (main_init (fun _ => 0) [])).timer.count = 16 * 8 % 125 ∧
    ((ISR_TIMER2_OVF^[8]) (main_init (fun _ => 0) [])).timer.count < DIVISOR ∧
    ((ISR_TIMER2_OVF^[8]) (main_init (fun _ => 0) [])).timer.count + MULTIPLIER < 256 :=
  ⟨rfl, C2_timestamp_accumulator (main_init (fun _ => 0) []) 8 rfl⟩

/-- C3: for every countdown `id` and every `m` (a byte) and `sec < 60`,
`set_countdown(id, m, sec)` leaves the countdown with minutes `m`, seconds
`sec`, not running, not expired and with a zero sub-second accumulator,
whatever it held before, and leaves the other countdowns unchanged. -/
theorem C3_set_countdown (s : SysState) (id m sec : Nat) (hm : m < 256) (hsec : sec < 60) :
    (set_countdown id m sec s).timer.Countdown id =
      { minutes := m, seconds := sec, _running := 0, _expired := 0, _subseconds := 0 } ∧
    countdown_is_running id (set_countdown id m sec s) = 0 ∧
    countdown_has_expired id (set_countdown id m sec s) = 0 ∧
    (∀ j, j ≠ id →
      (set_countdown id m sec s).timer.Countdown j = s.timer.Countdown j) := by
  have h1 : m % 256 = m := Nat.mod_eq_of_lt hm
  have h2 : sec % 256 = sec := Nat.mod_eq_of_lt (by omega)
  refine ⟨?_, ?_, ?_, ?_⟩
  · simp [set_countdown, setCountdown, h1, h2]
  · simp [countdown_is_running, set_countdown, setCountdown]
  · simp [countdown_has_expired, set_countdown, setCountdown]
  · intro j hj
    simp [set_countdown, setCountdown, Function.update_noteq hj]

theorem C3_set_countdown_witness :
    (5 < 256 ∧ 30 < 60) ∧
    (set_countdown 2 5 30 (main_init (fun _ => 0) [])).timer.Countdown 2 =
      { minutes := 5, seconds := 30, _running := 0, _expired := 0, _subseconds := 0 } ∧
    countdown_is_running 2 (set_countdown 2 5 30 (main_init (fun _ => 0) [])) = 0 ∧
    countdown_has_expired 2 (set_countdown 2 5 30 (main_init (fun _ => 0) [])) = 0 ∧
    (∀ j, j ≠ 2 →
      (set_countdown 2 5 30 (main_init (fun _ => 0) [])).timer.Countdown j =
        (main_init (fun _ => 0) []).timer.Countdown j) :=
  ⟨by decide, C3_set_countdown (main_init (fun _ => 0) []) 2 5 30 (by decide) (by decide)⟩

/-- C4: for a countdown set to `m:sec` and started, the countdown update
changes `expired` from false to true on exactly one tick, tick number
`125 * (60 * m + sec) / 16 + 1`: `has_expired` is false after every earlier
tick and, after that tick and any number of further ones, `has_expired` is
true, `is_running` is false and the time is 0:00; `set_countdown` clears
`expired` again. -/
theorem C4_expires_once (s : SysState) (id m sec : Nat) (hid : id < NUM_COUNTDOWNS)
    (hm : m < 256) (hsec : sec < 256) :
    (∀ j, j ≤ 125 * (60 * m + sec) / 16 →
      countdown_has_expired id ((process_countdown^[j])
        (start_countdown id (set_countdown id m sec s))) = 0) ∧
    (∀ j, 125 * (60 * m + sec) / 16 < j →
      countdown_has_expired id ((process_countdown^[j])
        (start_countdown id (set_countdown id m sec s))) = 1 ∧
      countdown_is_running id ((process_countdown^[j])
        (start_countdown id (set_countdown id m sec s))) = 0 ∧
      (((process_countdown^[j])
        (start_countdown id (set_countdown id m sec s))).timer.Countdown id).minutes = 0 ∧
      (((process_countdown^[j])
        (start_countdown id (set_countdown id m sec s))).timer.Countdown id).seconds = 0
      ∧ ∀ m1 sec1, countdown_has_expired id (set_countdown id m1 sec1 ((process_countdown^[j])
        (start_countdown id (set_countdown id m sec s)))) = 0) ∧
    (∀ j, (countdown_has_expired id ((process_countdown^[j])
          (start_countdown id (set_countdown id m sec s))) = 0 ∧
        countdown_has_expired id ((process_countdown^[j + 1])
          (start_countdown id (set_countdown id m sec s))) = 1) ↔
      j = 125 * (60 * m + sec) / 16) := by
  have key : ∀ j, (j ≤ 125 * (60 * m + sec) / 16 → seconds_begun j ≤ 60 * m + sec) ∧
      (125 * (60 * m + sec) / 16 < j → 60 * m + sec < seconds_begun j) := by
    intro j
    simp only [seconds_begun, MULTIPLIER, DIVISOR]
    constructor <;> intro h <;> omega
  have lane : ∀ j, ((process_countdown^[j])
      (start_countdown id (set_countdown id m sec s))).timer.Countdown id =
      (countdown_tick^[j]) (started m sec) := by
    intro j
    rw [process_countdown_iterate]
    simp only [hid, if_true, started_lane s id m sec hm hsec]
  have early : ∀ j, j ≤ 125 * (60 * m + sec) / 16 →
      countdown_has_expired id ((process_countdown^[j])
        (start_countdown id (set_countdown id m sec s))) = 0 := by
    intro j hj
    have h := (countdown_tick_iterate m sec j).1 ((key j).1 hj)
    simp [countdown_has_expired, lane, h.2.1]
  have late : ∀ j, 125 * (60 * m + sec) / 16 < j →
      countdown_has_expired id ((process_countdown^[j])
        (start_countdown id (set_countdown id m sec s))) = 1 := by
    intro j hj
    have h := (countdown_tick_iterate m sec j).2 ((key j).2 hj)
    simp [countdown_has_expired, lane, h.2.1]
  refine ⟨early, ?_, ?_⟩
  · intro j hj
    have h := (countdown_tick_iterate m sec j).2 ((key j).2 hj)
    refine ⟨late j hj, ?_, ?_, ?_, ?_⟩
    · simp [countdown_is_running, lane, h.1]
    · rw [lane]; exact h.2.2.1
    · rw [lane]; exact h.2.2.2
    · intro m1 sec1
      simp [countdown_has_expired, set_countdown, setCountdown]
  · intro j
    constructor
    · rintro ⟨h0, h1⟩
      by_contra hne
      rcases Nat.lt_or_gt_of_ne hne with hlt | hgt
      · have := early (j + 1) (by omega)
        omega
      · have := late j hgt
        omega
    · intro hj
      exact ⟨early j (by omega), late (j + 1) (by omega)⟩

theorem C4_expires_once_witness :
    (0 < NUM_COUNTDOWNS ∧ 0 < 256 ∧ 1 < 256) ∧
    countdown_has_expired 0 ((process_countdown^[7])
        (start_countdown 0 (set_countdown 0 0 1 (main_init (fun _ => 0) [])))) = 0 ∧
    countdown_has_expired 0 ((process_countdown^[8])
        (start_countdown 0 (set_countdown 0 0 1 (main_init (fun _ => 0) [])))) = 1 :=
  ⟨by decide,
    (C4_expires_once (main_init (fun _ => 0) []) 0 0 1 (by decide) (by decide) (by decide)).1 7
      (by decide),
    ((C4_expires_once (main_init (fun _ => 0) []) 0 0 1 (by decide) (by decide)
      (by decide)).2.1 8 (by decide)).1⟩

/-- C5, as stated, fails: with all countdowns at 0:00, one pass of the main
loop with end-of-turn button 1 pressed, one with it released, a tick and a
poll that sees the button pressed again lead to a state in which countdown 2
is both running and expired. -/
theorem C5_running_and_expired_counterexample :
    Reachable (run (main_loop_pass pins_eot1 ++ main_loop_pass pins_idle ++ [Event.tick]
        ++ [Event.poll_inputs pins_eot1]) (main_init (fun _ => 0) [])) ∧
    running_and_expired 1
      (run (main_loop_pass pins_eot1 ++ main_loop_pass pins_idle ++ [Event.tick]
        ++ [Event.poll_inputs pins_eot1]) (main_init (fun _ => 0) [])) :=
  ⟨reachable_run _ (Reachable.startup _ _), by decide⟩

/-- C5, amended: in every state reachable from start-up by ticks, polls and
input callbacks, a countdown can be both running and expired only in Play
mode (in Won and Setup mode no countdown is running); the countdown update
of the tick never makes a countdown both running and expired, and after a
controller poll (`poll_clock`) no countdown is both running and expired. -/
theorem C5_exclusive_outside_play_and_after_poll (s : SysState) (h : Reachable s) (id : Nat)
    (hid : id < NUM_COUNTDOWNS) :
    (s.clock.mode ≠ PLAY_MODE → countdown_is_running id s = 0) ∧
    (¬ running_and_expired id s → ¬ running_and_expired id (process_countdown s)) ∧
    ¬ running_and_expired id (poll_clock s) := by
  have hinv := Inv_of_reachable h
  refine ⟨?_, ?_, not_running_and_expired_poll_clock s hinv id hid⟩
  · intro hm
    rcases hinv.2 with hp | ⟨-, hs⟩
    · exact absurd hp hm
    · simp [countdown_is_running, hs id hid]
  · intro hne
    rw [process_countdown_eq]
    simp only [running_and_expired, countdown_is_running, countdown_has_expired, if_pos hid]
      at hne ⊢
    have := not_running_and_expired_tick (s.timer.Countdown id) (by
      intro hc; apply hne; simp [hc.1, hc.2])
    intro hc
    apply this
    constructor
    · intro h0; simp [h0] at hc
    · intro h0; simp [h0] at hc

theorem C5_exclusive_outside_play_and_after_poll_witness :
    (Reachable (run (main_loop_pass pins_eot1 ++ main_loop_pass pins_idle ++ [Event.tick]
        ++ [Event.poll_inputs pins_eot1]) (main_init (fun _ => 0) [])) ∧
      1 < NUM_COUNTDOWNS) ∧
    ¬ running_and_expired 1 (poll_clock
      (run (main_loop_pass pins_eot1 ++ main_loop_pass pins_idle ++ [Event.tick]
        ++ [Event.poll_inputs pins_eot1]) (main_init (fun _ => 0) []))) :=
  ⟨⟨reachable_run _ (Reachable.startup _ _), by decide⟩,
    (C5_exclusive_outside_play_and_after_poll _
      (reachable_run _ (Reachable.startup _ _)) 1 (by decide)).2.2⟩

/-- C6: in Play mode, for the end-of-turn button of countdown `k` (0..3) with
pair partner `k xor 1`: if countdown `k` has not expired, the press leaves it
stopped and the partner running, indicator `k` off and the partner's on, and
the audio player as `play(tick)` sets it up (cursor at the click sequence,
one tick to go, output toggling, audio duty enabled), whatever was running
before; if it has expired, no running flag, no indicator and nothing of the
audio state changes.  The countdowns of the other pair are unchanged. -/
theorem C6_end_of_turn (s : SysState) (k : Nat) (hk : k < NUM_COUNTDOWNS)
    (hmode : s.clock.mode = PLAY_MODE) :
    (countdown_has_expired k s = 0 →
      countdown_is_running k (input_asserted (INPUT_EOT1 + k) s) = 0 ∧
      countdown_is_running (k ^^^ 1) (input_asserted (INPUT_EOT1 + k) s) = 1 ∧
      ¬ turnled_is_on k (input_asserted (INPUT_EOT1 + k) s) ∧
      turnled_is_on (k ^^^ 1) (input_asserted (INPUT_EOT1 + k) s) ∧
      (input_asserted (INPUT_EOT1 + k) s).audio = { audio_cmd_ptr := tick, cycle_count := 1 } ∧
      (input_asserted (INPUT_EOT1 + k) s).regs = (play tick s).regs ∧
      (input_asserted (INPUT_EOT1 + k) s).regs.TCCR1A = TCCR1A_TOGGLE ∧
      task_enabled AUDIO_TASK (input_asserted (INPUT_EOT1 + k) s)) ∧
    (countdown_has_expired k s ≠ 0 →
      (∀ id, ((input_asserted (INPUT_EOT1 + k) s).timer.Countdown id)._running =
        (s.timer.Countdown id)._running) ∧
      (input_asserted (INPUT_EOT1 + k) s).turnled = s.turnled ∧
      (input_asserted (INPUT_EOT1 + k) s).audio = s.audio ∧
      (input_asserted (INPUT_EOT1 + k) s).regs = s.regs ∧
      (input_asserted (INPUT_EOT1 + k) s).timer.tasks = s.timer.tasks) ∧
    (∀ j, j / 2 ≠ k / 2 →
      (input_asserted (INPUT_EOT1 + k) s).timer.Countdown j = s.timer.Countdown j) := by
  have hx : k ^^^ 1 ≠ k ∧ k ^^^ 1 < 8 ∧ (k ^^^ 1) / 2 = k / 2 := by
    simp only [NUM_COUNTDOWNS] at hk
    interval_cases k <;> decide
  obtain ⟨hx1, hx2, hx3⟩ := hx
  rw [play_eot_eq s k hk hmode]
  have hexp : countdown_has_expired k { s with clock.update_display := 1 }
      = countdown_has_expired k s := rfl
  refine ⟨?_, ?_, ?_⟩
  · intro h
    rw [if_pos h]
    refine ⟨?_, ?_, ?_, ?_, ?_, ?_, ?_, ?_⟩
    · simp [countdown_is_running, start_countdown, stop_countdown, setCountdown,
        Function.update_noteq hx1.symm]
    · simp [countdown_is_running, start_countdown, stop_countdown, setCountdown]
    · simp only [turnled_is_on, start_countdown, stop_countdown, setCountdown, turnled_on,
        turnled_off, play_turnled, not_not]
      rw [and_one_shiftLeft_eq_zero, testBit_set_bits, testBit_clear_bits]
      simp [hx1]
    · simp only [turnled_is_on, start_countdown, stop_countdown, setCountdown, turnled_on,
        turnled_off, play_turnled]
      rw [and_one_shiftLeft_ne_zero, testBit_set_bits]
      simp [hx2]
    · exact play_tick_audio _
    · simp [start_countdown, stop_countdown, setCountdown, turnled_on, turnled_off,
        play_tick_regs]
    · exact congrArg Registers.TCCR1A (play_tick_regs _)
    · simp only [task_enabled, start_countdown, stop_countdown, setCountdown, turnled_on,
        turnled_off, play_tasks]
      rw [and_one_shiftLeft_ne_zero, testBit_set_bits]
      simp [AUDIO_TASK]
  · intro h
    rw [if_neg h]
    exact ⟨fun _ => rfl, rfl, rfl, rfl, rfl⟩
  · intro j hj
    have hj1 : j ≠ k := fun h => hj (by rw [h])
    have hj2 : j ≠ k ^^^ 1 := fun h => hj (by rw [h, hx3])
    split_ifs
    · simp only [start_countdown, stop_countdown, setCountdown, turnled_on, turnled_off,
        play_Countdown]
      rw [Function.update_noteq hj2, Function.update_noteq hj1]
    · rfl

theorem C6_end_of_turn_witness :
    (0 < NUM_COUNTDOWNS ∧ (main_init (fun _ => 0) []).clock.mode = PLAY_MODE ∧
      countdown_has_expired 0 (main_init (fun _ => 0) []) = 0) ∧
    countdown_is_running 0 (input_asserted (INPUT_EOT1 + 0) (main_init (fun _ => 0) [])) = 0 ∧
    countdown_is_running (0 ^^^ 1)
      (input_asserted (INPUT_EOT1 + 0) (main_init (fun _ => 0) [])) = 1 :=
  ⟨by decide,
    ((C6_end_of_turn (main_init (fun _ => 0) []) 0 (by decide) (by decide)).1 (by decide)).1,
    ((C6_end_of_turn (main_init (fun _ => 0) []) 0 (by decide) (by decide)).1 (by decide)).2.1⟩

/-- C7 fails on the code: after a first pause and resume the was-running mask
is still set, so a further pause press runs the restore branch again.  From
start-up with an unprogrammed EEPROM: end-of-turn 1, pause, pause (each
pressed and released over passes of the main loop) give a Play-mode state
with countdown 2 running, and the next pause press leaves it running. -/
theorem C7_pause_after_resume_keeps_running :
    Reachable (run (main_loop_pass pins_eot1 ++ main_loop_pass pins_idle ++
        main_loop_pass pins_pause ++ main_loop_pass pins_idle ++
        main_loop_pass pins_pause ++ main_loop_pass pins_idle)
      (main_init (fun _ => 255) [])) ∧
    (run (main_loop_pass pins_eot1 ++ main_loop_pass pins_idle ++
        main_loop_pass pins_pause ++ main_loop_pass pins_idle ++
        main_loop_pass pins_pause ++ main_loop_pass pins_idle)
      (main_init (fun _ => 255) [])).clock.mode = PLAY_MODE ∧
    countdown_is_running 1 (run (main_loop_pass pins_eot1 ++ main_loop_pass pins_idle ++
        main_loop_pass pins_pause ++ main_loop_pass pins_idle ++
        main_loop_pass pins_pause ++ main_loop_pass pins_idle)
      (main_init (fun _ => 255) [])) = 1 ∧
    countdown_is_running 1 (input_asserted INPUT_PAUSE
      (run (main_loop_pass pins_eot1 ++ main_loop_pass pins_idle ++
        main_loop_pass pins_pause ++ main_loop_pass pins_idle ++
        main_loop_pass pins_pause ++ main_loop_pass pins_idle)
      (main_init (fun _ => 255) []))) = 1 ∧
    countdown_is_running 1 (run (main_loop_pass pins_eot1 ++ main_loop_pass pins_idle ++
        main_loop_pass pins_pause ++ main_loop_pass pins_idle ++
        main_loop_pass pins_pause ++ main_loop_pass pins_idle ++ main_loop_pass pins_pause)
      (main_init (fun _ => 255) [])) = 1 :=
  ⟨reachable_run _ (Reachable.startup _ _), by decide⟩

/-- C8: from a Play-mode state with an empty was-running mask, whatever
countdowns run, a pause press, any number of ticks and a second pause press
leave every countdown running exactly if it ran before the first press, with
the minutes, seconds and sub-second accumulator it had then.  This holds for
ticks that are countdown updates and, when the pause button is not being held
down (a held pause is a long push, which leaves Play mode), for whole tick
interrupts. -/
theorem C8_pause_resume (s : SysState) (N id : Nat) (hmode : s.clock.mode = PLAY_MODE)
    (hw : s.clock.was_running = 0) (hid : id < NUM_COUNTDOWNS) :
    same_time id s
      (input_asserted INPUT_PAUSE ((process_countdown^[N]) (input_asserted INPUT_PAUSE s))) ∧
    (s.input.LastB &&& B_MASK_PAUSE = 0 →
      same_time id s
        (input_asserted INPUT_PAUSE ((ISR_TIMER2_OVF^[N]) (input_asserted INPUT_PAUSE s)))) := by
  have h1 := pause_press_pauses s hmode hw
  refine ⟨pause_press_resumes s _ (paused_process_countdown_iterate s _ h1 N) id hid, ?_⟩
  intro hp
  have hf : (input_asserted INPUT_PAUSE s).input = s.input :=
    congrArg Prod.fst (clock_frame_input_asserted INPUT_PAUSE s)
  have h2 := paused_ISR_iterate s _ ⟨h1, by rw [hf]; exact hp⟩ N
  exact pause_press_resumes s _ h2.1 id hid

theorem C8_pause_resume_witness :
    ((input_asserted INPUT_EOT1 (main_init (fun _ => 255) [])).clock.mode = PLAY_MODE ∧
      (input_asserted INPUT_EOT1 (main_init (fun _ => 255) [])).clock.was_running = 0 ∧
      1 < NUM_COUNTDOWNS ∧
      (input_asserted INPUT_EOT1 (main_init (fun _ => 255) [])).input.LastB
        &&& B_MASK_PAUSE = 0) ∧
    same_time 1 (input_asserted INPUT_EOT1 (main_init (fun _ => 255) []))
      (input_asserted INPUT_PAUSE ((process_countdown^[3])
        (input_asserted INPUT_PAUSE
          (input_asserted INPUT_EOT1 (main_init (fun _ => 255) []))))) ∧
    same_time 1 (input_asserted INPUT_EOT1 (main_init (fun _ => 255) []))
      (input_asserted INPUT_PAUSE ((ISR_TIMER2_OVF^[3])
        (input_asserted INPUT_PAUSE
          (input_asserted INPUT_EOT1 (main_init (fun _ => 255) []))))) :=
  ⟨by decide,
    (C8_pause_resume (input_asserted INPUT_EOT1 (main_init (fun _ => 255) [])) 3 1
      (by decide) (by decide) (by decide)).1,
    (C8_pause_resume (input_asserted INPUT_EOT1 (main_init (fun _ => 255) [])) 3 1
      (by decide) (by decide) (by decide)).2 (by decide)⟩

/-- C9: for every content of the EEPROM, after `restart` each countdown `i`
(0..3) has the minutes of byte `2 * i` if that is at most 99 and 10
otherwise, the seconds of byte `2 * i + 1` if that is at most 59 and 0
otherwise (each defaulted on its own), is neither running nor expired, its
indicator is off, and the was-running mask is empty.  `restart` is a total
function: there is no error to report. -/
theorem C9_restart_loads (s : SysState) (i : Nat) (hi : i < NUM_COUNTDOWNS) :
    ((restart s).timer.Countdown i).minutes =
      (if s.eeprom (2 * i) ≤ 99 then s.eeprom (2 * i) else 10) ∧
    ((restart s).timer.Countdown i).seconds =
      (if s.eeprom (2 * i + 1) ≤ 59 then s.eeprom (2 * i + 1) else 0) ∧
    countdown_is_running i (restart s) = 0 ∧
    countdown_has_expired i (restart s) = 0 ∧
    ¬ turnled_is_on i (restart s) ∧
    (restart s).clock.was_running = 0 := by
  refine ⟨?_, ?_, ?_, ?_, ?_, rfl⟩
  · rw [restart_Countdown, if_pos hi]
    simp only [loaded]
    split_ifs <;> first | rfl | omega
  · rw [restart_Countdown, if_pos hi]
    simp only [loaded]
    split_ifs <;> first | rfl | omega
  · simp [countdown_is_running, restart_Countdown, hi, loaded]
  · simp [countdown_has_expired, restart_Countdown, hi, loaded]
  · simp only [turnled_is_on, restart_ledstate, not_not]
    rw [and_one_shiftLeft_eq_zero]
    simp only [testBit_clear_bits]
    simp only [NUM_COUNTDOWNS] at hi
    interval_cases i <;> simp

theorem C9_restart_loads_witness :
    3 < NUM_COUNTDOWNS ∧
    ((restart (main_init (fun _ => 200) [])).timer.Countdown 3).minutes =
      (if (main_init (fun _ => 200) []).eeprom (2 * 3) ≤ 99
        then (main_init (fun _ => 200) []).eeprom (2 * 3) else 10) ∧
    ((restart (main_init (fun _ => 200) [])).timer.Countdown 3).seconds =
      (if (main_init (fun _ => 200) []).eeprom (2 * 3 + 1) ≤ 59
        then (main_init (fun _ => 200) []).eeprom (2 * 3 + 1) else 0) ∧
    countdown_is_running 3 (restart (main_init (fun _ => 200) [])) = 0 ∧
    countdown_has_expired 3 (restart (main_init (fun _ => 200) [])) = 0 ∧
    ¬ turnled_is_on 3 (restart (main_init (fun _ => 200) [])) ∧
    (restart (main_init (fun _ => 200) [])).clock.was_running = 0 :=
  ⟨by decide, C9_restart_loads (main_init (fun _ => 200) []) 3 (by decide)⟩

/-- C10: in every Setup-mode state reachable from start-up, the long pause
push writes the minutes and seconds of countdown `i` to bytes `2 * i` and
`2 * i + 1` of the EEPROM for all four countdowns, returns to Play mode and
leaves every countdown with the minutes and seconds it had at the commit;
a later `restart`, in any state that still holds these eight bytes, loads
these same values. -/
theorem C10_commit_roundtrip (s : SysState) (h : Reachable s)
    (hm : s.clock.mode = SETUP_MODE) (i : Nat) (hi : i < NUM_COUNTDOWNS) :
    (input_long_push INPUT_PAUSE s).eeprom (2 * i) = (s.timer.Countdown i).minutes ∧
    (input_long_push INPUT_PAUSE s).eeprom (2 * i + 1) = (s.timer.Countdown i).seconds ∧
    (input_long_push INPUT_PAUSE s).clock.mode = PLAY_MODE ∧
    ((input_long_push INPUT_PAUSE s).timer.Countdown i).minutes
      = (s.timer.Countdown i).minutes ∧
    ((input_long_push INPUT_PAUSE s).timer.Countdown i).seconds
      = (s.timer.Countdown i).seconds ∧
    (∀ u : SysState, (∀ a, a < 8 → u.eeprom a = (input_long_push INPUT_PAUSE s).eeprom a) →
      ((restart u).timer.Countdown i).minutes = (s.timer.Countdown i).minutes ∧
      ((restart u).timer.Countdown i).seconds = (s.timer.Countdown i).seconds) := by
  have hinv := Inv_of_reachable h
  have hb := hinv.1 i
  have he : input_long_push INPUT_PAUSE s =
      restart ((List.range NUM_COUNTDOWNS).foldl commit_body
        (({ s with clock.mode := PLAY_MODE } : SysState), 0)).1 := by
    unfold input_long_push
    rw [if_neg (by rw [hm]; decide), if_pos hm, if_pos rfl]
  have hw := commit_fold_eeprom ({ s with clock.mode := PLAY_MODE } : SysState) i hi
  have hmin : (s.timer.Countdown i).minutes % 256 = (s.timer.Countdown i).minutes :=
    Nat.mod_eq_of_lt (by omega)
  have hsec : (s.timer.Countdown i).seconds % 256 = (s.timer.Countdown i).seconds :=
    Nat.mod_eq_of_lt (by omega)
  have hw1 : (input_long_push INPUT_PAUSE s).eeprom (2 * i) = (s.timer.Countdown i).minutes := by
    rw [he, restart_eeprom, hw.1]; exact hmin
  have hw2 : (input_long_push INPUT_PAUSE s).eeprom (2 * i + 1)
      = (s.timer.Countdown i).seconds := by
    rw [he, restart_eeprom, hw.2]; exact hsec
  have hload : ∀ u : SysState,
      (∀ a, a < 8 → u.eeprom a = (input_long_push INPUT_PAUSE s).eeprom a) →
      ((restart u).timer.Countdown i).minutes = (s.timer.Countdown i).minutes ∧
      ((restart u).timer.Countdown i).seconds = (s.timer.Countdown i).seconds := by
    intro u hu
    simp only [NUM_COUNTDOWNS] at hi
    rw [restart_Countdown, if_pos (by simp only [NUM_COUNTDOWNS]; exact hi)]
    simp only [loaded]
    rw [hu (2 * i) (by omega), hu (2 * i + 1) (by omega), hw1, hw2]
    constructor
    · rw [if_neg (by omega)]
    · rw [if_neg (by omega)]
  refine ⟨hw1, hw2, ?_, ?_, ?_, hload⟩
  · rw [he, restart_clock]
    show (((List.range NUM_COUNTDOWNS).foldl commit_body
        (({ s with clock.mode := PLAY_MODE } : SysState), 0)).1.clock).mode = PLAY_MODE
    rw [commit_fold_clock]
  · rw [he]
    exact (hload _ (fun a _ => by rw [he, restart_eeprom])).1
  · rw [he]
    exact (hload _ (fun a _ => by rw [he, restart_eeprom])).2

theorem C10_commit_roundtrip_witness :
    (Reachable (run [Event.long_push INPUT_PAUSE, Event.asserted INPUT_UP]
        (main_init (fun _ => 255) [])) ∧
      (run [Event.long_push INPUT_PAUSE, Event.asserted INPUT_UP]
        (main_init (fun _ => 255) [])).clock.mode = SETUP_MODE ∧ 0 < NUM_COUNTDOWNS) ∧
    (input_long_push INPUT_PAUSE (run [Event.long_push INPUT_PAUSE, Event.asserted INPUT_UP]
        (main_init (fun _ => 255) []))).eeprom (2 * 0) =
      ((run [Event.long_push INPUT_PAUSE, Event.asserted INPUT_UP]
        (main_init (fun _ => 255) [])).timer.Countdown 0).minutes :=
  ⟨⟨reachable_run _ (Reachable.startup _ _), by decide⟩,
    (C10_commit_roundtrip _ (reachable_run _ (Reachable.startup _ _)) (by decide) 0
      (by decide)).1⟩

/-- C11, as stated, fails.  All countdowns are loaded with 0:11, which a
running countdown counts off in 86 ticks.  After a pass of the main loop with
no button pressed and a tick (the second control is found fitted), end-of-turn
button 4 is pressed, which starts countdown 3, and held for 6 ticks, then
released; then the second control is unplugged, so that both its buttons read
pressed, for 80 ticks, a pass of the main loop following every tick.  On the
80th of these ticks countdown 3 expires and the second control is found not
fitted.  The mode is Play and the expired flag of countdown 3 is set, but
`poll_clock`, which now examines countdowns 1 and 2 only, leaves the mode at
Play. -/
theorem C11_unpolled_lane_counterexample :
    Reachable (run unplugged_trace (main_init eeprom_0_11 [])) ∧
    (run unplugged_trace (main_init eeprom_0_11 [])).clock.mode = PLAY_MODE ∧
    countdown_has_expired COUNTDOWN_3 (run unplugged_trace (main_init eeprom_0_11 [])) ≠ 0 ∧
    is_second_control_fitted (run unplugged_trace (main_init eeprom_0_11 [])) = 0 ∧
    (poll_clock (run unplugged_trace (main_init eeprom_0_11 []))).clock.mode ≠ WON_MODE := by
  have h := unplugged_inv_stays_play _ unplugged_trace_inv
  refine ⟨reachable_run _ (Reachable.startup _ _), h.1, ?_, h.2.2.1, ?_⟩
  · rw [h.2.1]; decide
  · rw [h.2.2.2]; decide

/-- C11, amended: for every Play-mode state in which the expired flag is set
of some countdown that `poll_clock` examines (countdowns 1 and 2, and
countdowns 3 and 4 while the second control is classified as fitted), one
call of `poll_clock` leaves the mode equal to Won, no countdown running, all
four turn indicators off and the victory sequence installed in the audio
player (cursor at its first entry, one tick remaining, output toggle enabled,
generator powered on, audio duty bit set); the loop runs the game-over block
once and ends.  When no examined countdown is expired the mode stays Play. -/
theorem C11_expired_polled_lane_wins (s : SysState) (hm : s.clock.mode = PLAY_MODE) :
    ((∃ j, j < polled_ids s ∧ countdown_has_expired j s ≠ 0) →
      (poll_clock s).clock.mode = WON_MODE ∧
      (∀ i, i < NUM_COUNTDOWNS →
        countdown_is_running i (poll_clock s) = 0 ∧ ¬ turnled_is_on i (poll_clock s)) ∧
      (poll_clock s).audio = { audio_cmd_ptr := tada, cycle_count := 1 } ∧
      (poll_clock s).regs.TCCR1A = TCCR1A_TOGGLE ∧
      (poll_clock s).regs.PRR &&& (1 <<< PRTIM1) = 0 ∧
      task_enabled AUDIO_TASK (poll_clock s) ∧
      poll_clock_loop (polled_ids s) (polled_ids s) 0 (stop_unfitted s) =
        declare_won (stop_unfitted s)) ∧
    ((∀ j, j < polled_ids s → countdown_has_expired j s = 0) →
      (poll_clock s).clock.mode = PLAY_MODE) := by
  refine ⟨?_, poll_clock_not_won s hm⟩
  rintro ⟨j, hj, he⟩
  obtain ⟨hloop, hmode, htimer, hled, haudio, hregs⟩ := poll_clock_won s hm j hj he
  have hplay : ∀ u : SysState, declare_won u =
      play tada { (List.range NUM_COUNTDOWNS).foldl stop_and_turn_off
        { u with clock.mode := WON_MODE } with clock.update_display := 1 } := fun _ => rfl
  refine ⟨hmode, fun i hi => ⟨?_, ?_⟩, ?_, ?_, ?_, ?_, hloop⟩
  · unfold countdown_is_running
    rw [htimer, declare_won_Countdown, if_pos hi]
    rfl
  · unfold turnled_is_on
    rw [hled, declare_won_ledstate, cleared_four _ i hi]
    exact fun h => h rfl
  · rw [haudio, hplay, play_audio]
    rfl
  · rw [hregs, hplay, play_TCCR1A]
    rfl
  · rw [hregs, hplay]
    exact play_powered_on _ _
  · unfold task_enabled
    rw [htimer, hplay]
    exact play_task_enabled _ _

theorem C11_expired_polled_lane_wins_witness :
    (run [Event.asserted INPUT_EOT1, Event.tick] (main_init (fun _ => 0) [])).clock.mode
      = PLAY_MODE ∧
    (∃ j, j < polled_ids (run [Event.asserted INPUT_EOT1, Event.tick]
        (main_init (fun _ => 0) [])) ∧
      countdown_has_expired j (run [Event.asserted INPUT_EOT1, Event.tick]
        (main_init (fun _ => 0) [])) ≠ 0) ∧
    (poll_clock (run [Event.asserted INPUT_EOT1, Event.tick]
      (main_init (fun _ => 0) []))).clock.mode = WON_MODE :=
  ⟨by decide, ⟨1, by decide, by decide⟩,
    ((C11_expired_polled_lane_wins
      (run [Event.asserted INPUT_EOT1, Event.tick] (main_init (fun _ => 0) []))
      (by decide)).1 ⟨1, by decide, by decide⟩).1⟩

/-- C12: in Won mode `input_asserted(id)` for every channel other than
restart leaves the whole state unchanged (the mode, the four countdowns, the
was-running mask, the indicators and the audio state among it);
`input_asserted(INPUT_RESTART)` sets the mode to Play and leaves the four
countdowns as `restart` loads them from the EEPROM. -/
theorem C12_won_mode_inputs (s : SysState) (id : Nat) (hm : s.clock.mode = WON_MODE) :
    (id ≠ INPUT_RESTART → input_asserted id s = s) ∧
    (input_asserted INPUT_RESTART s).clock.mode = PLAY_MODE ∧
    (∀ i, i < NUM_COUNTDOWNS →
      (input_asserted INPUT_RESTART s).timer.Countdown i = (restart s).timer.Countdown i ∧
      (input_asserted INPUT_RESTART s).timer.Countdown i =
        { minutes := if s.eeprom (2 * i) > 99 then 10 else s.eeprom (2 * i),
          seconds := if s.eeprom (2 * i + 1) > 59 then 0 else s.eeprom (2 * i + 1),
          _running := 0, _expired := 0, _subseconds := 0 }) := by
  have he : ∀ j, input_asserted j s =
      if j = INPUT_RESTART then restart { s with clock.mode := PLAY_MODE } else s := by
    intro j
    unfold input_asserted
    rw [if_neg (by rw [hm]; decide), if_pos hm]
  refine ⟨fun hne => by rw [he, if_neg hne], ?_, ?_⟩
  · rw [he, if_pos rfl, restart_clock]
  · intro i hi
    rw [he, if_pos rfl]
    simp only [restart_Countdown, if_pos hi]
    exact ⟨trivial, rfl⟩

theorem C12_won_mode_inputs_witness :
    (declare_won (main_init (fun _ => 7) [])).clock.mode = WON_MODE ∧
    input_asserted INPUT_PAUSE (declare_won (main_init (fun _ => 7) []))
      = declare_won (main_init (fun _ => 7) []) ∧
    (input_asserted INPUT_RESTART (declare_won (main_init (fun _ => 7) []))).clock.mode
      = PLAY_MODE :=
  ⟨by decide,
    (C12_won_mode_inputs (declare_won (main_init (fun _ => 7) [])) INPUT_PAUSE (by decide)).1
      (by decide),
    (C12_won_mode_inputs (declare_won (main_init (fun _ => 7) [])) INPUT_PAUSE
      (by decide)).2.1⟩

/-- C13: from any state in Play or Won mode `input_long_push(INPUT_PAUSE)`
leaves the mode Setup, the selected countdown 0, the selected digit 0, no
countdown running, the was-running mask empty and the four indicators off,
with the minutes and seconds of every countdown unchanged; a long push of any
other channel changes nothing. -/
theorem C13_long_pause_enters_setup (s : SysState) (id : Nat)
    (hm : s.clock.mode = PLAY_MODE ∨ s.clock.mode = WON_MODE) :
    (input_long_push INPUT_PAUSE s).clock.mode = SETUP_MODE ∧
    (input_long_push INPUT_PAUSE s).clock.selected_countdown = 0 ∧
    (input_long_push INPUT_PAUSE s).clock.selected_digit = 0 ∧
    (input_long_push INPUT_PAUSE s).clock.was_running = 0 ∧
    (∀ i, i < NUM_COUNTDOWNS →
      countdown_is_running i (input_long_push INPUT_PAUSE s) = 0 ∧
      ¬ turnled_is_on i (input_long_push INPUT_PAUSE s)) ∧
    (∀ i, ((input_long_push INPUT_PAUSE s).timer.Countdown i).minutes
        = (s.timer.Countdown i).minutes ∧
      ((input_long_push INPUT_PAUSE s).timer.Countdown i).seconds
        = (s.timer.Countdown i).seconds) ∧
    (id ≠ INPUT_PAUSE → input_long_push id s = s) := by
  have he : ∀ j, input_long_push j s =
      if j = INPUT_PAUSE then
        (List.range NUM_COUNTDOWNS).foldl stop_and_turn_off
          { s with clock.was_running := 0, clock.mode := SETUP_MODE,
                   clock.selected_countdown := 0, clock.selected_digit := 0 }
      else s := by
    intro j
    unfold input_long_push
    rw [if_pos hm]
  refine ⟨?_, ?_, ?_, ?_, ?_, ?_, fun hne => by rw [he, if_neg hne]⟩
  · rw [he, if_pos rfl, stop_fold_clock]
  · rw [he, if_pos rfl, stop_fold_clock]
  · rw [he, if_pos rfl, stop_fold_clock]
  · rw [he, if_pos rfl, stop_fold_clock]
  · intro i hi
    rw [he, if_pos rfl]
    constructor
    · simp [countdown_is_running, stop_fold_Countdown, hi]
    · simp only [turnled_is_on, stop_fold_ledstate, not_not]
      exact cleared_four _ i hi
  · intro i
    rw [he, if_pos rfl, stop_fold_Countdown]
    split_ifs <;> exact ⟨rfl, rfl⟩

theorem C13_long_pause_enters_setup_witness :
    ((main_init (fun _ => 7) []).clock.mode = PLAY_MODE ∨
      (main_init (fun _ => 7) []).clock.mode = WON_MODE) ∧
    (input_long_push INPUT_PAUSE (main_init (fun _ => 7) [])).clock.mode = SETUP_MODE :=
  ⟨by decide, (C13_long_pause_enters_setup (main_init (fun _ => 7) []) INPUT_UP
    (by decide)).1⟩

/-- C14, as stated, fails: in Setup mode with the tens-of-seconds digit of
countdown 1 selected and 0 seconds, down (an adjustment by -10) leaves the
seconds at 0, not at `(0 - 10) mod 60 = 50`. -/
theorem C14_wraparound_counterexample :
    (run [Event.long_push INPUT_PAUSE, Event.asserted INPUT_EOT1, Event.asserted INPUT_EOT1]
      (main_init (fun _ => 255) [])).clock.mode = SETUP_MODE ∧
    ((run [Event.long_push INPUT_PAUSE, Event.asserted INPUT_EOT1, Event.asserted INPUT_EOT1]
      (main_init (fun _ => 255) [])).timer.Countdown 0).seconds = 0 ∧
    setup_sign INPUT_DOWN
      (run [Event.long_push INPUT_PAUSE, Event.asserted INPUT_EOT1, Event.asserted INPUT_EOT1]
        (main_init (fun _ => 255) [])) * 10 = -10 ∧
    ((selected_after INPUT_DOWN
      (run [Event.long_push INPUT_PAUSE, Event.asserted INPUT_EOT1, Event.asserted INPUT_EOT1]
        (main_init (fun _ => 255) []))).seconds : Int) ≠ ((0 : Int) + (-10)) % 60 := by
  decide

/-- C14, amended: in Setup mode, for every field value `v` in 0..59 and every
adjustment `d` among +1, -1, +10, -10, `add_to_digit` makes the field `v + d`
when that lies in 0..59 and 0 otherwise (so +1 takes 59 to 0, but there is no
wraparound downwards and none by 10); up and down apply such an adjustment to
the minutes (digits 0 and 1) or the seconds (digits 2 and 3) of the selected
countdown. -/
theorem C14_adjust_resets_to_zero (s : SysState) (id v : Nat) (d : Int) (hv : v ≤ 59)
    (hd : d = 1 ∨ d = -1 ∨ d = 10 ∨ d = -10) (hm : s.clock.mode = SETUP_MODE)
    (hid : id = INPUT_UP ∨ id = INPUT_DOWN) :
    add_to_digit v d = (if 0 ≤ (v : Int) + d ∧ (v : Int) + d ≤ 59
      then ((v : Int) + d).toNat else 0) ∧
    (add_to_digit v 1 = (v + 1) % 60) ∧
    (∃ e : Int, (e = 1 ∨ e = -1 ∨ e = 10 ∨ e = -10) ∧
      selected_after id s =
        if s.clock.selected_digit < FIRST_SECONDS_DIGIT then
          { s.timer.Countdown s.clock.selected_countdown with
            minutes := add_to_digit (s.timer.Countdown s.clock.selected_countdown).minutes e }
        else
          { s.timer.Countdown s.clock.selected_countdown with
            seconds := add_to_digit (s.timer.Countdown s.clock.selected_countdown).seconds e })
    := by
  refine ⟨add_to_digit_eq_adjusted v d hv hd, ?_, ?_⟩
  · rw [add_to_digit_eq_adjusted v 1 hv (Or.inl rfl)]
    unfold adjusted
    split_ifs <;> omega
  · refine ⟨setup_sign id s * (if s.clock.selected_digit % 2 = 0 then 10 else 1), ?_, ?_⟩
    · unfold setup_sign
      split_ifs <;> simp
    · unfold selected_after
      rw [setup_up_down_eq id s hm hid]
      unfold setup_adjust
      simp only []
      split_ifs <;> simp [setCountdown]

theorem C14_adjust_resets_to_zero_witness :
    ((55 : Nat) ≤ 59 ∧
      (run [Event.long_push INPUT_PAUSE] (main_init (fun _ => 255) [])).clock.mode
        = SETUP_MODE) ∧
    add_to_digit 55 10 = (if 0 ≤ ((55 : Nat) : Int) + 10 ∧ ((55 : Nat) : Int) + 10 ≤ 59
      then (((55 : Nat) : Int) + 10).toNat else 0) :=
  ⟨by decide,
    (C14_adjust_resets_to_zero (run [Event.long_push INPUT_PAUSE] (main_init (fun _ => 255) []))
      INPUT_UP 55 10 (by decide) (by decide) (by decide) (by decide)).1⟩

/-- C15: in Setup mode, up on a countdown with an odd index changes the
minutes and seconds of the selected countdown exactly as down does on a
countdown with an even index that holds the same time at the same digit, and
down on an odd one exactly as up on an even one; at digits 0 and 1 only the
minutes change (by 10 and by 1), at digits 2 and 3 only the seconds (by 10
and by 1), the sign being positive for up on an even and down on an odd
countdown. -/
theorem C15_direction_mirrored (s t : SysState) (id : Nat) (hs : s.clock.mode = SETUP_MODE)
    (ht : t.clock.mode = SETUP_MODE) (hodd : s.clock.selected_countdown % 2 = 1)
    (heven : t.clock.selected_countdown % 2 = 0)
    (hdigit : s.clock.selected_digit = t.clock.selected_digit)
    (hmin : (s.timer.Countdown s.clock.selected_countdown).minutes
      = (t.timer.Countdown t.clock.selected_countdown).minutes)
    (hsec : (s.timer.Countdown s.clock.selected_countdown).seconds
      = (t.timer.Countdown t.clock.selected_countdown).seconds)
    (hid : id = INPUT_UP ∨ id = INPUT_DOWN) :
    ((selected_after INPUT_UP s).minutes = (selected_after INPUT_DOWN t).minutes ∧
      (selected_after INPUT_UP s).seconds = (selected_after INPUT_DOWN t).seconds) ∧
    ((selected_after INPUT_DOWN s).minutes = (selected_after INPUT_UP t).minutes ∧
      (selected_after INPUT_DOWN s).seconds = (selected_after INPUT_UP t).seconds) ∧
    (s.clock.selected_digit = 0 →
      (selected_after id s).minutes = add_to_digit
        (s.timer.Countdown s.clock.selected_countdown).minutes (setup_sign id s * 10) ∧
      (selected_after id s).seconds = (s.timer.Countdown s.clock.selected_countdown).seconds) ∧
    (s.clock.selected_digit = 1 →
      (selected_after id s).minutes = add_to_digit
        (s.timer.Countdown s.clock.selected_countdown).minutes (setup_sign id s * 1) ∧
      (selected_after id s).seconds = (s.timer.Countdown s.clock.selected_countdown).seconds) ∧
    (s.clock.selected_digit = 2 →
      (selected_after id s).seconds = add_to_digit
        (s.timer.Countdown s.clock.selected_countdown).seconds (setup_sign id s * 10) ∧
      (selected_after id s).minutes = (s.timer.Countdown s.clock.selected_countdown).minutes) ∧
    (s.clock.selected_digit = 3 →
      (selected_after id s).seconds = add_to_digit
        (s.timer.Countdown s.clock.selected_countdown).seconds (setup_sign id s * 1) ∧
      (selected_after id s).minutes = (s.timer.Countdown s.clock.selected_countdown).minutes)
    := by
  have key : ∀ (u : SysState) (j : Nat), u.clock.mode = SETUP_MODE →
      (j = INPUT_UP ∨ j = INPUT_DOWN) →
      selected_after j u =
        if u.clock.selected_digit < FIRST_SECONDS_DIGIT then
          { u.timer.Countdown u.clock.selected_countdown with
            minutes := add_to_digit (u.timer.Countdown u.clock.selected_countdown).minutes
              (setup_sign j u * (if u.clock.selected_digit % 2 = 0 then 10 else 1)) }
        else
          { u.timer.Countdown u.clock.selected_countdown with
            seconds := add_to_digit (u.timer.Countdown u.clock.selected_countdown).seconds
              (setup_sign j u * (if u.clock.selected_digit % 2 = 0 then 10 else 1)) } := by
    intro u j hu hj
    unfold selected_after
    rw [setup_up_down_eq j u hu hj]
    unfold setup_adjust
    simp only []
    split_ifs <;> simp [setCountdown]
  have sUP : setup_sign INPUT_UP s = -1 := by
    unfold setup_sign; rw [if_neg (by simp [hodd])]
  have sDOWN : setup_sign INPUT_DOWN s = 1 := by
    unfold setup_sign; rw [if_pos (by simp [hodd, INPUT_DOWN, INPUT_UP])]
  have tUP : setup_sign INPUT_UP t = 1 := by
    unfold setup_sign; rw [if_pos (by simp [heven])]
  have tDOWN : setup_sign INPUT_DOWN t = -1 := by
    unfold setup_sign; rw [if_neg (by simp [heven, INPUT_DOWN, INPUT_UP])]
  refine ⟨?_, ?_, ?_, ?_, ?_, ?_⟩
  · rw [key s _ hs (Or.inl rfl), key t _ ht (Or.inr rfl), sUP, tDOWN, hdigit]
    split_ifs <;> dsimp only <;> simp [hmin, hsec]
  · rw [key s _ hs (Or.inr rfl), key t _ ht (Or.inl rfl), sDOWN, tUP, hdigit]
    split_ifs <;> dsimp only <;> simp [hmin, hsec]
  · intro h0
    rw [key s id hs hid, h0]
    exact ⟨rfl, rfl⟩
  · intro h1
    rw [key s id hs hid, h1]
    exact ⟨rfl, rfl⟩
  · intro h2
    rw [key s id hs hid, h2]
    exact ⟨rfl, rfl⟩
  · intro h3
    rw [key s id hs hid, h3]
    exact ⟨rfl, rfl⟩

theorem C15_direction_mirrored_witness :
    (run [Event.long_push INPUT_PAUSE, Event.asserted INPUT_EOT2]
        (main_init (fun _ => 255) [])).clock.selected_countdown % 2 = 1 ∧
    (selected_after INPUT_UP (run [Event.long_push INPUT_PAUSE, Event.asserted INPUT_EOT2]
        (main_init (fun _ => 255) []))).minutes =
      (selected_after INPUT_DOWN (run [Event.long_push INPUT_PAUSE]
        (main_init (fun _ => 255) []))).minutes :=
  ⟨by decide,
    (C15_direction_mirrored
      (run [Event.long_push INPUT_PAUSE, Event.asserted INPUT_EOT2] (main_init (fun _ => 255) []))
      (run [Event.long_push INPUT_PAUSE] (main_init (fun _ => 255) [])) INPUT_UP
      (by decide) (by decide) (by decide) (by decide) (by decide) (by decide) (by decide)
      (Or.inl rfl)).1.1⟩

/-- C16: for every tone `t` in 0..7, duration `d` in 0..15 and last flag `l`,
the byte `AUDIO_CMD(t, d, l)` gives back `t` under `& TONE_MASK`, `d` under
`>> PERIOD_SHIFT & PERIOD_MASK` and `l` at bit `LAST_SHIFT`, which are the
extractions of `process_one_command` and `process_audio`; the three fields
lie in disjoint bits of one byte (the byte is their sum `t + 8 * d + 128 * l`),
and distinct triples give distinct bytes. -/
theorem C16_audio_cmd_roundtrip (t d l : Nat) (ht : t < 8) (hd : d < 16) (hl : l < 2) :
    AUDIO_CMD t d l &&& TONE_MASK = t ∧
    (AUDIO_CMD t d l >>> PERIOD_SHIFT) &&& PERIOD_MASK = d ∧
    (AUDIO_CMD t d l &&& (1 <<< LAST_SHIFT)) >>> LAST_SHIFT = l ∧
    (AUDIO_CMD t d l &&& (1 <<< LAST_SHIFT) = CONTINUE ↔ l = CONTINUE) ∧
    AUDIO_CMD t d l = t + 8 * d + 128 * l ∧
    AUDIO_CMD t d l < 256 ∧
    TONE_MASK &&& (PERIOD_MASK <<< PERIOD_SHIFT) = 0 ∧
    TONE_MASK &&& (1 <<< LAST_SHIFT) = 0 ∧
    (PERIOD_MASK <<< PERIOD_SHIFT) &&& (1 <<< LAST_SHIFT) = 0 ∧
    (∀ s : SysState, s.audio.audio_cmd_ptr.head? = some (AUDIO_CMD t d l) →
      (process_one_command s).audio.cycle_count = d) ∧
    (∀ t1 d1 l1, t1 < 8 → d1 < 16 → l1 < 2 → AUDIO_CMD t1 d1 l1 = AUDIO_CMD t d l →
      t1 = t ∧ d1 = d ∧ l1 = l) := by
  have h1 : ∀ t, t < 8 → ∀ d, d < 16 → ∀ l, l < 2 →
      (AUDIO_CMD t d l &&& TONE_MASK = t ∧
      (AUDIO_CMD t d l >>> PERIOD_SHIFT) &&& PERIOD_MASK = d ∧
      (AUDIO_CMD t d l &&& (1 <<< LAST_SHIFT)) >>> LAST_SHIFT = l ∧
      (AUDIO_CMD t d l &&& (1 <<< LAST_SHIFT) = CONTINUE ↔ l = CONTINUE) ∧
      AUDIO_CMD t d l = t + 8 * d + 128 * l ∧
      AUDIO_CMD t d l < 256) := by
    decide
  obtain ⟨a1, a2, a3, a4, a5, a6⟩ := h1 t ht d hd l hl
  refine ⟨a1, a2, a3, a4, a5, a6, by decide, by decide, by decide, ?_, ?_⟩
  · intro s hs
    have hh : pgm_read_byte s.audio.audio_cmd_ptr = AUDIO_CMD t d l := by
      unfold pgm_read_byte
      cases hp : s.audio.audio_cmd_ptr with
      | nil => rw [hp] at hs; simp at hs
      | cons c rest => rw [hp] at hs; simp at hs; simp [hs]
    have : (process_one_command s).audio.cycle_count =
        (pgm_read_byte s.audio.audio_cmd_ptr >>> PERIOD_SHIFT) &&& PERIOD_MASK := by
      simp only [process_one_command]
      split_ifs <;> rfl
    rw [this, hh, a2]
  · intro t1 d1 l1 ht1 hd1 hl1 heq
    obtain ⟨b1, b2, b3, -, -, -⟩ := h1 t1 ht1 d1 hd1 l1 hl1
    rw [heq] at b1 b2 b3
    exact ⟨by rw [← b1, a1], by rw [← b2, a2], by rw [← b3, a3]⟩

theorem C16_audio_cmd_roundtrip_witness :
    (TONE_D7 < 8 ∧ 1 < 16 ∧ LAST < 2) ∧
    AUDIO_CMD TONE_D7 1 LAST &&& TONE_MASK = TONE_D7 ∧
    (AUDIO_CMD TONE_D7 1 LAST >>> PERIOD_SHIFT) &&& PERIOD_MASK = 1 :=
  ⟨by decide, (C16_audio_cmd_roundtrip TONE_D7 1 LAST (by decide) (by decide) (by decide)).1,
    (C16_audio_cmd_roundtrip TONE_D7 1 LAST (by decide) (by decide) (by decide)).2.1⟩

/-- C17: after `play(tick)` the output toggle is enabled, the generator
powered on and the audio duty bit set; after one audio update
(`process_audio`), and likewise after one whole tick interrupt, the output
toggle is disabled, the generator powered down and the audio duty bit clear. -/
theorem C17_click_lasts_one_tick (s : SysState) :
    ((play tick s).regs.TCCR1A = TCCR1A_TOGGLE ∧
      (play tick s).regs.PRR &&& (1 <<< PRTIM1) = 0 ∧
      task_enabled AUDIO_TASK (play tick s)) ∧
    ((process_audio (play tick s)).regs.TCCR1A = TCCR1A_OFF ∧
      (process_audio (play tick s)).regs.PRR &&& (1 <<< PRTIM1) ≠ 0 ∧
      ¬ task_enabled AUDIO_TASK (process_audio (play tick s))) ∧
    ((ISR_TIMER2_OVF (play tick s)).regs.TCCR1A = TCCR1A_OFF ∧
      (ISR_TIMER2_OVF (play tick s)).regs.PRR &&& (1 <<< PRTIM1) ≠ 0 ∧
      ¬ task_enabled AUDIO_TASK (ISR_TIMER2_OVF (play tick s))) := by
  have hidle : ∀ v, audio_view v = audio_view (play tick s) →
      (audio_view (process_audio v)).2.2.1 = TCCR1A_OFF ∧
      (audio_view (process_audio v)).2.2.2.2 &&& (1 <<< PRTIM1) ≠ 0 ∧
      ¬ ((audio_view (process_audio v)).2.1 &&& (1 <<< AUDIO_TASK) ≠ 0) := by
    intro v hv
    have hva : v.audio = { audio_cmd_ptr := tick, cycle_count := 1 } :=
      (congrArg (fun w => w.1) hv).trans (play_tick_audio s)
    have h := process_audio_last_idle v (AUDIO_CMD TONE_D7 1 LAST) [] (by rw [hva]; rfl)
      (by rw [hva]) (by decide)
    exact ⟨h.2.2.1, h.2.2.2, fun hne => hne h.2.1⟩
  refine ⟨⟨?_, play_powered_on tick s, play_task_enabled tick s⟩, hidle _ rfl, ?_⟩
  · rw [play_tick_regs]
  · have h := hidle _ (audio_view_advance_timestamp (play tick s))
    rw [← audio_view_ISR_enabled _ (play_task_enabled tick s)] at h
    exact h

/-- C18: after `play(tada)`, with audio updates only (no further `play`), the
audio duty bit is set after each of the first 19 updates, the cursor then
being on entry `k` of the sequence with one tick remaining; the 20th update
clears the bit, with the cursor still on entry 19, the final entry and the
one marked last, of duration 1.  The same holds when the updates are whole
tick interrupts. -/
theorem C18_victory_plays_to_the_end (s : SysState) :
    (∀ k, k ≤ 19 →
      task_enabled AUDIO_TASK (process_audio^[k] (play tada s)) ∧
      (process_audio^[k] (play tada s)).audio =
        { audio_cmd_ptr := tada.drop k, cycle_count := 1 }) ∧
    (¬ task_enabled AUDIO_TASK (process_audio^[20] (play tada s)) ∧
      (process_audio^[20] (play tada s)).audio.audio_cmd_ptr = tada.drop 19) ∧
    (∀ k, k ≤ 19 →
      task_enabled AUDIO_TASK (ISR_TIMER2_OVF^[k] (play tada s)) ∧
      (ISR_TIMER2_OVF^[k] (play tada s)).audio =
        { audio_cmd_ptr := tada.drop k, cycle_count := 1 }) ∧
    (¬ task_enabled AUDIO_TASK (ISR_TIMER2_OVF^[20] (play tada s)) ∧
      (ISR_TIMER2_OVF^[20] (play tada s)).audio.audio_cmd_ptr = tada.drop 19) ∧
    tada.length = 20 ∧ tada.drop 19 = [AUDIO_CMD TONE_FF 1 LAST] ∧
    (AUDIO_CMD TONE_FF 1 LAST >>> PERIOD_SHIFT) &&& PERIOD_MASK = 1 ∧
    AUDIO_CMD TONE_FF 1 LAST &&& (1 <<< LAST_SHIFT) ≠ CONTINUE := by
  have key : ∀ f : SysState → SysState,
      (∀ u, task_enabled AUDIO_TASK u →
        ∃ v, audio_view v = audio_view u ∧ audio_view (f u) = audio_view (process_audio v)) →
      (∀ k, k ≤ 19 →
        task_enabled AUDIO_TASK (f^[k] (play tada s)) ∧
        (f^[k] (play tada s)).audio = { audio_cmd_ptr := tada.drop k, cycle_count := 1 }) ∧
      (¬ task_enabled AUDIO_TASK (f^[20] (play tada s)) ∧
        (f^[20] (play tada s)).audio.audio_cmd_ptr = tada.drop 19) := by
    intro f hf
    refine ⟨fun k hk => ?_, ?_⟩
    · have h := tada_iterate f hf s k hk
      refine ⟨?_, h.1⟩
      unfold task_enabled
      have h2 : (f^[k] (play tada s)).timer.tasks = (play tada s).timer.tasks := h.2
      rw [h2]
      exact play_task_enabled tada s
    · have h := tada_end f hf s
      exact ⟨fun hne => hne h.2.1, h.1⟩
  have k1 := key process_audio acts_as_process_audio
  have k2 := key ISR_TIMER2_OVF ISR_acts_as_process_audio
  exact ⟨k1.1, k1.2, k2.1, k2.2, by decide, by decide, by decide, by decide⟩

/-- C19: `play(cmds)` from any two prior states `s` and `t` gives the same
audio state: the cursor at the first entry of `cmds`, the remaining ticks
equal to the duration of that entry, the output toggle enabled for a tone and
disabled for a silent entry, the half-period set for the tone of the entry,
the generator powered on and the audio duty bit set.  (For a silent first
entry the half-period register is not written; the output is disconnected
then.) -/
theorem C19_play_preempts (cmds : List Nat) (s t : SysState) :
    (play cmds s).audio = (play cmds t).audio ∧
    (play cmds s).audio =
      { audio_cmd_ptr := cmds,
        cycle_count := (pgm_read_byte cmds >>> PERIOD_SHIFT) &&& PERIOD_MASK } ∧
    (play cmds s).regs.TCCR1A = (play cmds t).regs.TCCR1A ∧
    (play cmds s).regs.TCCR1A =
      (if pgm_read_byte cmds &&& TONE_MASK < TONE_NONE then TCCR1A_TOGGLE else TCCR1A_OFF) ∧
    (pgm_read_byte cmds &&& TONE_MASK < TONE_NONE →
      (play cmds s).regs.OCR1A = (play cmds t).regs.OCR1A) ∧
    ((play cmds s).regs.PRR &&& (1 <<< PRTIM1) = 0 ∧
      (play cmds t).regs.PRR &&& (1 <<< PRTIM1) = 0) ∧
    (task_enabled AUDIO_TASK (play cmds s) ∧ task_enabled AUDIO_TASK (play cmds t)) := by
  refine ⟨by rw [play_audio, play_audio], play_audio cmds s, by rw [play_TCCR1A, play_TCCR1A],
    play_TCCR1A cmds s, fun h => ?_, ⟨play_powered_on cmds s, play_powered_on cmds t⟩,
    ⟨play_task_enabled cmds s, play_task_enabled cmds t⟩⟩
  rw [play_OCR1A, play_OCR1A]
  have h5 : pgm_read_byte cmds &&& TONE_MASK < 5 := h
  generalize pgm_read_byte cmds &&& TONE_MASK = x at h5 ⊢
  interval_cases x <;> simp [TONE_A4, TONE_D5, TONE_E5, TONE_D7, TONE_FF]

/-- C20: for each of the channels up, down, copy and pause, if the hold
counter is 0 and the channel stays asserted, then before hold-timing tick
`n + 1` (after `n` runs of `process_inputs`) the counter is `min n 255`, also
when the statement of the channel is reached in `process_inputs`; that
statement increments the counter below 255 and makes the callbacks
`held_input_calls (min n 255) input`, which contain the long-push callback
exactly when `n + 1 = 10`, and then nothing else.  So the long-push callback
is made once, on the 10th tick, and on no other tick of the hold: the counter
stops at 255. -/
theorem C20_long_push_once (input : Nat) (s : SysState) (n : Nat)
    (hch : input = INPUT_UP ∨ input = INPUT_DOWN ∨ input = INPUT_COPY ∨ input = INPUT_PAUSE)
    (h0 : hold_counter input s = 0) (hheld : hold_asserted input s) :
    hold_asserted input (process_inputs^[n] s) ∧
    hold_counter input (process_inputs^[n] s) = min n 255 ∧
    hold_counter input (hold_prelude input (process_inputs^[n] s)) = min n 255 ∧
    hold_statement input (hold_prelude input (process_inputs^[n] s)) =
      run (held_input_calls (min n 255) input)
        (if min n 255 < 255 then
          set_hold_counter input (min n 255 + 1) (hold_prelude input (process_inputs^[n] s))
         else hold_prelude input (process_inputs^[n] s)) ∧
    (Event.long_push input ∈ held_input_calls (min n 255) input ↔ n + 1 = 10) ∧
    (n + 1 = 10 → held_input_calls (min n 255) input = [Event.long_push input]) := by
  have hit := hold_counter_iterate input s n h0 hheld
  have hpre := hold_prelude_frame input (process_inputs^[n] s)
  have hst := hold_statement_eq input (hold_prelude input (process_inputs^[n] s)) hch
    (hpre.2.2 hit.1)
  rw [hpre.1, hit.2] at hst
  refine ⟨hit.1, hit.2, hpre.1.trans hit.2, hst, ?_, ?_⟩
  · rw [(long_push_calls (min n 255) input).1]; omega
  · intro h9
    have : min n 255 = 9 := by omega
    rw [this]
    exact (long_push_calls 9 input).2

theorem C20_long_push_once_witness :
    hold_counter INPUT_PAUSE (run [Event.poll_inputs pins_pause] (main_init (fun _ => 0) [])) = 0 ∧
    hold_asserted INPUT_PAUSE (run [Event.poll_inputs pins_pause] (main_init (fun _ => 0) [])) ∧
    held_input_calls (min 9 255) INPUT_PAUSE = [Event.long_push INPUT_PAUSE] :=
  ⟨by decide, by decide,
    (C20_long_push_once INPUT_PAUSE
      (run [Event.poll_inputs pins_pause] (main_init (fun _ => 0) [])) 9
      (Or.inr (Or.inr (Or.inr rfl))) (by decide) (by decide)).2.2.2.2.2 rfl⟩

/-- C21 fails for the copy channel: `poll_inputs` clears the hold counters of
up, down and pause when it finds their channel newly deasserted, but it never
writes the hold counter of copy.  With the copy button held for 9 ticks and
released, the counter is 9 after the poll that sees the release (the copy bit
was in the last vector and is not in the new one); a new press is then timed
from 9, so that its first tick makes the counter 10, the long-push
threshold. -/
theorem C21_copy_counter_survives_release :
    (∀ samples s, (poll_inputs samples s).input.CopyCounter = s.input.CopyCounter) ∧
    (∀ samples s, s.input.LastD &&& D_MASK_UP ≠ 0 → (debounced samples).2 &&& D_MASK_UP = 0 →
      (poll_inputs samples s).input.UpCounter = 0) ∧
    (∀ samples s, s.input.LastB &&& B_MASK_DOWN ≠ 0 → (debounced samples).1 &&& B_MASK_DOWN = 0 →
      (poll_inputs samples s).input.DownCounter = 0) ∧
    (∀ samples s, s.input.LastB &&& B_MASK_PAUSE ≠ 0 →
      (debounced samples).1 &&& B_MASK_PAUSE = 0 →
      (poll_inputs samples s).input.PauseCounter = 0) ∧
    ((run ([Event.poll_inputs pins_copy] ++ times 9 [Event.tick])
        (main_init (fun _ => 0) [])).input.LastB &&& B_MASK_COPY ≠ 0 ∧
      (debounced pins_idle).1 &&& B_MASK_COPY = 0 ∧
      (run ([Event.poll_inputs pins_copy] ++ times 9 [Event.tick] ++ [Event.poll_inputs pins_idle])
        (main_init (fun _ => 0) [])).input.CopyCounter = 9 ∧
      (run ([Event.poll_inputs pins_copy] ++ times 9 [Event.tick] ++ [Event.poll_inputs pins_idle]
          ++ [Event.poll_inputs pins_copy, Event.tick])
        (main_init (fun _ => 0) [])).input.CopyCounter = LONG_PUSH_CYCLES) := by
  refine ⟨fun samples s => by rw [poll_inputs_input], fun samples s h1 h2 => ?_,
    fun samples s h1 h2 => ?_, fun samples s h1 h2 => ?_, copy_hold_trace⟩
  · rw [poll_inputs_input]
    show (if clear_bits s.input.LastD (debounced samples).2 &&& D_MASK_UP ≠ 0 then 0
      else s.input.UpCounter) = 0
    exact if_pos ((clear_bits_and_ne_zero _ _ 4 (by decide)).2 ⟨h1, h2⟩)
  · rw [poll_inputs_input]
    show (if clear_bits s.input.LastB (debounced samples).1 &&& B_MASK_DOWN ≠ 0 then 0
      else s.input.DownCounter) = 0
    exact if_pos ((clear_bits_and_ne_zero _ _ 2 (by decide)).2 ⟨h1, h2⟩)
  · rw [poll_inputs_input]
    show (if clear_bits s.input.LastB (debounced samples).1 &&& B_MASK_PAUSE ≠ 0 then 0
      else s.input.PauseCounter) = 0
    exact if_pos ((clear_bits_and_ne_zero _ _ 4 (by decide)).2 ⟨h1, h2⟩)

/-- C22: `poll_inputs` makes the asserted-input callbacks `asserted_calls`
for the debounced vectors and the variables of input.c, then clears the hold
counters of released inputs and stores the vectors.  The callbacks are those
for the channels of `poll_order` (EOT1, EOT2, Up, EOT3, EOT4, Down, Restart,
Pause, Copy) that are asserted in the debounced vectors, were not asserted in
the last observed vectors and, for EOT-3 and EOT-4, with the second control
classified as fitted, each channel once, in that order.  Afterwards the last
observed vectors are the debounced ones, so that a second poll that finds the
same vectors makes no callback. -/
theorem C22_asserted_callbacks (samples : Nat → Nat × Nat) (s : SysState) :
    poll_inputs samples s =
      { clear_released (debounced samples).1 (debounced samples).2
          (run (asserted_calls (debounced samples).1 (debounced samples).2 s.input) s) with
        input.LastB := (debounced samples).1, input.LastD := (debounced samples).2 } ∧
    asserted_calls (debounced samples).1 (debounced samples).2 s.input =
      (poll_order.filter (fun id => decide (newly_asserted id (debounced samples) s.input))).map
        Event.asserted ∧
    (∀ id, Event.asserted id ∈ asserted_calls (debounced samples).1 (debounced samples).2 s.input
      ↔ id ∈ poll_order ∧ newly_asserted id (debounced samples) s.input) ∧
    (asserted_calls (debounced samples).1 (debounced samples).2 s.input).Nodup ∧
    ((poll_inputs samples s).input.LastB = (debounced samples).1 ∧
      (poll_inputs samples s).input.LastD = (debounced samples).2) ∧
    asserted_calls (debounced samples).1 (debounced samples).2 (poll_inputs samples s).input
      = [] := by
  have hinj : Function.Injective Event.asserted := fun a b h => by
    cases h; rfl
  have heq := asserted_calls_eq (debounced samples).1 (debounced samples).2 s.input
  refine ⟨?_, heq, fun id => ?_, ?_, ⟨by rw [poll_inputs_input], by rw [poll_inputs_input]⟩, ?_⟩
  · show poll_inputs samples s = _
    rw [← report_asserted_eq_run]
    rfl
  · rw [heq, List.mem_map]
    constructor
    · rintro ⟨a, ha, hae⟩
      have : a = id := hinj hae
      subst this
      rw [List.mem_filter, decide_eq_true_eq] at ha
      exact ha
    · intro h
      exact ⟨id, by rw [List.mem_filter, decide_eq_true_eq]; exact h, rfl⟩
  · rw [heq]
    exact List.Nodup.map hinj (List.Nodup.filter _ (by decide))
  · rw [asserted_calls_eq, poll_inputs_input]
    have : ∀ id, ¬ newly_asserted id ((debounced samples).1, (debounced samples).2)
        { LastB := (debounced samples).1
          LastD := (debounced samples).2
          UpCounter :=
            if clear_bits s.input.LastD (debounced samples).2 &&& D_MASK_UP ≠ 0 then 0
            else s.input.UpCounter
          DownCounter :=
            if clear_bits s.input.LastB (debounced samples).1 &&& B_MASK_DOWN ≠ 0 then 0
            else s.input.DownCounter
          CopyCounter := s.input.CopyCounter
          PauseCounter :=
            if clear_bits s.input.LastB (debounced samples).1 &&& B_MASK_PAUSE ≠ 0 then 0
            else s.input.PauseCounter
          SecondControlNotFittedCount := s.input.SecondControlNotFittedCount } := by
      intro id h
      have h1 := h.1
      have h2 := h.2.1
      rw [h1] at h2
      exact Bool.noConfusion h2
    rw [List.map_eq_nil_iff, List.filter_eq_nil_iff]
    intro a _
    rw [decide_eq_true_eq]
    exact this a

/-- C23: after any sequence of hold-timing ticks from start-up, with any
vectors observed at the ticks, `is_second_control_fitted()` is true exactly
when at one of the most recent 80 ticks EOT-3 and EOT-4 were not both
asserted.  At start-up it is false; a tick with one of the two not asserted
makes it true at once; after such a tick and further ticks that all find both
asserted it is true as long as these are fewer than 80, and false from the
80th on. -/
theorem C23_second_control_fitted (e : Nat → Nat) (f : List Nat) (obs : List (Nat × Nat)) :
    (is_second_control_fitted (hold_ticks obs (main_init e f)) ≠ 0 ↔
      ∃ o, o ∈ obs.reverse.take 80 ∧ not_both o) ∧
    is_second_control_fitted (main_init e f) = 0 ∧
    (∀ o, not_both o →
      is_second_control_fitted (hold_ticks (obs ++ [o]) (main_init e f)) ≠ 0) ∧
    (∀ o rest, not_both o → (∀ r, r ∈ rest → ¬ not_both r) →
      (is_second_control_fitted (hold_ticks (obs ++ [o] ++ rest) (main_init e f)) ≠ 0 ↔
        rest.length < 80)) := by
  have key : ∀ l : List (Nat × Nat),
      (is_second_control_fitted (hold_ticks l (main_init e f)) ≠ 0 ↔
        ∃ o, o ∈ l.reverse.take 80 ∧ not_both o) := by
    intro l
    rw [← hold_ticks_count e f l 80 (le_refl _)]
    unfold is_second_control_fitted SECOND_CONTROL_TIMEOUT_CYCLES
    split_ifs with h
    · exact ⟨fun _ => h, fun _ => by decide⟩
    · exact ⟨fun hc => absurd rfl hc, fun hc => absurd hc h⟩
  refine ⟨key obs, rfl, fun o ho => ?_, fun o rest ho hrest => ?_⟩
  · rw [key, List.reverse_append, List.reverse_singleton, List.singleton_append]
    exact ⟨o, List.mem_cons_self _ _, ho⟩
  · rw [key, List.reverse_append, List.reverse_append, List.reverse_singleton,
      List.singleton_append]
    constructor
    · rintro ⟨o', ho', hno'⟩
      by_contra hlen
      rw [List.take_append_of_le_length (by rw [List.length_reverse]; omega)] at ho'
      exact hrest o' (List.mem_reverse.1 (List.mem_of_mem_take ho')) hno'
    · intro hlen
      refine ⟨o, ?_, ho⟩
      rw [List.take_append_eq_append_take, List.mem_append]
      right
      rw [List.length_reverse]
      obtain ⟨m, hm⟩ : ∃ m, 80 - rest.length = m + 1 := ⟨79 - rest.length, by omega⟩
      rw [hm, List.take_succ_cons]
      exact List.mem_cons_self _ _

/-- C24: one tick interrupt is the timestamp accumulator step, then the audio
update, the turn indicator update, the countdown update and the input hold
timing, in this order, each run exactly when its duty bit is set when its turn
comes (`run_task`); the turn indicator, countdown and input duties find their
bits as they were at the start of the tick, whatever the updates before them
did (the audio update clears at most its own bit), so that the tick equals the
composition of the updates whose bits are set at its start.  After
`play(tick)`, for instance, the audio update clears its bit and the other
duties of the same tick still run. -/
theorem C24_tick_is_composition (s : SysState) :
    ISR_TIMER2_OVF s =
      run_task INPUTS_TASK process_inputs
        (run_task COUNTDOWN_TASK process_countdown
          (run_task TURNLED_TASK process_turnled
            (run_task AUDIO_TASK process_audio (advance_timestamp s)))) ∧
    (∀ id f t, (task_enabled id t → run_task id f t = f t) ∧
      (¬ task_enabled id t → run_task id f t = t)) ∧
    ISR_TIMER2_OVF s =
      (if task_enabled INPUTS_TASK s then process_inputs else fun u => u)
        ((if task_enabled COUNTDOWN_TASK s then process_countdown else fun u => u)
          ((if task_enabled TURNLED_TASK s then process_turnled else fun u => u)
            ((if task_enabled AUDIO_TASK s then process_audio else fun u => u)
              (advance_timestamp s)))) ∧
    (¬ task_enabled AUDIO_TASK
        (run_task AUDIO_TASK process_audio (advance_timestamp (play tick s))) ∧
      (task_enabled TURNLED_TASK s → task_enabled COUNTDOWN_TASK s → task_enabled INPUTS_TASK s →
        ISR_TIMER2_OVF (play tick s) =
          process_inputs (process_countdown (process_turnled (process_audio
            (advance_timestamp (play tick s))))))) := by
  have hcomp : ∀ u : SysState, ISR_TIMER2_OVF u =
      (if task_enabled INPUTS_TASK u then process_inputs else fun v => v)
        ((if task_enabled COUNTDOWN_TASK u then process_countdown else fun v => v)
          ((if task_enabled TURNLED_TASK u then process_turnled else fun v => v)
            ((if task_enabled AUDIO_TASK u then process_audio else fun v => v)
              (advance_timestamp u)))) := by
    intro u
    have ha : ∀ j, (advance_timestamp u).timer.tasks.testBit j = u.timer.tasks.testBit j :=
      fun j => by rw [advance_timestamp_tasks]
    have hb : ∀ j, j ≠ AUDIO_TASK → j < 8 →
        (run_task AUDIO_TASK process_audio (advance_timestamp u)).timer.tasks.testBit j
          = u.timer.tasks.testBit j := fun j hj h8 =>
      (run_task_testBit _ j _ _ (fun t => process_audio_tasks t j hj h8)).trans (ha j)
    have hc : ∀ j, j ≠ AUDIO_TASK → j < 8 →
        (run_task TURNLED_TASK process_turnled
          (run_task AUDIO_TASK process_audio (advance_timestamp u))).timer.tasks.testBit j
          = u.timer.tasks.testBit j := fun j hj h8 =>
      (run_task_testBit _ j _ _ (fun t => by rw [process_turnled_tasks])).trans (hb j hj h8)
    have hd : ∀ j, j ≠ AUDIO_TASK → j < 8 →
        (run_task COUNTDOWN_TASK process_countdown (run_task TURNLED_TASK process_turnled
          (run_task AUDIO_TASK process_audio (advance_timestamp u)))).timer.tasks.testBit j
          = u.timer.tasks.testBit j := fun j hj h8 =>
      (run_task_testBit _ j _ _ (fun t => by rw [process_countdown_tasks])).trans (hc j hj h8)
    unfold ISR_TIMER2_OVF
    rw [run_task_eq INPUTS_TASK process_inputs u _ (hd _ (by decide) (by decide)),
      run_task_eq COUNTDOWN_TASK process_countdown u _ (hc _ (by decide) (by decide)),
      run_task_eq TURNLED_TASK process_turnled u _ (hb _ (by decide) (by decide)),
      run_task_eq AUDIO_TASK process_audio u _ (ha _)]
  refine ⟨rfl, fun id f t => ⟨fun h => ?_, fun h => ?_⟩, hcomp s, ?_, ?_⟩
  · unfold run_task; exact if_pos h
  · unfold run_task; exact if_neg h
  · have he : task_enabled AUDIO_TASK (advance_timestamp (play tick s)) := by
      unfold task_enabled
      rw [advance_timestamp_tasks]
      exact play_task_enabled tick s
    have hrun : run_task AUDIO_TASK process_audio (advance_timestamp (play tick s))
        = process_audio (advance_timestamp (play tick s)) := by
      unfold run_task; exact if_pos he
    rw [hrun]
    have hva : (advance_timestamp (play tick s)).audio
        = { audio_cmd_ptr := tick, cycle_count := 1 } :=
      (congrArg (fun w => w.1) (audio_view_advance_timestamp (play tick s))).trans
        (play_tick_audio s)
    have h := process_audio_last_idle (advance_timestamp (play tick s))
      (AUDIO_CMD TONE_D7 1 LAST) [] (by rw [hva]; rfl) (by rw [hva]) (by decide)
    exact fun hne => hne h.2.1
  · intro h1 h2 h3
    have hk : ∀ j, j ≠ AUDIO_TASK → j < 8 → task_enabled j s → task_enabled j (play tick s) := by
      intro j hj h8 hs
      rw [task_enabled_iff] at hs ⊢
      rw [play_tasks, testBit_set_bits, hs]
      simp [h8]
    rw [hcomp (play tick s), if_pos (hk _ (by decide) (by decide) h3),
      if_pos (hk _ (by decide) (by decide) h2), if_pos (hk _ (by decide) (by decide) h1),
      if_pos (play_task_enabled tick s)]

/-- C25, as stated, fails: the Setup editor changes the time of a countdown
without clearing its expired flag.  From start-up with all times 0:00, the
callback for end-of-turn button 2 starts countdown 1, a tick expires it, a
long push of pause enters Setup mode with countdown 1 selected, and the
callback for the up button adds ten minutes: the expired flag of countdown 1
is set and its minutes are 10. -/
theorem C25_expired_lane_edited_counterexample :
    Reachable (run [Event.asserted INPUT_EOT2, Event.tick, Event.long_push INPUT_PAUSE,
        Event.asserted INPUT_UP] (main_init (fun _ => 0) [])) ∧
    (run [Event.asserted INPUT_EOT2, Event.tick, Event.long_push INPUT_PAUSE,
        Event.asserted INPUT_UP] (main_init (fun _ => 0) [])).clock.mode = SETUP_MODE ∧
    ((run [Event.asserted INPUT_EOT2, Event.tick, Event.long_push INPUT_PAUSE,
        Event.asserted INPUT_UP] (main_init (fun _ => 0) [])).timer.Countdown
          COUNTDOWN_1)._expired = 1 ∧
    ((run [Event.asserted INPUT_EOT2, Event.tick, Event.long_push INPUT_PAUSE,
        Event.asserted INPUT_UP] (main_init (fun _ => 0) [])).timer.Countdown
          COUNTDOWN_1).minutes = 10 :=
  ⟨reachable_run _ (Reachable.startup _ _), by decide, by decide, by decide⟩

/-- C25, amended: in every state reachable from start-up by ticks, input
callbacks and polls whose mode is not Setup, a countdown (one of the four)
whose expired flag is set has minutes = 0 and seconds = 0. -/
theorem C25_expired_at_zero_outside_setup (s : SysState) (h : Reachable s)
    (hm : s.clock.mode ≠ SETUP_MODE) (id : Nat) (hid : id < NUM_COUNTDOWNS)
    (he : (s.timer.Countdown id)._expired ≠ 0) :
    (s.timer.Countdown id).minutes = 0 ∧ (s.timer.Countdown id).seconds = 0 := by
  rcases expired_at_zero_of_reachable h with h1 | h1
  · exact absurd h1 hm
  · exact h1 id hid he

theorem C25_expired_at_zero_outside_setup_witness :
    Reachable (run [Event.asserted INPUT_EOT2, Event.tick, Event.poll_clock]
      (main_init (fun _ => 0) [])) ∧
    (run [Event.asserted INPUT_EOT2, Event.tick, Event.poll_clock]
      (main_init (fun _ => 0) [])).clock.mode ≠ SETUP_MODE ∧
    COUNTDOWN_1 < NUM_COUNTDOWNS ∧
    ((run [Event.asserted INPUT_EOT2, Event.tick, Event.poll_clock]
      (main_init (fun _ => 0) [])).timer.Countdown COUNTDOWN_1)._expired ≠ 0 ∧
    ((run [Event.asserted INPUT_EOT2, Event.tick, Event.poll_clock]
      (main_init (fun _ => 0) [])).timer.Countdown COUNTDOWN_1).minutes = 0 ∧
    ((run [Event.asserted INPUT_EOT2, Event.tick, Event.poll_clock]
      (main_init (fun _ => 0) [])).timer.Countdown COUNTDOWN_1).seconds = 0 :=
  ⟨reachable_run _ (Reachable.startup _ _), by decide, by decide, by decide,
    C25_expired_at_zero_outside_setup _ (reachable_run _ (Reachable.startup _ _)) (by decide)
      COUNTDOWN_1 (by decide) (by decide)⟩

/-- C26: in every state reachable from start-up, for any EEPROM content,
every countdown has its seconds in 0..59 and its minutes in 0..99, and so it
has after any further event (tick, poll, input callback, long push, repeat),
after `restart` and after the countdown update; in Setup mode with the
units-of-seconds digit of a countdown with an even index selected, up takes
the seconds `sec` to `(sec + 1) % 60`: 59 to 0 and every `sec < 59` to
`sec + 1`. -/
theorem C26_time_fields_bounded (s : SysState) (h : Reachable s) :
    (∀ id, (s.timer.Countdown id).seconds ≤ 59 ∧ (s.timer.Countdown id).minutes ≤ 99) ∧
    (∀ (e : Event) (id : Nat), ((e.apply s).timer.Countdown id).seconds ≤ 59 ∧
      ((e.apply s).timer.Countdown id).minutes ≤ 99) ∧
    (∀ id, ((restart s).timer.Countdown id).seconds ≤ 59 ∧
      ((restart s).timer.Countdown id).minutes ≤ 99) ∧
    (∀ id, ((process_countdown s).timer.Countdown id).seconds ≤ 59 ∧
      ((process_countdown s).timer.Countdown id).minutes ≤ 99) ∧
    (s.clock.mode = SETUP_MODE → s.clock.selected_digit = 3 →
      s.clock.selected_countdown % 2 = 0 →
      (selected_after INPUT_UP s).seconds
        = ((s.timer.Countdown s.clock.selected_countdown).seconds + 1) % 60 ∧
      ((s.timer.Countdown s.clock.selected_countdown).seconds = 59 →
        (selected_after INPUT_UP s).seconds = 0) ∧
      ((s.timer.Countdown s.clock.selected_countdown).seconds < 59 →
        (selected_after INPUT_UP s).seconds
          = (s.timer.Countdown s.clock.selected_countdown).seconds + 1)) := by
  have hI := Inv_of_reachable h
  have swap : ∀ t : SysState, Inv t →
      ∀ id, (t.timer.Countdown id).seconds ≤ 59 ∧ (t.timer.Countdown id).minutes ≤ 99 :=
    fun t ht id => ⟨(ht.1 id).2, (ht.1 id).1⟩
  refine ⟨swap s hI, fun e => swap _ (Inv_apply e s hI),
    swap _ (Inv_restart s hI.1 (Inv_mode s hI)), swap _ (Inv_process_countdown s hI), ?_⟩
  intro hm hd hsel
  have hsec := (hI.1 s.clock.selected_countdown).2
  have key : (selected_after INPUT_UP s).seconds
      = ((s.timer.Countdown s.clock.selected_countdown).seconds + 1) % 60 := by
    unfold selected_after
    rw [setup_up_down_eq INPUT_UP s hm (Or.inl rfl)]
    have hs : setup_sign INPUT_UP s = 1 := by
      unfold setup_sign
      rw [if_pos (by simp [hsel])]
    have hdelta : (1 : Int) * (if s.clock.selected_digit % 2 = 0 then 10 else 1) = 1 := by
      rw [hd]; decide
    rw [hs, hdelta]
    have hadj : ((setup_adjust 1 s).timer.Countdown s.clock.selected_countdown).seconds
        = add_to_digit (s.timer.Countdown s.clock.selected_countdown).seconds 1 := by
      unfold setup_adjust
      simp only []
      rw [if_neg (by rw [hd]; decide)]
      simp [setCountdown]
    rw [hadj, add_to_digit_eq_adjusted _ 1 hsec (Or.inl rfl)]
    unfold adjusted
    split_ifs <;> omega
  refine ⟨key, fun h59 => ?_, fun hlt => ?_⟩
  · rw [key, h59]
  · rw [key]; omega

theorem C26_time_fields_bounded_witness :
    Reachable (run [Event.long_push INPUT_PAUSE] (main_init (fun _ => 255) [])) ∧
    ((run [Event.long_push INPUT_PAUSE] (main_init (fun _ => 255) [])).timer.Countdown 0).seconds
      ≤ 59 :=
  ⟨reachable_run _ (Reachable.startup _ _),
    ((C26_time_fields_bounded _ (reachable_run _ (Reachable.startup _ _))).1 0).1⟩

/-- C27, as stated, fails: an end-of-turn press while the clock is paused
starts the partner, and the second pause press starts the countdown that was
running before the pause as well.  From start-up with an unprogrammed EEPROM
the presses end-of-turn 1, pause, end-of-turn 2, pause (each pressed and
released over passes of the main loop) lead to a Play-mode state in which
countdowns 1 and 2 are both running. -/
theorem C27_both_of_a_pair_running_counterexample :
    Reachable (run turn_while_paused (main_init (fun _ => 255) [])) ∧
    (run turn_while_paused (main_init (fun _ => 255) [])).clock.mode = PLAY_MODE ∧
    countdown_is_running COUNTDOWN_1 (run turn_while_paused (main_init (fun _ => 255) [])) = 1 ∧
    countdown_is_running COUNTDOWN_2 (run turn_while_paused (main_init (fun _ => 255) [])) = 1 ∧
    ¬ pairs_exclusive (run turn_while_paused (main_init (fun _ => 255) [])) :=
  ⟨reachable_run _ (Reachable.startup _ _), turn_while_paused_trace.1,
    turn_while_paused_trace.2.1, turn_while_paused_trace.2.2.1, turn_while_paused_trace.2.2.2⟩

/-- C27, amended: in every state (in Play mode or not) reachable from
start-up by ticks, polls and input callbacks none of which reports an
end-of-turn press while the was-running mask of the pause case is non-zero,
at most one countdown of each pair (countdowns 1 and 2, countdowns 3 and 4)
is running.  The mask is non-zero from a pause press that finds a countdown
running until the next restart or entry into Setup mode. -/
theorem C27_pairs_exclusive_outside_pause (s : SysState)
    (h : ReachableBy turn_outside_pause s) : pairs_exclusive s :=
  pairs_exclusive_of_reserved s (pairs_reserved_of_reachable_by h)

theorem C27_pairs_exclusive_outside_pause_witness :
    ReachableBy turn_outside_pause
      (run [Event.asserted INPUT_EOT1, Event.asserted INPUT_PAUSE, Event.asserted INPUT_PAUSE,
        Event.tick, Event.poll_clock] (main_init (fun _ => 255) [])) ∧
    pairs_exclusive
      (run [Event.asserted INPUT_EOT1, Event.asserted INPUT_PAUSE, Event.asserted INPUT_PAUSE,
        Event.tick, Event.poll_clock] (main_init (fun _ => 255) [])) :=
  ⟨reachable_by_run _ (ReachableBy.startup _ _)
      ⟨fun _ => rfl, fun h => absurd h (by decide), fun h => absurd h (by decide), trivial,
        trivial, trivial⟩,
    C27_pairs_exclusive_outside_pause _
      (reachable_by_run _ (ReachableBy.startup _ _)
        ⟨fun _ => rfl, fun h => absurd h (by decide), fun h => absurd h (by decide), trivial,
          trivial, trivial⟩)⟩

/-- C28: for every stream of raw port samples the debounce loop of
`poll_inputs` makes at most 20 re-reads; the vectors it passes on are the
bitwise AND of the initial read and the re-reads it made; it stops before the
20th re-read only with no bit left asserted, and every re-read is made with
some bit still asserted; a bit is passed on as asserted exactly when it is
asserted in the initial read and in all 20 re-reads. -/
theorem C28_debounce_bounded (samples : Nat → Nat × Nat) :
    rereads samples ≤ 20 ∧
    debounced samples = and_of_reads samples (rereads samples) ∧
    (rereads samples < 20 → debounced samples = (0, 0)) ∧
    (∀ j, j < rereads samples → and_of_reads samples j ≠ (0, 0)) ∧
    (∀ b, (debounced samples).1.testBit b = true ↔
      ∀ j, j ≤ 20 → (read_ports (samples j)).1.testBit b = true) ∧
    (∀ b, (debounced samples).2.testBit b = true ↔
      ∀ j, j ≤ 20 → (read_ports (samples j)).2.testBit b = true) := by
  obtain ⟨h1, h2, h3, h4⟩ := debounce_spec samples 20 0
  have hr : debounce_reads samples 20 (0 + 1) (and_of_reads samples 0) = rereads samples := rfl
  have hd : debounce samples 20 (0 + 1) (and_of_reads samples 0) = debounced samples := rfl
  rw [hr] at h1 h3 h4
  rw [hr, hd, Nat.zero_add] at h2
  rw [Nat.zero_add] at h3
  have h4' : ∀ j, j < rereads samples → and_of_reads samples j ≠ (0, 0) := by
    intro j hj
    have := h4 j hj
    rw [Nat.zero_add] at this
    exact this
  have full : ∀ b, ((debounced samples).1.testBit b = true ∨
      (debounced samples).2.testBit b = true) → rereads samples = 20 := by
    intro b hb
    by_contra hne
    have hz := h3 (by omega)
    rw [← h2] at hz
    rw [hz] at hb
    simp at hb
  have stay : ∀ b, ((∀ j, j ≤ 20 → (read_ports (samples j)).1.testBit b = true) ∨
      (∀ j, j ≤ 20 → (read_ports (samples j)).2.testBit b = true)) → rereads samples = 20 := by
    intro b hb
    by_contra hne
    have hz := h3 (by omega)
    rcases hb with hb | hb
    · have := ((and_of_reads_testBit samples b (rereads samples)).1).2
        (fun j hj => hb j (by omega))
      rw [hz] at this
      simp at this
    · have := ((and_of_reads_testBit samples b (rereads samples)).2).2
        (fun j hj => hb j (by omega))
      rw [hz] at this
      simp at this
  refine ⟨h1, h2, fun h => by rw [h2]; exact h3 h, h4', fun b => ⟨fun h => ?_, fun h => ?_⟩,
    fun b => ⟨fun h => ?_, fun h => ?_⟩⟩
  · have h20 := full b (Or.inl h)
    rw [h2, h20] at h
    exact ((and_of_reads_testBit samples b 20).1).1 h
  · have h20 := stay b (Or.inl h)
    rw [h2, h20]
    exact ((and_of_reads_testBit samples b 20).1).2 h
  · have h20 := full b (Or.inr h)
    rw [h2, h20] at h
    exact ((and_of_reads_testBit samples b 20).2).1 h
  · have h20 := stay b (Or.inr h)
    rw [h2, h20]
    exact ((and_of_reads_testBit samples b 20).2).2 h

/-- C29, as stated, fails for the accumulator after the expiry: the countdown
update does not touch a countdown that is not running, so that from the tick
of the expiry on the accumulator keeps its value.  Countdown 1 set to 0:00
and started expires on its first tick, with the accumulator at 109, which is
`(-16) mod 125`; after the second tick the accumulator is still 109, and
`(-16 * 2) mod 125` is 93. -/
theorem C29_accumulator_frozen_counterexample :
    countdown_has_expired 0 ((process_countdown^[1])
      (start_countdown 0 (set_countdown 0 0 0 (main_init (fun _ => 0) [])))) = 1 ∧
    (((process_countdown^[1]) (start_countdown 0 (set_countdown 0 0 0
      (main_init (fun _ => 0) [])))).timer.Countdown 0)._subseconds = 109 ∧
    (((process_countdown^[2]) (start_countdown 0 (set_countdown 0 0 0
      (main_init (fun _ => 0) [])))).timer.Countdown 0)._subseconds = 109 ∧
    (-16 * (2 : Int)) % 125 = 93 ∧
    ((((process_countdown^[2]) (start_countdown 0 (set_countdown 0 0 0
      (main_init (fun _ => 0) [])))).timer.Countdown 0)._subseconds : Int) ≠
        (-16 * (2 : Int)) % 125 := by
  refine ⟨by decide, by decide, by decide, by decide, ?_⟩
  have h : (((process_countdown^[2]) (start_countdown 0 (set_countdown 0 0 0
      (main_init (fun _ => 0) [])))).timer.Countdown 0)._subseconds = 109 := by decide
  rw [h]
  decide

/-- C29, amended: for a countdown set to `m:sec` with `set_countdown` and started,
with `T = 60 * m + sec`, ticks being runs of the countdown update: `expired`
is false after each of the first `125 * T / 16` ticks and true after tick
`125 * T / 16 + 1`; when `T > 0` the displayed time is `T - 1` after the first
tick, is above 0 after each of the first `125 * (T - 1) / 16` ticks and is 0
after tick `125 * (T - 1) / 16 + 1`; when `T = 0` the countdown expires on the
first tick.  After `N` ticks, for every `N` up to the tick of the expiry, the
accumulator is `(-16 * N) mod 125`; it is at most 124 after any number of
ticks. -/
theorem C29_expiry_tick (s : SysState) (id m sec : Nat) (hid : id < NUM_COUNTDOWNS)
    (hm : m < 256) (hsec : sec < 256) :
    (∀ N, N ≤ 125 * (60 * m + sec) / 16 →
      countdown_has_expired id ((process_countdown^[N])
        (start_countdown id (set_countdown id m sec s))) = 0) ∧
    countdown_has_expired id ((process_countdown^[125 * (60 * m + sec) / 16 + 1])
        (start_countdown id (set_countdown id m sec s))) = 1 ∧
    (0 < 60 * m + sec →
      displayed_time id ((process_countdown^[1])
        (start_countdown id (set_countdown id m sec s))) = 60 * m + sec - 1 ∧
      (∀ N, N ≤ 125 * (60 * m + sec - 1) / 16 →
        0 < displayed_time id ((process_countdown^[N])
          (start_countdown id (set_countdown id m sec s)))) ∧
      displayed_time id ((process_countdown^[125 * (60 * m + sec - 1) / 16 + 1])
        (start_countdown id (set_countdown id m sec s))) = 0) ∧
    (60 * m + sec = 0 →
      countdown_has_expired id ((process_countdown^[1])
        (start_countdown id (set_countdown id m sec s))) = 1) ∧
    (∀ N, N ≤ 125 * (60 * m + sec) / 16 + 1 →
      ((((process_countdown^[N]) (start_countdown id (set_countdown id m sec s))).timer.Countdown
        id)._subseconds : Int) = (-16 * (N : Int)) % 125) ∧
    (∀ N, (((process_countdown^[N])
      (start_countdown id (set_countdown id m sec s))).timer.Countdown id)._subseconds ≤ 124) := by
  have key : ∀ j, (j ≤ 125 * (60 * m + sec) / 16 → seconds_begun j ≤ 60 * m + sec) ∧
      (125 * (60 * m + sec) / 16 < j → 60 * m + sec < seconds_begun j) := by
    intro j
    simp only [seconds_begun, MULTIPLIER, DIVISOR]
    constructor <;> intro h <;> omega
  have lane : ∀ j, ((process_countdown^[j])
      (start_countdown id (set_countdown id m sec s))).timer.Countdown id =
      (countdown_tick^[j]) (started m sec) := by
    intro j
    rw [process_countdown_iterate]
    simp only [hid, if_true, started_lane s id m sec hm hsec]
  have early : ∀ j, j ≤ 125 * (60 * m + sec) / 16 →
      countdown_has_expired id ((process_countdown^[j])
        (start_countdown id (set_countdown id m sec s))) = 0 := by
    intro j hj
    have h := (countdown_tick_iterate m sec j).1 ((key j).1 hj)
    simp [countdown_has_expired, lane, h.2.1]
  have late : ∀ j, 125 * (60 * m + sec) / 16 < j →
      countdown_has_expired id ((process_countdown^[j])
        (start_countdown id (set_countdown id m sec s))) = 1 := by
    intro j hj
    have h := (countdown_tick_iterate m sec j).2 ((key j).2 hj)
    simp [countdown_has_expired, lane, h.2.1]
  have shown : ∀ j, seconds_begun j ≤ 60 * m + sec →
      displayed_time id ((process_countdown^[j])
        (start_countdown id (set_countdown id m sec s))) + seconds_begun j = 60 * m + sec := by
    intro j hj
    have h := (countdown_tick_iterate m sec j).1 hj
    unfold displayed_time
    rw [lane]
    exact h.2.2.2
  refine ⟨early, late _ (Nat.lt_succ_self _), fun hT => ⟨?_, fun N hN => ?_, ?_⟩, fun hT => ?_,
    fun N hN => ?_, fun N => ?_⟩
  · have h1 : seconds_begun 1 = 1 := by decide
    have := shown 1 (by rw [h1]; omega)
    rw [h1] at this
    omega
  · have hb : seconds_begun N ≤ 60 * m + sec - 1 := by
      simp only [seconds_begun, MULTIPLIER, DIVISOR]
      omega
    have := shown N (by omega)
    omega
  · have hb : seconds_begun (125 * (60 * m + sec - 1) / 16 + 1) = 60 * m + sec := by
      simp only [seconds_begun, MULTIPLIER, DIVISOR]
      omega
    have := shown _ (le_of_eq hb)
    omega
  · have := late 1 (by rw [hT]; decide)
    exact this
  · rw [lane]
    have hprev : N = 0 ∨ seconds_begun (N - 1) ≤ 60 * m + sec := by
      by_cases h0 : N = 0
      · exact Or.inl h0
      · exact Or.inr ((key (N - 1)).1 (by omega))
    have h := countdown_tick_iterate_subseconds m sec N hprev
    simp only [seconds_begun, MULTIPLIER, DIVISOR] at h
    omega
  · rw [lane]
    exact countdown_tick_iterate_subseconds_le m sec N

theorem C29_expiry_tick_witness :
    (0 < NUM_COUNTDOWNS ∧ 0 < 256 ∧ 1 < 256) ∧
    countdown_has_expired 0 ((process_countdown^[125 * (60 * 0 + 1) / 16 + 1])
        (start_countdown 0 (set_countdown 0 0 1 (main_init (fun _ => 0) [])))) = 1 :=
  ⟨by decide,
    (C29_expiry_tick (main_init (fun _ => 0) []) 0 0 1 (by decide) (by decide) (by decide)).2.1⟩

/-- C30: for every sequence in which exactly the final entry is marked last,
after `play`, both with ticks taken as runs of `process_audio` and as whole
tick interrupts: entry `i` is the current entry for `entry_ticks` ticks, its
duration or one tick for a duration of 0 (after `j` of them the cursor is on
entry `i` and `j` less of its duration remain); the audio duty bit is set
after every number of ticks below the sum of the `entry_ticks` and clear
after that many ticks, with the cursor on the final entry.  Both built-in
sequences are of this form, with 1 and 20 ticks. -/
theorem C30_sequence_timing (cmds : List Nat) (s : SysState) (h : last_marked_only cmds) :
    sequence_timing process_audio cmds s ∧
    sequence_timing ISR_TIMER2_OVF cmds s ∧
    (∀ c, entry_ticks c = max (entry_duration c) 1) ∧
    (entry_ticks (AUDIO_CMD TONE_A4 0 CONTINUE) = 1 ∧
      entry_ticks (AUDIO_CMD TONE_A4 1 CONTINUE) = 1) ∧
    (last_marked_only tick ∧ sequence_ticks tick = 1) ∧
    (last_marked_only tada ∧ sequence_ticks tada = 20) :=
  ⟨sequence_timing_of_acts process_audio acts_as_process_audio cmds s h,
    sequence_timing_of_acts ISR_TIMER2_OVF ISR_acts_as_process_audio cmds s h,
    fun _ => rfl, by decide,
    ⟨⟨[], AUDIO_CMD TONE_D7 1 LAST, rfl, by decide, by decide⟩, by decide⟩,
    ⟨⟨tada.take 19, AUDIO_CMD TONE_FF 1 LAST, by decide, by decide, by decide⟩, by decide⟩⟩

theorem C30_sequence_timing_witness :
    last_marked_only tick ∧
    ¬ task_enabled AUDIO_TASK
      (process_audio^[sequence_ticks tick] (play tick (main_init (fun _ => 0) []))) :=
  ⟨⟨[], AUDIO_CMD TONE_D7 1 LAST, rfl, by decide, by decide⟩,
    (C30_sequence_timing tick (main_init (fun _ => 0) [])
      ⟨[], AUDIO_CMD TONE_D7 1 LAST, rfl, by decide, by decide⟩).1.2.2.1⟩

/-- C31: for each of the channels up, down, copy and pause, held from hold
counter 0, hold-timing ticks being runs of `process_inputs`: on tick `n + 1`
of the hold the statement of the channel makes the callbacks
`held_input_calls (min n 255) input`; the repeat callback is among them
exactly when `n + 1` is above 6, `n + 1 - 6` is a multiple of 3 and
`n + 1 ≤ 255`, that is when `n + 1` is one of 9, 12, .., 255; no callback is
made on the first 8 ticks, the repeat callback alone on the 9th, the
long-push callback alone on the 10th, and from the 256th tick on no callback
is made and the statement changes nothing. -/
theorem C31_repeat_ticks (input : Nat) (s : SysState) (n : Nat)
    (hch : input = INPUT_UP ∨ input = INPUT_DOWN ∨ input = INPUT_COPY ∨ input = INPUT_PAUSE)
    (h0 : hold_counter input s = 0) (hheld : hold_asserted input s) :
    hold_statement input (hold_prelude input (process_inputs^[n] s)) =
      run (held_input_calls (min n 255) input)
        (if min n 255 < 255 then
          set_hold_counter input (min n 255 + 1) (hold_prelude input (process_inputs^[n] s))
         else hold_prelude input (process_inputs^[n] s)) ∧
    (Event.repeated input ∈ held_input_calls (min n 255) input ↔
      REPEAT_HOLDOFF_CYCLES < n + 1 ∧
        (n + 1 - REPEAT_HOLDOFF_CYCLES) % REPEAT_INTERVAL_CYCLES = 0 ∧ n + 1 ≤ 255) ∧
    (Event.repeated input ∈ held_input_calls (min n 255) input ↔
      ∃ k, k ≤ 82 ∧ n + 1 = 9 + 3 * k) ∧
    (n + 1 < 9 → held_input_calls (min n 255) input = []) ∧
    (n + 1 = 9 → held_input_calls (min n 255) input = [Event.repeated input]) ∧
    (n + 1 = 10 → held_input_calls (min n 255) input = [Event.long_push input]) ∧
    (256 ≤ n + 1 → held_input_calls (min n 255) input = [] ∧
      hold_counter input (process_inputs^[n] s) = 255 ∧
      hold_statement input (hold_prelude input (process_inputs^[n] s)) =
        hold_prelude input (process_inputs^[n] s)) := by
  have hit := hold_counter_iterate input s n h0 hheld
  have hpre := hold_prelude_frame input (process_inputs^[n] s)
  have hst := hold_statement_eq input (hold_prelude input (process_inputs^[n] s)) hch
    (hpre.2.2 hit.1)
  rw [hpre.1, hit.2] at hst
  have hrep := (repeat_calls (min n 255) input).1
  simp only [REPEAT_HOLDOFF_CYCLES, REPEAT_INTERVAL_CYCLES] at hrep ⊢
  refine ⟨hst, ?_, ?_, ?_, ?_, ?_, ?_⟩
  · rw [hrep]; omega
  · rw [hrep]
    constructor
    · intro h
      exact ⟨(n + 1 - 9) / 3, by omega, by omega⟩
    · rintro ⟨k, hk, hn⟩
      omega
  · intro h
    exact (repeat_calls (min n 255) input).2.2.1 (by omega)
  · intro h
    have : min n 255 = 8 := by omega
    rw [this]
    exact (repeat_calls 8 input).2.1
  · intro h
    have : min n 255 = 9 := by omega
    rw [this]
    exact (long_push_calls 9 input).2
  · intro h
    have h255 : min n 255 = 255 := by omega
    have hnil := (repeat_calls (min n 255) input).2.2.2 (by omega)
    refine ⟨hnil, by rw [hit.2, h255], ?_⟩
    rw [hst, hnil, if_neg (by omega)]
    rfl

theorem C31_repeat_ticks_witness :
    hold_counter INPUT_UP (run [Event.poll_inputs pins_up] (main_init (fun _ => 0) [])) = 0 ∧
    hold_asserted INPUT_UP (run [Event.poll_inputs pins_up] (main_init (fun _ => 0) [])) ∧
    held_input_calls (min 8 255) INPUT_UP = [Event.repeated INPUT_UP] :=
  ⟨by decide, by decide,
    (C31_repeat_ticks INPUT_UP
      (run [Event.poll_inputs pins_up] (main_init (fun _ => 0) [])) 8
      (Or.inl rfl) (by decide) (by decide)).2.2.2.2.1 rfl⟩

/-- C32: in every state reachable after the initialisation of `main`, the
turn indicator, input and countdown duty bits are set; no event (tick, poll
or callback) changes a duty bit other than the audio bit; so
`is_any_task_active()` returns non-zero, and `sleep_until_interrupt` does not
execute its `sleep` block: it leaves `SMCR` as it is. -/
theorem C32_never_idle (s : SysState) (h : Reachable s) :
    task_enabled TURNLED_TASK s ∧ task_enabled INPUTS_TASK s ∧
    task_enabled COUNTDOWN_TASK s ∧
    (∀ (e : Event) (j : Nat), j ≠ AUDIO_TASK → j < NUM_TASKS →
      (task_enabled j (e.apply s) ↔ task_enabled j s)) ∧
    is_any_task_active s ≠ 0 ∧
    (∀ smcr, sleep_until_interrupt smcr s = (smcr, false)) := by
  have hd := duties_of_reachable h
  have h1 : task_enabled TURNLED_TASK s := by
    rw [task_enabled_iff, hd _ (by decide) (by decide)]; decide
  have h2 : task_enabled INPUTS_TASK s := by
    rw [task_enabled_iff, hd _ (by decide) (by decide)]; decide
  have h3 : task_enabled COUNTDOWN_TASK s := by
    rw [task_enabled_iff, hd _ (by decide) (by decide)]; decide
  have h4 : is_any_task_active s ≠ 0 := by
    have hne : s.timer.tasks ≠ 0 := by
      intro h0
      have := h1
      unfold task_enabled at this
      rw [h0, Nat.zero_and] at this
      exact this rfl
    unfold is_any_task_active
    rw [if_pos hne]
    decide
  refine ⟨h1, h2, h3, ?_, h4, ?_⟩
  · intro e j hj h5
    rw [task_enabled_iff, task_enabled_iff,
      same_duties_apply e s j hj (by unfold NUM_TASKS at h5; omega)]
  · intro smcr
    unfold sleep_until_interrupt
    rw [if_neg h4]

theorem C32_never_idle_witness :
    Reachable (run [Event.asserted INPUT_EOT1, Event.tick] (main_init (fun _ => 0) [])) ∧
    ¬ task_enabled AUDIO_TASK
      (run [Event.asserted INPUT_EOT1, Event.tick] (main_init (fun _ => 0) [])) ∧
    is_any_task_active
      (run [Event.asserted INPUT_EOT1, Event.tick] (main_init (fun _ => 0) [])) ≠ 0 ∧
    sleep_until_interrupt 0
      (run [Event.asserted INPUT_EOT1, Event.tick] (main_init (fun _ => 0) [])) = (0, false) :=
  ⟨reachable_run _ (Reachable.startup _ _), by decide,
    (C32_never_idle _ (reachable_run _ (Reachable.startup _ _))).2.2.2.2.1,
    (C32_never_idle _ (reachable_run _ (Reachable.startup _ _))).2.2.2.2.2 0⟩

end ChessClock
